import Mathlib

/-!
# USB device controller driver (apm32f10x_usb_device.c)

Shallow embedding of the two build variants of the driver:

* namespace `Usbd`: the `USB_DEVICE` build (packet-memory-area controller);
* namespace `Otg`: the `USB_OTG` build (FIFO / DMA controller).

Machine integers are natural numbers; 32-bit arithmetic of the source is written with
`add32` / `sub32`, and narrowing casts with an explicit `%`.  Endpoint tables, the SETUP
buffer, packet memory and main memory are total functions on indices; an index at or above
the declared C array size stands for an access outside the array.

Every hardware access and every callback invocation is appended to a chronological trace.
-/

/-- Modelled from the spec: `DISABLE` of the absent header apm32f10x.h (functional state off). -/
def DISABLE : Nat := 0

/-- Modelled from the spec: `ENABLE` of the absent header apm32f10x.h (functional state on). -/
def ENABLE : Nat := 1

/-- Modelled from the spec: `BIT_RESET` of the absent header apm32f10x.h. -/
def BIT_RESET : Nat := 0

/-- Modelled from the spec: `BIT_SET` of the absent header apm32f10x.h. -/
def BIT_SET : Nat := 1

/-- Modelled from the spec: enumerator `EP_DIR_OUT` of the absent header apm32f10x_usb.h;
the source tests `ep->epDir == 0` for the receive direction. -/
def EP_DIR_OUT : Nat := 0

/-- Modelled from the spec: enumerator `EP_DIR_IN` of the absent header apm32f10x_usb.h. -/
def EP_DIR_IN : Nat := 1

/-- Modelled from the spec: enumerator `EP_TYPE_CONTROL` of the absent header (USB transfer type 0). -/
def EP_TYPE_CONTROL : Nat := 0

/-- Modelled from the spec: enumerator `EP_TYPE_ISO` of the absent header (USB transfer type 1). -/
def EP_TYPE_ISO : Nat := 1

/-- Modelled from the spec: enumerator `EP_TYPE_BULK` of the absent header (USB transfer type 2). -/
def EP_TYPE_BULK : Nat := 2

/-- Modelled from the spec: enumerator `EP_TYPE_INTERRUPT` of the absent header (USB transfer type 3). -/
def EP_TYPE_INTERRUPT : Nat := 3

/-- Endpoint number zero, `USBD_EP_0`. -/
def USBD_EP_0 : Nat := 0

/-- Addition of `uint32_t` values. -/
def add32 (a b : Nat) : Nat := (a + b) % 2 ^ 32

/-- Subtraction of `uint32_t` values (wraps around below zero). -/
def sub32 (a b : Nat) : Nat := (a % 2 ^ 32 + (2 ^ 32 - b % 2 ^ 32)) % 2 ^ 32

/-- Replace one slot of a table. -/
def setSlot {α : Type} (t : Nat → α) (i : Nat) (v : α) : Nat → α :=
  fun j => if j = i then v else t j

/-- Copy `len` cells of `src`, starting at `srcAt`, into `dst`, starting at `dstAt`. -/
def copyCells (dst src : Nat → Nat) (dstAt srcAt len : Nat) : Nat → Nat :=
  fun a => if dstAt ≤ a ∧ a < dstAt + len then src (srcAt + (a - dstAt)) else dst a

namespace Usbd

/-- Modelled from the spec: enumerator `USBD_EP_BUFFER_SINGLE` of the absent header apm32f10x_usb.h. -/
def USBD_EP_BUFFER_SINGLE : Nat := 0

/-- Modelled from the spec: enumerator `USBD_EP_BUFFER_DOUBLE` of the absent header apm32f10x_usb.h. -/
def USBD_EP_BUFFER_DOUBLE : Nat := 1

/-- Modelled from the spec: endpoint status code `USBD_EP_STATUS_DISABLE` (absent header). -/
def USBD_EP_STATUS_DISABLE : Nat := 0

/-- Modelled from the spec: endpoint status code `USBD_EP_STATUS_STALL` (absent header). -/
def USBD_EP_STATUS_STALL : Nat := 1

/-- Modelled from the spec: endpoint status code `USBD_EP_STATUS_NAK` (absent header). -/
def USBD_EP_STATUS_NAK : Nat := 2

/-- Modelled from the spec: endpoint status code `USBD_EP_STATUS_VALID` (absent header). -/
def USBD_EP_STATUS_VALID : Nat := 3

/-- Endpoint descriptor `USBD_ENDPOINT_INFO_T`: the fields the driver source reads and writes
(the type declaration itself is in the absent header apm32f10x_usb.h). -/
structure USBD_ENDPOINT_INFO_T where
  epNum : Nat
  epDir : Nat
  epType : Nat
  mps : Nat
  buffer : Nat
  bufLen : Nat
  bufCount : Nat
  stallStatus : Nat
  bufferStatus : Nat
  pmaAddr : Nat
  pmaAddr0 : Nat
  pmaAddr1 : Nat
  dbBufferFill : Nat
  dbBufferLen : Nat
  dataPID : Nat
  txFifoNum : Nat
deriving DecidableEq

/-- One hardware endpoint: the bits of its endpoint register that the driver tests
(`USBD_EP_BIT_CTFR`, `RXDTOG`, `SETUP`, `KIND`, `CTFT`, `TXDTOG`), the two status fields,
and the two count slots of its buffer-descriptor-table entry. -/
structure EpReg where
  ctfr : Bool
  rxdtog : Bool
  rxStatus : Nat
  setup : Bool
  kind : Bool
  ctft : Bool
  txdtog : Bool
  txStatus : Nat
  txCnt : Nat
  rxCnt : Nat
deriving DecidableEq

/-- Hardware register block `USBD_T`.  `ctrPending` is the queue of correct-transfer events
the controller still presents: `INTSTS.CTR` is set while it is non-empty and its head is what
`USBD_EP_ReadID` / `USBD_EP_ReadDir` return.  `rstRaise k` tells whether the controller
raises the reset flag at the `k`-th poll of the wait loop of `USBD_SuspendHandler`, and
`rstPolls` counts the polls made so far. -/
structure USBD_T where
  EP : Nat → EpReg
  pma : Nat → Nat
  ADDR : Nat
  USBDEN : Bool
  ctrPending : List (Nat × Nat)
  intRST : Bool
  intPMAOU : Bool
  intERR : Bool
  intWKUP : Bool
  intSUS : Bool
  intSOF : Bool
  intESOF : Bool
  FORRST : Bool
  FORSUS : Bool
  LPWREN : Bool
  PWRDOWN : Bool
  CTRL : Nat
  BUFFTB : Nat
  rstRaise : Nat → Bool
  rstPolls : Nat

/-- The software device handle `USBD_HANDLE_T` (USB_DEVICE build), without the register
pointer.  The C tables are `epIN[8]`, `epOUT[8]` and `setup[12]`: slot `i` of a table stands
for the C array element only for `i` below the size of the array; an access with a larger
index is kept in a slot of its own, it does not reach the member that follows the array in
memory. -/
structure USBD_HANDLE_T where
  devEndpointNum : Nat
  epIN : Nat → USBD_ENDPOINT_INFO_T
  epOUT : Nat → USBD_ENDPOINT_INFO_T
  setup : Nat → Nat
  address : Nat

/-- Hardware accesses and callback invocations, in the order they happen. -/
inductive Ev where
  | WritePacketData (pmaAddr buf len : Nat)
  | ReadPacketData (pmaAddr len : Nat)
  | SetTxCnt (ep cnt : Nat)
  | SetRxCnt (ep cnt : Nat)
  | SetBuffer0TxCnt (ep cnt : Nat)
  | SetBuffer0RxCnt (ep cnt : Nat)
  | SetTxStatus (ep st : Nat)
  | SetRxStatus (ep st : Nat)
  | SetKind (ep : Nat)
  | ResetKind (ep : Nat)
  | ToggleTx (ep : Nat)
  | ToggleRx (ep : Nat)
  | ResetTxToggle (ep : Nat)
  | ResetRxToggle (ep : Nat)
  | ResetTxFlag (ep : Nat)
  | ResetRxFlag (ep : Nat)
  | SetDeviceAddr (a : Nat)
  | Enable
  | ClearIntFlag (flag : Nat)
  | SetupStageCallback
  | DataInStageCallback (ep : Nat)
  | DataOutStageCallback (ep : Nat)
  | EnumDoneCallback
  | ResumeCallback
  | SuspendCallback
  | SOFCallback
  | ConfigEP (epNum epDir epType mps : Nat)
  | ResetEP (epNum epDir : Nat)
deriving DecidableEq

/-- Everything the driver can touch: handle, register block, main memory, and the trace. -/
structure State where
  usbdh : USBD_HANDLE_T
  usbGlobal : USBD_T
  mem : Nat → Nat
  trace : List Ev

/-- A pointer to an endpoint descriptor: `&usbdh->epIN[i]` or `&usbdh->epOUT[i]`. -/
inductive EpRef where
  | epIN (i : Nat)
  | epOUT (i : Nat)
deriving DecidableEq

/-- Dereference an endpoint pointer. -/
def getEp (s : State) : EpRef → USBD_ENDPOINT_INFO_T
  | EpRef.epIN i => s.usbdh.epIN i
  | EpRef.epOUT i => s.usbdh.epOUT i

/-- Store through an endpoint pointer. -/
def setEp (s : State) (r : EpRef) (e : USBD_ENDPOINT_INFO_T) : State :=
  match r with
  | EpRef.epIN i => { s with usbdh := { s.usbdh with epIN := setSlot s.usbdh.epIN i e } }
  | EpRef.epOUT i => { s with usbdh := { s.usbdh with epOUT := setSlot s.usbdh.epOUT i e } }

/-- Append an entry to the trace. -/
def logEv (s : State) (e : Ev) : State := { s with trace := s.trace ++ [e] }

/-- Update one hardware endpoint. -/
def updEP (s : State) (n : Nat) (f : EpReg → EpReg) : State :=
  { s with usbGlobal := { s.usbGlobal with EP := setSlot s.usbGlobal.EP n (f (s.usbGlobal.EP n)) } }

/-! ### Register-access helpers

The helpers below are macros and functions of the absent header apm32f10x_usb.h / source
apm32f10x_usb.c.  Each one is modelled by the register field its name denotes. In double-buffer
mode the source labels the TX count slot "Buffer0" (written by `USBD_EP_SetTxCnt` /
`USBD_EP_SetBuffer0RxCnt`, read by `USBD_EP_ReadTxCnt`) and the RX count slot "Buffer1"
(written by `USBD_EP_SetRxCnt` / `USBD_EP_SetBuffer0TxCnt`, read by `USBD_EP_ReadRxCnt`). -/

/-- Modelled from the spec: absent macro `USBD_EP_SetTxCnt`; programs the TX count slot. -/
def USBD_EP_SetTxCnt (s : State) (ep cnt : Nat) : State :=
  logEv (updEP s ep (fun r => { r with txCnt := cnt })) (Ev.SetTxCnt ep cnt)

/-- Modelled from the spec: absent macro `USBD_EP_SetRxCnt`; programs the RX count slot. -/
def USBD_EP_SetRxCnt (s : State) (ep cnt : Nat) : State :=
  logEv (updEP s ep (fun r => { r with rxCnt := cnt })) (Ev.SetRxCnt ep cnt)

/-- Modelled from the spec: absent macro `USBD_EP_SetBuffer0TxCnt`; the source uses it for
"Buffer1" of an IN endpoint, the RX count slot. -/
def USBD_EP_SetBuffer0TxCnt (s : State) (ep cnt : Nat) : State :=
  logEv (updEP s ep (fun r => { r with rxCnt := cnt })) (Ev.SetBuffer0TxCnt ep cnt)

/-- Modelled from the spec: absent macro `USBD_EP_SetBuffer0RxCnt`; the source uses it for
"Buffer0" of an OUT endpoint, the TX count slot. -/
def USBD_EP_SetBuffer0RxCnt (s : State) (ep cnt : Nat) : State :=
  logEv (updEP s ep (fun r => { r with txCnt := cnt })) (Ev.SetBuffer0RxCnt ep cnt)

/-- Modelled from the spec: absent macro `USBD_EP_ReadTxCnt`; reads the TX count slot. -/
def USBD_EP_ReadTxCnt (s : State) (ep : Nat) : Nat := (s.usbGlobal.EP ep).txCnt

/-- Modelled from the spec: absent macro `USBD_EP_ReadRxCnt`; reads the RX count slot. -/
def USBD_EP_ReadRxCnt (s : State) (ep : Nat) : Nat := (s.usbGlobal.EP ep).rxCnt

/-- Modelled from the spec: absent macro `USBD_EP_SetTxStatus`; sets the TX status field. -/
def USBD_EP_SetTxStatus (s : State) (ep st : Nat) : State :=
  logEv (updEP s ep (fun r => { r with txStatus := st })) (Ev.SetTxStatus ep st)

/-- Modelled from the spec: absent macro `USBD_EP_SetRxStatus`; sets the RX status field. -/
def USBD_EP_SetRxStatus (s : State) (ep st : Nat) : State :=
  logEv (updEP s ep (fun r => { r with rxStatus := st })) (Ev.SetRxStatus ep st)

/-- Modelled from the spec: absent macro `USBD_EP_ReadStatus`; the endpoint register. -/
def USBD_EP_ReadStatus (s : State) (ep : Nat) : EpReg := s.usbGlobal.EP ep

/-- Modelled from the spec: absent macro `USBD_EP_SetKind`; sets the KIND bit. -/
def USBD_EP_SetKind (s : State) (ep : Nat) : State :=
  logEv (updEP s ep (fun r => { r with kind := true })) (Ev.SetKind ep)

/-- Modelled from the spec: absent macro `USBD_EP_ResetKind`; clears the KIND bit. -/
def USBD_EP_ResetKind (s : State) (ep : Nat) : State :=
  logEv (updEP s ep (fun r => { r with kind := false })) (Ev.ResetKind ep)

/-- Modelled from the spec: absent macro `USBD_EP_ToggleTx`; flips the TX data toggle. -/
def USBD_EP_ToggleTx (s : State) (ep : Nat) : State :=
  logEv (updEP s ep (fun r => { r with txdtog := !r.txdtog })) (Ev.ToggleTx ep)

/-- Modelled from the spec: absent macro `USBD_EP_ToggleRx`; flips the RX data toggle. -/
def USBD_EP_ToggleRx (s : State) (ep : Nat) : State :=
  logEv (updEP s ep (fun r => { r with rxdtog := !r.rxdtog })) (Ev.ToggleRx ep)

/-- Modelled from the spec: absent macro `USBD_EP_ResetTxToggle`; clears the TX data toggle. -/
def USBD_EP_ResetTxToggle (s : State) (ep : Nat) : State :=
  logEv (updEP s ep (fun r => { r with txdtog := false })) (Ev.ResetTxToggle ep)

/-- Modelled from the spec: absent macro `USBD_EP_ResetRxToggle`; clears the RX data toggle. -/
def USBD_EP_ResetRxToggle (s : State) (ep : Nat) : State :=
  logEv (updEP s ep (fun r => { r with rxdtog := false })) (Ev.ResetRxToggle ep)

/-- Modelled from the spec: absent macro `USBD_EP_ResetTxFlag`; clears the correct-transfer
TX flag of the endpoint. -/
def USBD_EP_ResetTxFlag (s : State) (ep : Nat) : State :=
  logEv (updEP s ep (fun r => { r with ctft := false })) (Ev.ResetTxFlag ep)

/-- Modelled from the spec: absent macro `USBD_EP_ResetRxFlag`; clears the correct-transfer
RX flag of the endpoint. -/
def USBD_EP_ResetRxFlag (s : State) (ep : Nat) : State :=
  logEv (updEP s ep (fun r => { r with ctfr := false })) (Ev.ResetRxFlag ep)

/-- Modelled from the spec: absent function `USBD_EP_WritePacketData`; copies `len` bytes of
main memory at `buf` into packet memory at `pmaAddr`. -/
def USBD_EP_WritePacketData (s : State) (pmaAddr buf len : Nat) : State :=
  logEv { s with usbGlobal := { s.usbGlobal with
      pma := copyCells s.usbGlobal.pma s.mem pmaAddr buf len } }
    (Ev.WritePacketData pmaAddr buf len)

/-- Destination of a packet read: the handle's SETUP buffer or main memory at an address. -/
inductive Dst where
  | setup
  | mem (addr : Nat)
deriving DecidableEq

/-- Modelled from the spec: absent function `USBD_EP_ReadPacketData`; copies `len` bytes of
packet memory at `pmaAddr` to the destination. -/
def USBD_EP_ReadPacketData (s : State) (pmaAddr : Nat) (dst : Dst) (len : Nat) : State :=
  match dst with
  | Dst.setup =>
      logEv { s with usbdh := { s.usbdh with
          setup := copyCells s.usbdh.setup s.usbGlobal.pma 0 pmaAddr len } }
        (Ev.ReadPacketData pmaAddr len)
  | Dst.mem addr =>
      logEv { s with mem := copyCells s.mem s.usbGlobal.pma addr pmaAddr len }
        (Ev.ReadPacketData pmaAddr len)

/-- Modelled from the spec: absent macro `USBD_SetDeviceAddr`; writes the address register. -/
def USBD_SetDeviceAddr (s : State) (a : Nat) : State :=
  logEv { s with usbGlobal := { s.usbGlobal with ADDR := a } } (Ev.SetDeviceAddr a)

/-- Modelled from the spec: absent macro `USBD_Enable`; sets the device-enable bit. -/
def USBD_Enable (s : State) : State :=
  logEv { s with usbGlobal := { s.usbGlobal with USBDEN := true } } Ev.Enable

/-! ### Callbacks (the weak definitions of the source: empty bodies) -/

/-- Weak `USBD_SetupStageCallback`: empty body; the call is recorded. -/
def USBD_SetupStageCallback (s : State) : State := logEv s Ev.SetupStageCallback

/-- Weak `USBD_DataInStageCallback`: empty body; the call is recorded. -/
def USBD_DataInStageCallback (s : State) (epNum : Nat) : State :=
  logEv s (Ev.DataInStageCallback epNum)

/-- Weak `USBD_DataOutStageCallback`: empty body; the call is recorded. -/
def USBD_DataOutStageCallback (s : State) (epNum : Nat) : State :=
  logEv s (Ev.DataOutStageCallback epNum)

/-- Weak `USBD_EnumDoneCallback`: empty body; the call is recorded. -/
def USBD_EnumDoneCallback (s : State) : State := logEv s Ev.EnumDoneCallback

/-- Weak `USBD_ResumeCallback`: empty body; the call is recorded. -/
def USBD_ResumeCallback (s : State) : State := logEv s Ev.ResumeCallback

/-- Weak `USBD_SuspendCallback`: empty body; the call is recorded. -/
def USBD_SuspendCallback (s : State) : State := logEv s Ev.SuspendCallback

/-- Weak `USBD_SOFCallback`: empty body; the call is recorded. -/
def USBD_SOFCallback (s : State) : State := logEv s Ev.SOFCallback

/-! ### Transfer engine -/

/-- The source fragment labelled "Buffer0":
`if(ep->epDir == 0) USBD_EP_SetBuffer0RxCnt(..) else USBD_EP_SetTxCnt(..)`. -/
def setBuffer0Cnt (s : State) (ep : USBD_ENDPOINT_INFO_T) (cnt : Nat) : State :=
  if ep.epDir = 0 then USBD_EP_SetBuffer0RxCnt s ep.epNum cnt
  else USBD_EP_SetTxCnt s ep.epNum cnt

/-- The source fragment labelled "Buffer1":
`if(ep->epDir == 0) USBD_EP_SetRxCnt(..) else USBD_EP_SetBuffer0TxCnt(..)`. -/
def setBuffer1Cnt (s : State) (ep : USBD_ENDPOINT_INFO_T) (cnt : Nat) : State :=
  if ep.epDir = 0 then USBD_EP_SetRxCnt s ep.epNum cnt
  else USBD_EP_SetBuffer0TxCnt s ep.epNum cnt

/-- The source fragment
`if(ep->dbBufferLen > ep->mps) ep->dbBufferLen -= length; else { length = ep->dbBufferLen; ep->dbBufferLen = 0; }`:
the descriptor and the new value of `length`. -/
def dbNextLength (ep : USBD_ENDPOINT_INFO_T) (length : Nat) : USBD_ENDPOINT_INFO_T × Nat :=
  if ep.dbBufferLen > ep.mps then ({ ep with dbBufferLen := sub32 ep.dbBufferLen length }, length)
  else ({ ep with dbBufferLen := 0 }, ep.dbBufferLen)

/-- `USBD_EP_XferStart`, IN direction, double buffer, bulk endpoint (source lines 333-428). -/
def xferStartInDbBulk (s : State) (r : EpRef) (length : Nat) : State :=
  let ep := getEp s r
  if ep.dbBufferLen > ep.mps then
    let s := USBD_EP_SetKind s ep.epNum
    let ep := { ep with dbBufferLen := sub32 ep.dbBufferLen length }
    let epStatus := USBD_EP_ReadStatus s ep.epNum
    if epStatus.txdtog then
      let s := setBuffer1Cnt s ep length
      let s := USBD_EP_WritePacketData s ep.pmaAddr1 ep.buffer length
      let ep := { ep with buffer := add32 ep.buffer length }
      let (ep, length) := dbNextLength ep length
      let s := setBuffer0Cnt s ep length
      let s := USBD_EP_WritePacketData s ep.pmaAddr0 ep.buffer length
      setEp s r ep
    else
      let s := setBuffer0Cnt s ep length
      let s := USBD_EP_WritePacketData s ep.pmaAddr0 ep.buffer length
      let ep := { ep with buffer := add32 ep.buffer length }
      let (ep, length) := dbNextLength ep length
      let s := setBuffer1Cnt s ep length
      let s := USBD_EP_WritePacketData s ep.pmaAddr1 ep.buffer length
      setEp s r ep
  else
    let s := USBD_EP_ResetKind s ep.epNum
    let length := ep.dbBufferLen
    let s := USBD_EP_SetTxCnt s ep.epNum length
    USBD_EP_WritePacketData s ep.pmaAddr0 ep.buffer length

/-- `USBD_EP_XferStart`, IN direction, double buffer, non-bulk endpoint (source lines 429-517). -/
def xferStartInDbIso (s : State) (r : EpRef) (length : Nat) : State :=
  let ep := getEp s r
  let s := USBD_EP_SetKind s ep.epNum
  let ep := { ep with dbBufferLen := sub32 ep.dbBufferLen length }
  let epStatus := USBD_EP_ReadStatus s ep.epNum
  if epStatus.txdtog then
    let s := setBuffer1Cnt s ep length
    let s := USBD_EP_WritePacketData s ep.pmaAddr1 ep.buffer length
    let ep := { ep with buffer := add32 ep.buffer length }
    let (ep, length) := dbNextLength ep length
    let s :=
      if length ≠ 0 then
        USBD_EP_WritePacketData (setBuffer0Cnt s ep length) ep.pmaAddr0 ep.buffer length
      else s
    setEp s r ep
  else
    let s := setBuffer0Cnt s ep length
    let s := USBD_EP_WritePacketData s ep.pmaAddr0 ep.buffer length
    let ep := { ep with buffer := add32 ep.buffer length }
    let (ep, length) := dbNextLength ep length
    let s :=
      if length ≠ 0 then
        USBD_EP_WritePacketData (setBuffer1Cnt s ep length) ep.pmaAddr1 ep.buffer length
      else s
    setEp s r ep

/-- The source fragment
`if(ep->bufLen > ep->mps) { length = ep->mps; ep->bufLen -= length; } else { length = ep->bufLen; ep->bufLen = 0; }`:
the descriptor and `length`. -/
def rxNextLength (ep : USBD_ENDPOINT_INFO_T) : USBD_ENDPOINT_INFO_T × Nat :=
  if ep.bufLen > ep.mps then ({ ep with bufLen := sub32 ep.bufLen ep.mps }, ep.mps)
  else ({ ep with bufLen := 0 }, ep.bufLen)

/-- `USBD_EP_XferStart` of the USB_DEVICE build (source lines 309-616). -/
def USBD_EP_XferStart (s : State) (r : EpRef) : State :=
  let ep := getEp s r
  if ep.epDir = EP_DIR_IN then
    let length := if ep.bufLen > ep.mps then ep.mps else ep.bufLen
    let s :=
      if ep.bufferStatus = USBD_EP_BUFFER_SINGLE then
        let s := USBD_EP_WritePacketData s ep.pmaAddr ep.buffer length
        USBD_EP_SetTxCnt s ep.epNum length
      else if ep.epType = EP_TYPE_BULK then xferStartInDbBulk s r length
      else xferStartInDbIso s r length
    USBD_EP_SetTxStatus s ep.epNum USBD_EP_STATUS_VALID
  else
    if ep.bufferStatus = USBD_EP_BUFFER_SINGLE then
      let (ep, length) := rxNextLength ep
      let s := setEp s r ep
      let s := USBD_EP_SetRxCnt s ep.epNum length
      USBD_EP_SetRxStatus s ep.epNum USBD_EP_STATUS_VALID
    else if ep.epType = EP_TYPE_BULK then
      let s := setBuffer0Cnt s ep ep.mps
      let s := setBuffer1Cnt s ep ep.mps
      let s :=
        if ep.bufCount ≠ 0 then
          let epStatus := USBD_EP_ReadStatus s ep.epNum
          if (epStatus.rxdtog && epStatus.txdtog) || (!epStatus.rxdtog && !epStatus.txdtog) then
            USBD_EP_ToggleTx s ep.epNum
          else s
        else s
      USBD_EP_SetRxStatus s ep.epNum USBD_EP_STATUS_VALID
    else if ep.epType = EP_TYPE_ISO then
      let (ep, length) := rxNextLength ep
      let s := setEp s r ep
      let s := setBuffer0Cnt s ep length
      let s := setBuffer1Cnt s ep length
      USBD_EP_SetRxStatus s ep.epNum USBD_EP_STATUS_VALID
    else s

/-- `USBD_EP_Receive` of the USB_DEVICE build (source lines 631-652). -/
def USBD_EP_Receive (s : State) (epAddr buffer length : Nat) : State :=
  let epAddrTemp := epAddr &&& 0x0F
  let ep := s.usbdh.epOUT epAddrTemp
  let ep := { ep with epNum := epAddr &&& 0x0F, epDir := EP_DIR_OUT,
                      buffer := buffer, bufCount := 0, bufLen := length }
  let s := setEp s (EpRef.epOUT epAddrTemp) ep
  if epAddr &&& 0x0F ≠ 0 then USBD_EP_XferStart s (EpRef.epOUT epAddrTemp)
  else USBD_EP_XferStart s (EpRef.epOUT epAddrTemp)

/-- `USBD_EP_Transfer` of the USB_DEVICE build (source lines 667-693). -/
def USBD_EP_Transfer (s : State) (epAddr buffer length : Nat) : State :=
  let epAddrTemp := epAddr &&& 0x0F
  let ep := s.usbdh.epIN epAddrTemp
  let ep := { ep with epNum := epAddr &&& 0x0F, epDir := EP_DIR_IN,
                      buffer := buffer, bufCount := 0, bufLen := length,
                      dbBufferFill := ENABLE, dbBufferLen := length }
  let s := setEp s (EpRef.epIN epAddrTemp) ep
  if epAddr &&& 0x0F ≠ 0 then USBD_EP_XferStart s (EpRef.epIN epAddrTemp)
  else USBD_EP_XferStart s (EpRef.epIN epAddrTemp)

/-- `USBD_EP_ReadRxDataLen` of the USB_DEVICE build (source lines 704-707). -/
def USBD_EP_ReadRxDataLen (s : State) (epAddr : Nat) : Nat :=
  (s.usbdh.epOUT (epAddr &&& 0x0F)).bufCount

/-- The source fragment of `USBD_EP_DB_Transmit` that chooses the next fill length
(`if(ep->dbBufferLen >= ep->mps) .. else if(ep->dbBufferLen == 0) .. else ..`). -/
def dbRefillLength (ep : USBD_ENDPOINT_INFO_T) (cnt : Nat) : USBD_ENDPOINT_INFO_T × Nat :=
  if ep.dbBufferLen ≥ ep.mps then
    ({ ep with dbBufferLen := sub32 ep.dbBufferLen ep.mps }, ep.mps)
  else if ep.dbBufferLen = 0 then
    ({ ep with dbBufferFill := DISABLE }, cnt)
  else
    ({ ep with dbBufferLen := 0, dbBufferFill := DISABLE }, ep.dbBufferLen)

/-- `USBD_EP_DB_Transmit` (source lines 741-924). -/
def USBD_EP_DB_Transmit (s : State) (r : EpRef) (epStatus : EpReg) : State :=
  let ep := getEp s r
  let s :=
    if epStatus.txdtog then
      let cnt := USBD_EP_ReadTxCnt s ep.epNum % 2 ^ 16
      let ep := if ep.bufLen > cnt then { ep with bufLen := sub32 ep.bufLen cnt }
                else { ep with bufLen := 0 }
      if ep.bufLen = 0 then
        let s := setEp s r ep
        let s := setBuffer0Cnt s ep 0
        let s := setBuffer1Cnt s ep 0
        let s := USBD_DataInStageCallback s ep.epNum
        if epStatus.rxdtog then USBD_EP_ToggleRx s ep.epNum else s
      else
        let s := if epStatus.rxdtog then USBD_EP_ToggleRx s ep.epNum else s
        if ep.dbBufferFill = ENABLE then
          let ep := { ep with buffer := add32 ep.buffer cnt, bufCount := add32 ep.bufCount cnt }
          let (ep, length) := dbRefillLength ep cnt
          let s := setEp s r ep
          let s := setBuffer0Cnt s ep length
          USBD_EP_WritePacketData s ep.pmaAddr0 ep.buffer length
        else setEp s r ep
    else
      let cnt := USBD_EP_ReadRxCnt s ep.epNum % 2 ^ 16
      let ep := if ep.bufLen ≥ cnt then { ep with bufLen := sub32 ep.bufLen cnt }
                else { ep with bufLen := 0 }
      if ep.bufLen = 0 then
        let s := setEp s r ep
        let s := setBuffer0Cnt s ep 0
        let s := setBuffer1Cnt s ep 0
        let s := USBD_DataInStageCallback s ep.epNum
        if !epStatus.rxdtog then USBD_EP_ToggleRx s ep.epNum else s
      else
        let s := if !epStatus.rxdtog then USBD_EP_ToggleRx s ep.epNum else s
        if ep.dbBufferFill = ENABLE then
          let ep := { ep with buffer := add32 ep.buffer cnt, bufCount := add32 ep.bufCount cnt }
          let (ep, length) := dbRefillLength ep cnt
          let s := setEp s r ep
          let s := setBuffer1Cnt s ep length
          USBD_EP_WritePacketData s ep.pmaAddr1 ep.buffer length
        else setEp s r ep
  USBD_EP_SetTxStatus s ep.epNum USBD_EP_STATUS_VALID

/-- `USBD_EP_DB_Receive` (source lines 937-1009): the new state and the returned count. -/
def USBD_EP_DB_Receive (s : State) (r : EpRef) (epStatus : EpReg) : State × Nat :=
  let ep := getEp s r
  if epStatus.rxdtog then
    let cnt := USBD_EP_ReadTxCnt s ep.epNum % 2 ^ 16
    let ep := if ep.bufLen ≥ cnt then { ep with bufLen := sub32 ep.bufLen cnt }
              else { ep with bufLen := 0 }
    let s := setEp s r ep
    let s := if ep.bufLen = 0 then USBD_EP_SetRxStatus s ep.epNum USBD_EP_STATUS_NAK else s
    let s := if epStatus.txdtog then USBD_EP_ToggleTx s ep.epNum else s
    let s := if cnt ≠ 0 then USBD_EP_ReadPacketData s ep.pmaAddr0 (Dst.mem ep.buffer) cnt else s
    (s, cnt)
  else
    let cnt := USBD_EP_ReadRxCnt s ep.epNum % 2 ^ 16
    let ep := if ep.bufLen ≥ cnt then { ep with bufLen := sub32 ep.bufLen cnt }
              else { ep with bufLen := 0 }
    let s := setEp s r ep
    let s := if ep.bufLen = 0 then USBD_EP_SetRxStatus s ep.epNum USBD_EP_STATUS_NAK else s
    let s := if !epStatus.txdtog then USBD_EP_ToggleTx s ep.epNum else s
    let s := if cnt ≠ 0 then USBD_EP_ReadPacketData s ep.pmaAddr1 (Dst.mem ep.buffer) cnt else s
    (s, cnt)

/-- Endpoint 0, IN direction, of one pass of the loop of `USBD_EP_CTRHandler`
(source lines 1037-1054). -/
def ctrEp0In (s : State) (epNum : Nat) : State :=
  let s := USBD_EP_ResetTxFlag s USBD_EP_0
  let r := EpRef.epIN USBD_EP_0
  let ep := getEp s r
  let ep := { ep with bufCount := USBD_EP_ReadTxCnt s epNum }
  let ep := { ep with buffer := add32 ep.buffer ep.bufCount }
  let s := setEp s r ep
  let s := USBD_DataInStageCallback s USBD_EP_0
  if (getEp s r).bufLen = 0 ∧ s.usbdh.address > 0 then
    let s := USBD_SetDeviceAddr s s.usbdh.address
    let s := USBD_Enable s
    { s with usbdh := { s.usbdh with address := 0 } }
  else s

/-- Endpoint 0, OUT direction, of one pass of the loop of `USBD_EP_CTRHandler`
(source lines 1055-1100). -/
def ctrEp0Out (s : State) : State :=
  let r := EpRef.epOUT USBD_EP_0
  let ep := getEp s r
  let epStatus := USBD_EP_ReadStatus s USBD_EP_0
  if epStatus.setup then
    let ep := { ep with bufCount := USBD_EP_ReadRxCnt s ep.epNum }
    let s := setEp s r ep
    let s := USBD_EP_ReadPacketData s ep.pmaAddr Dst.setup ep.bufCount
    let s := USBD_EP_ResetRxFlag s USBD_EP_0
    USBD_SetupStageCallback s
  else if epStatus.ctfr then
    let s := USBD_EP_ResetRxFlag s USBD_EP_0
    let ep := { ep with bufCount := USBD_EP_ReadRxCnt s ep.epNum }
    let s := setEp s r ep
    let s :=
      if ep.bufCount ≠ 0 ∧ ep.buffer ≠ 0 then
        let s := USBD_EP_ReadPacketData s ep.pmaAddr (Dst.mem ep.buffer) ep.bufCount
        let ep := { ep with buffer := add32 ep.buffer ep.bufCount }
        let s := setEp s r ep
        USBD_DataOutStageCallback s USBD_EP_0
      else s
    let epStatus := USBD_EP_ReadStatus s USBD_EP_0
    if !epStatus.setup then
      let s := USBD_EP_SetRxCnt s USBD_EP_0 (getEp s r).mps
      USBD_EP_SetRxStatus s USBD_EP_0 USBD_EP_STATUS_VALID
    else s
  else s

/-- A non-zero endpoint, correct reception, of one pass of the loop of `USBD_EP_CTRHandler`
(source lines 1106-1180). -/
def ctrEpOut (s : State) (epNum : Nat) (epStatus : EpReg) : State :=
  let s := USBD_EP_ResetRxFlag s epNum
  let r := EpRef.epOUT epNum
  let ep := getEp s r
  let (s, bufCnt) :=
    if ep.bufferStatus = USBD_EP_BUFFER_SINGLE then
      let bufCnt := USBD_EP_ReadRxCnt s epNum % 2 ^ 16
      let s := if bufCnt ≠ 0 then USBD_EP_ReadPacketData s ep.pmaAddr (Dst.mem ep.buffer) bufCnt
               else s
      (s, bufCnt)
    else if ep.epType = EP_TYPE_BULK then
      USBD_EP_DB_Receive s r epStatus
    else
      let s := USBD_EP_ToggleTx s ep.epNum
      let epStatus := USBD_EP_ReadStatus s epNum
      if epStatus.rxdtog then
        let bufCnt := USBD_EP_ReadTxCnt s ep.epNum % 2 ^ 16
        let s := if bufCnt ≠ 0 then
                   USBD_EP_ReadPacketData s ep.pmaAddr0 (Dst.mem ep.buffer) bufCnt
                 else s
        (s, bufCnt)
      else
        let bufCnt := USBD_EP_ReadRxCnt s ep.epNum % 2 ^ 16
        let s := if bufCnt ≠ 0 then
                   USBD_EP_ReadPacketData s ep.pmaAddr1 (Dst.mem ep.buffer) bufCnt
                 else s
        (s, bufCnt)
  let ep := getEp s r
  let ep := { ep with bufCount := add32 ep.bufCount bufCnt, buffer := add32 ep.buffer bufCnt }
  let s := setEp s r ep
  if ep.bufLen = 0 ∨ bufCnt < ep.mps then USBD_DataOutStageCallback s epNum
  else USBD_EP_XferStart s r

/-- A non-zero endpoint, correct transmission, of one pass of the loop of `USBD_EP_CTRHandler`
(source lines 1181-1217). -/
def ctrEpIn (s : State) (epNum : Nat) (epStatus : EpReg) : State :=
  let s := USBD_EP_ResetTxFlag s epNum
  let r := EpRef.epIN epNum
  let ep := getEp s r
  if ep.epType = EP_TYPE_BULK ∨ ep.epType = EP_TYPE_CONTROL ∨
      (ep.epType = EP_TYPE_INTERRUPT ∧ epStatus.kind = false) then
    let txBufCnt := USBD_EP_ReadTxCnt s ep.epNum % 2 ^ 16
    let ep := if ep.bufLen > txBufCnt then { ep with bufLen := sub32 ep.bufLen txBufCnt }
              else { ep with bufLen := 0 }
    if ep.bufLen = 0 then
      let s := setEp s r ep
      USBD_DataInStageCallback s ep.epNum
    else
      let ep := { ep with buffer := add32 ep.buffer txBufCnt,
                          bufCount := add32 ep.bufCount txBufCnt }
      let s := setEp s r ep
      USBD_EP_XferStart s r
  else
    USBD_EP_DB_Transmit s r epStatus

/-- One pass of the `while` loop of `USBD_EP_CTRHandler` for the event (`epNum`, `epDir`)
the controller presents (source lines 1030-1218). -/
def ctrHandlerBody (s : State) (epNum epDir : Nat) : State :=
  if epNum = USBD_EP_0 then
    if epDir = 0 then ctrEp0In s epNum else ctrEp0Out s
  else
    let epStatus := USBD_EP_ReadStatus s epNum
    if epStatus.ctfr then ctrEpOut s epNum epStatus
    else if epStatus.ctft then ctrEpIn s epNum epStatus
    else s

/-- The `while(USBD_ReadIntFlag(.., USBD_INT_CTR) == SET)` loop: one pass per pending event,
in the order the controller presents them. -/
def ctrHandlerLoop : List (Nat × Nat) → State → State
  | [], s => s
  | (epNum, epDir) :: rest, s =>
      ctrHandlerLoop rest
        (ctrHandlerBody { s with usbGlobal := { s.usbGlobal with ctrPending := rest } } epNum epDir)

/-- `USBD_EP_CTRHandler` (source lines 1018-1220). -/
def USBD_EP_CTRHandler (s : State) : State := ctrHandlerLoop s.usbGlobal.ctrPending s

/-- `USBD_EP_ClearStall` of the USB_DEVICE build (source lines 194-235). -/
def USBD_EP_ClearStall (s : State) (epAddr : Nat) : State :=
  if epAddr &&& 0x0F > s.usbdh.devEndpointNum then s
  else
    let r := if epAddr &&& 0x80 = 0x80 then EpRef.epIN (epAddr &&& 0x0F)
             else EpRef.epOUT (epAddr &&& 0x0F)
    let ep := getEp s r
    let ep := { ep with epDir := if epAddr &&& 0x80 = 0x80 then EP_DIR_IN else EP_DIR_OUT }
    let ep := { ep with stallStatus := DISABLE, epNum := epAddr &&& 0x0F }
    let s := setEp s r ep
    if ep.bufferStatus = USBD_EP_BUFFER_SINGLE then
      if ep.epDir = EP_DIR_IN then
        let s := USBD_EP_ResetTxToggle s ep.epNum
        if ep.epType ≠ EP_TYPE_ISO then USBD_EP_SetTxStatus s ep.epNum USBD_EP_STATUS_NAK
        else s
      else
        let s := USBD_EP_ResetRxToggle s ep.epNum
        USBD_EP_SetRxStatus s ep.epNum USBD_EP_STATUS_VALID
    else s

/-- `USBD_EP_Stall` of the USB_DEVICE build (source lines 246-277). -/
def USBD_EP_Stall (s : State) (epAddr : Nat) : State :=
  if epAddr &&& 0x0F > s.usbdh.devEndpointNum then s
  else
    let r := if epAddr &&& 0x80 = 0x80 then EpRef.epIN (epAddr &&& 0x0F)
             else EpRef.epOUT (epAddr &&& 0x0F)
    let ep := getEp s r
    let ep := { ep with epDir := if epAddr &&& 0x80 = 0x80 then EP_DIR_IN else EP_DIR_OUT }
    let ep := { ep with stallStatus := ENABLE, epNum := epAddr &&& 0x0F }
    let s := setEp s r ep
    if ep.epDir = EP_DIR_IN then USBD_EP_SetTxStatus s ep.epNum USBD_EP_STATUS_STALL
    else USBD_EP_SetRxStatus s ep.epNum USBD_EP_STATUS_STALL

/-- `USBD_EP_ReadStallStatus` of the USB_DEVICE build (source lines 288-298). -/
def USBD_EP_ReadStallStatus (s : State) (epAddr : Nat) : Nat :=
  if epAddr &&& 0x80 = 0x80 then (s.usbdh.epIN (epAddr &&& 0x7F)).stallStatus
  else (s.usbdh.epOUT (epAddr &&& 0x7F)).stallStatus

/-- `USBD_SetDevAddress` of the USB_DEVICE build (source lines 1268-1277). -/
def USBD_SetDevAddress (s : State) (address : Nat) : State :=
  let s := { s with usbdh := { s.usbdh with address := address } }
  if address = 0 then USBD_Enable (USBD_SetDeviceAddr s address) else s

/-! ### The controller side of a transaction -/

/-- The controller has sent the packet armed on IN endpoint `n` and the host acknowledged it:
the correct-transfer TX flag is raised, the TX status falls back to NAK, the TX count slot
still holds the programmed count, and the event (`n`, direction 0) is queued. -/
def hwInComplete (s : State) (n : Nat) : State :=
  { s with usbGlobal := { s.usbGlobal with
      EP := setSlot s.usbGlobal.EP n
        { s.usbGlobal.EP n with ctft := true, txStatus := USBD_EP_STATUS_NAK },
      ctrPending := s.usbGlobal.ctrPending ++ [(n, 0)] } }

/-- The controller has received an OUT packet of `cnt` bytes on endpoint `n`: the
correct-transfer RX flag is raised, the SETUP bit is clear, the RX status falls back to NAK,
the RX count slot reports `cnt`, and the event (`n`, direction 1) is queued. -/
def hwOutComplete (s : State) (n cnt : Nat) : State :=
  { s with usbGlobal := { s.usbGlobal with
      EP := setSlot s.usbGlobal.EP n
        { s.usbGlobal.EP n with ctfr := true, setup := false,
                                rxStatus := USBD_EP_STATUS_NAK, rxCnt := cnt },
      ctrPending := s.usbGlobal.ctrPending ++ [(n, 1)] } }

/-- A correct-transfer IN event on endpoint `n`, served by `USBD_EP_CTRHandler`. -/
def inEvent (n : Nat) (s : State) : State := USBD_EP_CTRHandler (hwInComplete s n)

/-- A correct-transfer OUT event of `cnt` bytes on endpoint `n`, served by
`USBD_EP_CTRHandler`. -/
def outEvent (n : Nat) (s : State) (cnt : Nat) : State :=
  USBD_EP_CTRHandler (hwOutComplete s n cnt)

end Usbd

namespace Otg

/-- Endpoint descriptor `USB_OTG_ENDPOINT_INFO_T`: the fields the driver source reads and
writes (the type declaration itself is in an absent header). -/
structure USB_OTG_ENDPOINT_INFO_T where
  epNum : Nat
  epDir : Nat
  epType : Nat
  mps : Nat
  buffer : Nat
  bufLen : Nat
  bufCount : Nat
  stallStatus : Nat
  dataPID : Nat
  txFifoNum : Nat
  dmaAddr : Nat
deriving DecidableEq

/-- Registers of one IN endpoint, `usbDevice->EP_IN[n]`: the fields of `DIEPCTRL` and
`DIEPTRS` the source writes, `DIEPDMA`, and the interrupt status bits of `DIEPINT` the
source tests.  A field holds the value the source last assigned to it; the register bit-field
itself holds the low bits of that value, as many as the field is wide. -/
structure InEpRegs where
  STALLH : Nat
  NAKCLR : Nat
  NAKSET : Nat
  EPEN : Nat
  EPDIS : Nat
  DPIDSET : Nat
  OFSET : Nat
  MAXPS : Nat
  EPPCNT : Nat
  EPTRS : Nat
  TXDCNT : Nat
  DIEPDMA : Nat
  intTSFCMP : Bool
  intTO : Bool
  intITXEMP : Bool
  intIEPNAKE : Bool
  intEPDIS : Bool
  intTXFE : Bool
deriving DecidableEq

/-- Registers of one OUT endpoint, `usbDevice->EP_OUT[n]`: the fields of `DOEPCTRL` and
`DOEPTRS` the source writes, `DOEPDMA`, and the interrupt status bits of `DOEPINT` the
source tests.  A field holds the value the source last assigned to it; the register bit-field
itself holds the low bits of that value, as many as the field is wide. -/
structure OutEpRegs where
  STALLH : Nat
  NAKCLR : Nat
  NAKSET : Nat
  EPEN : Nat
  EPDIS : Nat
  DPIDSET : Nat
  OFSET : Nat
  USBAEP : Nat
  EPPCNT : Nat
  PID_SPCNT : Nat
  EPTRS : Nat
  DOEPDMA : Nat
  intTSFCMP : Bool
  intSETPCMP : Bool
  intRXOTDIS : Bool
  intEPDIS : Bool
  intRXBSP : Bool
deriving DecidableEq

/-- The causes of the global interrupt (`USB_INT_G_*`; the bit values are in an absent
header). -/
inductive GInt where
  | MMIS | RXFNONE | ONEP | INEP | USBRST | RWAKE | USBSUS | ENUMD | SOF | IIINTX | IP_OUTTX
  | SREQ | OTG
deriving DecidableEq

/-- The packet status of a RxFIFO status entry (`USBD_PKTSTS_*`; the values are in an absent
header). -/
inductive PktSts where
  | G_OUT_NAK | REV_DATA_OUT_PKT | OUT_DONE | SETUP_DONE | REV_SETUP_PKT | other
deriving DecidableEq

/-- The fields of a RxFIFO status entry `USBD_FIFO_STA_T` the driver reads. -/
structure RxStatus where
  epNum : Nat
  byteCount : Nat
  packetStatus : PktSts
deriving DecidableEq

/-- The enumerated speed `USB_OTG_D_ReadEnumSpeed` reports (`USBD_ENUM_SPEED_*`). -/
inductive EnumSpeed where
  | HS | HS_IN_FS | FS | other
deriving DecidableEq

/-- The register blocks behind `usbGlobal`, `usbDevice`, `usbFifo`.  `INEPTXFSA n k` is the
free space (in words) that the `k`-th read of `EP_IN[n].DITXFSTS` returns and `fsaReads n`
counts the reads made so far; `DIEIMASK n` is the TxFIFO-empty interrupt enable of IN
endpoint `n`; `inEpIntBits` is what `USB_OTG_D_ReadAllInEpIntNumber` returns and
`outEpIntBits` what `USB_OTG_D_ReadAllOutEpIntNumber` returns.  `gint` holds the pending
causes of the global interrupt and `GINTMASK` their enables; `deviceMode` tells whether
`USB_OTG_ReadMode` reports device mode; `rxFifo` holds the status entries queued in the
RxFIFO.  `delayTick` is the counter of bsp_delay.c, `tickAt k` the number of SysTick
interrupts that run before the `k`-th read of it by a wait loop, `tickReads` the reads made
so far.  `GRXFIFO` is the receive FIFO size register, `GTXFCFG` the size register of
TxFIFO 0 and `DTXFIFO i` the word of the size register of TxFIFO `i + 1`. -/
structure Hw where
  EP_IN : Nat → InEpRegs
  EP_OUT : Nat → OutEpRegs
  DADDR : Nat
  SOFNUM : Nat
  INEPTXFSA : Nat → Nat → Nat
  fsaReads : Nat → Nat
  DIEIMASK : Nat → Bool
  inEpIntBits : Nat
  outEpIntBits : Nat
  gint : GInt → Bool
  GINTMASK : GInt → Bool
  deviceMode : Bool
  rxFifo : List RxStatus
  SUSSTS : Bool
  SEFLG : Bool
  enumSpeed : EnumSpeed
  delayTick : Nat
  tickAt : Nat → Nat
  tickReads : Nat
  DTXFIFO : Nat → Nat
  BDVBSEN : Nat
  PCGCTRL : Nat
  PCLKSTOP : Nat
  GCLK : Nat
  GINAKCLR : Nat
  GRXFIFO : Nat
  GTXFCFG : Nat

/-- The configuration part `usbCfg` of the handle. -/
structure USB_OTG_CFG_T where
  devEndpointNum : Nat
  dmaStatus : Nat
  speed : Nat
  sofStatus : Nat
  vbusSense : Nat
  ep1Status : Nat
  mode : Nat
deriving DecidableEq

/-- The software device handle `USBD_HANDLE_T` (USB_OTG build), without the register
pointers.  `setupAddr` is the address of the `setup` array, the value of `(uint32_t)setup`.
The C tables are `epIN[16]`, `epOUT[16]` and `setup[12]`: slot `i` of a table stands for the
C array element only for `i` below the size of the array; an access with a larger index is
kept in a slot of its own, it does not reach the member that follows the array in memory. -/
structure USBD_HANDLE_T where
  usbCfg : USB_OTG_CFG_T
  epIN : Nat → USB_OTG_ENDPOINT_INFO_T
  epOUT : Nat → USB_OTG_ENDPOINT_INFO_T
  setup : Nat → Nat
  setupAddr : Nat
  address : Nat

/-- Interrupt status bits of an IN endpoint (`USBD_INT_EP_IN_*`). -/
inductive InFlag where
  | TSFCMP | TO | ITXEMP | IEPNAKE | EPDIS | TXFE
deriving DecidableEq

/-- Interrupt status bits of an OUT endpoint (`USBD_INT_EP_OUT_*`). -/
inductive OutFlag where
  | TSFCMP | SETPCMP | RXOTDIS | EPDIS | RXBSP
deriving DecidableEq

/-- Endpoint enables, FIFO and interrupt-control calls, and callback invocations, in the
order they happen. -/
inductive Ev where
  | InEpEnable (ep : Nat)
  | OutEpEnable (ep : Nat)
  | WriteFifoPacket (ep buf len : Nat)
  | EnableInEpEmptyInterrupt (ep : Nat)
  | DisableInEpEmptyInterrupt (ep : Nat)
  | ClearInEpIntStatus (ep : Nat) (f : InFlag)
  | ClearOutEpIntStatus (ep : Nat) (f : OutFlag)
  | ConfigDeviceAddress (a : Nat)
  | SetupStageCallback
  | DataInStageCallback (ep : Nat)
  | DataOutStageCallback (ep : Nat)
  | EnumDoneCallback
  | ResumeCallback
  | SuspendCallback
  | SOFCallback
  | IsoInInCompleteCallback (ep : Nat)
  | IsoOutInCompleteCallback (ep : Nat)
  | ConnectCallback
  | DisconnectCallback
  | ConfigEP (epNum epDir epType mps : Nat)
  | ResetEP (epNum epDir : Nat)
  | ClearGlobalIntFlag (f : GInt)
  | EnableGlobalInterrupt (f : GInt)
  | DisableGlobalInterrupt (f : GInt)
  | PopRxFifoStatus
  | ReadRxFifoPacket (buf len : Nat)
  | DisableRemoteWakeupSignal
  | FlushTxFIFO (num : Nat)
  | FlushRxFIFO
  | EnableOutEpInterruptMask (ep : Nat)
  | EnableInEpInterruptMask (ep : Nat)
  | EnableInEp1Interrupt
  | EnableOutEp1Interrupt
  | EnableInEpInterrupt
  | EnableOutEpInterrupt
  | SetTurnaroundTime (speed : Nat)
  | ConfigPHY
  | CoreReset
  | DisablePowerDown
  | ConfigMode (mode : Nat)
  | ConfigPeriodicFrameInterval
  | ConfigDeviceSpeed
  | DisableAllInEpInterrupt
  | DisableAllOutEpInterrupt
  | DisableAllEpInterrupt
  | DisableInEpInterrupt
  | DisableAllGlobalInterrupt
  | ClearAllGlobalIntFlags
  | ConfigSoftDisconnect
deriving DecidableEq

/-- Everything the driver can touch: handle, registers, main memory, and the trace. -/
structure State where
  usbdh : USBD_HANDLE_T
  hw : Hw
  mem : Nat → Nat
  trace : List Ev

/-- A pointer to an endpoint descriptor: `&usbdh->epIN[i]` or `&usbdh->epOUT[i]`. -/
inductive EpRef where
  | epIN (i : Nat)
  | epOUT (i : Nat)
deriving DecidableEq

/-- Dereference an endpoint pointer. -/
def getEp (s : State) : EpRef → USB_OTG_ENDPOINT_INFO_T
  | EpRef.epIN i => s.usbdh.epIN i
  | EpRef.epOUT i => s.usbdh.epOUT i

/-- Store through an endpoint pointer. -/
def setEp (s : State) (r : EpRef) (e : USB_OTG_ENDPOINT_INFO_T) : State :=
  match r with
  | EpRef.epIN i => { s with usbdh := { s.usbdh with epIN := setSlot s.usbdh.epIN i e } }
  | EpRef.epOUT i => { s with usbdh := { s.usbdh with epOUT := setSlot s.usbdh.epOUT i e } }

/-- Append an entry to the trace. -/
def logEv (s : State) (e : Ev) : State := { s with trace := s.trace ++ [e] }

/-- Update the registers of IN endpoint `n`. -/
def updIn (s : State) (n : Nat) (f : InEpRegs → InEpRegs) : State :=
  { s with hw := { s.hw with EP_IN := setSlot s.hw.EP_IN n (f (s.hw.EP_IN n)) } }

/-- Update the registers of OUT endpoint `n`. -/
def updOut (s : State) (n : Nat) (f : OutEpRegs → OutEpRegs) : State :=
  { s with hw := { s.hw with EP_OUT := setSlot s.hw.EP_OUT n (f (s.hw.EP_OUT n)) } }

/-- The two statements `DIEPCTRL_B.NAKCLR = BIT_SET; DIEPCTRL_B.EPEN = BIT_SET;`:
the IN endpoint is enabled (armed). -/
def enableInEp (s : State) (n : Nat) : State :=
  logEv (updIn s n (fun r => { r with NAKCLR := BIT_SET, EPEN := BIT_SET })) (Ev.InEpEnable n)

/-- The two statements `DOEPCTRL_B.NAKCLR = BIT_SET; DOEPCTRL_B.EPEN = BIT_SET;`:
the OUT endpoint is enabled (armed). -/
def enableOutEp (s : State) (n : Nat) : State :=
  logEv (updOut s n (fun r => { r with NAKCLR := BIT_SET, EPEN := BIT_SET })) (Ev.OutEpEnable n)

/-- The source fragment `if (usbdh->usbDevice->DSTS_B.SOFNUM & 0x01) ..OFSET = BIT_SET; else
..DPIDSET = BIT_SET;` on an IN endpoint. -/
def isoParityIn (s : State) (n : Nat) : State :=
  if s.hw.SOFNUM &&& 0x01 ≠ 0 then updIn s n (fun r => { r with OFSET := BIT_SET })
  else updIn s n (fun r => { r with DPIDSET := BIT_SET })

/-- The same fragment on an OUT endpoint. -/
def isoParityOut (s : State) (n : Nat) : State :=
  if s.hw.SOFNUM &&& 0x01 ≠ 0 then updOut s n (fun r => { r with OFSET := BIT_SET })
  else updOut s n (fun r => { r with DPIDSET := BIT_SET })

/-- Modelled from the spec: absent function `USB_OTG_D_EnableInEpEmptyInterrupt`; sets the
TxFIFO-empty interrupt enable of the endpoint. -/
def USB_OTG_D_EnableInEpEmptyInterrupt (s : State) (n : Nat) : State :=
  logEv { s with hw := { s.hw with DIEIMASK := setSlot s.hw.DIEIMASK n true } }
    (Ev.EnableInEpEmptyInterrupt n)

/-- Modelled from the spec: absent function `USB_OTG_D_DisableInEpEmptyInterrupt`; clears the
TxFIFO-empty interrupt enable of the endpoint. -/
def USB_OTG_D_DisableInEpEmptyInterrupt (s : State) (n : Nat) : State :=
  logEv { s with hw := { s.hw with DIEIMASK := setSlot s.hw.DIEIMASK n false } }
    (Ev.DisableInEpEmptyInterrupt n)

/-- Modelled from the spec: absent function `USB_OTG_FIFO_WriteFifoPacket`; pushes `len`
bytes at `buf` into the TxFIFO of the endpoint (recorded in the trace). -/
def USB_OTG_FIFO_WriteFifoPacket (s : State) (ep buf len : Nat) : State :=
  logEv s (Ev.WriteFifoPacket ep buf len)

/-- Modelled from the spec: absent function `USB_OTG_D_ConfigDeviceAddress`; writes the
device address field. -/
def USB_OTG_D_ConfigDeviceAddress (s : State) (a : Nat) : State :=
  logEv { s with hw := { s.hw with DADDR := a } } (Ev.ConfigDeviceAddress a)

/-- Weak `USBD_DataInStageCallback`: empty body; the call is recorded. -/
def USBD_DataInStageCallback (s : State) (epNum : Nat) : State :=
  logEv s (Ev.DataInStageCallback epNum)

/-- Weak `USBD_DataOutStageCallback`: empty body; the call is recorded. -/
def USBD_DataOutStageCallback (s : State) (epNum : Nat) : State :=
  logEv s (Ev.DataOutStageCallback epNum)

/-- Weak `USBD_SetupStageCallback`: empty body; the call is recorded. -/
def USBD_SetupStageCallback (s : State) : State := logEv s Ev.SetupStageCallback

/-- `USBD_EP0_OutHandler` (source lines 1463-1481): `DOEPTRS = 0`, then packet count 1,
SETUP count 3, transfer size 24; with DMA the SETUP buffer address and the endpoint enable. -/
def USBD_EP0_OutHandler (s : State) (dmaStatus setup : Nat) : State :=
  let s := updOut s USBD_EP_0 (fun r => { r with EPPCNT := 0, PID_SPCNT := 0, EPTRS := 0 })
  let s := updOut s USBD_EP_0 (fun r => { r with EPPCNT := BIT_SET })
  let s := updOut s USBD_EP_0 (fun r => { r with PID_SPCNT := 0x03 })
  let s := updOut s USBD_EP_0 (fun r => { r with EPTRS := 24 })
  if dmaStatus = ENABLE then
    let s := updOut s USBD_EP_0 (fun r => { r with DOEPDMA := setup })
    let s := updOut s USBD_EP_0 (fun r => { r with USBAEP := BIT_SET })
    logEv (updOut s USBD_EP_0 (fun r => { r with EPEN := BIT_SET })) (Ev.OutEpEnable USBD_EP_0)
  else s

/-- `USBD_EP_ReadRxDataLen` of the USB_OTG build (source lines 1627-1630). -/
def USBD_EP_ReadRxDataLen (s : State) (epAddr : Nat) : Nat :=
  (s.usbdh.epOUT (epAddr &&& 0x0F)).bufCount

/-- The packet count `(uint16_t)((bufLen + mps - 1) / mps)` of `USBD_EP_XferStart`, in 32-bit
arithmetic (a division by zero yields 0, as the core does with the divide trap off). -/
def epPacketCnt (bufLen mps : Nat) : Nat :=
  (sub32 (add32 bufLen mps) 1 / mps) % 2 ^ 16

/-- `USBD_EP_XferStart` of the USB_OTG build (source lines 1643-1769). -/
def USBD_EP_XferStart (s : State) (r : EpRef) (dmaStatus : Nat) : State :=
  let endpoint := getEp s r
  let epNum := endpoint.epNum
  let epDir := endpoint.epDir
  if epDir = EP_DIR_OUT then
    let s := updOut s epNum (fun q => { q with EPPCNT := BIT_RESET })
    let s := updOut s epNum (fun q => { q with EPTRS := BIT_RESET })
    let s :=
      if endpoint.bufLen ≠ 0 then
        let cnt := epPacketCnt endpoint.bufLen endpoint.mps
        let s := updOut s epNum (fun q => { q with EPPCNT := cnt })
        updOut s epNum (fun q => { q with EPTRS := (endpoint.mps * cnt) % 2 ^ 32 })
      else
        let s := updOut s epNum (fun q => { q with EPPCNT := 0x01 })
        updOut s epNum (fun q => { q with EPTRS := endpoint.mps })
    let s :=
      if dmaStatus = ENABLE then
        if endpoint.buffer ≠ 0 then updOut s epNum (fun q => { q with DOEPDMA := endpoint.buffer })
        else s
      else s
    let s := if endpoint.epType = EP_TYPE_ISO then isoParityOut s epNum else s
    enableOutEp s epNum
  else
    let s :=
      if endpoint.bufLen = 0 then
        let s := updIn s epNum (fun q => { q with EPPCNT := BIT_RESET })
        let s := updIn s epNum (fun q => { q with EPTRS := BIT_RESET })
        updIn s epNum (fun q => { q with EPPCNT := 0x01 })
      else
        let s := updIn s epNum (fun q => { q with EPPCNT := BIT_RESET })
        let s := updIn s epNum (fun q => { q with EPTRS := BIT_RESET })
        let cnt := epPacketCnt endpoint.bufLen endpoint.mps
        let s := updIn s epNum (fun q => { q with EPPCNT := cnt })
        let s := updIn s epNum (fun q => { q with EPTRS := endpoint.bufLen })
        if endpoint.epType = EP_TYPE_ISO then
          let s := updIn s epNum (fun q => { q with TXDCNT := BIT_RESET })
          updIn s epNum (fun q => { q with TXDCNT := 0x01 })
        else s
    if dmaStatus = ENABLE then
      let s := if endpoint.dmaAddr ≠ 0 then
                 updIn s epNum (fun q => { q with DIEPDMA := endpoint.dmaAddr })
               else s
      let s := if endpoint.epType = EP_TYPE_ISO then isoParityIn s epNum else s
      enableInEp s epNum
    else
      let s := enableInEp s epNum
      if endpoint.epType = EP_TYPE_ISO then
        let s := isoParityIn s epNum
        USB_OTG_FIFO_WriteFifoPacket s endpoint.epNum endpoint.buffer endpoint.bufLen
      else
        if endpoint.bufLen ≠ 0 then USB_OTG_D_EnableInEpEmptyInterrupt s epNum else s

/-- `USBD_EP0_XferStart` (source lines 1782-1860). -/
def USBD_EP0_XferStart (s : State) (r : EpRef) (dmaStatus : Nat) : State :=
  let endpoint := getEp s r
  let epNum := endpoint.epNum
  let epDir := endpoint.epDir
  if epDir = EP_DIR_OUT then
    let s := updOut s epNum (fun q => { q with EPPCNT := BIT_RESET })
    let s := updOut s epNum (fun q => { q with EPTRS := BIT_RESET })
    let endpoint := if endpoint.bufLen ≠ 0 then { endpoint with bufLen := endpoint.mps }
                    else endpoint
    let s := setEp s r endpoint
    let s := updOut s epNum (fun q => { q with EPPCNT := BIT_SET })
    let s := updOut s epNum (fun q => { q with EPTRS := endpoint.mps })
    let s :=
      if dmaStatus = ENABLE then
        if endpoint.buffer ≠ 0 then updOut s epNum (fun q => { q with DOEPDMA := endpoint.buffer })
        else s
      else s
    enableOutEp s epNum
  else
    let (s, endpoint) :=
      if endpoint.bufLen = 0 then
        let s := updIn s epNum (fun q => { q with EPPCNT := BIT_RESET })
        let s := updIn s epNum (fun q => { q with EPTRS := BIT_RESET })
        (updIn s epNum (fun q => { q with EPPCNT := 0x01 }), endpoint)
      else
        let s := updIn s epNum (fun q => { q with EPPCNT := BIT_RESET })
        let s := updIn s epNum (fun q => { q with EPTRS := BIT_RESET })
        let endpoint := if endpoint.bufLen > endpoint.mps then
                          { endpoint with bufLen := endpoint.mps }
                        else endpoint
        let s := setEp s r endpoint
        let s := updIn s epNum (fun q => { q with EPPCNT := 0x01 })
        (updIn s epNum (fun q => { q with EPTRS := endpoint.bufLen }), endpoint)
    if dmaStatus = ENABLE then
      let s := if endpoint.dmaAddr ≠ 0 then
                 updIn s epNum (fun q => { q with DIEPDMA := endpoint.dmaAddr })
               else s
      enableInEp s epNum
    else
      let s := enableInEp s epNum
      if endpoint.bufLen ≠ 0 then USB_OTG_D_EnableInEpEmptyInterrupt s epNum else s

/-- `USBD_EP_Receive` of the USB_OTG build (source lines 1875-1895). -/
def USBD_EP_Receive (s : State) (epAddr buffer length : Nat) : State :=
  let epAddrTemp := epAddr &&& 0x0F
  let ep := s.usbdh.epOUT epAddrTemp
  let ep := { ep with epNum := epAddr &&& 0x0F, epDir := EP_DIR_OUT,
                      buffer := buffer, bufCount := 0, bufLen := length }
  let s := setEp s (EpRef.epOUT epAddrTemp) ep
  if epAddr &&& 0x0F ≠ 0 then USBD_EP_XferStart s (EpRef.epOUT epAddrTemp) s.usbdh.usbCfg.dmaStatus
  else USBD_EP0_XferStart s (EpRef.epOUT epAddrTemp) s.usbdh.usbCfg.dmaStatus

/-- `USBD_EP_Transfer` of the USB_OTG build (source lines 1910-1930). -/
def USBD_EP_Transfer (s : State) (epAddr buffer length : Nat) : State :=
  let epAddrTemp := epAddr &&& 0x0F
  let ep := s.usbdh.epIN epAddrTemp
  let ep := { ep with epNum := epAddr &&& 0x0F, epDir := EP_DIR_IN,
                      buffer := buffer, bufCount := 0, bufLen := length }
  let s := setEp s (EpRef.epIN epAddrTemp) ep
  if epAddr &&& 0x0F ≠ 0 then USBD_EP_XferStart s (EpRef.epIN epAddrTemp) s.usbdh.usbCfg.dmaStatus
  else USBD_EP0_XferStart s (EpRef.epIN epAddrTemp) s.usbdh.usbCfg.dmaStatus

/-- Read `EP_IN[epNum].DITXFSTS_B.INEPTXFSA`: the next free-space reading and the state in
which that reading is consumed. -/
def readINEPTXFSA (s : State) (epNum : Nat) : Nat × State :=
  (s.hw.INEPTXFSA epNum (s.hw.fsaReads epNum),
   { s with hw := { s.hw with fsaReads := setSlot s.hw.fsaReads epNum (s.hw.fsaReads epNum + 1) } })

/-- The body of the `while` loop of `USBD_EP_PushDataEmptyTxFifo` (source lines 1595-1609):
the state after one packet is pushed, and the new value of `lengthTemp`. -/
def pushBody (s : State) (epNum : Nat) : State × Nat :=
  let ep := s.usbdh.epIN epNum
  let length := sub32 ep.bufLen ep.bufCount
  let length := if length > ep.mps then ep.mps else length
  let lengthTemp := add32 length 3 / 4
  let s := USB_OTG_FIFO_WriteFifoPacket s epNum ep.buffer (length % 2 ^ 16)
  let ep := { ep with buffer := add32 ep.buffer length, bufCount := add32 ep.bufCount length }
  (setEp s (EpRef.epIN epNum) ep, lengthTemp)

/-- The test of the `while` loop of `USBD_EP_PushDataEmptyTxFifo` (source lines 1591-1593),
on the free-space reading `avail`. -/
def pushTest (s : State) (epNum lengthTemp avail : Nat) : Prop :=
  avail ≥ lengthTemp ∧ (s.usbdh.epIN epNum).bufCount < (s.usbdh.epIN epNum).bufLen ∧
    (s.usbdh.epIN epNum).bufLen ≠ 0

instance (s : State) (epNum lengthTemp avail : Nat) :
    Decidable (pushTest s epNum lengthTemp avail) := by
  unfold pushTest; exact inferInstance

/-- The `while` loop of `USBD_EP_PushDataEmptyTxFifo` (source lines 1591-1610).  `fuel`
bounds the number of passes; `none` means the bound was reached with the loop test still
true. -/
def pushLoop : Nat → State → Nat → Nat → Option State
  | 0, s, epNum, lengthTemp =>
      if pushTest (readINEPTXFSA s epNum).2 epNum lengthTemp (readINEPTXFSA s epNum).1 then none
      else some (readINEPTXFSA s epNum).2
  | fuel + 1, s, epNum, lengthTemp =>
      if pushTest (readINEPTXFSA s epNum).2 epNum lengthTemp (readINEPTXFSA s epNum).1 then
        pushLoop fuel (pushBody (readINEPTXFSA s epNum).2 epNum).1 epNum
          (pushBody (readINEPTXFSA s epNum).2 epNum).2
      else some (readINEPTXFSA s epNum).2

/-- `USBD_EP_PushDataEmptyTxFifo` (source lines 1569-1616). -/
def USBD_EP_PushDataEmptyTxFifo (fuel : Nat) (s : State) (epNum : Nat) : Option State :=
  let ep := s.usbdh.epIN epNum
  if ep.bufCount > ep.bufLen then some s
  else
    let length := sub32 ep.bufLen ep.bufCount
    let length := if length > ep.mps then ep.mps else length
    let lengthTemp := add32 length 3 / 4
    match pushLoop fuel s epNum lengthTemp with
    | none => none
    | some s =>
      let ep := s.usbdh.epIN epNum
      if ep.bufLen ≤ ep.bufCount then some (USB_OTG_D_DisableInEpEmptyInterrupt s epNum)
      else some s

/-- Modelled from the spec: absent function `USB_OTG_D_ReadInEpIntStatus`; the interrupt
status bit of the IN endpoint. -/
def USB_OTG_D_ReadInEpIntStatus (s : State) (epNum : Nat) : InFlag → Bool
  | InFlag.TSFCMP => (s.hw.EP_IN epNum).intTSFCMP
  | InFlag.TO => (s.hw.EP_IN epNum).intTO
  | InFlag.ITXEMP => (s.hw.EP_IN epNum).intITXEMP
  | InFlag.IEPNAKE => (s.hw.EP_IN epNum).intIEPNAKE
  | InFlag.EPDIS => (s.hw.EP_IN epNum).intEPDIS
  | InFlag.TXFE => (s.hw.EP_IN epNum).intTXFE

/-- Modelled from the spec: absent function `USB_OTG_D_ClearInEpIntStatus`; clears the
interrupt status bit of the IN endpoint. -/
def USB_OTG_D_ClearInEpIntStatus (s : State) (epNum : Nat) (f : InFlag) : State :=
  logEv (updIn s epNum (fun r =>
    match f with
    | InFlag.TSFCMP => { r with intTSFCMP := false }
    | InFlag.TO => { r with intTO := false }
    | InFlag.ITXEMP => { r with intITXEMP := false }
    | InFlag.IEPNAKE => { r with intIEPNAKE := false }
    | InFlag.EPDIS => { r with intEPDIS := false }
    | InFlag.TXFE => { r with intTXFE := false })) (Ev.ClearInEpIntStatus epNum f)

/-- The source fragment `if (USB_OTG_D_ReadInEpIntStatus(.., f)) USB_OTG_D_ClearInEpIntStatus(.., f);`. -/
def clearInIfSet (s : State) (epNum : Nat) (f : InFlag) : State :=
  if USB_OTG_D_ReadInEpIntStatus s epNum f then USB_OTG_D_ClearInEpIntStatus s epNum f else s

/-- The "transfer completed" part of `USBD_InEndpointIsrHandler` (source lines 2104-2125). -/
def inEpXferComplete (s : State) (epNum : Nat) : State :=
  let s := USB_OTG_D_DisableInEpEmptyInterrupt s (epNum &&& 0x0F)
  let s := USB_OTG_D_ClearInEpIntStatus s epNum InFlag.TSFCMP
  let s :=
    if s.usbdh.usbCfg.dmaStatus = ENABLE then
      let ep := s.usbdh.epIN epNum
      let s := setEp s (EpRef.epIN epNum) { ep with buffer := add32 ep.buffer ep.mps }
      if (s.usbdh.epIN epNum).bufLen = 0 ∧ epNum = USBD_EP_0 then
        USBD_EP0_OutHandler s s.usbdh.usbCfg.dmaStatus s.usbdh.setupAddr
      else s
    else s
  USBD_DataInStageCallback s epNum

/-- The body of the `for` loop of `USBD_InEndpointIsrHandler` for an endpoint whose
interrupt bit is set, up to the TxFIFO-empty test (source lines 2103-2149). -/
def inEpStatus (s : State) (epNum : Nat) : State :=
  let s := if USB_OTG_D_ReadInEpIntStatus s epNum InFlag.TSFCMP then inEpXferComplete s epNum
           else s
  let s := clearInIfSet s epNum InFlag.TO
  let s := clearInIfSet s epNum InFlag.ITXEMP
  let s := clearInIfSet s epNum InFlag.IEPNAKE
  clearInIfSet s epNum InFlag.EPDIS

/-- The body of the `for` loop of `USBD_InEndpointIsrHandler` for an endpoint whose
interrupt bit is set (source lines 2103-2155). -/
def inEpBody (fuel : Nat) (s : State) (epNum : Nat) : Option State :=
  if USB_OTG_D_ReadInEpIntStatus (inEpStatus s epNum) epNum InFlag.TXFE then
    USBD_EP_PushDataEmptyTxFifo fuel (inEpStatus s epNum) epNum
  else some (inEpStatus s epNum)

/-- The `for (epNum = 0; epNum < 16; epNum++)` loop of `USBD_InEndpointIsrHandler`, with
`k` passes left. -/
def inEpLoop (fuel epIntBits : Nat) : Nat → Nat → State → Option State
  | 0, _, s => some s
  | k + 1, epNum, s =>
      if epIntBits >>> epNum = 0 then some s
      else if (epIntBits >>> epNum) &&& 0x01 ≠ 0 then
        match inEpBody fuel s epNum with
        | none => none
        | some s => inEpLoop fuel epIntBits k (epNum + 1) s
      else inEpLoop fuel epIntBits k (epNum + 1) s

/-- `USBD_InEndpointIsrHandler` (source lines 2086-2158); `fuel` bounds the passes of each
TxFIFO write loop. -/
def USBD_InEndpointIsrHandler (fuel : Nat) (s : State) : Option State :=
  inEpLoop fuel (s.hw.inEpIntBits % 2 ^ 16) 16 0 s

/-- `USBD_EP_ReadStallStatus` of the USB_OTG build (source lines 2799-2809). -/
def USBD_EP_ReadStallStatus (s : State) (epAddr : Nat) : Nat :=
  if epAddr &&& 0x80 = 0x80 then (s.usbdh.epIN (epAddr &&& 0x7F)).stallStatus
  else (s.usbdh.epOUT (epAddr &&& 0x7F)).stallStatus

/-- `USBD_EP_ClearStall` of the USB_OTG build (source lines 2820-2861). -/
def USBD_EP_ClearStall (s : State) (epAddr : Nat) : State :=
  if epAddr &&& 0x0F > s.usbdh.usbCfg.devEndpointNum then s
  else
    let r := if epAddr &&& 0x80 = 0x80 then EpRef.epIN (epAddr &&& 0x0F)
             else EpRef.epOUT (epAddr &&& 0x0F)
    let ep := getEp s r
    let ep := { ep with epDir := if epAddr &&& 0x80 = 0x80 then EP_DIR_IN else EP_DIR_OUT }
    let ep := { ep with stallStatus := DISABLE, epNum := epAddr &&& 0x0F }
    let s := setEp s r ep
    if ep.epDir = EP_DIR_IN then
      let s := updIn s ep.epNum (fun q => { q with STALLH := BIT_RESET })
      if ep.epType = EP_TYPE_BULK ∨ ep.epType = EP_TYPE_INTERRUPT then
        updIn s ep.epNum (fun q => { q with DPIDSET := BIT_SET })
      else s
    else
      let s := updOut s ep.epNum (fun q => { q with STALLH := BIT_RESET })
      if ep.epType = EP_TYPE_BULK ∨ ep.epType = EP_TYPE_INTERRUPT then
        updOut s ep.epNum (fun q => { q with DPIDSET := BIT_SET })
      else s

/-- `USBD_SetDevAddress` of the USB_OTG build (source lines 2872-2877). -/
def USBD_SetDevAddress (s : State) (address : Nat) : State :=
  let s := { s with usbdh := { s.usbdh with address := address } }
  USB_OTG_D_ConfigDeviceAddress s address

/-- `USBD_EP_Stall` of the USB_OTG build (source lines 2888-2936). -/
def USBD_EP_Stall (s : State) (epAddr : Nat) : State :=
  if epAddr &&& 0x0F > s.usbdh.usbCfg.devEndpointNum then s
  else
    let r := if epAddr &&& 0x80 = 0x80 then EpRef.epIN (epAddr &&& 0x0F)
             else EpRef.epOUT (epAddr &&& 0x0F)
    let ep := getEp s r
    let ep := { ep with epDir := if epAddr &&& 0x80 = 0x80 then EP_DIR_IN else EP_DIR_OUT }
    let ep := { ep with stallStatus := ENABLE, epNum := epAddr &&& 0x0F }
    let s := setEp s r ep
    let s :=
      if ep.epDir = EP_DIR_IN then
        let s := if ep.epNum ≠ 0 ∧ (s.hw.EP_IN ep.epNum).EPEN = 0 then
                   updIn s ep.epNum (fun q => { q with EPDIS := BIT_RESET })
                 else s
        updIn s ep.epNum (fun q => { q with STALLH := BIT_SET })
      else
        let s := if ep.epNum ≠ 0 ∧ (s.hw.EP_OUT ep.epNum).EPEN = 0 then
                   updOut s ep.epNum (fun q => { q with EPDIS := BIT_RESET })
                 else s
        updOut s ep.epNum (fun q => { q with STALLH := BIT_SET })
    if epAddr &&& 0x0F = USBD_EP_0 then
      USBD_EP0_OutHandler s s.usbdh.usbCfg.dmaStatus s.usbdh.setupAddr
    else s

/-- The core has sent all packets programmed on IN endpoint `n`: the transfer-completed
status bit of the endpoint and its bit in the endpoint-interrupt summary are raised. -/
def hwInComplete (s : State) (n : Nat) : State :=
  { s with hw := { s.hw with
      EP_IN := setSlot s.hw.EP_IN n { s.hw.EP_IN n with intTSFCMP := true },
      inEpIntBits := s.hw.inEpIntBits ||| (1 <<< n) } }

end Otg

/-! ## Observations and example states -/

namespace Usbd

/-- The stall flags of every descriptor of the tables `epIN[n]`, `epOUT[n]` other than the one
`epAddr` addresses (every other endpoint number, and the opposite direction) agree in the
handles `h` and `k`. -/
def stallFrame (n : Nat) (epAddr : Nat) (h k : USBD_HANDLE_T) : Prop :=
  (∀ i, i < n → (i ≠ epAddr &&& 0x0F ∨ epAddr &&& 0x80 ≠ 0x80) →
      (k.epIN i).stallStatus = (h.epIN i).stallStatus) ∧
  (∀ i, i < n → (i ≠ epAddr &&& 0x0F ∨ epAddr &&& 0x80 = 0x80) →
      (k.epOUT i).stallStatus = (h.epOUT i).stallStatus)

/-- An endpoint descriptor with every field zero. -/
def epZero : USBD_ENDPOINT_INFO_T :=
  { epNum := 0, epDir := 0, epType := 0, mps := 0, buffer := 0, bufLen := 0, bufCount := 0,
    stallStatus := 0, bufferStatus := 0, pmaAddr := 0, pmaAddr0 := 0, pmaAddr1 := 0,
    dbBufferFill := 0, dbBufferLen := 0, dataPID := 0, txFifoNum := 0 }

/-- A hardware endpoint with every field clear. -/
def regZero : EpReg :=
  { ctfr := false, rxdtog := false, rxStatus := 0, setup := false, kind := false,
    ctft := false, txdtog := false, txStatus := 0, txCnt := 0, rxCnt := 0 }

/-- A register block with every field clear, whose controller raises the reset flag at the
first poll after a forced reset. -/
def hwZero : USBD_T :=
  { EP := fun _ => regZero, pma := fun _ => 0, ADDR := 0, USBDEN := false, ctrPending := [],
    intRST := false, intPMAOU := false, intERR := false, intWKUP := false, intSUS := false,
    intSOF := false, intESOF := false, FORRST := false, FORSUS := false, LPWREN := false,
    PWRDOWN := false, CTRL := 0, BUFFTB := 0, rstRaise := fun _ => true, rstPolls := 0 }

/-- Example state: eight configured endpoints, all descriptors zero except endpoint 1, which
is a single-buffered bulk endpoint of max packet size `M` in both directions, and endpoint 0,
a control endpoint of max packet size `M`; empty trace. -/
def exState (M : Nat) : State :=
  { usbdh :=
      { devEndpointNum := 8,
        epIN := fun i =>
          if i = 1 then { epZero with epNum := 1, epDir := EP_DIR_IN, epType := EP_TYPE_BULK,
                                      mps := M, pmaAddr := 0x100 }
          else if i = 0 then { epZero with epDir := EP_DIR_IN, mps := M, pmaAddr := 0x80 }
          else epZero,
        epOUT := fun i =>
          if i = 1 then { epZero with epNum := 1, epType := EP_TYPE_BULK, mps := M,
                                      pmaAddr := 0x140 }
          else if i = 0 then { epZero with mps := M, pmaAddr := 0x40 }
          else epZero,
        setup := fun _ => 0,
        address := 0 },
    usbGlobal := hwZero,
    mem := fun _ => 0,
    trace := [] }

end Usbd

namespace Otg

/-- The stall flags of every descriptor of the tables `epIN[n]`, `epOUT[n]` other than the one
`epAddr` addresses (every other endpoint number, and the opposite direction) agree in the
handles `h` and `k`. -/
def stallFrame (n : Nat) (epAddr : Nat) (h k : USBD_HANDLE_T) : Prop :=
  (∀ i, i < n → (i ≠ epAddr &&& 0x0F ∨ epAddr &&& 0x80 ≠ 0x80) →
      (k.epIN i).stallStatus = (h.epIN i).stallStatus) ∧
  (∀ i, i < n → (i ≠ epAddr &&& 0x0F ∨ epAddr &&& 0x80 = 0x80) →
      (k.epOUT i).stallStatus = (h.epOUT i).stallStatus)

/-- An endpoint descriptor with every field zero. -/
def epZero : USB_OTG_ENDPOINT_INFO_T :=
  { epNum := 0, epDir := 0, epType := 0, mps := 0, buffer := 0, bufLen := 0, bufCount := 0,
    stallStatus := 0, dataPID := 0, txFifoNum := 0, dmaAddr := 0 }

/-- IN endpoint registers with every field clear. -/
def inZero : InEpRegs :=
  { STALLH := 0, NAKCLR := 0, NAKSET := 0, EPEN := 0, EPDIS := 0, DPIDSET := 0, OFSET := 0,
    MAXPS := 0, EPPCNT := 0, EPTRS := 0, TXDCNT := 0, DIEPDMA := 0, intTSFCMP := false,
    intTO := false, intITXEMP := false, intIEPNAKE := false, intEPDIS := false,
    intTXFE := false }

/-- OUT endpoint registers with every field clear. -/
def outZero : OutEpRegs :=
  { STALLH := 0, NAKCLR := 0, NAKSET := 0, EPEN := 0, EPDIS := 0, DPIDSET := 0, OFSET := 0,
    USBAEP := 0, EPPCNT := 0, PID_SPCNT := 0, EPTRS := 0, DOEPDMA := 0, intTSFCMP := false,
    intSETPCMP := false, intRXOTDIS := false, intEPDIS := false, intRXBSP := false }

/-- Example state: eight configured endpoints, DMA as given, endpoint 0 a control endpoint and
endpoint 1 a bulk endpoint, both of max packet size `M`; all registers clear, every
free-space reading 16 words, empty trace. -/
def exState (M dma : Nat) : State :=
  { usbdh :=
      { usbCfg := { devEndpointNum := 8, dmaStatus := dma, speed := 0, sofStatus := 0,
                    vbusSense := 0, ep1Status := 0, mode := 0 },
        epIN := fun i =>
          if i = 1 then { epZero with epNum := 1, epDir := EP_DIR_IN, epType := EP_TYPE_BULK,
                                      mps := M }
          else if i = 0 then { epZero with epDir := EP_DIR_IN, mps := M }
          else epZero,
        epOUT := fun i =>
          if i = 1 then { epZero with epNum := 1, epType := EP_TYPE_BULK, mps := M }
          else if i = 0 then { epZero with mps := M }
          else epZero,
        setup := fun _ => 0,
        setupAddr := 0x20000000,
        address := 0 },
    hw := { EP_IN := fun _ => inZero, EP_OUT := fun _ => outZero, DADDR := 0, SOFNUM := 0,
            INEPTXFSA := fun _ _ => 16, fsaReads := fun _ => 0, DIEIMASK := fun _ => false,
            inEpIntBits := 0, outEpIntBits := 0,
            gint := fun _ => false, GINTMASK := fun _ => false, deviceMode := true,
            rxFifo := [], SUSSTS := false, SEFLG := false, enumSpeed := EnumSpeed.FS,
            delayTick := 0, tickAt := fun _ => 50000, tickReads := 0, DTXFIFO := fun _ => 0,
            BDVBSEN := 0, PCGCTRL := 0, PCLKSTOP := 0, GCLK := 0, GINAKCLR := 0,
            GRXFIFO := 0, GTXFCFG := 0 },
    mem := fun _ => 0,
    trace := [] }

end Otg

namespace Otg

/-- The EP0 OUT transfer-size register `EP_OUT[0].DOEPTRS` as the triple
(packet count `EPPCNT`, SETUP count `PID_SPCNT`, transfer size `EPTRS`). -/
def ep0OutXferSize (s : State) : Nat × Nat × Nat :=
  ((s.hw.EP_OUT 0).EPPCNT, (s.hw.EP_OUT 0).PID_SPCNT, (s.hw.EP_OUT 0).EPTRS)

end Otg

namespace Usbd

/-- Number of times IN endpoint `n` was armed: `USBD_EP_SetTxStatus(.., n, VALID)` calls. -/
def armedIn (n : Nat) (tr : List Ev) : Nat := tr.count (Ev.SetTxStatus n USBD_EP_STATUS_VALID)

/-- Number of times OUT endpoint `n` was armed: `USBD_EP_SetRxStatus(.., n, VALID)` calls. -/
def armedOut (n : Nat) (tr : List Ev) : Nat := tr.count (Ev.SetRxStatus n USBD_EP_STATUS_VALID)

/-- Number of `USBD_DataInStageCallback(.., n)` invocations. -/
def inCallbacks (n : Nat) (tr : List Ev) : Nat := tr.count (Ev.DataInStageCallback n)

/-- Number of `USBD_DataOutStageCallback(.., n)` invocations. -/
def outCallbacks (n : Nat) (tr : List Ev) : Nat := tr.count (Ev.DataOutStageCallback n)

end Usbd

namespace Otg

/-- Number of times IN endpoint `n` was enabled (armed). -/
def armedIn (n : Nat) (tr : List Ev) : Nat := tr.count (Ev.InEpEnable n)

/-- Number of `USBD_DataInStageCallback(.., n)` invocations. -/
def inCallbacks (n : Nat) (tr : List Ev) : Nat := tr.count (Ev.DataInStageCallback n)

/-- The lengths of the packets pushed into the TxFIFO of endpoint `n`, in order. -/
def fifoPackets (n : Nat) (tr : List Ev) : List Nat :=
  tr.filterMap (fun e => match e with
    | Ev.WriteFifoPacket ep _ len => if ep = n then some len else none
    | _ => none)

/-- Number of `USB_OTG_D_EnableInEpEmptyInterrupt(.., n)` calls. -/
def emptyIntEnables (n : Nat) (tr : List Ev) : Nat := tr.count (Ev.EnableInEpEmptyInterrupt n)

end Otg

namespace Otg

/-- What the TxFIFO write loop never does: it arms no endpoint, fires no data-stage callback,
and leaves the endpoint registers alone. -/
def Quiet (s u : State) : Prop :=
  (∀ k, armedIn k u.trace = armedIn k s.trace) ∧
  (∀ k, inCallbacks k u.trace = inCallbacks k s.trace) ∧
  (∀ k, emptyIntEnables k u.trace = emptyIntEnables k s.trace) ∧
  u.hw.EP_IN = s.hw.EP_IN ∧ u.hw.EP_OUT = s.hw.EP_OUT

/-- Between the states `s` and `u` no IN endpoint was armed, no TxFIFO-empty interrupt was
enabled, and no IN transfer-size register changed its packet count or size. -/
def NoArm (s u : State) : Prop :=
  (∀ k, armedIn k u.trace = armedIn k s.trace) ∧
  (∀ k, emptyIntEnables k u.trace = emptyIntEnables k s.trace) ∧
  (∀ k, (u.hw.EP_IN k).EPPCNT = (s.hw.EP_IN k).EPPCNT ∧ (u.hw.EP_IN k).EPTRS = (s.hw.EP_IN k).EPTRS)

end Otg

/-- The packet count of the spec's rule for a transfer of `L` bytes with max packet size `M`:
one (zero-length) packet for `L = 0`, and `ceil(L/M)` packets otherwise. -/
def specPacketCount (L M : Nat) : Nat := if L = 0 then 1 else (L + M - 1) / M

namespace Usbd

/-- The state `u` of a `USBD_EP_Transfer` of `L` bytes on the single-buffered bulk IN endpoint
`n` (max packet size `M`), started in state `s`, while its packet number `k + 1` is armed:
`k` packets have been acknowledged. -/
def InRunning (s : State) (n M L k : Nat) (u : State) : Prop :=
  u.usbGlobal.ctrPending = [] ∧ (u.usbGlobal.EP n).ctfr = false ∧
  (u.usbdh.epIN n).epNum = n ∧ (u.usbdh.epIN n).epDir = EP_DIR_IN ∧
  (u.usbdh.epIN n).epType = EP_TYPE_BULK ∧
  (u.usbdh.epIN n).bufferStatus = USBD_EP_BUFFER_SINGLE ∧ (u.usbdh.epIN n).mps = M ∧
  (u.usbdh.epIN n).bufLen = L - k * M ∧ (u.usbdh.epIN n).bufCount = k * M ∧
  (u.usbGlobal.EP n).txCnt = min M (L - k * M) ∧
  (u.usbGlobal.EP n).txStatus = USBD_EP_STATUS_VALID ∧
  armedIn n u.trace = armedIn n s.trace + (k + 1) ∧
  inCallbacks n u.trace = inCallbacks n s.trace

end Usbd

namespace Usbd

/-- The state `u` of a `USBD_EP_Receive` of `L` bytes on the single-buffered OUT endpoint `n`
(max packet size `M`), started in state `s`, while its packet number `j + 1` is armed: `j`
packets have been received and `acc` is the byte counter. -/
def OutRunning (s : State) (n M L j acc : Nat) (u : State) : Prop :=
  u.usbGlobal.ctrPending = [] ∧
  (u.usbdh.epOUT n).epNum = n ∧ (u.usbdh.epOUT n).epDir = EP_DIR_OUT ∧
  (u.usbdh.epOUT n).bufferStatus = USBD_EP_BUFFER_SINGLE ∧ (u.usbdh.epOUT n).mps = M ∧
  (u.usbdh.epOUT n).bufLen = L - (j + 1) * M ∧ (u.usbdh.epOUT n).bufCount = acc ∧
  (u.usbGlobal.EP n).rxCnt = min M (L - j * M) ∧
  armedOut n u.trace = armedOut n s.trace + (j + 1) ∧
  outCallbacks n u.trace = outCallbacks n s.trace

/-- A correct-transfer OUT event on endpoint `n` in which the packet delivers exactly the
byte count programmed for it (the value in the RX count slot). -/
def outExact (n : Nat) (u : State) : State := outEvent n u (USBD_EP_ReadRxCnt u n)

/-- The state after the first `k` OUT packets on endpoint `n`, packet number `i + 1`
delivering `cnt i` bytes. -/
def outRun (n : Nat) (s : State) (cnt : Nat → Nat) : Nat → State
  | 0 => s
  | k + 1 => outEvent n (outRun n s cnt k) (cnt k)

end Usbd

namespace Usbd

/-- Example state: as `exState M`, with endpoint 1 double-buffered in both directions
(buffer 0 at 0x100, buffer 1 at 0x140). -/
def exStateDb (M : Nat) : State :=
  { exState M with usbdh := { (exState M).usbdh with
      epIN := setSlot (exState M).usbdh.epIN 1
        { ((exState M).usbdh.epIN 1) with bufferStatus := USBD_EP_BUFFER_DOUBLE,
                                          pmaAddr0 := 0x100, pmaAddr1 := 0x140 },
      epOUT := setSlot (exState M).usbdh.epOUT 1
        { ((exState M).usbdh.epOUT 1) with bufferStatus := USBD_EP_BUFFER_DOUBLE,
                                           pmaAddr0 := 0x180, pmaAddr1 := 0x1C0 } } }

end Usbd

namespace Usbd

/-- Example state: as `exState M`, with `N` configured endpoints (`usbCfg.devEndpointNum`). -/
def exStateCfg (M N : Nat) : State :=
  { exState M with usbdh := { (exState M).usbdh with devEndpointNum := N } }

end Usbd

namespace Otg

/-- Number of times OUT endpoint `n` was enabled (armed). -/
def armedOut (n : Nat) (tr : List Ev) : Nat := tr.count (Ev.OutEpEnable n)

/-- Example state: as `exState M dma`, with `N` configured endpoints. -/
def exStateCfg (M dma N : Nat) : State :=
  { exState M dma with usbdh := { (exState M dma).usbdh with
      usbCfg := { (exState M dma).usbdh.usbCfg with devEndpointNum := N } } }

end Otg

namespace Usbd

/-- The controller has received a SETUP packet on endpoint 0: the `cnt` bytes
`pkt 0 .. pkt (cnt - 1)` are in packet memory at the EP0 OUT buffer, the RX count slot reports
`cnt`, the correct-transfer RX flag and the SETUP bit are raised, the RX status falls back to
NAK, and the event (0, direction 1) is queued. -/
def hwSetupComplete (s : State) (pkt : Nat → Nat) (cnt : Nat) : State :=
  { s with usbGlobal := { s.usbGlobal with
      EP := setSlot s.usbGlobal.EP 0
        { s.usbGlobal.EP 0 with ctfr := true, setup := true,
                                rxStatus := USBD_EP_STATUS_NAK, rxCnt := cnt },
      pma := copyCells s.usbGlobal.pma pkt (s.usbdh.epOUT 0).pmaAddr 0 cnt,
      ctrPending := s.usbGlobal.ctrPending ++ [(0, 1)] } }

/-- Reception of a SETUP packet of `cnt` bytes on endpoint 0, served by
`USBD_EP_CTRHandler`. -/
def setupEvent (s : State) (pkt : Nat → Nat) (cnt : Nat) : State :=
  USBD_EP_CTRHandler (hwSetupComplete s pkt cnt)

/-- Number of `USBD_SetupStageCallback` invocations. -/
def setupCallbacks (tr : List Ev) : Nat := tr.count Ev.SetupStageCallback

end Usbd

namespace Otg

/-- `USBD_EP_OutXferHandler` (source lines 1492-1542).  `xferSize` is the `uint8_t` copy of
`DOEPTRS_B.EPTRS`. -/
def USBD_EP_OutXferHandler (s : State) (epNum : Nat) : State :=
  let setupStatus := (s.hw.EP_OUT epNum).intSETPCMP
  let rxOutDisStatus := (s.hw.EP_OUT epNum).intRXOTDIS
  let xferSize := (s.hw.EP_OUT epNum).EPTRS % 2 ^ 8
  if s.usbdh.usbCfg.dmaStatus = DISABLE then
    let s :=
      if epNum = 0 ∧ (s.usbdh.epOUT epNum).bufLen = 0 then
        USBD_EP0_OutHandler s DISABLE s.usbdh.setupAddr
      else s
    USBD_DataOutStageCallback s epNum
  else
    if setupStatus then s
    else if rxOutDisStatus then updOut s epNum (fun q => { q with intRXOTDIS := true })
    else if (setupStatus || rxOutDisStatus) = false then
      let ep := s.usbdh.epOUT epNum
      let ep := { ep with bufCount := sub32 ep.mps xferSize }
      let ep := { ep with buffer := add32 ep.buffer ep.mps }
      let s := setEp s (EpRef.epOUT epNum) ep
      let s :=
        if epNum = 0 ∧ (s.usbdh.epOUT epNum).bufLen = 0 then
          USBD_EP0_OutHandler s ENABLE s.usbdh.setupAddr
        else s
      USBD_DataOutStageCallback s epNum
    else s

end Otg

namespace Usbd

/-- Modelled from the spec: absent function `USBD_ConfigEP` (apm32f10x_usb.c); pushes the
descriptor to hardware.  The call is recorded with the descriptor's number, direction, type
and max packet size; the descriptor itself is only read. -/
def USBD_ConfigEP (s : State) (r : EpRef) : State :=
  logEv s (Ev.ConfigEP (getEp s r).epNum (getEp s r).epDir (getEp s r).epType (getEp s r).mps)

/-- `USBD_EP_Open` of the USB_DEVICE build (source lines 113-151). -/
def USBD_EP_Open (s : State) (epAddr epType epMps : Nat) : State :=
  let epAddrTemp := epAddr &&& 0x0F
  let s :=
    if epAddr &&& 0x80 = 0x80 then
      let ep := s.usbdh.epIN epAddrTemp
      let ep := { ep with epDir := EP_DIR_IN }
      let ep := { ep with epNum := epAddrTemp, epType := epType, mps := epMps }
      let ep := { ep with txFifoNum := ep.epNum }
      setEp s (EpRef.epIN epAddrTemp) ep
    else
      let ep := s.usbdh.epOUT epAddrTemp
      let ep := { ep with epDir := EP_DIR_OUT }
      let ep := { ep with epNum := epAddrTemp, epType := epType, mps := epMps }
      setEp s (EpRef.epOUT epAddrTemp) ep
  let s :=
    if epType = EP_TYPE_BULK then
      setEp s (EpRef.epIN epAddrTemp) { (s.usbdh.epIN epAddrTemp) with dataPID := 0 }
    else s
  if epAddr &&& 0x80 = 0x80 then USBD_ConfigEP s (EpRef.epIN epAddrTemp)
  else USBD_ConfigEP s (EpRef.epOUT epAddrTemp)

/-- Example state: as `exState M`, with `dataPID = 1` in both descriptors of endpoint 1. -/
def exStatePid (M : Nat) : State :=
  { exState M with usbdh := { (exState M).usbdh with
      epIN := setSlot (exState M).usbdh.epIN 1
        { ((exState M).usbdh.epIN 1) with dataPID := 1 },
      epOUT := setSlot (exState M).usbdh.epOUT 1
        { ((exState M).usbdh.epOUT 1) with dataPID := 1 } } }

end Usbd

namespace Otg

/-- Modelled from the spec: absent function `USB_OTG_D_ConfigEP`; pushes the descriptor to
hardware.  The call is recorded with the descriptor's number, direction, type and max packet
size; the descriptor itself is only read. -/
def USB_OTG_D_ConfigEP (s : State) (r : EpRef) : State :=
  logEv s (Ev.ConfigEP (getEp s r).epNum (getEp s r).epDir (getEp s r).epType (getEp s r).mps)

/-- `USBD_EP_Open` of the USB_OTG build (source lines 2718-2756). -/
def USBD_EP_Open (s : State) (epAddr epType epMps : Nat) : State :=
  let epAddrTemp := epAddr &&& 0x0F
  let s :=
    if epAddr &&& 0x80 = 0x80 then
      let ep := s.usbdh.epIN epAddrTemp
      let ep := { ep with epDir := EP_DIR_IN }
      let ep := { ep with epNum := epAddrTemp, epType := epType, mps := epMps }
      let ep := { ep with txFifoNum := ep.epNum }
      setEp s (EpRef.epIN epAddrTemp) ep
    else
      let ep := s.usbdh.epOUT epAddrTemp
      let ep := { ep with epDir := EP_DIR_OUT }
      let ep := { ep with epNum := epAddrTemp, epType := epType, mps := epMps }
      setEp s (EpRef.epOUT epAddrTemp) ep
  let s :=
    if epType = EP_TYPE_BULK then
      setEp s (EpRef.epIN epAddrTemp) { (s.usbdh.epIN epAddrTemp) with dataPID := 0 }
    else s
  if epAddr &&& 0x80 = 0x80 then USB_OTG_D_ConfigEP s (EpRef.epIN epAddrTemp)
  else USB_OTG_D_ConfigEP s (EpRef.epOUT epAddrTemp)

/-- Example state: as `exState M dma`, with `dataPID = 1` in both descriptors of endpoint 1. -/
def exStatePid (M dma : Nat) : State :=
  { exState M dma with usbdh := { (exState M dma).usbdh with
      epIN := setSlot (exState M dma).usbdh.epIN 1
        { ((exState M dma).usbdh.epIN 1) with dataPID := 1 },
      epOUT := setSlot (exState M dma).usbdh.epOUT 1
        { ((exState M dma).usbdh.epOUT 1) with dataPID := 1 } } }

end Otg

namespace Usbd

/-! ### Interrupt dispatch (USB_DEVICE build)

The interrupt flags are the enumerators `USBD_INT_*` of the absent header apm32f10x_usb.h;
only their being pairwise different matters below. -/

/-- Modelled from the spec: absent enumerator `USBD_INT_CTR` (correct transfer). -/
def USBD_INT_CTR : Nat := 0x8000

/-- Modelled from the spec: absent enumerator `USBD_INT_PMAOU` (packet memory overflow). -/
def USBD_INT_PMAOU : Nat := 0x4000

/-- Modelled from the spec: absent enumerator `USBD_INT_ERR` (failure of transfer). -/
def USBD_INT_ERR : Nat := 0x2000

/-- Modelled from the spec: absent enumerator `USBD_INT_WKUP` (wakeup request). -/
def USBD_INT_WKUP : Nat := 0x1000

/-- Modelled from the spec: absent enumerator `USBD_INT_SUS` (suspend request). -/
def USBD_INT_SUS : Nat := 0x0800

/-- Modelled from the spec: absent enumerator `USBD_INT_RST` (bus reset). -/
def USBD_INT_RST : Nat := 0x0400

/-- Modelled from the spec: absent enumerator `USBD_INT_SOF` (start of frame). -/
def USBD_INT_SOF : Nat := 0x0200

/-- Modelled from the spec: absent enumerator `USBD_INT_ESOF` (expected start of frame). -/
def USBD_INT_ESOF : Nat := 0x0100

/-- Modelled from the spec: absent macro `USBD_ReadIntFlag`; the interrupt status bit. -/
def USBD_ReadIntFlag (s : State) (flag : Nat) : Bool :=
  if flag = USBD_INT_CTR then !s.usbGlobal.ctrPending.isEmpty
  else if flag = USBD_INT_PMAOU then s.usbGlobal.intPMAOU
  else if flag = USBD_INT_ERR then s.usbGlobal.intERR
  else if flag = USBD_INT_WKUP then s.usbGlobal.intWKUP
  else if flag = USBD_INT_SUS then s.usbGlobal.intSUS
  else if flag = USBD_INT_RST then s.usbGlobal.intRST
  else if flag = USBD_INT_SOF then s.usbGlobal.intSOF
  else if flag = USBD_INT_ESOF then s.usbGlobal.intESOF
  else false

/-- Modelled from the spec: absent macro `USBD_ClearIntFlag`; clears the interrupt status
bit. -/
def USBD_ClearIntFlag (s : State) (flag : Nat) : State :=
  logEv
    { s with usbGlobal :=
        if flag = USBD_INT_PMAOU then { s.usbGlobal with intPMAOU := false }
        else if flag = USBD_INT_ERR then { s.usbGlobal with intERR := false }
        else if flag = USBD_INT_WKUP then { s.usbGlobal with intWKUP := false }
        else if flag = USBD_INT_SUS then { s.usbGlobal with intSUS := false }
        else if flag = USBD_INT_RST then { s.usbGlobal with intRST := false }
        else if flag = USBD_INT_SOF then { s.usbGlobal with intSOF := false }
        else if flag = USBD_INT_ESOF then { s.usbGlobal with intESOF := false }
        else s.usbGlobal }
    (Ev.ClearIntFlag flag)

/-- The reset value of an endpoint register: flags, toggles, kind and both status fields
clear.  The count slots are in packet memory and keep their value. -/
def epRegReset (r : EpReg) : EpReg :=
  { r with ctfr := false, rxdtog := false, rxStatus := 0, setup := false, kind := false,
           ctft := false, txdtog := false, txStatus := 0 }

/-- Writing the register value `b` back to an endpoint register: flags, toggles, kind and both
status fields are those of `b`. -/
def epRegRestore (cur b : EpReg) : EpReg :=
  { cur with ctfr := b.ctfr, rxdtog := b.rxdtog, rxStatus := b.rxStatus, setup := b.setup,
             kind := b.kind, ctft := b.ctft, txdtog := b.txdtog, txStatus := b.txStatus }

/-- Modelled from the spec: absent macro `USBD_SetForceReset`; sets the force-reset bit.  The
controller is then in reset: its endpoint registers fall to their reset value. -/
def USBD_SetForceReset (s : State) : State :=
  { s with usbGlobal := { s.usbGlobal with
      FORRST := true, EP := fun i => epRegReset (s.usbGlobal.EP i) } }

/-- Modelled from the spec: absent macro `USBD_ResetForceReset`; clears the force-reset bit. -/
def USBD_ResetForceReset (s : State) : State :=
  { s with usbGlobal := { s.usbGlobal with FORRST := false } }

/-- Modelled from the spec: absent macro `USBD_SetForceSuspend`; sets the force-suspend bit. -/
def USBD_SetForceSuspend (s : State) : State :=
  { s with usbGlobal := { s.usbGlobal with FORSUS := true } }

/-- Modelled from the spec: absent macro `USBD_ResetForceSuspend`; clears the force-suspend
bit. -/
def USBD_ResetForceSuspend (s : State) : State :=
  { s with usbGlobal := { s.usbGlobal with FORSUS := false } }

/-- Modelled from the spec: absent macro `USBD_SetLowerPowerMode`; sets the low-power bit. -/
def USBD_SetLowerPowerMode (s : State) : State :=
  { s with usbGlobal := { s.usbGlobal with LPWREN := true } }

/-- Modelled from the spec: absent macro `USBD_ResetLowerPowerMode`; clears the low-power
bit. -/
def USBD_ResetLowerPowerMode (s : State) : State :=
  { s with usbGlobal := { s.usbGlobal with LPWREN := false } }

/-- The controller between two polls of the reset flag: it raises the flag if the oracle says
so for this poll. -/
def pollRST (s : State) : State :=
  { s with usbGlobal := { s.usbGlobal with
      intRST := s.usbGlobal.intRST || s.usbGlobal.rstRaise s.usbGlobal.rstPolls,
      rstPolls := s.usbGlobal.rstPolls + 1 } }

/-- The loop `while (USBD_ReadIntFlag(.., USBD_INT_RST) == RESET);` of `USBD_SuspendHandler`,
with at most `fuel` reads of the flag. -/
def waitRST : Nat → State → Option State
  | 0, _ => none
  | fuel + 1, s =>
      if USBD_ReadIntFlag s USBD_INT_RST = false then waitRST fuel (pollRST s) else some s

/-- `USBD_SuspendHandler` (source lines 1229-1257); `fuel` bounds the reads of the wait
loop. -/
def USBD_SuspendHandler (fuel : Nat) (s : State) : Option State :=
  let backupEP := s.usbGlobal.EP
  let s := USBD_SetForceReset s
  let s := USBD_ResetForceReset s
  match waitRST fuel s with
  | none => none
  | some s =>
      let s := USBD_ClearIntFlag s USBD_INT_RST
      let s := { s with usbGlobal := { s.usbGlobal with
                   EP := fun i => if i < 8 then epRegRestore (s.usbGlobal.EP i) (backupEP i)
                                  else s.usbGlobal.EP i } }
      let s := USBD_SetForceSuspend s
      let s := USBD_ClearIntFlag s USBD_INT_SUS
      some (USBD_SetLowerPowerMode s)

/-- The part of `USBD_IsrHandler` before the suspend test (source lines 1385-1420). -/
def isrBeforeSuspend (s : State) : State :=
  let s := if USBD_ReadIntFlag s USBD_INT_CTR then USBD_EP_CTRHandler s else s
  let s :=
    if USBD_ReadIntFlag s USBD_INT_RST then
      let s := USBD_ClearIntFlag s USBD_INT_RST
      let s := USBD_EnumDoneCallback s
      USBD_SetDevAddress s 0x00
    else s
  let s := if USBD_ReadIntFlag s USBD_INT_PMAOU then USBD_ClearIntFlag s USBD_INT_PMAOU else s
  let s := if USBD_ReadIntFlag s USBD_INT_ERR then USBD_ClearIntFlag s USBD_INT_ERR else s
  if USBD_ReadIntFlag s USBD_INT_WKUP then
    let s := USBD_ResetLowerPowerMode s
    let s := USBD_ResetForceSuspend s
    let s := USBD_ResumeCallback s
    USBD_ClearIntFlag s USBD_INT_WKUP
  else s

/-- The part of `USBD_IsrHandler` after the suspend handling (source lines 1430-1445). -/
def isrAfterSuspend (s : State) : State :=
  let s :=
    if USBD_ReadIntFlag s USBD_INT_SOF then USBD_SOFCallback (USBD_ClearIntFlag s USBD_INT_SOF)
    else s
  if USBD_ReadIntFlag s USBD_INT_ESOF then USBD_ClearIntFlag s USBD_INT_ESOF else s

/-- `USBD_IsrHandler` (source lines 1383-1446); `fuel` bounds the reads of the wait loop of
`USBD_SuspendHandler`. -/
def USBD_IsrHandler (fuel : Nat) (s : State) : Option State :=
  let s := isrBeforeSuspend s
  if USBD_ReadIntFlag s USBD_INT_SUS then
    match USBD_SuspendHandler fuel s with
    | none => none
    | some s => some (isrAfterSuspend (USBD_SuspendCallback s))
  else some (isrAfterSuspend s)

/-- Number of `USBD_EnumDoneCallback` invocations. -/
def enumDoneCallbacks (tr : List Ev) : Nat := tr.count Ev.EnumDoneCallback

end Usbd
namespace Usbd

/-- The trace entries made by endpoint handling: packet-memory and endpoint-register accesses,
the address write, and the SETUP / data-stage callbacks. -/
def isEndpointEv : Ev → Bool
  | Ev.WritePacketData _ _ _ => true
  | Ev.ReadPacketData _ _ => true
  | Ev.SetTxCnt _ _ => true
  | Ev.SetRxCnt _ _ => true
  | Ev.SetBuffer0TxCnt _ _ => true
  | Ev.SetBuffer0RxCnt _ _ => true
  | Ev.SetTxStatus _ _ => true
  | Ev.SetRxStatus _ _ => true
  | Ev.SetKind _ => true
  | Ev.ResetKind _ => true
  | Ev.ToggleTx _ => true
  | Ev.ToggleRx _ => true
  | Ev.ResetTxToggle _ => true
  | Ev.ResetRxToggle _ => true
  | Ev.ResetTxFlag _ => true
  | Ev.ResetRxFlag _ => true
  | Ev.SetDeviceAddr _ => true
  | Ev.Enable => true
  | Ev.SetupStageCallback => true
  | Ev.DataInStageCallback _ => true
  | Ev.DataOutStageCallback _ => true
  | _ => false

/-- The part of the state that endpoint handling never touches: the interrupt flags other
than correct-transfer, the force-reset, force-suspend and low-power bits, the reset-poll
oracle, and the trace entries that are not made by endpoint handling. -/
structure IsrView where
  intRST : Bool
  intPMAOU : Bool
  intERR : Bool
  intWKUP : Bool
  intSUS : Bool
  intSOF : Bool
  intESOF : Bool
  FORRST : Bool
  FORSUS : Bool
  LPWREN : Bool
  rstRaise : Nat → Bool
  rstPolls : Nat
  events : List Ev

/-- The view of a state. -/
def isrView (s : State) : IsrView :=
  { intRST := s.usbGlobal.intRST, intPMAOU := s.usbGlobal.intPMAOU,
    intERR := s.usbGlobal.intERR, intWKUP := s.usbGlobal.intWKUP,
    intSUS := s.usbGlobal.intSUS, intSOF := s.usbGlobal.intSOF,
    intESOF := s.usbGlobal.intESOF, FORRST := s.usbGlobal.FORRST,
    FORSUS := s.usbGlobal.FORSUS, LPWREN := s.usbGlobal.LPWREN,
    rstRaise := s.usbGlobal.rstRaise, rstPolls := s.usbGlobal.rstPolls,
    events := s.trace.filter (fun e => !isEndpointEv e) }

end Usbd
namespace Usbd

/-- What a bus reset settles and the later parts of a dispatch pass keep: the reset flag, the
pending address, the address register and the number of `USBD_EnumDoneCallback` calls;
together with the suspend flag and the reset-poll oracle. -/
def rstView (s : State) : (Bool × Nat × Nat × Nat) × (Bool × (Nat → Bool) × Nat) :=
  ((s.usbGlobal.intRST, s.usbdh.address, s.usbGlobal.ADDR, enumDoneCallbacks s.trace),
   (s.usbGlobal.intSUS, s.usbGlobal.rstRaise, s.usbGlobal.rstPolls))

end Usbd
namespace Usbd

/-- Example state: as `exState M`, with address 5 pending in the handle and programmed in the
address register, and the bus-reset and suspend causes pending. -/
def exStateReset (M : Nat) : State :=
  { exState M with
    usbdh := { (exState M).usbdh with address := 5 },
    usbGlobal := { hwZero with ADDR := 5, intRST := true, intSUS := true } }

end Usbd

namespace Usbd

/-- The refills of the two packet buffers of IN endpoint `n` recorded in a trace, in order:
0 for a write of the "Buffer0" count (`USBD_EP_SetTxCnt`), 1 for a write of the "Buffer1"
count (`USBD_EP_SetBuffer0TxCnt`). -/
def refillSeq (n : Nat) (tr : List Ev) : List Nat :=
  tr.filterMap (fun e => match e with
    | Ev.SetTxCnt ep _ => if ep = n then some 0 else none
    | Ev.SetBuffer0TxCnt ep _ => if ep = n then some 1 else none
    | _ => none)

/-- The descriptor and the fill length after `USBD_EP_DB_Transmit` has accounted for an
acknowledged packet of `cnt` bytes, when data remains and refilling is enabled (the source
fragment from `ep->bufLen -= cnt` to the choice of `length`). -/
def dbAfterAck (ep : USBD_ENDPOINT_INFO_T) (cnt : Nat) : USBD_ENDPOINT_INFO_T × Nat :=
  dbRefillLength
    { ep with bufLen := ep.bufLen - cnt, buffer := add32 ep.buffer cnt,
              bufCount := add32 ep.bufCount cnt } cnt

end Usbd

namespace Otg

/-- Number of `USB_OTG_D_DisableInEpEmptyInterrupt(.., n)` calls. -/
def emptyIntDisables (n : Nat) (tr : List Ev) : Nat := tr.count (Ev.DisableInEpEmptyInterrupt n)

/-- The packet lengths `pk`, written one after the other starting with `c` bytes of a
transfer of `L` bytes already counted, are each the smaller of the bytes then remaining and
`M`. -/
def cutPackets (L M : Nat) : Nat → List Nat → Prop
  | _, [] => True
  | c, p :: ps => p = min (L - c) M ∧ cutPackets L M (c + p) ps

end Otg

namespace Usbd

/-- Modelled from the spec: absent function `USBD_ResetEP` (apm32f10x_usb.c); resets the
hardware-side toggle and buffer state of the endpoint.  The call is recorded with the
descriptor's number and direction; the descriptor itself is only read. -/
def USBD_ResetEP (s : State) (r : EpRef) : State :=
  logEv s (Ev.ResetEP (getEp s r).epNum (getEp s r).epDir)

/-- `USBD_EP_Close` of the USB_DEVICE build (source lines 162-183). -/
def USBD_EP_Close (s : State) (epAddr : Nat) : State :=
  let epAddrTemp := epAddr &&& 0x0F
  let s :=
    if epAddr &&& 0x80 = 0x80 then
      setEp s (EpRef.epIN epAddrTemp) { (s.usbdh.epIN epAddrTemp) with epDir := EP_DIR_IN }
    else
      setEp s (EpRef.epOUT epAddrTemp) { (s.usbdh.epOUT epAddrTemp) with epDir := EP_DIR_OUT }
  if epAddr &&& 0x80 = 0x80 then USBD_ResetEP s (EpRef.epIN epAddrTemp)
  else USBD_ResetEP s (EpRef.epOUT epAddrTemp)

end Usbd

namespace Otg

/-- Modelled from the spec: absent function `USB_OTG_D_ResetEP`; resets the hardware-side
state of the endpoint.  The call is recorded with the descriptor's number and direction; the
descriptor itself is only read. -/
def USB_OTG_D_ResetEP (s : State) (r : EpRef) : State :=
  logEv s (Ev.ResetEP (getEp s r).epNum (getEp s r).epDir)

/-- `USBD_EP_Close` of the USB_OTG build (source lines 2767-2788). -/
def USBD_EP_Close (s : State) (epAddr : Nat) : State :=
  let epAddrTemp := epAddr &&& 0x0F
  let s :=
    if epAddr &&& 0x80 = 0x80 then
      setEp s (EpRef.epIN epAddrTemp) { (s.usbdh.epIN epAddrTemp) with epDir := EP_DIR_IN }
    else
      setEp s (EpRef.epOUT epAddrTemp) { (s.usbdh.epOUT epAddrTemp) with epDir := EP_DIR_OUT }
  if epAddr &&& 0x80 = 0x80 then USB_OTG_D_ResetEP s (EpRef.epIN epAddrTemp)
  else USB_OTG_D_ResetEP s (EpRef.epOUT epAddrTemp)

end Otg

/-- A `for (i = 0; i < n; i++)` loop whose counter `i` is a `uint8_t`: with `n ≤ 255` the
body runs for `i = 0, .., n - 1`; with a larger bound the counter wraps around before it
reaches the bound and the loop never ends (`none`). -/
def forUint8 {σ : Type} (n : Nat) (body : Nat → σ → σ) (s : σ) : Option σ :=
  if n ≤ 255 then some ((List.range n).foldl (fun s i => body i s) s) else none

namespace Usbd

/-- The body of the `for` loop of `USBD_Config` (source lines 1330-1348). -/
def configEndpoint (i : Nat) (s : State) : State :=
  let s := setEp s (EpRef.epOUT i)
    { (s.usbdh.epOUT i) with
        epNum := i,
        epDir := EP_DIR_OUT,
        epType := EP_TYPE_CONTROL,
        mps := 0,
        buffer := 0,
        bufLen := 0 }
  setEp s (EpRef.epIN i)
    { (s.usbdh.epIN i) with
        epNum := i,
        epDir := EP_DIR_IN,
        txFifoNum := i,
        epType := EP_TYPE_CONTROL,
        mps := 0,
        buffer := 0,
        bufLen := 0 }

/-- The statements of `USBD_Config` after the `for` loop (source lines 1350-1361).  `bufftb`
is the value of the absent macro `USBD_BUFFTB_ADDR`.  The word writes `CTRL = 0` and
`INTSTS = 0` clear the control bits and the interrupt status bits the model holds. -/
def configGlobal (bufftb : Nat) (s : State) : State :=
  let s := { s with usbdh := { s.usbdh with address := 0 } }
  let s := USBD_SetForceSuspend s
  let s := { s with usbGlobal := { s.usbGlobal with
      CTRL := 0,
      FORRST := false,
      FORSUS := false,
      LPWREN := false,
      PWRDOWN := false } }
  let s := { s with usbGlobal := { s.usbGlobal with
      intRST := false,
      intPMAOU := false,
      intERR := false,
      intWKUP := false,
      intSUS := false,
      intSOF := false,
      intESOF := false } }
  { s with usbGlobal := { s.usbGlobal with BUFFTB := bufftb } }

/-- `USBD_Config` of the USB_DEVICE build (source lines 1325-1362). -/
def USBD_Config (bufftb : Nat) (s : State) : Option State :=
  (forUint8 s.usbdh.devEndpointNum configEndpoint s).map (configGlobal bufftb)

end Usbd

namespace Otg

/-- Weak `USBD_ResumeCallback`: empty body; the call is recorded. -/
def USBD_ResumeCallback (s : State) : State := logEv s Ev.ResumeCallback

/-- Weak `USBD_SuspendCallback`: empty body; the call is recorded. -/
def USBD_SuspendCallback (s : State) : State := logEv s Ev.SuspendCallback

/-- Weak `USBD_EnumDoneCallback`: empty body; the call is recorded. -/
def USBD_EnumDoneCallback (s : State) : State := logEv s Ev.EnumDoneCallback

/-- Weak `USBD_SOFCallback`: empty body; the call is recorded. -/
def USBD_SOFCallback (s : State) : State := logEv s Ev.SOFCallback

/-- Weak `USBD_IsoInInCompleteCallback`: empty body; the call is recorded. -/
def USBD_IsoInInCompleteCallback (s : State) (epNum : Nat) : State :=
  logEv s (Ev.IsoInInCompleteCallback epNum)

/-- Weak `USBD_IsoOutInCompleteCallback`: empty body; the call is recorded. -/
def USBD_IsoOutInCompleteCallback (s : State) (epNum : Nat) : State :=
  logEv s (Ev.IsoOutInCompleteCallback epNum)

/-- Weak `USBD_ConnectCallback`: empty body; the call is recorded. -/
def USBD_ConnectCallback (s : State) : State := logEv s Ev.ConnectCallback

/-- Weak `USBD_DisconnectCallback`: empty body; the call is recorded. -/
def USBD_DisconnectCallback (s : State) : State := logEv s Ev.DisconnectCallback

/-- Modelled from the spec: absent function `USB_OTG_ReadGlobalIntFlag`; whether the cause is
pending. -/
def USB_OTG_ReadGlobalIntFlag (s : State) (f : GInt) : Bool := s.hw.gint f

/-- Modelled from the spec: absent function `USB_OTG_ClearGlobalIntFlag`; clears the pending
cause. -/
def USB_OTG_ClearGlobalIntFlag (s : State) (f : GInt) : State :=
  logEv { s with hw := { s.hw with gint := fun g => if g = f then false else s.hw.gint g } }
    (Ev.ClearGlobalIntFlag f)

/-- Modelled from the spec: absent function `USB_OTG_EnableGlobalInterrupt`; sets the enable
of the cause. -/
def USB_OTG_EnableGlobalInterrupt (s : State) (f : GInt) : State :=
  logEv { s with hw := { s.hw with GINTMASK := fun g => if g = f then true else s.hw.GINTMASK g } }
    (Ev.EnableGlobalInterrupt f)

/-- Modelled from the spec: absent function `USB_OTG_DisableGlobalInterrupt`; clears the
enable of the cause. -/
def USB_OTG_DisableGlobalInterrupt (s : State) (f : GInt) : State :=
  logEv { s with hw := { s.hw with GINTMASK := fun g => if g = f then false else s.hw.GINTMASK g } }
    (Ev.DisableGlobalInterrupt f)

/-- The statement `usbGlobal->GINTMASK |= f`. -/
def orGINTMASK (s : State) (f : GInt) : State :=
  { s with hw := { s.hw with GINTMASK := fun g => if g = f then true else s.hw.GINTMASK g } }

/-- All causes of the global interrupt. -/
def allGInt : List GInt :=
  [GInt.MMIS, GInt.RXFNONE, GInt.ONEP, GInt.INEP, GInt.USBRST, GInt.RWAKE, GInt.USBSUS,
   GInt.ENUMD, GInt.SOF, GInt.IIINTX, GInt.IP_OUTTX, GInt.SREQ, GInt.OTG]

/-- Modelled from the spec: absent function `USB_OTG_ReadInterrupts`; `true` when its result
is not zero, that is when some enabled cause is pending. -/
def USB_OTG_ReadInterrupts (s : State) : Bool :=
  allGInt.any (fun f => s.hw.gint f && s.hw.GINTMASK f)

/-- Modelled from the spec: absent function `USB_OTG_PopRxFifoStatus`; removes and returns the
oldest status entry of the RxFIFO (a zero entry of packet status `other` when none is
queued). -/
def USB_OTG_PopRxFifoStatus (s : State) : RxStatus × State :=
  match s.hw.rxFifo with
  | [] => ({ epNum := 0, byteCount := 0, packetStatus := PktSts.other },
           logEv s Ev.PopRxFifoStatus)
  | e :: rest => (e, logEv { s with hw := { s.hw with rxFifo := rest } } Ev.PopRxFifoStatus)

/-- Modelled from the spec: absent function `USB_OTG_FIFO_ReadRxFifoPacket`; pops `len` bytes
from the RxFIFO into memory at `buf`.  The call is recorded; the bytes moved are not part of
the model. -/
def USB_OTG_FIFO_ReadRxFifoPacket (s : State) (buf len : Nat) : State :=
  logEv s (Ev.ReadRxFifoPacket buf len)

/-- `USBD_RxFifoNoEmptyIsrHandler` (source lines 1960-2014).  `epNum` and `byteCount` are the
4-bit and 11-bit fields of the status entry. -/
def USBD_RxFifoNoEmptyIsrHandler (s : State) : State :=
  let s := USB_OTG_DisableGlobalInterrupt s GInt.RXFNONE
  let fifoStatus := (USB_OTG_PopRxFifoStatus s).1
  let s := (USB_OTG_PopRxFifoStatus s).2
  let epNum := fifoStatus.epNum % 2 ^ 4
  let packetStatus := fifoStatus.packetStatus
  let packetCnt := fifoStatus.byteCount % 2 ^ 11
  let s :=
    if packetStatus = PktSts.REV_DATA_OUT_PKT then
      if packetCnt ≠ 0 ∧ (s.usbdh.epOUT epNum).buffer ≠ 0 then
        let s := USB_OTG_FIFO_ReadRxFifoPacket s (s.usbdh.epOUT epNum).buffer packetCnt
        setEp s (EpRef.epOUT epNum)
          { (s.usbdh.epOUT epNum) with
              buffer := add32 (s.usbdh.epOUT epNum).buffer packetCnt,
              bufCount := add32 (s.usbdh.epOUT epNum).bufCount packetCnt }
      else s
    else if packetStatus = PktSts.REV_SETUP_PKT then
      let s := USB_OTG_FIFO_ReadRxFifoPacket s s.usbdh.setupAddr 8
      setEp s (EpRef.epOUT epNum)
        { (s.usbdh.epOUT epNum) with
            bufCount := add32 (s.usbdh.epOUT epNum).bufCount packetCnt }
    else s
  USB_OTG_EnableGlobalInterrupt s GInt.RXFNONE

/-- Modelled from the spec: absent function `USB_OTG_D_ReadOutEpIntStatus`; the interrupt
status bit of the OUT endpoint. -/
def USB_OTG_D_ReadOutEpIntStatus (s : State) (epNum : Nat) : OutFlag → Bool
  | OutFlag.TSFCMP => (s.hw.EP_OUT epNum).intTSFCMP
  | OutFlag.SETPCMP => (s.hw.EP_OUT epNum).intSETPCMP
  | OutFlag.RXOTDIS => (s.hw.EP_OUT epNum).intRXOTDIS
  | OutFlag.EPDIS => (s.hw.EP_OUT epNum).intEPDIS
  | OutFlag.RXBSP => (s.hw.EP_OUT epNum).intRXBSP

/-- Modelled from the spec: absent function `USB_OTG_D_ClearOutEpIntStatus`; clears the
interrupt status bit of the OUT endpoint. -/
def USB_OTG_D_ClearOutEpIntStatus (s : State) (epNum : Nat) (f : OutFlag) : State :=
  logEv (updOut s epNum (fun r =>
    match f with
    | OutFlag.TSFCMP => { r with intTSFCMP := false }
    | OutFlag.SETPCMP => { r with intSETPCMP := false }
    | OutFlag.RXOTDIS => { r with intRXOTDIS := false }
    | OutFlag.EPDIS => { r with intEPDIS := false }
    | OutFlag.RXBSP => { r with intRXBSP := false })) (Ev.ClearOutEpIntStatus epNum f)

/-- The source fragment `if (USB_OTG_D_ReadOutEpIntStatus(.., f)) USB_OTG_D_ClearOutEpIntStatus(.., f);`. -/
def clearOutIfSet (s : State) (epNum : Nat) (f : OutFlag) : State :=
  if USB_OTG_D_ReadOutEpIntStatus s epNum f then USB_OTG_D_ClearOutEpIntStatus s epNum f else s

/-- `USBD_EP_OutSetupHandler` (source lines 1553-1558). -/
def USBD_EP_OutSetupHandler (s : State) (_epNum : Nat) : State := USBD_SetupStageCallback s

/-- The body of the `for` loop of `USBD_OutEndpointIsrHandler` for an endpoint whose
interrupt bit is set (source lines 2040-2081). -/
def outEpBody (s : State) (epNum : Nat) : State :=
  let s :=
    if USB_OTG_D_ReadOutEpIntStatus s epNum OutFlag.TSFCMP then
      USBD_EP_OutXferHandler (USB_OTG_D_ClearOutEpIntStatus s epNum OutFlag.TSFCMP) epNum
    else s
  let s :=
    if USB_OTG_D_ReadOutEpIntStatus s epNum OutFlag.SETPCMP then
      USBD_EP_OutSetupHandler (USB_OTG_D_ClearOutEpIntStatus s epNum OutFlag.SETPCMP) epNum
    else s
  let s := clearOutIfSet s epNum OutFlag.RXOTDIS
  let s := clearOutIfSet s epNum OutFlag.EPDIS
  clearOutIfSet s epNum OutFlag.RXBSP

/-- The `for (epNum = 0; epNum < 16; epNum++)` loop of `USBD_OutEndpointIsrHandler`, with
`k` passes left. -/
def outEpLoop (epIntBits : Nat) : Nat → Nat → State → State
  | 0, _, s => s
  | k + 1, epNum, s =>
      if epIntBits >>> epNum = 0 then s
      else if (epIntBits >>> epNum) &&& 0x01 ≠ 0 then
        outEpLoop epIntBits k (epNum + 1) (outEpBody s epNum)
      else outEpLoop epIntBits k (epNum + 1) s

/-- `USBD_OutEndpointIsrHandler` (source lines 2023-2085). -/
def USBD_OutEndpointIsrHandler (s : State) : State :=
  outEpLoop (s.hw.outEpIntBits % 2 ^ 16) 16 0 s

/-- Modelled from the spec: absent function `USB_OTG_D_DisableRemoteWakeupSignal`; the call is
recorded. -/
def USB_OTG_D_DisableRemoteWakeupSignal (s : State) : State :=
  logEv s Ev.DisableRemoteWakeupSignal

/-- Modelled from the spec: absent function `USB_OTG_FlushTxFIFO`; the call is recorded. -/
def USB_OTG_FlushTxFIFO (s : State) (num : Nat) : State := logEv s (Ev.FlushTxFIFO num)

/-- Modelled from the spec: absent function `USB_OTG_FlushRxFIFO`; empties the RxFIFO. -/
def USB_OTG_FlushRxFIFO (s : State) : State :=
  logEv { s with hw := { s.hw with rxFifo := [] } } Ev.FlushRxFIFO

/-- `USBD_ResumeIsrHandler` (source lines 2167-2178). -/
def USBD_ResumeIsrHandler (s : State) : State :=
  let s := USB_OTG_D_DisableRemoteWakeupSignal s
  let s := USBD_ResumeCallback s
  USB_OTG_ClearGlobalIntFlag s GInt.RWAKE

/-- `USBD_SuspendIsrHandler` (source lines 2187-2197). -/
def USBD_SuspendIsrHandler (s : State) : State :=
  let s := if s.hw.SUSSTS then USBD_SuspendCallback s else s
  USB_OTG_ClearGlobalIntFlag s GInt.USBSUS

/-- The writes `DOEPINT = 0xFB7F` and `DIEPINT = 0xFB7F`: every interrupt status bit of the
endpoint the model holds is cleared. -/
def clearOutEpFlags (s : State) (i : Nat) : State :=
  updOut s i (fun q =>
    { q with
        intTSFCMP := false,
        intSETPCMP := false,
        intRXOTDIS := false,
        intEPDIS := false,
        intRXBSP := false })

/-- The write `DIEPINT = 0xFB7F`. -/
def clearInEpFlags (s : State) (i : Nat) : State :=
  updIn s i (fun q =>
    { q with
        intTSFCMP := false,
        intTO := false,
        intITXEMP := false,
        intIEPNAKE := false,
        intEPDIS := false,
        intTXFE := false })

/-- The body of the `for` loop of `USBD_ResetIsrHandler` (source lines 2216-2231). -/
def resetEndpoint (i : Nat) (s : State) : State :=
  let s := updOut s i (fun q => { q with STALLH := BIT_RESET })
  let s := updOut s i (fun q => { q with NAKSET := BIT_SET })
  let s := clearOutEpFlags s i
  let s := updIn s i (fun q => { q with STALLH := BIT_RESET })
  let s := updIn s i (fun q => { q with NAKSET := BIT_SET })
  clearInEpFlags s i

/-- The statements of `USBD_ResetIsrHandler` between the `for` loop and the call of
`USBD_EP0_OutHandler` (source lines 2233-2272).  The interrupt-enable calls are to absent
functions with constant arguments; they are recorded. -/
def resetEnables (s : State) : State :=
  let s := logEv s (Ev.EnableOutEpInterruptMask USBD_EP_0)
  let s := logEv s (Ev.EnableInEpInterruptMask USBD_EP_0)
  let s :=
    if s.usbdh.usbCfg.ep1Status = ENABLE then
      logEv (logEv s Ev.EnableInEp1Interrupt) Ev.EnableOutEp1Interrupt
    else
      logEv (logEv s Ev.EnableInEpInterrupt) Ev.EnableOutEpInterrupt
  USB_OTG_D_ConfigDeviceAddress s (0x00 &&& 0x7F)

/-- The statements of `USBD_ResetIsrHandler` after the `for` loop (source lines
2233-2278). -/
def resetGlobal (s : State) : State :=
  let s := resetEnables s
  let s := USBD_EP0_OutHandler s s.usbdh.usbCfg.dmaStatus s.usbdh.setupAddr
  USB_OTG_ClearGlobalIntFlag s GInt.USBRST

/-- `USBD_ResetIsrHandler` (source lines 2206-2279). -/
def USBD_ResetIsrHandler (s : State) : Option State :=
  let s := USB_OTG_D_DisableRemoteWakeupSignal s
  let s := USB_OTG_FlushTxFIFO s 0x10
  (forUint8 s.usbdh.usbCfg.devEndpointNum resetEndpoint s).map resetGlobal

/-- Modelled from the spec: absent macro `USDB_EP0_MAXPS_64_BYTES`, the encoding of 64 bytes
in the `MAXPS` field of endpoint 0. -/
def USDB_EP0_MAXPS_64_BYTES : Nat := 0

/-- Modelled from the spec: absent enumerator `USB_SPEED_HSFSLS` of the speed setting. -/
def USB_SPEED_HSFSLS : Nat := 0

/-- Modelled from the spec: absent enumerator `USB_SPEED_FSLS` of the speed setting. -/
def USB_SPEED_FSLS : Nat := 1

/-- `USBD_EnumDoneIsrHandler` (source lines 2288-2325).  `USB_OTG_SetTurnaroundTime` is
absent; the call is recorded with the speed passed. -/
def USBD_EnumDoneIsrHandler (s : State) : State :=
  let s := updIn s 0 (fun q => { q with MAXPS := USDB_EP0_MAXPS_64_BYTES })
  let s := { s with hw := { s.hw with GINAKCLR := BIT_SET } }
  let speed :=
    if s.hw.enumSpeed = EnumSpeed.HS then USB_SPEED_HSFSLS
    else if s.hw.enumSpeed = EnumSpeed.HS_IN_FS ∨ s.hw.enumSpeed = EnumSpeed.FS then
      USB_SPEED_FSLS
    else 0xFF
  let s := { s with usbdh := { s.usbdh with usbCfg := { s.usbdh.usbCfg with speed := speed } } }
  let s := logEv s (Ev.SetTurnaroundTime s.usbdh.usbCfg.speed)
  let s := USBD_EnumDoneCallback s
  USB_OTG_ClearGlobalIntFlag s GInt.ENUMD

/-- `USBD_SofIsrHanlder` (source lines 2334-2340). -/
def USBD_SofIsrHanlder (s : State) : State :=
  USB_OTG_ClearGlobalIntFlag (USBD_SOFCallback s) GInt.SOF

/-- `USBD_IsoInInCompleteIsrHanlder` (source lines 2349-2357). -/
def USBD_IsoInInCompleteIsrHanlder (s : State) : State :=
  USB_OTG_ClearGlobalIntFlag (USBD_IsoInInCompleteCallback s 0) GInt.IIINTX

/-- `USBD_IsoOutInCompleteIsrHanlder` (source lines 2366-2374). -/
def USBD_IsoOutInCompleteIsrHanlder (s : State) : State :=
  USB_OTG_ClearGlobalIntFlag (USBD_IsoOutInCompleteCallback s 0) GInt.IP_OUTTX

/-- `USBD_NewSessionIsrHandler` (source lines 2383-2390). -/
def USBD_NewSessionIsrHandler (s : State) : State :=
  USB_OTG_ClearGlobalIntFlag (USBD_ConnectCallback s) GInt.SREQ

/-- `USBD_OTGIsrHandler` (source lines 2399-2409); writing `BIT_SET` to `SEFLG` clears it. -/
def USBD_OTGIsrHandler (s : State) : State :=
  if s.hw.SEFLG then
    let s := USBD_DisconnectCallback s
    { s with hw := { s.hw with SEFLG := false } }
  else s

/-- The branches of `USBD_OTG_IsrHandler` before the reset branch (source lines 2428-2449):
mode mismatch, RxFIFO not empty, OUT endpoints, IN endpoints. -/
def otgIsrEndpoints (fuel : Nat) (s : State) : Option State :=
  let s := if USB_OTG_ReadGlobalIntFlag s GInt.MMIS then USB_OTG_ClearGlobalIntFlag s GInt.MMIS
           else s
  let s := if USB_OTG_ReadGlobalIntFlag s GInt.RXFNONE then USBD_RxFifoNoEmptyIsrHandler s
           else s
  let s := if USB_OTG_ReadGlobalIntFlag s GInt.ONEP then USBD_OutEndpointIsrHandler s else s
  if USB_OTG_ReadGlobalIntFlag s GInt.INEP then USBD_InEndpointIsrHandler fuel s else some s

/-- The reset branch of `USBD_OTG_IsrHandler` (source lines 2451-2455). -/
def otgIsrReset (s : State) : Option State :=
  if USB_OTG_ReadGlobalIntFlag s GInt.USBRST then USBD_ResetIsrHandler s else some s

/-- The branches of `USBD_OTG_IsrHandler` after the reset branch (source lines 2457-2503). -/
def otgIsrAfterReset (s : State) : State :=
  let s := if USB_OTG_ReadGlobalIntFlag s GInt.RWAKE then USBD_ResumeIsrHandler s else s
  let s := if USB_OTG_ReadGlobalIntFlag s GInt.USBSUS then USBD_SuspendIsrHandler s else s
  let s := if USB_OTG_ReadGlobalIntFlag s GInt.ENUMD then USBD_EnumDoneIsrHandler s else s
  let s := if USB_OTG_ReadGlobalIntFlag s GInt.SOF then USBD_SofIsrHanlder s else s
  let s := if USB_OTG_ReadGlobalIntFlag s GInt.IIINTX then USBD_IsoInInCompleteIsrHanlder s
           else s
  let s := if USB_OTG_ReadGlobalIntFlag s GInt.IP_OUTTX then USBD_IsoOutInCompleteIsrHanlder s
           else s
  let s := if USB_OTG_ReadGlobalIntFlag s GInt.SREQ then USBD_NewSessionIsrHandler s else s
  if USB_OTG_ReadGlobalIntFlag s GInt.OTG then USBD_OTGIsrHandler s else s

/-- `USBD_OTG_IsrHandler` (source lines 2418-2506); `fuel` bounds the passes of each TxFIFO
write loop. -/
def USBD_OTG_IsrHandler (fuel : Nat) (s : State) : Option State :=
  if s.hw.deviceMode then
    if USB_OTG_ReadInterrupts s = false then some s
    else
      ((otgIsrEndpoints fuel s).bind otgIsrReset).map otgIsrAfterReset
  else some s

/-- One read of `delayTick` by a wait loop: the SysTick interrupts that ran since the last
read have each decremented the counter while it was not zero (`APM_DelayTickDec`). -/
def pollDelay (s : State) : State :=
  { s with hw := { s.hw with
      delayTick := s.hw.delayTick - s.hw.tickAt s.hw.tickReads,
      tickReads := s.hw.tickReads + 1 } }

/-- The loop `while (delayTick != 0);` of `APM_DelayMs`.  `fuel` bounds the number of reads;
`none` means the bound was reached with the counter still not zero. -/
def waitDelay : Nat → State → Option State
  | 0, s => if (pollDelay s).hw.delayTick ≠ 0 then none else some (pollDelay s)
  | fuel + 1, s =>
      if (pollDelay s).hw.delayTick ≠ 0 then waitDelay fuel (pollDelay s)
      else some (pollDelay s)

/-- `APM_DelayMs` (bsp_delay.c, lines 93-98). -/
def APM_DelayMs (fuel : Nat) (s : State) (nms : Nat) : Option State :=
  waitDelay fuel { s with hw := { s.hw with delayTick := (nms * 1000) % 2 ^ 32 } }

/-- The body of the first `for` loop of `USBD_Config` (source lines 2573-2590). -/
def configEndpoint (i : Nat) (s : State) : State :=
  let s := setEp s (EpRef.epOUT i)
    { (s.usbdh.epOUT i) with
        epNum := i,
        epDir := EP_DIR_OUT,
        epType := EP_TYPE_CONTROL,
        mps := 0,
        buffer := 0,
        bufLen := 0 }
  setEp s (EpRef.epIN i)
    { (s.usbdh.epIN i) with
        epNum := i,
        epDir := EP_DIR_IN,
        txFifoNum := i,
        epType := EP_TYPE_CONTROL,
        mps := 0,
        buffer := 0,
        bufLen := 0 }

/-- The body of the endpoint register loop of `USBD_Config` (source lines 2625-2665).  The
word writes `DOEPCTRL = 0`, `DOEPTRS = 0`, `DIEPCTRL = 0`, `DIEPTRS = 0` clear the fields of
these registers the model holds. -/
def configEpRegs (i : Nat) (s : State) : State :=
  let s :=
    if (s.hw.EP_OUT i).EPEN ≠ 0 then
      let s := if i ≠ 0 then updOut s i (fun q => { q with EPDIS := BIT_SET }) else s
      updOut s i (fun q => { q with NAKSET := BIT_SET })
    else
      updOut s i (fun q =>
        { q with
            STALLH := 0,
            NAKCLR := 0,
            NAKSET := 0,
            EPEN := 0,
            EPDIS := 0,
            DPIDSET := 0,
            OFSET := 0,
            USBAEP := 0 })
  let s := updOut s i (fun q => { q with EPPCNT := 0, PID_SPCNT := 0, EPTRS := 0 })
  let s := clearOutEpFlags s i
  let s :=
    if (s.hw.EP_IN i).EPEN ≠ 0 then
      let s := if i ≠ 0 then updIn s i (fun q => { q with EPDIS := BIT_SET }) else s
      updIn s i (fun q => { q with NAKSET := BIT_SET })
    else
      updIn s i (fun q =>
        { q with
            STALLH := 0,
            NAKCLR := 0,
            NAKSET := 0,
            EPEN := 0,
            EPDIS := 0,
            DPIDSET := 0,
            OFSET := 0,
            MAXPS := 0 })
  let s := updIn s i (fun q => { q with EPPCNT := 0, EPTRS := 0, TXDCNT := 0 })
  clearInEpFlags s i

/-- The statements of `USBD_Config` before the delay (source lines 2556-2559); the calls are
to absent functions and are recorded. -/
def configCore (s : State) : State := logEv (logEv s Ev.ConfigPHY) Ev.CoreReset

/-- The statements of `USBD_Config` between the delay and the descriptor loop (source lines
2563-2566). -/
def configMode (s : State) : State :=
  logEv (logEv s Ev.DisablePowerDown) (Ev.ConfigMode s.usbdh.usbCfg.mode)

/-- The statement `usbGlobal->DTXFIFO[i].word = 0` of `USBD_Config` (source line 2600). -/
def clearTxFifoWord (i : Nat) (s : State) : State :=
  { s with hw := { s.hw with DTXFIFO := setSlot s.hw.DTXFIFO i 0 } }

/-- The statements of `USBD_Config` between the two endpoint loops (source lines
2593-2621): address, TxFIFO configuration words, VBUS sensing, clock gating, FIFO flushes and
the endpoint interrupt disables. -/
def configDevice (s : State) : State :=
  let s := { s with usbdh := { s.usbdh with address := 0 } }
  let s := (List.range 0x0F).foldl (fun s i => clearTxFifoWord i s) s
  let s := { s with hw := { s.hw with BDVBSEN := BIT_SET } }
  let s := { s with hw := { s.hw with PCGCTRL := 0, PCLKSTOP := 0, GCLK := 0 } }
  let s := logEv s Ev.ConfigPeriodicFrameInterval
  let s := logEv s Ev.ConfigDeviceSpeed
  let s := USB_OTG_FlushTxFIFO s 0x10
  let s := USB_OTG_FlushRxFIFO s
  let s := logEv s Ev.DisableAllInEpInterrupt
  let s := logEv s Ev.DisableAllOutEpInterrupt
  logEv s Ev.DisableAllEpInterrupt

/-- The statements of `USBD_Config` after the endpoint register loop (source lines
2667-2702).  `USB_OTG_DisableAllGlobalInterrupt` clears every enable and
`USB_OTG_ClearGlobalIntFlag(.., 0xBFFFFFFF)` every pending cause the model holds. -/
def configInterrupts (s : State) : State :=
  let s := logEv s Ev.DisableInEpInterrupt
  let s := logEv { s with hw := { s.hw with GINTMASK := fun _ => false } }
    Ev.DisableAllGlobalInterrupt
  let s := logEv { s with hw := { s.hw with gint := fun _ => false } } Ev.ClearAllGlobalIntFlags
  let s := orGINTMASK s GInt.RXFNONE
  let s := if s.usbdh.usbCfg.sofStatus = ENABLE then orGINTMASK s GInt.SOF else s
  let s := if s.usbdh.usbCfg.vbusSense = ENABLE then
             orGINTMASK (orGINTMASK s GInt.OTG) GInt.SREQ
           else s
  let s := [GInt.USBSUS, GInt.USBRST, GInt.ENUMD, GInt.INEP, GInt.ONEP, GInt.IIINTX,
            GInt.IP_OUTTX, GInt.RWAKE].foldl orGINTMASK s
  let s := { s with hw := { s.hw with PCLKSTOP := BIT_RESET } }
  let s := { s with hw := { s.hw with GCLK := BIT_RESET } }
  logEv s Ev.ConfigSoftDisconnect

/-- `USBD_Config` of the USB_OTG build (source lines 2552-2703); `fuel` bounds the reads of
the delay loop. -/
def USBD_Config (fuel : Nat) (s : State) : Option State :=
  (APM_DelayMs fuel (configCore s) 50).bind fun s =>
  (forUint8 s.usbdh.usbCfg.devEndpointNum configEndpoint (configMode s)).bind fun s =>
  (forUint8 s.usbdh.usbCfg.devEndpointNum configEpRegs (configDevice s)).map configInterrupts

end Otg

namespace Otg

/-- For every endpoint below `devEndpointNum` and each direction, the stall flag of the
descriptor is `ENABLE` exactly when the STALL field of the endpoint control register is
set. -/
def StallAgree (s : State) : Prop :=
  ∀ i, i < s.usbdh.usbCfg.devEndpointNum →
    ((s.usbdh.epIN i).stallStatus = ENABLE ↔ (s.hw.EP_IN i).STALLH = BIT_SET) ∧
    ((s.usbdh.epOUT i).stallStatus = ENABLE ↔ (s.hw.EP_OUT i).STALLH = BIT_SET)

/-- The states reached from `s0` through calls of `USBD_EP_Stall` and `USBD_EP_ClearStall`. -/
inductive StallReach (s0 : State) : State → Prop
  | start : StallReach s0 s0
  | stall (s : State) (a : Nat) : StallReach s0 s → StallReach s0 (USBD_EP_Stall s a)
  | clear (s : State) (a : Nat) : StallReach s0 s → StallReach s0 (USBD_EP_ClearStall s a)

end Otg

namespace Usbd

/-- The trace entries of endpoint data handling: packet-memory accesses, count and status
writes of an endpoint, and the SETUP / data-stage callbacks. -/
def isTransferEv : Ev → Bool
  | Ev.WritePacketData _ _ _ => true
  | Ev.ReadPacketData _ _ => true
  | Ev.SetTxCnt _ _ => true
  | Ev.SetRxCnt _ _ => true
  | Ev.SetBuffer0TxCnt _ _ => true
  | Ev.SetBuffer0RxCnt _ _ => true
  | Ev.SetTxStatus _ _ => true
  | Ev.SetRxStatus _ _ => true
  | Ev.SetupStageCallback => true
  | Ev.DataInStageCallback _ => true
  | Ev.DataOutStageCallback _ => true
  | _ => false

/-- From `v` to `u` the trace has only grown, by entries that are not endpoint data handling,
and no endpoint descriptor has changed. -/
def NoTransfer (v u : State) : Prop :=
  ∃ rest, u.trace = v.trace ++ rest ∧ rest.filter isTransferEv = [] ∧
    u.usbdh.epIN = v.usbdh.epIN ∧ u.usbdh.epOUT = v.usbdh.epOUT

/-- Example state: 64 bytes requested on bulk IN endpoint 1 (max packet size 64), the packet
acknowledged, and the bus-reset cause pending as well. -/
def exStateBoth : State :=
  { hwInComplete (USBD_EP_Transfer (exState 64) 0x81 0x1000 64) 1 with
    usbGlobal :=
      { (hwInComplete (USBD_EP_Transfer (exState 64) 0x81 0x1000 64) 1).usbGlobal with
        intRST := true } }

end Usbd

namespace Otg

/-- Number of bus resets handled: `USB_OTG_ClearGlobalIntFlag(.., USB_INT_G_USBRST)` calls. -/
def resetsHandled (tr : List Ev) : Nat := tr.count (Ev.ClearGlobalIntFlag GInt.USBRST)

/-- What endpoint handling leaves alone: the pending bus-reset cause, the configuration of the
handle, and the number of bus resets handled. -/
def gView (s : State) : Bool × USB_OTG_CFG_T × Nat :=
  (s.hw.gint GInt.USBRST, s.usbdh.usbCfg, resetsHandled s.trace)

/-- The trace entries of endpoint data handling: FIFO accesses, clearing of endpoint
interrupt status bits, and the SETUP / data-stage callbacks. -/
def isTransferEv : Ev → Bool
  | Ev.WriteFifoPacket _ _ _ => true
  | Ev.ReadRxFifoPacket _ _ => true
  | Ev.PopRxFifoStatus => true
  | Ev.ClearInEpIntStatus _ _ => true
  | Ev.ClearOutEpIntStatus _ _ => true
  | Ev.SetupStageCallback => true
  | Ev.DataInStageCallback _ => true
  | Ev.DataOutStageCallback _ => true
  | _ => false

/-- From `v` to `u` the trace has only grown, by entries that are not endpoint data handling,
and no endpoint descriptor has changed. -/
def NoTransfer (v u : State) : Prop :=
  ∃ rest, u.trace = v.trace ++ rest ∧ rest.filter isTransferEv = [] ∧
    u.usbdh.epIN = v.usbdh.epIN ∧ u.usbdh.epOUT = v.usbdh.epOUT

/-- Example state: 150 bytes requested on bulk IN endpoint 1 (max packet size 64, no DMA), the
transfer completed by the core, and the bus-reset cause pending as well; every cause
enabled. -/
def exStateBoth : State :=
  { hwInComplete (USBD_EP_Transfer (exState 64 0) 0x81 0x1000 150) 1 with
    hw :=
      { (hwInComplete (USBD_EP_Transfer (exState 64 0) 0x81 0x1000 150) 1).hw with
        gint := fun g => decide (g = GInt.INEP ∨ g = GInt.USBRST),
        GINTMASK := fun _ => true } }

end Otg

namespace Otg

/-- The requested length and the byte counter of every IN endpoint descriptor. -/
def inLens (s : State) : Nat → Nat × Nat :=
  fun i => ((s.usbdh.epIN i).bufLen, (s.usbdh.epIN i).bufCount)

/-- Every IN endpoint descriptor has `bufCount ≤ bufLen`, with `bufLen` in the range of a
`uint32_t`. -/
def InOk (s : State) : Prop :=
  ∀ i, (s.usbdh.epIN i).bufCount ≤ (s.usbdh.epIN i).bufLen ∧ (s.usbdh.epIN i).bufLen < 2 ^ 32

/-- The states reached from `c` through `USBD_EP_Transfer`, `USBD_EP_Receive`,
`USBD_EP_XferStart`, the RxFIFO, OUT-endpoint and IN-endpoint interrupt handlers, and any
activity of the hardware in between. -/
inductive InReach (c : State) : State → Prop
  | start : InReach c c
  | transfer (s : State) (a buf L : Nat) :
      L < 2 ^ 32 → InReach c s → InReach c (USBD_EP_Transfer s a buf L)
  | receive (s : State) (a buf L : Nat) : InReach c s → InReach c (USBD_EP_Receive s a buf L)
  | xferStart (s : State) (r : EpRef) (dma : Nat) :
      InReach c s → InReach c (USBD_EP_XferStart s r dma)
  | rxFifo (s : State) : InReach c s → InReach c (USBD_RxFifoNoEmptyIsrHandler s)
  | outEp (s : State) : InReach c s → InReach c (USBD_OutEndpointIsrHandler s)
  | inEp (s u : State) (fuel : Nat) :
      InReach c s → USBD_InEndpointIsrHandler fuel s = some u → InReach c u
  | hardware (s : State) (h : Hw) : InReach c s → InReach c { s with hw := h }

end Otg

namespace Usbd

/-- What the parts of a dispatch pass around the suspend handling keep: the suspend flag, the
reset-poll oracle and the number of `USBD_SuspendCallback` invocations. -/
def susView (s : State) : Bool × (Nat → Bool) × Nat × Nat :=
  (s.usbGlobal.intSUS, s.usbGlobal.rstRaise, s.usbGlobal.rstPolls,
   s.trace.count Ev.SuspendCallback)

/-- What `USBD_SuspendHandler` settles and the last part of a dispatch pass keeps: the
endpoint registers, the force-suspend and low-power bits, the reset flag and the handle. -/
def lowPowerView (s : State) : (Nat → EpReg) × Bool × Bool × Bool × USBD_HANDLE_T :=
  (s.usbGlobal.EP, s.usbGlobal.FORSUS, s.usbGlobal.LPWREN, s.usbGlobal.intRST, s.usbdh)

end Usbd

namespace Otg

/-- `USBD_OTG_ConfigDeviceTxFifo` (source lines 2520-2543).  `epInNum` is the `uint8_t` and
`depth` the `uint16_t` argument; `txFifoConfig` and `txOffset` are `uint32_t`.  The loop
counter is a `uint8_t` running below `epInNum - 1`, which is at most 254. -/
def USBD_OTG_ConfigDeviceTxFifo (s : State) (epInNum depth : Nat) : State :=
  let txFifoConfig := (depth <<< 16) % 2 ^ 32
  let txOffset := s.hw.GRXFIFO
  if epInNum ≠ 0 then
    let txOffset := add32 txOffset (s.hw.GTXFCFG >>> 16)
    let txOffset := (List.range (epInNum - 1)).foldl
      (fun off i => add32 off (s.hw.DTXFIFO i >>> 16)) txOffset
    { s with hw := { s.hw with
        DTXFIFO := setSlot s.hw.DTXFIFO (epInNum - 1) (txFifoConfig ||| txOffset) } }
  else
    { s with hw := { s.hw with GTXFCFG := txFifoConfig ||| txOffset } }

/-- The calls `USBD_OTG_ConfigDeviceTxFifo(usbdh, j, d j)` for `j = 0, 1, ..., k`, in this
order. -/
def configTxFifos (d : Nat → Nat) : Nat → State → State
  | 0, s => USBD_OTG_ConfigDeviceTxFifo s 0 (d 0)
  | k + 1, s => USBD_OTG_ConfigDeviceTxFifo (configTxFifos d k s) (k + 1) (d (k + 1))

/-- The size register of TxFIFO `j`: `GTXFCFG` for TxFIFO 0, `DTXFIFO[j - 1]` otherwise. -/
def txFifoWord (s : State) (j : Nat) : Nat :=
  if j = 0 then s.hw.GTXFCFG else s.hw.DTXFIFO (j - 1)

/-- The start offset programmed for TxFIFO `j`: the low half of its size register. -/
def txFifoStart (s : State) (j : Nat) : Nat := txFifoWord s j % 2 ^ 16

/-- The depth programmed for TxFIFO `j`: the high half of its size register. -/
def txFifoDepth (s : State) (j : Nat) : Nat := txFifoWord s j >>> 16

/-- Example state: as `exState 64 0`, with a receive FIFO of 0x80 words. -/
def exStateFifo : State :=
  { exState 64 0 with
    hw := { (exState 64 0).hw with GRXFIFO := 0x80 } }

/-- Example state: as `exState 64 0`, with a low-speed enumeration reported. -/
def exStateLowSpeed : State :=
  { exState 64 0 with
    hw := { (exState 64 0).hw with enumSpeed := EnumSpeed.other } }

end Otg

namespace Usbd

/-- Example state: as `exState 64`, with the suspend cause pending and endpoint register 1
holding a value other than its reset value (both status fields VALID, the kind bit and the TX
toggle set, counts 10 and 20). -/
def exStateSuspend : State :=
  { exState 64 with
    usbGlobal := { hwZero with
      intSUS := true,
      EP := fun i =>
        if i = 1 then
          { regZero with
            rxStatus := USBD_EP_STATUS_VALID, kind := true, txdtog := true,
            txStatus := USBD_EP_STATUS_VALID, txCnt := 10, rxCnt := 20 }
        else regZero } }

end Usbd

namespace Otg

/-- The content of an unsigned bit-field of `w` bits, such as `DIEPTRS_B.EPPCNT`, after the
value `v` is assigned to it: the low `w` bits of `v`.  `InEpRegs` and `OutEpRegs` keep the value
the source assigns; the declarations that fix the widths of the fields are in an absent header,
so the width is a parameter. -/
def fieldValue (w v : Nat) : Nat := v % 2 ^ w

end Otg

/-! ## Theorems -/

/-- Masking with `0x7F` and with `0x0F` agree on an address whose bits 4-6 are clear. -/
theorem and7F_of_bits46 (a : Nat) (h : a &&& 0x70 = 0) : a &&& 0x7F = a &&& 0x0F := by
  have h2 : (0x7F : Nat) = 0x70 ||| 0x0F := by decide
  rw [h2, Nat.and_or_distrib_left, h]; simp

namespace Usbd

@[simp] theorem logEv_usbdh (s : State) (e : Ev) : (logEv s e).usbdh = s.usbdh := rfl
@[simp] theorem logEv_usbGlobal (s : State) (e : Ev) : (logEv s e).usbGlobal = s.usbGlobal := rfl
@[simp] theorem logEv_mem (s : State) (e : Ev) : (logEv s e).mem = s.mem := rfl
@[simp] theorem logEv_trace (s : State) (e : Ev) : (logEv s e).trace = s.trace ++ [e] := rfl
@[simp] theorem updEP_usbdh (s : State) (n : Nat) (f : EpReg → EpReg) :
    (updEP s n f).usbdh = s.usbdh := rfl
@[simp] theorem updEP_trace (s : State) (n : Nat) (f : EpReg → EpReg) :
    (updEP s n f).trace = s.trace := rfl
@[simp] theorem updEP_mem (s : State) (n : Nat) (f : EpReg → EpReg) :
    (updEP s n f).mem = s.mem := rfl
@[simp] theorem SetTxStatus_usbdh (s : State) (n st : Nat) :
    (USBD_EP_SetTxStatus s n st).usbdh = s.usbdh := rfl
@[simp] theorem SetRxStatus_usbdh (s : State) (n st : Nat) :
    (USBD_EP_SetRxStatus s n st).usbdh = s.usbdh := rfl
@[simp] theorem ResetTxToggle_usbdh (s : State) (n : Nat) :
    (USBD_EP_ResetTxToggle s n).usbdh = s.usbdh := rfl
@[simp] theorem ResetRxToggle_usbdh (s : State) (n : Nat) :
    (USBD_EP_ResetRxToggle s n).usbdh = s.usbdh := rfl

/-- The handle after `USBD_EP_Stall`, when the bound check passes. -/
theorem Stall_usbdh (s : State) (a : Nat) (h : ¬ (a &&& 0x0F > s.usbdh.devEndpointNum)) :
    (USBD_EP_Stall s a).usbdh =
      if a &&& 0x80 = 0x80 then
        { s.usbdh with epIN := setSlot s.usbdh.epIN (a &&& 0x0F)
                                 { (s.usbdh.epIN (a &&& 0x0F)) with
                                     epDir := EP_DIR_IN, stallStatus := ENABLE, epNum := a &&& 0x0F } }
      else
        { s.usbdh with epOUT := setSlot s.usbdh.epOUT (a &&& 0x0F)
                                 { (s.usbdh.epOUT (a &&& 0x0F)) with
                                     epDir := EP_DIR_OUT, stallStatus := ENABLE, epNum := a &&& 0x0F } } := by
  unfold USBD_EP_Stall
  by_cases hd : a &&& 0x80 = 0x80
  · simp only [h, hd, if_true, if_false]
    simp [setEp, getEp, EP_DIR_IN, EP_DIR_OUT]
  · simp only [h, hd, if_true, if_false]
    simp [setEp, getEp, EP_DIR_IN, EP_DIR_OUT]

/-- The handle after `USBD_EP_ClearStall`, when the bound check passes. -/
theorem ClearStall_usbdh (s : State) (a : Nat) (h : ¬ (a &&& 0x0F > s.usbdh.devEndpointNum)) :
    (USBD_EP_ClearStall s a).usbdh =
      if a &&& 0x80 = 0x80 then
        { s.usbdh with epIN := setSlot s.usbdh.epIN (a &&& 0x0F)
                                 { (s.usbdh.epIN (a &&& 0x0F)) with
                                     epDir := EP_DIR_IN, stallStatus := DISABLE, epNum := a &&& 0x0F } }
      else
        { s.usbdh with epOUT := setSlot s.usbdh.epOUT (a &&& 0x0F)
                                 { (s.usbdh.epOUT (a &&& 0x0F)) with
                                     epDir := EP_DIR_OUT, stallStatus := DISABLE, epNum := a &&& 0x0F } } := by
  unfold USBD_EP_ClearStall
  by_cases hd : a &&& 0x80 = 0x80
  · simp only [h, hd, if_true, if_false]
    split_ifs <;> simp_all [setEp, getEp, EP_DIR_IN, EP_DIR_OUT]
  · simp only [h, hd, if_true, if_false]
    split_ifs <;> simp_all [setEp, getEp, EP_DIR_IN, EP_DIR_OUT]

theorem Stall_devEndpointNum (s : State) (a : Nat) :
    (USBD_EP_Stall s a).usbdh.devEndpointNum = s.usbdh.devEndpointNum := by
  by_cases h : a &&& 0x0F > s.usbdh.devEndpointNum
  · simp [USBD_EP_Stall, h]
  · rw [Stall_usbdh s a h]; split <;> rfl

theorem Stall_epIN_stall (s : State) (a i : Nat) (h : ¬ (a &&& 0x0F > s.usbdh.devEndpointNum)) :
    ((USBD_EP_Stall s a).usbdh.epIN i).stallStatus =
      if a &&& 0x80 = 0x80 ∧ i = a &&& 0x0F then ENABLE else (s.usbdh.epIN i).stallStatus := by
  rw [Stall_usbdh s a h]
  by_cases hd : a &&& 0x80 = 0x80 <;> by_cases hi : i = a &&& 0x0F <;> simp [hd, hi, setSlot]

theorem Stall_epOUT_stall (s : State) (a i : Nat) (h : ¬ (a &&& 0x0F > s.usbdh.devEndpointNum)) :
    ((USBD_EP_Stall s a).usbdh.epOUT i).stallStatus =
      if a &&& 0x80 ≠ 0x80 ∧ i = a &&& 0x0F then ENABLE else (s.usbdh.epOUT i).stallStatus := by
  rw [Stall_usbdh s a h]
  by_cases hd : a &&& 0x80 = 0x80 <;> by_cases hi : i = a &&& 0x0F <;> simp [hd, hi, setSlot]

theorem ClearStall_epIN_stall (s : State) (a i : Nat)
    (h : ¬ (a &&& 0x0F > s.usbdh.devEndpointNum)) :
    ((USBD_EP_ClearStall s a).usbdh.epIN i).stallStatus =
      if a &&& 0x80 = 0x80 ∧ i = a &&& 0x0F then DISABLE else (s.usbdh.epIN i).stallStatus := by
  rw [ClearStall_usbdh s a h]
  by_cases hd : a &&& 0x80 = 0x80 <;> by_cases hi : i = a &&& 0x0F <;> simp [hd, hi, setSlot]

theorem ClearStall_epOUT_stall (s : State) (a i : Nat)
    (h : ¬ (a &&& 0x0F > s.usbdh.devEndpointNum)) :
    ((USBD_EP_ClearStall s a).usbdh.epOUT i).stallStatus =
      if a &&& 0x80 ≠ 0x80 ∧ i = a &&& 0x0F then DISABLE else (s.usbdh.epOUT i).stallStatus := by
  rw [ClearStall_usbdh s a h]
  by_cases hd : a &&& 0x80 = 0x80 <;> by_cases hi : i = a &&& 0x0F <;> simp [hd, hi, setSlot]

/-- USB_DEVICE build: stall, then clear-stall, seen through `USBD_EP_ReadStallStatus`, with
the frame on all other stall flags. -/
theorem stall_clear_roundtrip (s : State) (a : Nat)
    (h46 : a &&& 0x70 = 0) (hn : a &&& 0x0F < s.usbdh.devEndpointNum) :
    USBD_EP_ReadStallStatus (USBD_EP_Stall s a) a = ENABLE ∧
    USBD_EP_ReadStallStatus (USBD_EP_ClearStall (USBD_EP_Stall s a) a) a = DISABLE ∧
    stallFrame 8 a s.usbdh (USBD_EP_Stall s a).usbdh ∧
    stallFrame 8 a s.usbdh (USBD_EP_ClearStall (USBD_EP_Stall s a) a).usbdh := by
  have h7 := and7F_of_bits46 a h46
  have hle : ¬ (a &&& 0x0F > s.usbdh.devEndpointNum) := by omega
  have hle2 : ¬ (a &&& 0x0F > (USBD_EP_Stall s a).usbdh.devEndpointNum) := by
    rw [Stall_devEndpointNum]; exact hle
  unfold stallFrame USBD_EP_ReadStallStatus
  simp only [h7, ClearStall_epIN_stall _ _ _ hle2, ClearStall_epOUT_stall _ _ _ hle2,
    Stall_epIN_stall _ _ _ hle, Stall_epOUT_stall _ _ _ hle]
  by_cases hd : a &&& 0x80 = 0x80
  · simp only [hd]
    refine ⟨by simp [hd], by simp [hd], ⟨?_, ?_⟩, ⟨?_, ?_⟩⟩ <;> intro i _ hi <;> simp_all
  · simp only [hd]
    refine ⟨by simp [hd], by simp [hd], ⟨?_, ?_⟩, ⟨?_, ?_⟩⟩ <;> intro i _ hi <;> simp_all

end Usbd

namespace Otg

@[simp] theorem otg_logEv_usbdh (s : State) (e : Ev) : (logEv s e).usbdh = s.usbdh := rfl
@[simp] theorem logEv_hw (s : State) (e : Ev) : (logEv s e).hw = s.hw := rfl
@[simp] theorem otg_logEv_mem (s : State) (e : Ev) : (logEv s e).mem = s.mem := rfl
@[simp] theorem otg_logEv_trace (s : State) (e : Ev) : (logEv s e).trace = s.trace ++ [e] := rfl
@[simp] theorem updIn_usbdh (s : State) (n : Nat) (f : InEpRegs → InEpRegs) :
    (updIn s n f).usbdh = s.usbdh := rfl
@[simp] theorem updOut_usbdh (s : State) (n : Nat) (f : OutEpRegs → OutEpRegs) :
    (updOut s n f).usbdh = s.usbdh := rfl
@[simp] theorem updIn_trace (s : State) (n : Nat) (f : InEpRegs → InEpRegs) :
    (updIn s n f).trace = s.trace := rfl
@[simp] theorem updOut_trace (s : State) (n : Nat) (f : OutEpRegs → OutEpRegs) :
    (updOut s n f).trace = s.trace := rfl
@[simp] theorem updIn_mem (s : State) (n : Nat) (f : InEpRegs → InEpRegs) :
    (updIn s n f).mem = s.mem := rfl
@[simp] theorem updOut_mem (s : State) (n : Nat) (f : OutEpRegs → OutEpRegs) :
    (updOut s n f).mem = s.mem := rfl
@[simp] theorem updIn_EP_OUT (s : State) (n : Nat) (f : InEpRegs → InEpRegs) :
    (updIn s n f).hw.EP_OUT = s.hw.EP_OUT := rfl
@[simp] theorem updOut_EP_IN (s : State) (n : Nat) (f : OutEpRegs → OutEpRegs) :
    (updOut s n f).hw.EP_IN = s.hw.EP_IN := rfl

@[simp] theorem EP0_OutHandler_usbdh (s : State) (d p : Nat) :
    (USBD_EP0_OutHandler s d p).usbdh = s.usbdh := by
  unfold USBD_EP0_OutHandler; split <;> simp

/-- The handle after `USBD_EP_Stall`, when the bound check passes. -/
theorem otg_Stall_usbdh (s : State) (a : Nat)
    (h : ¬ (a &&& 0x0F > s.usbdh.usbCfg.devEndpointNum)) :
    (USBD_EP_Stall s a).usbdh =
      if a &&& 0x80 = 0x80 then
        { s.usbdh with epIN := setSlot s.usbdh.epIN (a &&& 0x0F)
                                 { (s.usbdh.epIN (a &&& 0x0F)) with
                                     epDir := EP_DIR_IN, stallStatus := ENABLE, epNum := a &&& 0x0F } }
      else
        { s.usbdh with epOUT := setSlot s.usbdh.epOUT (a &&& 0x0F)
                                  { (s.usbdh.epOUT (a &&& 0x0F)) with
                                      epDir := EP_DIR_OUT, stallStatus := ENABLE, epNum := a &&& 0x0F } } := by
  unfold USBD_EP_Stall
  by_cases hd : a &&& 0x80 = 0x80
  · simp only [h, hd, if_true, if_false]
    split_ifs <;> simp_all [setEp, getEp, EP_DIR_IN, EP_DIR_OUT]
  · simp only [h, hd, if_true, if_false]
    split_ifs <;> simp_all [setEp, getEp, EP_DIR_IN, EP_DIR_OUT]

/-- The handle after `USBD_EP_ClearStall`, when the bound check passes. -/
theorem otg_ClearStall_usbdh (s : State) (a : Nat)
    (h : ¬ (a &&& 0x0F > s.usbdh.usbCfg.devEndpointNum)) :
    (USBD_EP_ClearStall s a).usbdh =
      if a &&& 0x80 = 0x80 then
        { s.usbdh with epIN := setSlot s.usbdh.epIN (a &&& 0x0F)
                                 { (s.usbdh.epIN (a &&& 0x0F)) with
                                     epDir := EP_DIR_IN, stallStatus := DISABLE, epNum := a &&& 0x0F } }
      else
        { s.usbdh with epOUT := setSlot s.usbdh.epOUT (a &&& 0x0F)
                                  { (s.usbdh.epOUT (a &&& 0x0F)) with
                                      epDir := EP_DIR_OUT, stallStatus := DISABLE, epNum := a &&& 0x0F } } := by
  unfold USBD_EP_ClearStall
  by_cases hd : a &&& 0x80 = 0x80
  · simp only [h, hd, if_true, if_false]
    split_ifs <;> simp_all [setEp, getEp, EP_DIR_IN, EP_DIR_OUT]
  · simp only [h, hd, if_true, if_false]
    split_ifs <;> simp_all [setEp, getEp, EP_DIR_IN, EP_DIR_OUT]

theorem otg_Stall_devEndpointNum (s : State) (a : Nat) :
    (USBD_EP_Stall s a).usbdh.usbCfg.devEndpointNum = s.usbdh.usbCfg.devEndpointNum := by
  by_cases h : a &&& 0x0F > s.usbdh.usbCfg.devEndpointNum
  · simp [USBD_EP_Stall, h]
  · rw [otg_Stall_usbdh s a h]; split <;> rfl

theorem otg_Stall_epIN_stall (s : State) (a i : Nat)
    (h : ¬ (a &&& 0x0F > s.usbdh.usbCfg.devEndpointNum)) :
    ((USBD_EP_Stall s a).usbdh.epIN i).stallStatus =
      if a &&& 0x80 = 0x80 ∧ i = a &&& 0x0F then ENABLE else (s.usbdh.epIN i).stallStatus := by
  rw [otg_Stall_usbdh s a h]
  by_cases hd : a &&& 0x80 = 0x80 <;> by_cases hi : i = a &&& 0x0F <;> simp [hd, hi, setSlot]

theorem otg_Stall_epOUT_stall (s : State) (a i : Nat)
    (h : ¬ (a &&& 0x0F > s.usbdh.usbCfg.devEndpointNum)) :
    ((USBD_EP_Stall s a).usbdh.epOUT i).stallStatus =
      if a &&& 0x80 ≠ 0x80 ∧ i = a &&& 0x0F then ENABLE else (s.usbdh.epOUT i).stallStatus := by
  rw [otg_Stall_usbdh s a h]
  by_cases hd : a &&& 0x80 = 0x80 <;> by_cases hi : i = a &&& 0x0F <;> simp [hd, hi, setSlot]

theorem otg_ClearStall_epIN_stall (s : State) (a i : Nat)
    (h : ¬ (a &&& 0x0F > s.usbdh.usbCfg.devEndpointNum)) :
    ((USBD_EP_ClearStall s a).usbdh.epIN i).stallStatus =
      if a &&& 0x80 = 0x80 ∧ i = a &&& 0x0F then DISABLE else (s.usbdh.epIN i).stallStatus := by
  rw [otg_ClearStall_usbdh s a h]
  by_cases hd : a &&& 0x80 = 0x80 <;> by_cases hi : i = a &&& 0x0F <;> simp [hd, hi, setSlot]

theorem otg_ClearStall_epOUT_stall (s : State) (a i : Nat)
    (h : ¬ (a &&& 0x0F > s.usbdh.usbCfg.devEndpointNum)) :
    ((USBD_EP_ClearStall s a).usbdh.epOUT i).stallStatus =
      if a &&& 0x80 ≠ 0x80 ∧ i = a &&& 0x0F then DISABLE else (s.usbdh.epOUT i).stallStatus := by
  rw [otg_ClearStall_usbdh s a h]
  by_cases hd : a &&& 0x80 = 0x80 <;> by_cases hi : i = a &&& 0x0F <;> simp [hd, hi, setSlot]

/-- USB_OTG build: stall, then clear-stall, seen through `USBD_EP_ReadStallStatus`, with the
frame on all other stall flags. -/
theorem otg_stall_clear_roundtrip (s : State) (a : Nat)
    (h46 : a &&& 0x70 = 0) (hn : a &&& 0x0F < s.usbdh.usbCfg.devEndpointNum) :
    USBD_EP_ReadStallStatus (USBD_EP_Stall s a) a = ENABLE ∧
    USBD_EP_ReadStallStatus (USBD_EP_ClearStall (USBD_EP_Stall s a) a) a = DISABLE ∧
    stallFrame 16 a s.usbdh (USBD_EP_Stall s a).usbdh ∧
    stallFrame 16 a s.usbdh (USBD_EP_ClearStall (USBD_EP_Stall s a) a).usbdh := by
  have h7 := and7F_of_bits46 a h46
  have hle : ¬ (a &&& 0x0F > s.usbdh.usbCfg.devEndpointNum) := by omega
  have hle2 : ¬ (a &&& 0x0F > (USBD_EP_Stall s a).usbdh.usbCfg.devEndpointNum) := by
    rw [otg_Stall_devEndpointNum]; exact hle
  unfold stallFrame USBD_EP_ReadStallStatus
  simp only [h7, otg_ClearStall_epIN_stall _ _ _ hle2, otg_ClearStall_epOUT_stall _ _ _ hle2,
    otg_Stall_epIN_stall _ _ _ hle, otg_Stall_epOUT_stall _ _ _ hle]
  by_cases hd : a &&& 0x80 = 0x80
  · simp only [hd]
    refine ⟨by simp [hd], by simp [hd], ⟨?_, ?_⟩, ⟨?_, ?_⟩⟩ <;> intro i _ hi <;> simp_all
  · simp only [hd]
    refine ⟨by simp [hd], by simp [hd], ⟨?_, ?_⟩, ⟨?_, ?_⟩⟩ <;> intro i _ hi <;> simp_all

end Otg

namespace Otg

theorem updOut_EP_OUT (s : State) (n i : Nat) (f : OutEpRegs → OutEpRegs) :
    (updOut s n f).hw.EP_OUT i = if i = n then f (s.hw.EP_OUT n) else s.hw.EP_OUT i := rfl

theorem updIn_EP_IN (s : State) (n i : Nat) (f : InEpRegs → InEpRegs) :
    (updIn s n f).hw.EP_IN i = if i = n then f (s.hw.EP_IN n) else s.hw.EP_IN i := rfl

@[simp] theorem setEp_hw (s : State) (r : EpRef) (e : USB_OTG_ENDPOINT_INFO_T) :
    (setEp s r e).hw = s.hw := by cases r <;> rfl

@[simp] theorem otg_setEp_trace (s : State) (r : EpRef) (e : USB_OTG_ENDPOINT_INFO_T) :
    (setEp s r e).trace = s.trace := by cases r <;> rfl

/-- What `USBD_EP0_OutHandler` leaves in the EP0 OUT transfer-size register. -/
theorem ep0OutXferSize_OutHandler (s : State) (dma setup : Nat) :
    ep0OutXferSize (USBD_EP0_OutHandler s dma setup) = (1, 3, 24) := by
  unfold ep0OutXferSize USBD_EP0_OutHandler
  split_ifs <;> simp [updOut_EP_OUT, USBD_EP_0, BIT_SET]

/-- On endpoint 0 `USBD_EP_Stall` ends with the call of `USBD_EP0_OutHandler`. -/
theorem Stall_ep0_ends_with_OutHandler (s : State) (a : Nat) (h : a &&& 0x0F = 0) :
    ∃ u : State, USBD_EP_Stall s a = USBD_EP0_OutHandler u u.usbdh.usbCfg.dmaStatus u.usbdh.setupAddr := by
  unfold USBD_EP_Stall
  simp only [h, USBD_EP_0, Nat.not_lt_zero, gt_iff_lt, if_false, if_true]
  exact ⟨_, rfl⟩

theorem ep0OutXferSize_updOut (s : State) (n : Nat) (f : OutEpRegs → OutEpRegs)
    (hf : ∀ q, (f q).EPPCNT = q.EPPCNT ∧ (f q).PID_SPCNT = q.PID_SPCNT ∧ (f q).EPTRS = q.EPTRS) :
    ep0OutXferSize (updOut s n f) = ep0OutXferSize s := by
  unfold ep0OutXferSize
  rw [updOut_EP_OUT]
  split_ifs with h
  · subst h; simp [hf]
  · rfl

theorem ep0OutXferSize_updIn (s : State) (n : Nat) (f : InEpRegs → InEpRegs) :
    ep0OutXferSize (updIn s n f) = ep0OutXferSize s := rfl

theorem ep0OutXferSize_setEp (s : State) (r : EpRef) (e : USB_OTG_ENDPOINT_INFO_T) :
    ep0OutXferSize (setEp s r e) = ep0OutXferSize s := by cases r <;> rfl

/-- The EP0 OUT transfer-size register is not written by `USBD_EP_ClearStall`. -/
theorem ep0OutXferSize_ClearStall (s : State) (a : Nat) :
    ep0OutXferSize (USBD_EP_ClearStall s a) = ep0OutXferSize s := by
  unfold USBD_EP_ClearStall
  dsimp only
  split_ifs <;>
    simp [ep0OutXferSize_updOut, ep0OutXferSize_updIn, ep0OutXferSize_setEp]

end Otg

/-- C9 (failing input 0x11): after `USBD_EP_Stall` of the OUT address 0x11 the stall flag of
the slot that call wrote, `epOUT[0x11 & 0x0F]`, is `ENABLE`, yet `USBD_EP_ReadStallStatus`
of the same address reads slot `0x11 & 0x7F = 17` and returns `DISABLE`, in both builds. -/
theorem C9_readstallstatus_reads_other_slot :
    (((Usbd.USBD_EP_Stall (Usbd.exState 64) 0x11).usbdh.epOUT (0x11 &&& 0x0F)).stallStatus = ENABLE ∧
     Usbd.USBD_EP_ReadStallStatus (Usbd.USBD_EP_Stall (Usbd.exState 64) 0x11) 0x11 = DISABLE) ∧
    (((Otg.USBD_EP_Stall (Otg.exState 64 0) 0x11).usbdh.epOUT (0x11 &&& 0x0F)).stallStatus = ENABLE ∧
     Otg.USBD_EP_ReadStallStatus (Otg.USBD_EP_Stall (Otg.exState 64 0) 0x11) 0x11 = DISABLE) := by
  refine ⟨⟨?_, ?_⟩, ⟨?_, ?_⟩⟩ <;> rfl

/-- C10 (as stated, refuted): on the example state `USBD_EP_ClearStall` of endpoint 0 leaves
the EP0 OUT transfer-size register at its old value, which is not what
`USBD_EP0_OutHandler` programs. -/
theorem C10_clearstall_does_not_rearm :
    Otg.ep0OutXferSize (Otg.USBD_EP_ClearStall (Otg.exState 64 0) 0x00) = (0, 0, 0) ∧
    Otg.ep0OutXferSize (Otg.USBD_EP_ClearStall (Otg.exState 64 0) 0x80) = (0, 0, 0) ∧
    Otg.ep0OutXferSize (Otg.USBD_EP0_OutHandler (Otg.exState 64 0) 0 0x20000000) = (1, 3, 24) := by
  refine ⟨?_, ?_, ?_⟩ <;> rfl

/-- C10 (amended): in the USB_OTG build `USBD_EP_ClearStall` on endpoint 0 (address 0x00 or
0x80) leaves the EP0 OUT transfer-size register unchanged; it is `USBD_EP_Stall` on
endpoint 0 that re-arms SETUP reception, programming packet count 1, SETUP count 3 and
transfer size 24 exactly as `USBD_EP0_OutHandler` does. -/
theorem C10_rearm_is_done_by_stall (s : Otg.State) (dma setup : Nat) :
    Otg.ep0OutXferSize (Otg.USBD_EP_ClearStall s 0x00) = Otg.ep0OutXferSize s ∧
    Otg.ep0OutXferSize (Otg.USBD_EP_ClearStall s 0x80) = Otg.ep0OutXferSize s ∧
    Otg.ep0OutXferSize (Otg.USBD_EP_Stall s 0x00) = (1, 3, 24) ∧
    Otg.ep0OutXferSize (Otg.USBD_EP_Stall s 0x80) = (1, 3, 24) ∧
    Otg.ep0OutXferSize (Otg.USBD_EP0_OutHandler s dma setup) = (1, 3, 24) := by
  refine ⟨Otg.ep0OutXferSize_ClearStall s _, Otg.ep0OutXferSize_ClearStall s _, ?_, ?_,
    Otg.ep0OutXferSize_OutHandler s dma setup⟩
  · obtain ⟨u, hu⟩ := Otg.Stall_ep0_ends_with_OutHandler s 0x00 (by decide)
    rw [hu]; exact Otg.ep0OutXferSize_OutHandler u _ _
  · obtain ⟨u, hu⟩ := Otg.Stall_ep0_ends_with_OutHandler s 0x80 (by decide)
    rw [hu]; exact Otg.ep0OutXferSize_OutHandler u _ _

namespace Usbd

@[simp] theorem setEp_usbGlobal (s : State) (r : EpRef) (e : USBD_ENDPOINT_INFO_T) :
    (setEp s r e).usbGlobal = s.usbGlobal := by cases r <;> rfl
@[simp] theorem setEp_trace (s : State) (r : EpRef) (e : USBD_ENDPOINT_INFO_T) :
    (setEp s r e).trace = s.trace := by cases r <;> rfl
@[simp] theorem setEp_mem (s : State) (r : EpRef) (e : USBD_ENDPOINT_INFO_T) :
    (setEp s r e).mem = s.mem := by cases r <;> rfl
@[simp] theorem getEp_setEp (s : State) (r : EpRef) (e : USBD_ENDPOINT_INFO_T) :
    getEp (setEp s r e) r = e := by cases r <;> simp [getEp, setEp, setSlot]
@[simp] theorem updEP_ctrPending (s : State) (n : Nat) (f : EpReg → EpReg) :
    (updEP s n f).usbGlobal.ctrPending = s.usbGlobal.ctrPending := rfl
theorem updEP_EP (s : State) (n i : Nat) (f : EpReg → EpReg) :
    (updEP s n f).usbGlobal.EP i = if i = n then f (s.usbGlobal.EP n) else s.usbGlobal.EP i := rfl

/-- `USBD_EP_XferStart` on a single-buffered descriptor whose direction field is IN: the
packet is copied, the TX count programmed and the TX status set to VALID. -/
theorem XferStart_in_single (s : State) (r : EpRef)
    (hdir : (getEp s r).epDir = EP_DIR_IN)
    (hbs : (getEp s r).bufferStatus = USBD_EP_BUFFER_SINGLE) :
    USBD_EP_XferStart s r =
      USBD_EP_SetTxStatus
        (USBD_EP_SetTxCnt
          (USBD_EP_WritePacketData s (getEp s r).pmaAddr (getEp s r).buffer
            (if (getEp s r).bufLen > (getEp s r).mps then (getEp s r).mps else (getEp s r).bufLen))
          (getEp s r).epNum
          (if (getEp s r).bufLen > (getEp s r).mps then (getEp s r).mps else (getEp s r).bufLen))
        (getEp s r).epNum USBD_EP_STATUS_VALID := by
  unfold USBD_EP_XferStart
  simp [hdir, hbs]

/-- `USBD_EP_Transfer` on an endpoint whose IN descriptor is single-buffered. -/
theorem Transfer_single (s : State) (a buf L : Nat)
    (hbs : (s.usbdh.epIN (a &&& 0x0F)).bufferStatus = USBD_EP_BUFFER_SINGLE) :
    USBD_EP_Transfer s a buf L =
      USBD_EP_SetTxStatus
        (USBD_EP_SetTxCnt
          (USBD_EP_WritePacketData
            (setEp s (EpRef.epIN (a &&& 0x0F))
              { (s.usbdh.epIN (a &&& 0x0F)) with
                  epNum := a &&& 0x0F, epDir := EP_DIR_IN, buffer := buf, bufCount := 0,
                  bufLen := L, dbBufferFill := ENABLE, dbBufferLen := L })
            (s.usbdh.epIN (a &&& 0x0F)).pmaAddr buf
            (if L > (s.usbdh.epIN (a &&& 0x0F)).mps then (s.usbdh.epIN (a &&& 0x0F)).mps else L))
          (a &&& 0x0F)
          (if L > (s.usbdh.epIN (a &&& 0x0F)).mps then (s.usbdh.epIN (a &&& 0x0F)).mps else L))
        (a &&& 0x0F) USBD_EP_STATUS_VALID := by
  unfold USBD_EP_Transfer
  simp only [ite_self]
  rw [XferStart_in_single] <;> simp [hbs]

/-- A correct-transfer IN event on endpoint 0 with nothing else pending: the handle, the
trace and the address register afterwards. -/
theorem inEvent_ep0_trace (s : State) (hq : s.usbGlobal.ctrPending = []) :
    (inEvent 0 s).trace =
      s.trace ++ [Ev.ResetTxFlag 0, Ev.DataInStageCallback 0] ++
        (if (s.usbdh.epIN 0).bufLen = 0 ∧ s.usbdh.address > 0
         then [Ev.SetDeviceAddr s.usbdh.address, Ev.Enable] else []) := by
  unfold inEvent USBD_EP_CTRHandler hwInComplete
  simp only [hq, List.nil_append, ctrHandlerLoop, ctrHandlerBody, USBD_EP_0, if_true]
  unfold ctrEp0In
  simp only [USBD_EP_0]
  split_ifs with h1 h2 <;>
    simp_all [USBD_EP_ResetTxFlag, USBD_DataInStageCallback, USBD_SetDeviceAddr, USBD_Enable,
      getEp, setEp, setSlot]

end Usbd

namespace Otg

@[simp] theorem otg_setEp_mem (s : State) (r : EpRef) (e : USB_OTG_ENDPOINT_INFO_T) :
    (setEp s r e).mem = s.mem := by cases r <;> rfl
@[simp] theorem otg_getEp_setEp (s : State) (r : EpRef) (e : USB_OTG_ENDPOINT_INFO_T) :
    getEp (setEp s r e) r = e := by cases r <;> simp [getEp, setEp, setSlot]
@[simp] theorem updIn_inEpIntBits (s : State) (n : Nat) (f : InEpRegs → InEpRegs) :
    (updIn s n f).hw.inEpIntBits = s.hw.inEpIntBits := rfl
@[simp] theorem updIn_DIEIMASK (s : State) (n : Nat) (f : InEpRegs → InEpRegs) :
    (updIn s n f).hw.DIEIMASK = s.hw.DIEIMASK := rfl

/-- `USBD_EP_Transfer` on endpoint 0 (address 0x80): descriptor, transfer-size register,
trace and interrupt summary afterwards. -/
theorem Transfer_ep0 (s : State) (buf L : Nat) :
    ((USBD_EP_Transfer s 0x80 buf L).usbdh.epIN 0).bufLen =
        (if L > (s.usbdh.epIN 0).mps then (s.usbdh.epIN 0).mps else L) ∧
    ((USBD_EP_Transfer s 0x80 buf L).usbdh.epIN 0).bufCount = 0 ∧
    ((USBD_EP_Transfer s 0x80 buf L).usbdh.epIN 0).mps = (s.usbdh.epIN 0).mps ∧
    ((USBD_EP_Transfer s 0x80 buf L).hw.EP_IN 0).EPPCNT = 1 ∧
    ((USBD_EP_Transfer s 0x80 buf L).hw.EP_IN 0).EPTRS =
        (if L > (s.usbdh.epIN 0).mps then (s.usbdh.epIN 0).mps else L) ∧
    (USBD_EP_Transfer s 0x80 buf L).trace = s.trace ++ Ev.InEpEnable 0 ::
        (if s.usbdh.usbCfg.dmaStatus ≠ ENABLE ∧
            (if L > (s.usbdh.epIN 0).mps then (s.usbdh.epIN 0).mps else L) ≠ 0
         then [Ev.EnableInEpEmptyInterrupt 0] else []) ∧
    (USBD_EP_Transfer s 0x80 buf L).hw.inEpIntBits = s.hw.inEpIntBits ∧
    (USBD_EP_Transfer s 0x80 buf L).usbdh.usbCfg = s.usbdh.usbCfg := by
  have h80 : (0x80 : Nat) &&& 0x0F = 0 := by decide
  unfold USBD_EP_Transfer
  simp only [h80, ne_eq, not_true_eq_false, if_false]
  unfold USBD_EP0_XferStart
  simp only [otg_getEp_setEp, EP_DIR_IN, EP_DIR_OUT, Nat.succ_ne_zero, if_false]
  by_cases hL : L = 0 <;> by_cases hd : s.usbdh.usbCfg.dmaStatus = ENABLE <;>
    by_cases hgt : (s.usbdh.epIN 0).mps < L <;>
    by_cases hda : (s.usbdh.epIN 0).dmaAddr = 0 <;>
    simp [hL, hd, hgt, hda, enableInEp, updIn_EP_IN, setEp, setSlot, BIT_RESET, BIT_SET,
      USB_OTG_D_EnableInEpEmptyInterrupt] <;>
    split_ifs <;> simp_all [updIn_EP_IN, setSlot]

end Otg

theorem sub32_of_le (a b : Nat) (ha : a < 2 ^ 32) (hb : b ≤ a) : sub32 a b = a - b := by
  unfold sub32
  have h1 : a % 2 ^ 32 = a := Nat.mod_eq_of_lt ha
  have h2 : b % 2 ^ 32 = b := Nat.mod_eq_of_lt (by omega)
  rw [h1, h2]
  have : a + (2 ^ 32 - b) = (a - b) + 2 ^ 32 := by omega
  rw [this, Nat.add_mod_right]
  exact Nat.mod_eq_of_lt (by omega)

theorem add32_of_lt (a b : Nat) (h : a + b < 2 ^ 32) : add32 a b = a + b := by
  unfold add32; exact Nat.mod_eq_of_lt h

namespace Otg

theorem Quiet.refl (s : State) : Quiet s s := ⟨fun _ => rfl, fun _ => rfl, fun _ => rfl, rfl, rfl⟩

theorem Quiet.trans {s u v : State} (h1 : Quiet s u) (h2 : Quiet u v) : Quiet s v :=
  ⟨fun k => (h2.1 k).trans (h1.1 k), fun k => (h2.2.1 k).trans (h1.2.1 k),
   fun k => (h2.2.2.1 k).trans (h1.2.2.1 k), h2.2.2.2.1.trans h1.2.2.2.1,
   h2.2.2.2.2.trans h1.2.2.2.2⟩

theorem Quiet.read (s : State) (n : Nat) : Quiet s (readINEPTXFSA s n).2 :=
  ⟨fun _ => rfl, fun _ => rfl, fun _ => rfl, rfl, rfl⟩

theorem Quiet.body (s : State) (n : Nat) : Quiet s (pushBody s n).1 := by
  refine ⟨fun k => ?_, fun k => ?_, fun k => ?_, ?_, ?_⟩ <;>
    simp [pushBody, armedIn, inCallbacks, emptyIntEnables, USB_OTG_FIFO_WriteFifoPacket,
      List.count_append]

theorem pushLoop_quiet (fuel : Nat) : ∀ (s u : State) (n lt : Nat),
    pushLoop fuel s n lt = some u → Quiet s u := by
  induction fuel with
  | zero =>
    intro s u n lt h
    simp only [pushLoop] at h
    split_ifs at h
    injection h with h; subst h
    exact Quiet.read s n
  | succ f ih =>
    intro s u n lt h
    simp only [pushLoop] at h
    split_ifs at h
    · exact ((Quiet.read s n).trans (Quiet.body _ n)).trans (ih _ _ _ _ h)
    · injection h with h; subst h
      exact Quiet.read s n

theorem Push_quiet (fuel : Nat) (s u : State) (n : Nat)
    (h : USBD_EP_PushDataEmptyTxFifo fuel s n = some u) : Quiet s u := by
  unfold USBD_EP_PushDataEmptyTxFifo at h
  dsimp only at h
  by_cases hc : (s.usbdh.epIN n).bufCount > (s.usbdh.epIN n).bufLen
  · rw [if_pos hc] at h
    injection h with h; subst h; exact Quiet.refl _
  · rw [if_neg hc] at h
    split at h
    · simp at h
    · rename_i v hv
      have hq := pushLoop_quiet _ _ _ _ _ hv
      split_ifs at h <;> injection h with h <;> subst h
      · refine Quiet.trans hq ?_
        refine ⟨fun k => ?_, fun k => ?_, fun k => ?_, rfl, rfl⟩ <;>
          simp [armedIn, inCallbacks, emptyIntEnables, USB_OTG_D_DisableInEpEmptyInterrupt,
            List.count_append]
      · exact hq

theorem pushLoop_terminates (fuel : Nat) : ∀ (s : State) (n lt : Nat),
    ((s.usbdh.epIN n).bufLen ≤ (s.usbdh.epIN n).bufCount ∨ 1 ≤ (s.usbdh.epIN n).mps) →
    (s.usbdh.epIN n).bufLen < 2 ^ 32 →
    (s.usbdh.epIN n).bufLen - (s.usbdh.epIN n).bufCount ≤ fuel →
    ∃ u, pushLoop fuel s n lt = some u := by
  induction fuel with
  | zero =>
    intro s n lt hm hb hf
    simp only [pushLoop]
    split_ifs with hc
    · exfalso
      have := hc.2.1
      simp only [readINEPTXFSA] at this
      omega
    · exact ⟨_, rfl⟩
  | succ f ih =>
    intro s n lt hm hb hf
    simp only [pushLoop]
    split_ifs with hc
    · obtain ⟨_, h2, _⟩ := hc
      simp only [readINEPTXFSA] at h2
      have hmps : 1 ≤ (s.usbdh.epIN n).mps := by omega
      have hsub := sub32_of_le _ _ hb (Nat.le_of_lt h2)
      apply ih
      · right; simpa [pushBody, readINEPTXFSA, setEp, setSlot] using hmps
      · simpa [pushBody, readINEPTXFSA, setEp, setSlot] using hb
      · simp only [pushBody, readINEPTXFSA, setEp, setSlot, if_true, USB_OTG_FIFO_WriteFifoPacket,
          logEv]
        rw [hsub]
        split_ifs with hlen
        · rw [add32_of_lt _ _ (by omega)]; omega
        · rw [add32_of_lt _ _ (by omega)]; omega
    · exact ⟨_, rfl⟩

theorem Push_terminates (fuel : Nat) (s : State) (n : Nat)
    (hm : (s.usbdh.epIN n).bufLen ≤ (s.usbdh.epIN n).bufCount ∨ 1 ≤ (s.usbdh.epIN n).mps)
    (hb : (s.usbdh.epIN n).bufLen < 2 ^ 32)
    (hf : (s.usbdh.epIN n).bufLen - (s.usbdh.epIN n).bufCount ≤ fuel) :
    ∃ u, USBD_EP_PushDataEmptyTxFifo fuel s n = some u := by
  unfold USBD_EP_PushDataEmptyTxFifo
  dsimp only
  by_cases hc : (s.usbdh.epIN n).bufCount > (s.usbdh.epIN n).bufLen
  · rw [if_pos hc]; exact ⟨_, rfl⟩
  · rw [if_neg hc]
    obtain ⟨v, hv⟩ := pushLoop_terminates fuel s n
      (add32 (if sub32 (s.usbdh.epIN n).bufLen (s.usbdh.epIN n).bufCount > (s.usbdh.epIN n).mps
              then (s.usbdh.epIN n).mps
              else sub32 (s.usbdh.epIN n).bufLen (s.usbdh.epIN n).bufCount) 3 / 4) hm hb hf
    rw [hv]
    dsimp only
    split_ifs <;> exact ⟨_, rfl⟩

end Otg

namespace Otg

theorem NoArm.same (s : State) : NoArm s s := ⟨fun _ => rfl, fun _ => rfl, fun _ => ⟨rfl, rfl⟩⟩

theorem NoArm.chain {s u v : State} (h1 : NoArm s u) (h2 : NoArm u v) : NoArm s v :=
  ⟨fun k => (h2.1 k).trans (h1.1 k), fun k => (h2.2.1 k).trans (h1.2.1 k),
   fun k => ⟨((h2.2.2 k).1).trans ((h1.2.2 k).1), ((h2.2.2 k).2).trans ((h1.2.2 k).2)⟩⟩

theorem Quiet.noArm {s u : State} (h : Quiet s u) : NoArm s u :=
  ⟨h.1, h.2.2.1, fun k => by rw [h.2.2.2.1]; exact ⟨rfl, rfl⟩⟩

/-- Clearing an interrupt status bit arms nothing and changes no descriptor. -/
theorem clearInIfSet_facts (s : State) (n : Nat) (f : InFlag) :
    NoArm s (clearInIfSet s n f) ∧
    (∀ k, inCallbacks k (clearInIfSet s n f).trace = inCallbacks k s.trace) ∧
    (∀ k, fifoPackets k (clearInIfSet s n f).trace = fifoPackets k s.trace) ∧
    (clearInIfSet s n f).usbdh = s.usbdh := by
  unfold clearInIfSet
  split_ifs
  · refine ⟨⟨fun k => ?_, fun k => ?_, fun k => ?_⟩, fun k => ?_, fun k => ?_, ?_⟩ <;>
      cases f <;>
      simp [USB_OTG_D_ClearInEpIntStatus, armedIn, emptyIntEnables, inCallbacks, fifoPackets,
        List.count_append, updIn_EP_IN] <;>
      split_ifs <;> simp_all
  · exact ⟨NoArm.same s, fun _ => rfl, fun _ => rfl, rfl⟩

end Otg

namespace Otg

@[simp] theorem EP0_OutHandler_EP_IN (s : State) (d p : Nat) :
    (USBD_EP0_OutHandler s d p).hw.EP_IN = s.hw.EP_IN := by
  unfold USBD_EP0_OutHandler; split <;> simp

theorem EP0_OutHandler_trace (s : State) (d p : Nat) :
    (USBD_EP0_OutHandler s d p).trace =
      s.trace ++ (if d = ENABLE then [Ev.OutEpEnable USBD_EP_0] else []) := by
  unfold USBD_EP0_OutHandler; split <;> simp [*]

/-- The descriptor fields that bound a transfer: requested length, count, packet size. -/
theorem inEpXferComplete_facts (s : State) (n : Nat) :
    NoArm s (inEpXferComplete s n) ∧
    (∀ k, inCallbacks k (inEpXferComplete s n).trace =
            inCallbacks k s.trace + (if k = n then 1 else 0)) ∧
    (∀ k, fifoPackets k (inEpXferComplete s n).trace = fifoPackets k s.trace) ∧
    (∀ k, ((inEpXferComplete s n).usbdh.epIN k).bufLen = (s.usbdh.epIN k).bufLen ∧
          ((inEpXferComplete s n).usbdh.epIN k).bufCount = (s.usbdh.epIN k).bufCount ∧
          ((inEpXferComplete s n).usbdh.epIN k).mps = (s.usbdh.epIN k).mps) := by
  unfold inEpXferComplete
  dsimp only
  refine ⟨⟨fun k => ?_, fun k => ?_, fun k => ?_⟩, fun k => ?_, fun k => ?_, fun k => ?_⟩ <;>
    split_ifs <;>
    simp [USB_OTG_D_DisableInEpEmptyInterrupt, USB_OTG_D_ClearInEpIntStatus,
      USBD_DataInStageCallback, EP0_OutHandler_trace, armedIn, emptyIntEnables, inCallbacks,
      fifoPackets, List.count_append, updIn_EP_IN, setEp, setSlot, USBD_EP_0] <;>
    (try split_ifs) <;> simp_all

end Otg

namespace Otg

theorem inEpStatus_facts (s : State) (n : Nat) (hf : (s.hw.EP_IN n).intTSFCMP = true) :
    NoArm s (inEpStatus s n) ∧
    (∀ k, inCallbacks k (inEpStatus s n).trace =
            inCallbacks k s.trace + (if k = n then 1 else 0)) ∧
    (∀ k, fifoPackets k (inEpStatus s n).trace = fifoPackets k s.trace) ∧
    (∀ k, ((inEpStatus s n).usbdh.epIN k).bufLen = (s.usbdh.epIN k).bufLen ∧
          ((inEpStatus s n).usbdh.epIN k).bufCount = (s.usbdh.epIN k).bufCount ∧
          ((inEpStatus s n).usbdh.epIN k).mps = (s.usbdh.epIN k).mps) := by
  unfold inEpStatus
  simp only [USB_OTG_D_ReadInEpIntStatus, hf, if_true]
  obtain ⟨a1, a2, a3, a4⟩ := inEpXferComplete_facts s n
  obtain ⟨b1, b2, b3, b4⟩ := clearInIfSet_facts (inEpXferComplete s n) n InFlag.TO
  obtain ⟨c1, c2, c3, c4⟩ :=
    clearInIfSet_facts (clearInIfSet (inEpXferComplete s n) n InFlag.TO) n InFlag.ITXEMP
  obtain ⟨d1, d2, d3, d4⟩ :=
    clearInIfSet_facts
      (clearInIfSet (clearInIfSet (inEpXferComplete s n) n InFlag.TO) n InFlag.ITXEMP)
      n InFlag.IEPNAKE
  obtain ⟨e1, e2, e3, e4⟩ :=
    clearInIfSet_facts
      (clearInIfSet
        (clearInIfSet (clearInIfSet (inEpXferComplete s n) n InFlag.TO) n InFlag.ITXEMP)
        n InFlag.IEPNAKE)
      n InFlag.EPDIS
  refine ⟨(((a1.chain b1).chain c1).chain d1).chain e1, fun k => ?_, fun k => ?_, fun k => ?_⟩
  · rw [e2, d2, c2, b2, a2]
  · rw [e3, d3, c3, b3, a3]
  · rw [e4, d4, c4, b4]; exact a4 k

theorem handler_single0 (fuel : Nat) (s : State) (h : s.hw.inEpIntBits % 2 ^ 16 = 1) :
    USBD_InEndpointIsrHandler fuel s = inEpBody fuel s 0 := by
  unfold USBD_InEndpointIsrHandler
  rw [h]
  cases hb : inEpBody fuel s 0 <;> simp [inEpLoop, hb]

/-- The transfer-completed interrupt of IN endpoint 0, with no other IN endpoint interrupt
pending: the handler returns, the data-IN callback of endpoint 0 has fired once more, no IN
endpoint was armed, and no packet count or transfer size was reprogrammed. -/
theorem inComplete_ep0 (fuel : Nat) (u : State) (hbits : u.hw.inEpIntBits = 0)
    (hm : (u.usbdh.epIN 0).bufLen ≤ (u.usbdh.epIN 0).bufCount ∨ 1 ≤ (u.usbdh.epIN 0).mps)
    (hb : (u.usbdh.epIN 0).bufLen < 2 ^ 32)
    (hf : (u.usbdh.epIN 0).bufLen - (u.usbdh.epIN 0).bufCount ≤ fuel) :
    ∃ v, USBD_InEndpointIsrHandler fuel (hwInComplete u 0) = some v ∧
      NoArm u v ∧ inCallbacks 0 v.trace = inCallbacks 0 u.trace + 1 := by
  have hw1 : (hwInComplete u 0).hw.inEpIntBits % 2 ^ 16 = 1 := by
    simp [hwInComplete, hbits]
  have hfl : ((hwInComplete u 0).hw.EP_IN 0).intTSFCMP = true := by
    simp [hwInComplete, setSlot]
  rw [handler_single0 fuel _ hw1]
  obtain ⟨a1, a2, a3, a4⟩ := inEpStatus_facts (hwInComplete u 0) 0 hfl
  have hu : NoArm u (hwInComplete u 0) := by
    refine ⟨fun _ => rfl, fun _ => rfl, fun k => ?_⟩
    simp only [hwInComplete, setSlot]
    split_ifs with hk
    · subst hk; exact ⟨rfl, rfl⟩
    · exact ⟨rfl, rfl⟩
  have a2' : inCallbacks 0 (inEpStatus (hwInComplete u 0) 0).trace = inCallbacks 0 u.trace + 1 := by
    rw [a2 0]; rfl
  unfold inEpBody
  split_ifs
  · obtain ⟨b1, b2, b3⟩ := a4 0
    have hsame : (hwInComplete u 0).usbdh = u.usbdh := rfl
    rw [hsame] at b1 b2 b3
    obtain ⟨v, hv⟩ := Push_terminates fuel (inEpStatus (hwInComplete u 0) 0) 0
      (by rw [b1, b2, b3]; exact hm) (by rw [b1]; exact hb) (by rw [b1, b2]; exact hf)
    have hq := Push_quiet _ _ _ _ hv
    exact ⟨v, hv, (hu.chain a1).chain hq.noArm, by rw [hq.2.1 0, a2']⟩
  · exact ⟨_, rfl, hu.chain a1, a2'⟩

end Otg

namespace Usbd

/-- The state after `USBD_EP_Transfer` on an endpoint whose IN descriptor is single-buffered:
trace, descriptor, TX count and status, pending events. -/
theorem Transfer_single_facts (s : State) (a buf L : Nat)
    (hbs : (s.usbdh.epIN (a &&& 0x0F)).bufferStatus = USBD_EP_BUFFER_SINGLE) :
    (USBD_EP_Transfer s a buf L).trace =
      s.trace ++ [Ev.WritePacketData (s.usbdh.epIN (a &&& 0x0F)).pmaAddr buf
                    (if L > (s.usbdh.epIN (a &&& 0x0F)).mps then (s.usbdh.epIN (a &&& 0x0F)).mps else L),
                  Ev.SetTxCnt (a &&& 0x0F)
                    (if L > (s.usbdh.epIN (a &&& 0x0F)).mps then (s.usbdh.epIN (a &&& 0x0F)).mps else L),
                  Ev.SetTxStatus (a &&& 0x0F) USBD_EP_STATUS_VALID] ∧
    ((USBD_EP_Transfer s a buf L).usbGlobal.EP (a &&& 0x0F)).txCnt =
      (if L > (s.usbdh.epIN (a &&& 0x0F)).mps then (s.usbdh.epIN (a &&& 0x0F)).mps else L) ∧
    ((USBD_EP_Transfer s a buf L).usbGlobal.EP (a &&& 0x0F)).txStatus = USBD_EP_STATUS_VALID ∧
    ((USBD_EP_Transfer s a buf L).usbGlobal.EP (a &&& 0x0F)).ctfr =
      (s.usbGlobal.EP (a &&& 0x0F)).ctfr ∧
    (USBD_EP_Transfer s a buf L).usbGlobal.ctrPending = s.usbGlobal.ctrPending ∧
    (USBD_EP_Transfer s a buf L).usbdh.epIN (a &&& 0x0F) =
      { (s.usbdh.epIN (a &&& 0x0F)) with
          epNum := a &&& 0x0F, epDir := EP_DIR_IN, buffer := buf, bufCount := 0,
          bufLen := L, dbBufferFill := ENABLE, dbBufferLen := L } := by
  rw [Transfer_single s a buf L hbs]
  simp [USBD_EP_SetTxStatus, USBD_EP_SetTxCnt, USBD_EP_WritePacketData, updEP_EP, updEP, setEp,
    setSlot]

end Usbd

/-- C6: in both builds `USBD_EP_Transfer` on endpoint 0 with length 0 arms exactly one packet
of zero bytes (USB_DEVICE, single-buffered EP0: TX count 0, TX status VALID; USB_OTG: packet
count 1, transfer size 0, TxFIFO-empty interrupt not enabled), and the completion event of
that packet fires `USBD_DataInStageCallback(0)` once, the handler returning without arming
any IN endpoint again. -/
theorem C6_ep0_zero_length_in (s : Usbd.State) (t : Otg.State) (buf fuel : Nat)
    (hbs : (s.usbdh.epIN 0).bufferStatus = Usbd.USBD_EP_BUFFER_SINGLE)
    (hq : s.usbGlobal.ctrPending = [])
    (hbits : t.hw.inEpIntBits = 0) :
    (((Usbd.USBD_EP_Transfer s 0x80 buf 0).usbGlobal.EP 0).txCnt = 0 ∧
     ((Usbd.USBD_EP_Transfer s 0x80 buf 0).usbGlobal.EP 0).txStatus = Usbd.USBD_EP_STATUS_VALID ∧
     Usbd.armedIn 0 (Usbd.USBD_EP_Transfer s 0x80 buf 0).trace = Usbd.armedIn 0 s.trace + 1 ∧
     Usbd.inCallbacks 0 (Usbd.USBD_EP_Transfer s 0x80 buf 0).trace = Usbd.inCallbacks 0 s.trace ∧
     Usbd.inCallbacks 0 (Usbd.inEvent 0 (Usbd.USBD_EP_Transfer s 0x80 buf 0)).trace =
       Usbd.inCallbacks 0 s.trace + 1 ∧
     (∀ k, Usbd.armedIn k (Usbd.inEvent 0 (Usbd.USBD_EP_Transfer s 0x80 buf 0)).trace =
       Usbd.armedIn k (Usbd.USBD_EP_Transfer s 0x80 buf 0).trace)) ∧
    (((Otg.USBD_EP_Transfer t 0x80 buf 0).hw.EP_IN 0).EPPCNT = 1 ∧
     ((Otg.USBD_EP_Transfer t 0x80 buf 0).hw.EP_IN 0).EPTRS = 0 ∧
     Otg.armedIn 0 (Otg.USBD_EP_Transfer t 0x80 buf 0).trace = Otg.armedIn 0 t.trace + 1 ∧
     Otg.emptyIntEnables 0 (Otg.USBD_EP_Transfer t 0x80 buf 0).trace =
       Otg.emptyIntEnables 0 t.trace ∧
     Otg.inCallbacks 0 (Otg.USBD_EP_Transfer t 0x80 buf 0).trace = Otg.inCallbacks 0 t.trace ∧
     ∃ v, Otg.USBD_InEndpointIsrHandler fuel
            (Otg.hwInComplete (Otg.USBD_EP_Transfer t 0x80 buf 0) 0) = some v ∧
          Otg.NoArm (Otg.USBD_EP_Transfer t 0x80 buf 0) v ∧
          Otg.inCallbacks 0 v.trace = Otg.inCallbacks 0 t.trace + 1) := by
  have h80 : (0x80 : Nat) &&& 0x0F = 0 := by decide
  constructor
  · have hbs' : (s.usbdh.epIN (0x80 &&& 0x0F)).bufferStatus = Usbd.USBD_EP_BUFFER_SINGLE := by
      rw [h80]; exact hbs
    obtain ⟨f1, f2, f3, _, f5, f6⟩ := Usbd.Transfer_single_facts s 0x80 buf 0 hbs'
    simp only [h80] at f1 f2 f3 f6
    have hq1 : (Usbd.USBD_EP_Transfer s 0x80 buf 0).usbGlobal.ctrPending = [] := by rw [f5, hq]
    have htr := Usbd.inEvent_ep0_trace _ hq1
    refine ⟨by simpa using f2, f3, ?_, ?_, ?_, fun k => ?_⟩
    · rw [f1]; simp [Usbd.armedIn, List.count_append]
    · rw [f1]; simp [Usbd.inCallbacks, List.count_append]
    · rw [htr, f1]; simp only [Usbd.inCallbacks, List.count_append]
      split_ifs <;> simp
    · rw [htr]; simp only [Usbd.armedIn, List.count_append]
      split_ifs <;> simp
  · obtain ⟨g1, g2, g3, g4, g5, g6, g7, _⟩ := Otg.Transfer_ep0 t buf 0
    have hz : (if 0 > (t.usbdh.epIN 0).mps then (t.usbdh.epIN 0).mps else 0) = 0 := by
      split_ifs <;> omega
    rw [hz] at g1 g5 g6
    obtain ⟨v, hv, hna, hcb⟩ := Otg.inComplete_ep0 fuel (Otg.USBD_EP_Transfer t 0x80 buf 0)
      (by rw [g7, hbits]) (by left; rw [g1]; exact Nat.zero_le _) (by rw [g1]; decide)
      (by rw [g1]; simp)
    have g6' : (Otg.USBD_EP_Transfer t 0x80 buf 0).trace = t.trace ++ [Otg.Ev.InEpEnable 0] := by
      rw [g6]; simp
    have hcb1 : Otg.inCallbacks 0 (Otg.USBD_EP_Transfer t 0x80 buf 0).trace =
        Otg.inCallbacks 0 t.trace := by
      rw [g6']; simp [Otg.inCallbacks, List.count_append]
    refine ⟨g4, g5, ?_, ?_, hcb1, v, hv, hna, by rw [hcb, hcb1]⟩
    · rw [g6']; simp [Otg.armedIn, List.count_append]
    · rw [g6']; simp [Otg.emptyIntEnables, List.count_append]

/-- C6 on the example states (max packet size 64, DMA off, no fuel needed). -/
theorem C6_ep0_zero_length_in_witness :
    (((Usbd.exState 64).usbdh.epIN 0).bufferStatus = Usbd.USBD_EP_BUFFER_SINGLE ∧
      (Usbd.exState 64).usbGlobal.ctrPending = [] ∧ (Otg.exState 64 0).hw.inEpIntBits = 0) ∧
    Usbd.inCallbacks 0
      (Usbd.inEvent 0 (Usbd.USBD_EP_Transfer (Usbd.exState 64) 0x80 0x1000 0)).trace =
        Usbd.inCallbacks 0 (Usbd.exState 64).trace + 1 ∧
    ((Otg.USBD_EP_Transfer (Otg.exState 64 0) 0x80 0x1000 0).hw.EP_IN 0).EPPCNT = 1 :=
  ⟨⟨rfl, rfl, rfl⟩,
   (C6_ep0_zero_length_in (Usbd.exState 64) (Otg.exState 64 0) 0x1000 0 rfl rfl rfl).1.2.2.2.2.1,
   (C6_ep0_zero_length_in (Usbd.exState 64) (Otg.exState 64 0) 0x1000 0 rfl rfl rfl).2.1⟩

namespace Usbd

/-- Endpoint 0 IN, USB_DEVICE build: `USBD_EP_Transfer` arms one packet of `min(L, mps)`
bytes, and the correct-transfer event of that packet fires the callback without arming
another packet, whatever `L` is. -/
theorem ep0_in_one_packet (s : State) (buf L : Nat)
    (hbs : (s.usbdh.epIN 0).bufferStatus = USBD_EP_BUFFER_SINGLE)
    (hq : s.usbGlobal.ctrPending = []) :
    ((USBD_EP_Transfer s 0x80 buf L).usbGlobal.EP 0).txCnt =
      (if L > (s.usbdh.epIN 0).mps then (s.usbdh.epIN 0).mps else L) ∧
    armedIn 0 (USBD_EP_Transfer s 0x80 buf L).trace = armedIn 0 s.trace + 1 ∧
    inCallbacks 0 (USBD_EP_Transfer s 0x80 buf L).trace = inCallbacks 0 s.trace ∧
    inCallbacks 0 (inEvent 0 (USBD_EP_Transfer s 0x80 buf L)).trace = inCallbacks 0 s.trace + 1 ∧
    armedIn 0 (inEvent 0 (USBD_EP_Transfer s 0x80 buf L)).trace = armedIn 0 s.trace + 1 := by
  have h80 : (0x80 : Nat) &&& 0x0F = 0 := by decide
  have hbs' : (s.usbdh.epIN (0x80 &&& 0x0F)).bufferStatus = USBD_EP_BUFFER_SINGLE := by
    rw [h80]; exact hbs
  obtain ⟨f1, f2, _, _, f5, _⟩ := Transfer_single_facts s 0x80 buf L hbs'
  simp only [h80] at f1 f2
  have hq1 : (USBD_EP_Transfer s 0x80 buf L).usbGlobal.ctrPending = [] := by rw [f5, hq]
  have htr := inEvent_ep0_trace _ hq1
  refine ⟨f2, ?_, ?_, ?_, ?_⟩
  · rw [f1]; simp [armedIn, List.count_append]
  · rw [f1]; simp [inCallbacks, List.count_append]
  · rw [htr, f1]; simp only [inCallbacks, List.count_append]
    split_ifs <;> simp
  · rw [htr, f1]; simp only [armedIn, List.count_append]
    split_ifs <;> simp

end Usbd

namespace Otg

/-- Endpoint 0 IN, USB_OTG build: `USBD_EP_Transfer` programs one packet of `min(L, mps)`
bytes and enables the endpoint once; the transfer-completed interrupt fires the callback and
the handler returns without arming or reprogramming an IN endpoint. -/
theorem otg_ep0_in_one_packet (t : State) (buf L fuel : Nat)
    (hbits : t.hw.inEpIntBits = 0) (hM : (t.usbdh.epIN 0).mps < 2 ^ 32)
    (hL : L < 2 ^ 32) (hfuel : (t.usbdh.epIN 0).mps ≤ fuel) :
    ((USBD_EP_Transfer t 0x80 buf L).hw.EP_IN 0).EPPCNT = 1 ∧
    ((USBD_EP_Transfer t 0x80 buf L).hw.EP_IN 0).EPTRS =
      (if L > (t.usbdh.epIN 0).mps then (t.usbdh.epIN 0).mps else L) ∧
    armedIn 0 (USBD_EP_Transfer t 0x80 buf L).trace = armedIn 0 t.trace + 1 ∧
    ∃ v, USBD_InEndpointIsrHandler fuel (hwInComplete (USBD_EP_Transfer t 0x80 buf L) 0) = some v ∧
      NoArm (USBD_EP_Transfer t 0x80 buf L) v ∧
      inCallbacks 0 v.trace = inCallbacks 0 t.trace + 1 ∧
      armedIn 0 v.trace = armedIn 0 t.trace + 1 := by
  obtain ⟨g1, g2, g3, g4, g5, g6, g7, _⟩ := Transfer_ep0 t buf L
  have harm : armedIn 0 (USBD_EP_Transfer t 0x80 buf L).trace = armedIn 0 t.trace + 1 := by
    rw [g6]; simp only [armedIn, List.count_append]
    split_ifs <;> simp
  have hcb1 : inCallbacks 0 (USBD_EP_Transfer t 0x80 buf L).trace = inCallbacks 0 t.trace := by
    rw [g6]; simp only [inCallbacks, List.count_append]
    split_ifs <;> simp
  obtain ⟨v, hv, hna, hcb⟩ := inComplete_ep0 fuel (USBD_EP_Transfer t 0x80 buf L)
    (by rw [g7, hbits])
    (by rw [g1, g2, g3]; split_ifs <;> omega)
    (by rw [g1]; split_ifs <;> omega)
    (by rw [g1, g2]; split_ifs <;> omega)
  exact ⟨g4, g5, harm, v, hv, hna, by rw [hcb, hcb1], by rw [hna.1 0, harm]⟩

end Otg

/-- C7 (as stated, refuted): with max packet size 64 a 150-byte `USBD_EP_Transfer` on
endpoint 0 would need 3 packets, but when `USBD_DataInStageCallback(0)` has fired the
driver has armed the endpoint once, in both builds. -/
theorem C7_ep0_in_single_packet_before_callback :
    ((150 + 64 - 1) / 64 = 3 ∧
     Usbd.inCallbacks 0
       (Usbd.inEvent 0 (Usbd.USBD_EP_Transfer (Usbd.exState 64) 0x80 0x1000 150)).trace = 1 ∧
     Usbd.armedIn 0
       (Usbd.inEvent 0 (Usbd.USBD_EP_Transfer (Usbd.exState 64) 0x80 0x1000 150)).trace = 1) ∧
    (((Otg.USBD_EP_Transfer (Otg.exState 64 0) 0x80 0x1000 150).hw.EP_IN 0).EPPCNT = 1 ∧
     ∃ v, Otg.USBD_InEndpointIsrHandler 64
            (Otg.hwInComplete (Otg.USBD_EP_Transfer (Otg.exState 64 0) 0x80 0x1000 150) 0) = some v ∧
          Otg.inCallbacks 0 v.trace = 1 ∧ Otg.armedIn 0 v.trace = 1) := by
  obtain ⟨_, _, _, a4, a5⟩ := Usbd.ep0_in_one_packet (Usbd.exState 64) 0x1000 150 rfl rfl
  obtain ⟨b1, _, _, v, hv, _, b5, b6⟩ :=
    Otg.otg_ep0_in_one_packet (Otg.exState 64 0) 0x1000 150 64 rfl (by decide) (by decide)
      (Nat.le_refl 64)
  exact ⟨⟨by decide, a4, a5⟩, b1, v, hv, b5, b6⟩

/-- C7 (amended): on endpoint 0 the packet-count rule does not apply.  For
`USBD_EP_Transfer` on EP0 IN with length `L` above the max packet size `M`, the driver issues
exactly one packet, of `M` bytes, before `USBD_DataInStageCallback(0)` fires, and the
completion handler arms nothing further (USB_DEVICE: TX count `M`, one arming; USB_OTG:
packet count 1, transfer size `M`, one endpoint enable). -/
theorem C7_ep0_in_one_packet_then_callback (s : Usbd.State) (t : Otg.State) (buf L fuel : Nat)
    (hbs : (s.usbdh.epIN 0).bufferStatus = Usbd.USBD_EP_BUFFER_SINGLE)
    (hq : s.usbGlobal.ctrPending = [])
    (hLs : L > (s.usbdh.epIN 0).mps)
    (hbits : t.hw.inEpIntBits = 0)
    (hLt : L > (t.usbdh.epIN 0).mps) (hL : L < 2 ^ 32)
    (hfuel : (t.usbdh.epIN 0).mps ≤ fuel) :
    (((Usbd.USBD_EP_Transfer s 0x80 buf L).usbGlobal.EP 0).txCnt = (s.usbdh.epIN 0).mps ∧
     Usbd.inCallbacks 0 (Usbd.USBD_EP_Transfer s 0x80 buf L).trace = Usbd.inCallbacks 0 s.trace ∧
     Usbd.inCallbacks 0 (Usbd.inEvent 0 (Usbd.USBD_EP_Transfer s 0x80 buf L)).trace =
       Usbd.inCallbacks 0 s.trace + 1 ∧
     Usbd.armedIn 0 (Usbd.inEvent 0 (Usbd.USBD_EP_Transfer s 0x80 buf L)).trace =
       Usbd.armedIn 0 s.trace + 1) ∧
    (((Otg.USBD_EP_Transfer t 0x80 buf L).hw.EP_IN 0).EPPCNT = 1 ∧
     ((Otg.USBD_EP_Transfer t 0x80 buf L).hw.EP_IN 0).EPTRS = (t.usbdh.epIN 0).mps ∧
     ∃ v, Otg.USBD_InEndpointIsrHandler fuel
            (Otg.hwInComplete (Otg.USBD_EP_Transfer t 0x80 buf L) 0) = some v ∧
          Otg.NoArm (Otg.USBD_EP_Transfer t 0x80 buf L) v ∧
          Otg.inCallbacks 0 v.trace = Otg.inCallbacks 0 t.trace + 1 ∧
          Otg.armedIn 0 v.trace = Otg.armedIn 0 t.trace + 1) := by
  obtain ⟨a1, _, a3, a4, a5⟩ := Usbd.ep0_in_one_packet s buf L hbs hq
  obtain ⟨b1, b2, _, v, hv, b4, b5, b6⟩ :=
    Otg.otg_ep0_in_one_packet t buf L fuel hbits (by omega) hL hfuel
  rw [if_pos hLs] at a1
  rw [if_pos hLt] at b2
  exact ⟨⟨a1, a3, a4, a5⟩, b1, b2, v, hv, b4, b5, b6⟩

/-- C7 (amended) on the example states: max packet size 64, length 150. -/
theorem C7_ep0_in_one_packet_then_callback_witness :
    ((Usbd.exState 64).usbGlobal.ctrPending = [] ∧ 150 > ((Usbd.exState 64).usbdh.epIN 0).mps ∧
      (Otg.exState 64 0).hw.inEpIntBits = 0 ∧ 150 > ((Otg.exState 64 0).usbdh.epIN 0).mps) ∧
    ((Usbd.USBD_EP_Transfer (Usbd.exState 64) 0x80 0x1000 150).usbGlobal.EP 0).txCnt = 64 ∧
    ((Otg.USBD_EP_Transfer (Otg.exState 64 0) 0x80 0x1000 150).hw.EP_IN 0).EPTRS = 64 :=
  ⟨⟨rfl, by decide, rfl, by decide⟩,
   (C7_ep0_in_one_packet_then_callback (Usbd.exState 64) (Otg.exState 64 0) 0x1000 150 64
      rfl rfl (by decide) rfl (by decide) (by decide) (Nat.le_refl 64)).1.1,
   (C7_ep0_in_one_packet_then_callback (Usbd.exState 64) (Otg.exState 64 0) 0x1000 150 64
      rfl rfl (by decide) rfl (by decide) (by decide) (Nat.le_refl 64)).2.2.1⟩

namespace Usbd

/-- One correct-transfer IN event on a single-buffered bulk endpoint `n ≠ 0` whose packet of
`c` bytes was acknowledged while `r` bytes were outstanding. -/
theorem inEvent_single_step (u : State) (n r c : Nat) (hn : n ≠ 0)
    (hq : u.usbGlobal.ctrPending = [])
    (hctfr : (u.usbGlobal.EP n).ctfr = false)
    (hnum : (u.usbdh.epIN n).epNum = n)
    (hdir : (u.usbdh.epIN n).epDir = EP_DIR_IN)
    (hty : (u.usbdh.epIN n).epType = EP_TYPE_BULK)
    (hbs : (u.usbdh.epIN n).bufferStatus = USBD_EP_BUFFER_SINGLE)
    (hr : (u.usbdh.epIN n).bufLen = r) (hr32 : r < 2 ^ 32)
    (hc : (u.usbGlobal.EP n).txCnt = c) (hc16 : c < 2 ^ 16) :
    (r ≤ c →
      (inEvent n u).trace = u.trace ++ [Ev.ResetTxFlag n, Ev.DataInStageCallback n] ∧
      (inEvent n u).usbdh.epIN n = { (u.usbdh.epIN n) with bufLen := 0 }) ∧
    (c < r →
      (inEvent n u).trace = u.trace ++
        [Ev.ResetTxFlag n,
         Ev.WritePacketData (u.usbdh.epIN n).pmaAddr (add32 (u.usbdh.epIN n).buffer c)
           (if r - c > (u.usbdh.epIN n).mps then (u.usbdh.epIN n).mps else r - c),
         Ev.SetTxCnt n (if r - c > (u.usbdh.epIN n).mps then (u.usbdh.epIN n).mps else r - c),
         Ev.SetTxStatus n USBD_EP_STATUS_VALID] ∧
      (inEvent n u).usbdh.epIN n =
        { (u.usbdh.epIN n) with bufLen := r - c, buffer := add32 (u.usbdh.epIN n).buffer c,
                                bufCount := add32 (u.usbdh.epIN n).bufCount c } ∧
      ((inEvent n u).usbGlobal.EP n).txCnt =
        (if r - c > (u.usbdh.epIN n).mps then (u.usbdh.epIN n).mps else r - c) ∧
      ((inEvent n u).usbGlobal.EP n).txStatus = USBD_EP_STATUS_VALID ∧
      ((inEvent n u).usbGlobal.EP n).ctfr = false ∧
      (inEvent n u).usbGlobal.ctrPending = []) := by
  have hmod : c % 65536 = c := Nat.mod_eq_of_lt hc16
  unfold inEvent USBD_EP_CTRHandler hwInComplete
  simp only [hq, List.nil_append, ctrHandlerLoop, ctrHandlerBody, USBD_EP_0, hn, if_false]
  simp only [USBD_EP_ReadStatus, setSlot, if_true, hctfr]
  unfold ctrEpIn
  constructor
  · intro hle
    have hng : ¬ (r > c) := by omega
    simp [USBD_EP_ResetTxFlag, getEp, hty, USBD_EP_ReadTxCnt, hnum, updEP_EP, setSlot, hc, hmod,
      hr, hng, USBD_DataInStageCallback, setEp]
  · intro hlt
    have hsub : sub32 r c = r - c := sub32_of_le r c hr32 (Nat.le_of_lt hlt)
    have hne : r - c ≠ 0 := by omega
    simp [USBD_EP_ResetTxFlag, getEp, hty, USBD_EP_ReadTxCnt, hnum, updEP_EP, setSlot, hc, hmod,
      hr, hlt, hsub, hne, setEp]
    rw [XferStart_in_single _ _ (by simp [getEp, setSlot, hdir]) (by simp [getEp, setSlot, hbs])]
    simp [USBD_EP_SetTxStatus, USBD_EP_SetTxCnt, USBD_EP_WritePacketData, updEP_EP, updEP, setSlot,
      getEp]

end Usbd

theorem specPacketCount_pos (L M : Nat) (hM : 1 ≤ M) : 1 ≤ specPacketCount L M := by
  unfold specPacketCount
  split_ifs with h
  · exact Nat.le_refl 1
  · rw [Nat.le_div_iff_mul_le (by omega)]; omega

theorem lt_specPacketCount (L M k : Nat) (hM : 1 ≤ M) (hk : k < specPacketCount L M) :
    k = 0 ∨ k * M < L := by
  unfold specPacketCount at hk
  split_ifs at hk with h
  · left; omega
  · right
    have h1 : k + 1 ≤ (L + M - 1) / M := hk
    rw [Nat.le_div_iff_mul_le (by omega)] at h1
    have h2 : (k + 1) * M = k * M + M := by ring
    omega

theorem le_specPacketCount_mul (L M : Nat) (hM : 1 ≤ M) : L ≤ specPacketCount L M * M := by
  unfold specPacketCount
  split_ifs with h
  · omega
  · have h1 := Nat.div_add_mod (L + M - 1) M
    have h2 := Nat.mod_lt (L + M - 1) (show M > 0 by omega)
    have h3 : (L + M - 1) / M * M = M * ((L + M - 1) / M) := Nat.mul_comm _ _
    omega

namespace Usbd

theorem InRunning_start (s : State) (a buf L n M : Nat)
    (hn : a &&& 0x0F = n)
    (hq : s.usbGlobal.ctrPending = []) (hctfr : (s.usbGlobal.EP n).ctfr = false)
    (hty : (s.usbdh.epIN n).epType = EP_TYPE_BULK)
    (hbs : (s.usbdh.epIN n).bufferStatus = USBD_EP_BUFFER_SINGLE)
    (hmps : (s.usbdh.epIN n).mps = M) :
    InRunning s n M L 0 (USBD_EP_Transfer s a buf L) := by
  subst hn
  obtain ⟨f1, f2, f3, f4, f5, f6⟩ := Transfer_single_facts s a buf L hbs
  have hmin : (if L > M then M else L) = min M L := by
    split_ifs <;> omega
  rw [hmps, hmin] at f1 f2
  refine ⟨by rw [f5, hq], by rw [f4, hctfr], ?_, ?_, ?_, ?_, ?_, ?_, ?_, ?_, f3, ?_, ?_⟩
  · rw [f6]
  · rw [f6]
  · rw [f6]; exact hty
  · rw [f6]; exact hbs
  · rw [f6]; exact hmps
  · rw [f6]; simp
  · rw [f6]; simp
  · rw [f2]; simp
  · rw [f1]; simp [armedIn, List.count_append]
  · rw [f1]; simp [inCallbacks, List.count_append]

theorem InRunning_step (s u : State) (n M L k : Nat) (hn : n ≠ 0) (hM16 : M < 2 ^ 16)
    (hL : L < 2 ^ 32) (h : InRunning s n M L k u) (hmore : (k + 1) * M < L) :
    InRunning s n M L (k + 1) (inEvent n u) := by
  obtain ⟨i1, i2, i3, i4, i5, i6, i7, i8, i9, i10, i11, i12, i13⟩ := h
  have hk : (k + 1) * M = k * M + M := by ring
  have hc : (u.usbGlobal.EP n).txCnt = M := by rw [i10]; omega
  obtain ⟨_, hstep⟩ := inEvent_single_step u n (L - k * M) M hn i1 i2 i3 i4 i5 i6 i8
    (by omega) hc hM16
  obtain ⟨t1, t2, t3, t4, t5, t6⟩ := hstep (by omega)
  have hmin : (if L - k * M - M > (u.usbdh.epIN n).mps then (u.usbdh.epIN n).mps
      else L - k * M - M) = min M (L - (k + 1) * M) := by
    rw [i7]; split_ifs <;> omega
  rw [hmin] at t1 t3
  refine ⟨t6, t5, ?_, ?_, ?_, ?_, ?_, ?_, ?_, t3, t4, ?_, ?_⟩
  · rw [t2]; exact i3
  · rw [t2]; exact i4
  · rw [t2]; exact i5
  · rw [t2]; exact i6
  · rw [t2]; exact i7
  · rw [t2]; simp; omega
  · rw [t2]; simp only; rw [i9, add32_of_lt _ _ (by omega)]; omega
  · rw [t1]; simp only [armedIn, List.count_append] at i12 ⊢
    rw [i12]; simp; omega
  · rw [t1]; simp only [inCallbacks, List.count_append] at i13 ⊢
    rw [i13]; simp

theorem InRunning_finish (s u : State) (n M L k : Nat) (hn : n ≠ 0) (hM16 : M < 2 ^ 16)
    (h : InRunning s n M L k u) (hlast : L ≤ (k + 1) * M) :
    inCallbacks n (inEvent n u).trace = inCallbacks n s.trace + 1 ∧
    armedIn n (inEvent n u).trace = armedIn n s.trace + (k + 1) ∧
    ((inEvent n u).usbdh.epIN n).bufCount = k * M ∧
    ((inEvent n u).usbdh.epIN n).bufLen = 0 := by
  obtain ⟨i1, i2, i3, i4, i5, i6, i7, i8, i9, i10, i11, i12, i13⟩ := h
  have hk : (k + 1) * M = k * M + M := by ring
  have hc : (u.usbGlobal.EP n).txCnt = L - k * M := by rw [i10]; omega
  obtain ⟨hstep, _⟩ := inEvent_single_step u n (L - k * M) (L - k * M) hn i1 i2 i3 i4 i5 i6 i8
    (by omega) hc (by omega)
  obtain ⟨t1, t2⟩ := hstep (Nat.le_refl _)
  refine ⟨?_, ?_, ?_, ?_⟩
  · rw [t1]; simp only [inCallbacks, List.count_append] at i13 ⊢
    rw [i13]; simp
  · rw [t1]; simp only [armedIn, List.count_append] at i12 ⊢
    rw [i12]; simp
  · rw [t2]; exact i9
  · rw [t2]

theorem InRunning_iterate (s : State) (a buf L n M : Nat)
    (hn : a &&& 0x0F = n) (hn0 : n ≠ 0) (hM16 : M < 2 ^ 16) (hL : L < 2 ^ 32)
    (hq : s.usbGlobal.ctrPending = []) (hctfr : (s.usbGlobal.EP n).ctfr = false)
    (hty : (s.usbdh.epIN n).epType = EP_TYPE_BULK)
    (hbs : (s.usbdh.epIN n).bufferStatus = USBD_EP_BUFFER_SINGLE)
    (hmps : (s.usbdh.epIN n).mps = M) :
    ∀ k, (k = 0 ∨ k * M < L) → InRunning s n M L k ((inEvent n)^[k] (USBD_EP_Transfer s a buf L)) := by
  intro k
  induction k with
  | zero => intro _; exact InRunning_start s a buf L n M hn hq hctfr hty hbs hmps
  | succ k ih =>
    intro hk
    have hlt : (k + 1) * M < L := by omega
    have hk' : (k + 1) * M = k * M + M := by ring
    rw [Function.iterate_succ_apply']
    exact InRunning_step s _ n M L k hn0 hM16 hL (ih (by omega)) hlt

end Usbd

theorem specPacketCount_of_dvd (L M : Nat) (hL : 0 < L) (hM : 1 ≤ M) (hd : M ∣ L) :
    specPacketCount L M = L / M := by
  unfold specPacketCount
  rw [if_neg (by omega)]
  obtain ⟨q, rfl⟩ := hd
  have h1 : M * q + M - 1 = M - 1 + M * q := by
    have : 1 ≤ M * q := hL
    omega
  rw [h1, Nat.add_mul_div_left _ _ (by omega : 0 < M), Nat.mul_div_cancel_left _ (by omega : 0 < M)]
  rw [Nat.div_eq_of_lt (by omega)]
  omega

namespace Usbd

/-- A whole `USBD_EP_Transfer` on a single-buffered bulk IN endpoint `n ≠ 0`: while fewer than
`specPacketCount L M` packets are acknowledged the next one is armed and no callback has
fired; the acknowledgement number `specPacketCount L M` fires the callback, arms nothing, and
leaves `bufLen = 0` and `bufCount = (specPacketCount L M - 1) * M`. -/
theorem single_in_transfer (s : State) (a buf L n M : Nat)
    (hn : a &&& 0x0F = n) (hn0 : n ≠ 0) (hM : 1 ≤ M) (hM16 : M < 2 ^ 16) (hL : L < 2 ^ 32)
    (hq : s.usbGlobal.ctrPending = []) (hctfr : (s.usbGlobal.EP n).ctfr = false)
    (hty : (s.usbdh.epIN n).epType = EP_TYPE_BULK)
    (hbs : (s.usbdh.epIN n).bufferStatus = USBD_EP_BUFFER_SINGLE)
    (hmps : (s.usbdh.epIN n).mps = M) :
    (∀ k, k < specPacketCount L M →
      InRunning s n M L k ((inEvent n)^[k] (USBD_EP_Transfer s a buf L))) ∧
    inCallbacks n ((inEvent n)^[specPacketCount L M] (USBD_EP_Transfer s a buf L)).trace =
      inCallbacks n s.trace + 1 ∧
    armedIn n ((inEvent n)^[specPacketCount L M] (USBD_EP_Transfer s a buf L)).trace =
      armedIn n s.trace + specPacketCount L M ∧
    (((inEvent n)^[specPacketCount L M] (USBD_EP_Transfer s a buf L)).usbdh.epIN n).bufCount =
      (specPacketCount L M - 1) * M ∧
    (((inEvent n)^[specPacketCount L M] (USBD_EP_Transfer s a buf L)).usbdh.epIN n).bufLen = 0 := by
  have hrun := InRunning_iterate s a buf L n M hn hn0 hM16 hL hq hctfr hty hbs hmps
  have hpos := specPacketCount_pos L M hM
  have hle := le_specPacketCount_mul L M hM
  constructor
  · intro k hk
    exact hrun k (lt_specPacketCount L M k hM hk)
  · obtain ⟨N, hN⟩ : ∃ N, specPacketCount L M = N + 1 := ⟨specPacketCount L M - 1, by omega⟩
    have hlast := hrun N (lt_specPacketCount L M N hM (by omega))
    rw [hN] at hle ⊢
    rw [Function.iterate_succ_apply']
    obtain ⟨e1, e2, e3, e4⟩ := InRunning_finish s _ n M L N hn0 hM16 hlast hle
    exact ⟨e1, e2, by simpa using e3, e4⟩

end Usbd

/-- C1: USB_DEVICE build, single-buffered bulk IN endpoint `n ≠ 0` with max packet size
`M ≥ 1`, transfer length `L`, every correct-transfer IN event reporting the count last
programmed.  Before `USBD_DataInStageCallback(n)` fires, `USBD_EP_XferStart` has armed
`specPacketCount L M` packets (1 for `L = 0`, `ceil(L/M)` otherwise, which is `L/M` when `M`
divides `L`), the first one included: packet number `k + 1` is armed after `k`
acknowledgements, carries `min(M, L - k*M)` bytes, and no callback has fired by then; the
acknowledgement of the last packet fires the callback once and arms no further packet. -/
theorem C1_single_buffer_bulk_in_packet_count (s : Usbd.State) (epAddr buf L n M : Nat)
    (hn : epAddr &&& 0x0F = n) (hn0 : n ≠ 0) (hM : 1 ≤ M) (hM16 : M < 2 ^ 16)
    (hL : L < 2 ^ 32)
    (hq : s.usbGlobal.ctrPending = []) (hctfr : (s.usbGlobal.EP n).ctfr = false)
    (hty : (s.usbdh.epIN n).epType = EP_TYPE_BULK)
    (hbs : (s.usbdh.epIN n).bufferStatus = Usbd.USBD_EP_BUFFER_SINGLE)
    (hmps : (s.usbdh.epIN n).mps = M) :
    (∀ k, k < specPacketCount L M →
      Usbd.inCallbacks n ((Usbd.inEvent n)^[k] (Usbd.USBD_EP_Transfer s epAddr buf L)).trace =
        Usbd.inCallbacks n s.trace ∧
      Usbd.armedIn n ((Usbd.inEvent n)^[k] (Usbd.USBD_EP_Transfer s epAddr buf L)).trace =
        Usbd.armedIn n s.trace + (k + 1) ∧
      (((Usbd.inEvent n)^[k] (Usbd.USBD_EP_Transfer s epAddr buf L)).usbGlobal.EP n).txCnt =
        min M (L - k * M) ∧
      (((Usbd.inEvent n)^[k] (Usbd.USBD_EP_Transfer s epAddr buf L)).usbGlobal.EP n).txStatus =
        Usbd.USBD_EP_STATUS_VALID) ∧
    Usbd.inCallbacks n
        ((Usbd.inEvent n)^[specPacketCount L M] (Usbd.USBD_EP_Transfer s epAddr buf L)).trace =
      Usbd.inCallbacks n s.trace + 1 ∧
    Usbd.armedIn n
        ((Usbd.inEvent n)^[specPacketCount L M] (Usbd.USBD_EP_Transfer s epAddr buf L)).trace =
      Usbd.armedIn n s.trace + specPacketCount L M ∧
    (L = 0 → specPacketCount L M = 1) ∧
    (0 < L → specPacketCount L M = (L + M - 1) / M) ∧
    (0 < L → M ∣ L → specPacketCount L M = L / M) := by
  obtain ⟨h1, h2, h3, _, _⟩ :=
    Usbd.single_in_transfer s epAddr buf L n M hn hn0 hM hM16 hL hq hctfr hty hbs hmps
  refine ⟨fun k hk => ?_, h2, h3, ?_, ?_, ?_⟩
  · obtain ⟨_, _, _, _, _, _, _, _, _, i10, i11, i12, i13⟩ := h1 k hk
    exact ⟨i13, i12, i10, i11⟩
  · intro h0; simp [specPacketCount, h0]
  · intro h0; simp [specPacketCount, Nat.pos_iff_ne_zero.mp h0]
  · intro h0 hd; exact specPacketCount_of_dvd L M h0 hM hd

/-- C1 on the example state: endpoint 1 (address 0x81), max packet size 64, 150 bytes:
three packets, the third of 22 bytes, then the callback. -/
theorem C1_single_buffer_bulk_in_packet_count_witness :
    ((0x81 : Nat) &&& 0x0F = 1 ∧ (Usbd.exState 64).usbGlobal.ctrPending = [] ∧
      ((Usbd.exState 64).usbGlobal.EP 1).ctfr = false ∧
      ((Usbd.exState 64).usbdh.epIN 1).epType = EP_TYPE_BULK ∧
      ((Usbd.exState 64).usbdh.epIN 1).bufferStatus = Usbd.USBD_EP_BUFFER_SINGLE ∧
      ((Usbd.exState 64).usbdh.epIN 1).mps = 64) ∧
    specPacketCount 150 64 = 3 ∧
    (((Usbd.inEvent 1)^[2] (Usbd.USBD_EP_Transfer (Usbd.exState 64) 0x81 0x1000 150)).usbGlobal.EP
        1).txCnt = 22 ∧
    Usbd.inCallbacks 1
        ((Usbd.inEvent 1)^[3] (Usbd.USBD_EP_Transfer (Usbd.exState 64) 0x81 0x1000 150)).trace = 1 ∧
    Usbd.armedIn 1
        ((Usbd.inEvent 1)^[3] (Usbd.USBD_EP_Transfer (Usbd.exState 64) 0x81 0x1000 150)).trace = 3 :=
  ⟨⟨by decide, rfl, rfl, rfl, rfl, rfl⟩, by decide,
   ((C1_single_buffer_bulk_in_packet_count (Usbd.exState 64) 0x81 0x1000 150 1 64 (by decide)
      (by decide) (by decide) (by decide) (by decide) rfl rfl rfl rfl rfl).1 2 (by decide)).2.2.1,
   (C1_single_buffer_bulk_in_packet_count (Usbd.exState 64) 0x81 0x1000 150 1 64 (by decide)
      (by decide) (by decide) (by decide) (by decide) rfl rfl rfl rfl rfl).2.1,
   (C1_single_buffer_bulk_in_packet_count (Usbd.exState 64) 0x81 0x1000 150 1 64 (by decide)
      (by decide) (by decide) (by decide) (by decide) rfl rfl rfl rfl rfl).2.2.1⟩

/-- C2 (as stated, refuted): endpoint 1, max packet size 64, `USBD_EP_Transfer` of 150 bytes.
When `USBD_DataInStageCallback(1)` fires, after the third packet, the descriptor's `bufCount`
is 128, not 150. -/
theorem C2_bufcount_at_callback_is_128 :
    Usbd.inCallbacks 1
        ((Usbd.inEvent 1)^[3] (Usbd.USBD_EP_Transfer (Usbd.exState 64) 0x81 0x1000 150)).trace = 1 ∧
    (((Usbd.inEvent 1)^[3]
        (Usbd.USBD_EP_Transfer (Usbd.exState 64) 0x81 0x1000 150)).usbdh.epIN 1).bufCount = 128 ∧
    (((Usbd.inEvent 1)^[3]
        (Usbd.USBD_EP_Transfer (Usbd.exState 64) 0x81 0x1000 150)).usbdh.epIN 1).bufCount ≠ 150 := by
  obtain ⟨_, h2, _, h4, _⟩ :=
    Usbd.single_in_transfer (Usbd.exState 64) 0x81 0x1000 150 1 64 (by decide) (by decide)
      (by decide) (by decide) (by decide) rfl rfl rfl rfl rfl
  have hN : specPacketCount 150 64 = 3 := by decide
  rw [hN] at h2 h4
  refine ⟨h2, h4, ?_⟩
  rw [h4]; decide

/-- C2 (amended): USB_DEVICE build, single-buffered bulk IN endpoint `n ≠ 0`, max packet size
`M ≥ 1`, `USBD_EP_Transfer` of length `L`, each completion reporting the programmed count.
When `USBD_DataInStageCallback(n)` fires, after packet number `specPacketCount L M`, it has
fired exactly once (never before), the remaining length `bufLen` is 0, and the descriptor's
counter `bufCount` holds the bytes of all packets but the last: `(specPacketCount L M - 1) * M`,
which is `L` minus the byte count of the final packet (for `M = 64`, `L = 150`: 128). -/
theorem C2_callback_once_bufcount_excludes_last_packet (s : Usbd.State)
    (epAddr buf L n M : Nat)
    (hn : epAddr &&& 0x0F = n) (hn0 : n ≠ 0) (hM : 1 ≤ M) (hM16 : M < 2 ^ 16)
    (hL : L < 2 ^ 32)
    (hq : s.usbGlobal.ctrPending = []) (hctfr : (s.usbGlobal.EP n).ctfr = false)
    (hty : (s.usbdh.epIN n).epType = EP_TYPE_BULK)
    (hbs : (s.usbdh.epIN n).bufferStatus = Usbd.USBD_EP_BUFFER_SINGLE)
    (hmps : (s.usbdh.epIN n).mps = M) :
    (∀ k, k < specPacketCount L M →
      Usbd.inCallbacks n ((Usbd.inEvent n)^[k] (Usbd.USBD_EP_Transfer s epAddr buf L)).trace =
        Usbd.inCallbacks n s.trace) ∧
    Usbd.inCallbacks n
        ((Usbd.inEvent n)^[specPacketCount L M] (Usbd.USBD_EP_Transfer s epAddr buf L)).trace =
      Usbd.inCallbacks n s.trace + 1 ∧
    (((Usbd.inEvent n)^[specPacketCount L M]
        (Usbd.USBD_EP_Transfer s epAddr buf L)).usbdh.epIN n).bufLen = 0 ∧
    (((Usbd.inEvent n)^[specPacketCount L M]
        (Usbd.USBD_EP_Transfer s epAddr buf L)).usbdh.epIN n).bufCount =
      (specPacketCount L M - 1) * M ∧
    (((Usbd.inEvent n)^[specPacketCount L M]
        (Usbd.USBD_EP_Transfer s epAddr buf L)).usbdh.epIN n).bufCount +
      min M (L - (specPacketCount L M - 1) * M) = L := by
  obtain ⟨h1, h2, _, h4, h5⟩ :=
    Usbd.single_in_transfer s epAddr buf L n M hn hn0 hM hM16 hL hq hctfr hty hbs hmps
  refine ⟨fun k hk => (h1 k hk).2.2.2.2.2.2.2.2.2.2.2.2, h2, h5, h4, ?_⟩
  rw [h4]
  have hpos := specPacketCount_pos L M hM
  have hle := le_specPacketCount_mul L M hM
  have hlt := lt_specPacketCount L M (specPacketCount L M - 1) hM (by omega)
  have hmul : specPacketCount L M * M = (specPacketCount L M - 1) * M + M := by
    obtain ⟨N, hN⟩ : ∃ N, specPacketCount L M = N + 1 := ⟨specPacketCount L M - 1, by omega⟩
    rw [hN]; simp; ring
  rcases hlt with h0 | h0
  · have hN1 : specPacketCount L M = 1 := by omega
    rw [hN1] at hle
    rw [h0]
    simp only [Nat.zero_mul, Nat.zero_add, Nat.sub_zero, Nat.one_mul] at hle ⊢
    omega
  · omega

/-- C2 (amended) on the example state: endpoint 1, max packet size 64, 150 bytes. -/
theorem C2_callback_once_bufcount_excludes_last_packet_witness :
    ((0x81 : Nat) &&& 0x0F = 1 ∧ (Usbd.exState 64).usbGlobal.ctrPending = [] ∧
      ((Usbd.exState 64).usbGlobal.EP 1).ctfr = false ∧
      ((Usbd.exState 64).usbdh.epIN 1).mps = 64) ∧
    (((Usbd.inEvent 1)^[3]
        (Usbd.USBD_EP_Transfer (Usbd.exState 64) 0x81 0x1000 150)).usbdh.epIN 1).bufLen = 0 ∧
    (((Usbd.inEvent 1)^[3]
        (Usbd.USBD_EP_Transfer (Usbd.exState 64) 0x81 0x1000 150)).usbdh.epIN 1).bufCount = 128 :=
  ⟨⟨by decide, rfl, rfl, rfl⟩,
   (C2_callback_once_bufcount_excludes_last_packet (Usbd.exState 64) 0x81 0x1000 150 1 64
      (by decide) (by decide) (by decide) (by decide) (by decide) rfl rfl rfl rfl rfl).2.2.1,
   (C2_callback_once_bufcount_excludes_last_packet (Usbd.exState 64) 0x81 0x1000 150 1 64
      (by decide) (by decide) (by decide) (by decide) (by decide) rfl rfl rfl rfl rfl).2.2.2.1⟩

namespace Usbd

theorem rxNextLength_fst (ep : USBD_ENDPOINT_INFO_T) :
    (rxNextLength ep).1 =
      { ep with bufLen := if ep.bufLen > ep.mps then sub32 ep.bufLen ep.mps else 0 } := by
  unfold rxNextLength; split_ifs <;> rfl

theorem rxNextLength_snd (ep : USBD_ENDPOINT_INFO_T) :
    (rxNextLength ep).2 = if ep.bufLen > ep.mps then ep.mps else ep.bufLen := by
  unfold rxNextLength; split_ifs <;> rfl

/-- `USBD_EP_XferStart` on a single-buffered descriptor whose direction field is OUT: the
remaining length is reduced, the RX count programmed and the RX status set to VALID. -/
theorem XferStart_out_single (s : State) (r : EpRef)
    (hdir : (getEp s r).epDir = EP_DIR_OUT)
    (hbs : (getEp s r).bufferStatus = USBD_EP_BUFFER_SINGLE) :
    USBD_EP_XferStart s r =
      USBD_EP_SetRxStatus
        (USBD_EP_SetRxCnt (setEp s r (rxNextLength (getEp s r)).1)
          (rxNextLength (getEp s r)).1.epNum (rxNextLength (getEp s r)).2)
        (rxNextLength (getEp s r)).1.epNum USBD_EP_STATUS_VALID := by
  unfold USBD_EP_XferStart
  simp [hdir, hbs, EP_DIR_OUT, EP_DIR_IN]

/-- One correct-transfer OUT event of `c` bytes on a single-buffered endpoint `n ≠ 0` with
`r` bytes still to be programmed. -/
theorem outEvent_single_step (u : State) (n r c : Nat) (hn : n ≠ 0)
    (hq : u.usbGlobal.ctrPending = [])
    (hnum : (u.usbdh.epOUT n).epNum = n)
    (hdir : (u.usbdh.epOUT n).epDir = EP_DIR_OUT)
    (hbs : (u.usbdh.epOUT n).bufferStatus = USBD_EP_BUFFER_SINGLE)
    (hr : (u.usbdh.epOUT n).bufLen = r) (hr32 : r < 2 ^ 32)
    (hc16 : c < 2 ^ 16) :
    ((r = 0 ∨ c < (u.usbdh.epOUT n).mps) →
      armedOut n (outEvent n u c).trace = armedOut n u.trace ∧
      outCallbacks n (outEvent n u c).trace = outCallbacks n u.trace + 1 ∧
      (outEvent n u c).usbdh.epOUT n =
        { (u.usbdh.epOUT n) with bufCount := add32 (u.usbdh.epOUT n).bufCount c,
                                 buffer := add32 (u.usbdh.epOUT n).buffer c }) ∧
    (¬ (r = 0 ∨ c < (u.usbdh.epOUT n).mps) →
      armedOut n (outEvent n u c).trace = armedOut n u.trace + 1 ∧
      outCallbacks n (outEvent n u c).trace = outCallbacks n u.trace ∧
      (outEvent n u c).usbdh.epOUT n =
        { (u.usbdh.epOUT n) with
            bufCount := add32 (u.usbdh.epOUT n).bufCount c,
            buffer := add32 (u.usbdh.epOUT n).buffer c,
            bufLen := if r > (u.usbdh.epOUT n).mps then r - (u.usbdh.epOUT n).mps else 0 } ∧
      ((outEvent n u c).usbGlobal.EP n).rxCnt =
        (if r > (u.usbdh.epOUT n).mps then (u.usbdh.epOUT n).mps else r) ∧
      ((outEvent n u c).usbGlobal.EP n).rxStatus = USBD_EP_STATUS_VALID ∧
      (outEvent n u c).usbGlobal.ctrPending = []) := by
  have hmod : c % 65536 = c := Nat.mod_eq_of_lt hc16
  unfold outEvent USBD_EP_CTRHandler hwOutComplete
  simp only [hq, List.nil_append, ctrHandlerLoop, ctrHandlerBody, USBD_EP_0, hn, if_false]
  simp only [USBD_EP_ReadStatus, setSlot, if_true]
  unfold ctrEpOut
  constructor
  · intro hstop
    by_cases hc0 : c = 0
    · subst hc0
      simp [USBD_EP_ResetRxFlag, getEp, USBD_EP_ReadRxCnt, hnum, updEP_EP, setSlot, hbs,
        hr, hstop, USBD_DataOutStageCallback, setEp, USBD_EP_ReadPacketData, armedOut,
        outCallbacks, List.count_append]
    · simp [USBD_EP_ResetRxFlag, getEp, USBD_EP_ReadRxCnt, hnum, updEP_EP, setSlot, hmod, hbs,
        hr, hstop, hc0, USBD_DataOutStageCallback, setEp, USBD_EP_ReadPacketData, armedOut,
        outCallbacks, List.count_append]
  · intro hgo
    have hr0 : r ≠ 0 := fun h => hgo (Or.inl h)
    have hsub : r > (u.usbdh.epOUT n).mps → sub32 r (u.usbdh.epOUT n).mps = r - (u.usbdh.epOUT n).mps :=
      fun h => sub32_of_le r _ hr32 (Nat.le_of_lt h)
    by_cases hc0 : c = 0
    · subst hc0
      simp only [USBD_EP_ResetRxFlag, getEp, USBD_EP_ReadRxCnt, hnum, updEP_EP, setSlot, hbs,
        hr, hgo, setEp, USBD_EP_ReadPacketData, if_true, if_false, logEv_usbdh, updEP_usbdh,
        logEv_usbGlobal, Nat.zero_mod, ne_eq, not_true_eq_false]
      rw [XferStart_out_single _ _ (by simp [getEp, setSlot, hdir])
        (by simp [getEp, setSlot, hbs])]
      simp only [rxNextLength_fst, rxNextLength_snd]
      by_cases hgt : r > (u.usbdh.epOUT n).mps <;>
        simp [USBD_EP_SetRxStatus, USBD_EP_SetRxCnt, updEP_EP, updEP, setSlot, getEp, setEp,
          hr, hnum, armedOut, outCallbacks, List.count_append, hgt, hsub]
    · simp only [USBD_EP_ResetRxFlag, getEp, USBD_EP_ReadRxCnt, hnum, updEP_EP, setSlot, hbs,
        hr, hgo, setEp, USBD_EP_ReadPacketData, if_true, if_false, logEv_usbdh, updEP_usbdh,
        logEv_usbGlobal, Nat.mod_eq_of_lt hc16, hc0, ne_eq, not_false_eq_true]
      rw [XferStart_out_single _ _ (by simp [getEp, setSlot, hdir])
        (by simp [getEp, setSlot, hbs])]
      simp only [rxNextLength_fst, rxNextLength_snd]
      by_cases hgt : r > (u.usbdh.epOUT n).mps <;>
        simp [USBD_EP_SetRxStatus, USBD_EP_SetRxCnt, updEP_EP, updEP, setSlot, getEp, setEp,
          hr, hnum, armedOut, outCallbacks, List.count_append, hgt, hsub]

end Usbd

namespace Usbd

theorem OutRunning_start (s : State) (a buf L n M : Nat)
    (hn : a &&& 0x0F = n) (hL : L < 2 ^ 32)
    (hq : s.usbGlobal.ctrPending = [])
    (hbs : (s.usbdh.epOUT n).bufferStatus = USBD_EP_BUFFER_SINGLE)
    (hmps : (s.usbdh.epOUT n).mps = M) :
    OutRunning s n M L 0 0 (USBD_EP_Receive s a buf L) := by
  subst hn
  unfold USBD_EP_Receive
  simp only [ite_self]
  rw [XferStart_out_single _ _ (by simp) (by simp [hbs])]
  simp only [rxNextLength_fst, rxNextLength_snd, getEp_setEp]
  have hsub : L > M → sub32 L M = L - M := fun h => sub32_of_le L M hL (Nat.le_of_lt h)
  unfold OutRunning
  by_cases hgt : L > M
  · simp [USBD_EP_SetRxStatus, USBD_EP_SetRxCnt, updEP_EP, updEP, setSlot, setEp, hq, hmps,
      hbs, hgt, hsub, armedOut, outCallbacks, List.count_append]
    omega
  · simp [USBD_EP_SetRxStatus, USBD_EP_SetRxCnt, updEP_EP, updEP, setSlot, setEp, hq, hmps,
      hbs, hgt, armedOut, outCallbacks, List.count_append]
    omega

theorem OutRunning_step (s u : State) (n M L j acc c : Nat) (hn : n ≠ 0) (hL : L < 2 ^ 32)
    (hc16 : c < 2 ^ 16) (h : OutRunning s n M L j acc u)
    (hfull : M ≤ c) (hmore : (j + 1) * M < L) :
    OutRunning s n M L (j + 1) (add32 acc c) (outEvent n u c) := by
  obtain ⟨i1, i2, i3, i4, i5, i6, i7, i8, i9, i10⟩ := h
  have hk : (j + 1 + 1) * M = (j + 1) * M + M := by ring
  obtain ⟨_, hgo⟩ := outEvent_single_step u n (L - (j + 1) * M) c hn i1 i2 i3 i4 i6 (by omega) hc16
  rw [i5] at hgo
  obtain ⟨t1, t2, t3, t4, t5, t6⟩ := hgo (by omega)
  refine ⟨t6, ?_, ?_, ?_, ?_, ?_, ?_, ?_, ?_, ?_⟩
  · rw [t3]; exact i2
  · rw [t3]; exact i3
  · rw [t3]; exact i4
  · rw [t3]; exact i5
  · rw [t3]; simp only; split_ifs <;> omega
  · rw [t3]; simp only; rw [i7]
  · rw [t4]; split_ifs <;> omega
  · omega
  · omega

theorem OutRunning_finish (s u : State) (n M L j acc c : Nat) (hn : n ≠ 0) (hL : L < 2 ^ 32)
    (hc16 : c < 2 ^ 16) (h : OutRunning s n M L j acc u)
    (hstop : c < M ∨ L ≤ (j + 1) * M) :
    outCallbacks n (outEvent n u c).trace = outCallbacks n s.trace + 1 ∧
    armedOut n (outEvent n u c).trace = armedOut n s.trace + (j + 1) ∧
    ((outEvent n u c).usbdh.epOUT n).bufCount = add32 acc c := by
  obtain ⟨i1, i2, i3, i4, i5, i6, i7, i8, i9, i10⟩ := h
  obtain ⟨hst, _⟩ := outEvent_single_step u n (L - (j + 1) * M) c hn i1 i2 i3 i4 i6 (by omega) hc16
  rw [i5] at hst
  obtain ⟨t1, t2, t3⟩ := hst (by omega)
  exact ⟨by omega, by omega, by rw [t3]; simp only; rw [i7]⟩

end Usbd

namespace Usbd

theorem OutRunning_exact_iterate (s : State) (a buf L n M : Nat)
    (hn : a &&& 0x0F = n) (hn0 : n ≠ 0) (hM16 : M < 2 ^ 16) (hL : L < 2 ^ 32)
    (hq : s.usbGlobal.ctrPending = [])
    (hbs : (s.usbdh.epOUT n).bufferStatus = USBD_EP_BUFFER_SINGLE)
    (hmps : (s.usbdh.epOUT n).mps = M) :
    ∀ k, (k = 0 ∨ k * M < L) →
      OutRunning s n M L k (k * M) ((outExact n)^[k] (USBD_EP_Receive s a buf L)) := by
  intro k
  induction k with
  | zero =>
    intro _
    simpa using OutRunning_start s a buf L n M hn hL hq hbs hmps
  | succ k ih =>
    intro hk
    have hlt : (k + 1) * M < L := by omega
    have hk' : (k + 1) * M = k * M + M := by ring
    have hprev := ih (by omega)
    rw [Function.iterate_succ_apply']
    have hc : USBD_EP_ReadRxCnt ((outExact n)^[k] (USBD_EP_Receive s a buf L)) n = M := by
      unfold USBD_EP_ReadRxCnt; rw [hprev.2.2.2.2.2.2.2.1]; omega
    have hst : outExact n ((outExact n)^[k] (USBD_EP_Receive s a buf L)) =
        outEvent n ((outExact n)^[k] (USBD_EP_Receive s a buf L)) M := by
      rw [← hc]; rfl
    rw [hst]
    have := OutRunning_step s _ n M L k (k * M) M hn0 hL hM16 hprev (Nat.le_refl M) hlt
    rw [add32_of_lt _ _ (by omega)] at this
    rw [hk']; exact this

/-- A whole `USBD_EP_Receive` on a single-buffered OUT endpoint `n ≠ 0` when every packet
delivers the programmed count. -/
theorem single_out_receive_exact (s : State) (a buf L n M : Nat)
    (hn : a &&& 0x0F = n) (hn0 : n ≠ 0) (hM : 1 ≤ M) (hM16 : M < 2 ^ 16) (hL : L < 2 ^ 32)
    (hq : s.usbGlobal.ctrPending = [])
    (hbs : (s.usbdh.epOUT n).bufferStatus = USBD_EP_BUFFER_SINGLE)
    (hmps : (s.usbdh.epOUT n).mps = M) :
    (∀ k, k < specPacketCount L M →
      OutRunning s n M L k (k * M) ((outExact n)^[k] (USBD_EP_Receive s a buf L))) ∧
    outCallbacks n ((outExact n)^[specPacketCount L M] (USBD_EP_Receive s a buf L)).trace =
      outCallbacks n s.trace + 1 ∧
    armedOut n ((outExact n)^[specPacketCount L M] (USBD_EP_Receive s a buf L)).trace =
      armedOut n s.trace + specPacketCount L M ∧
    USBD_EP_ReadRxDataLen ((outExact n)^[specPacketCount L M] (USBD_EP_Receive s a buf L)) a = L := by
  have hrun := OutRunning_exact_iterate s a buf L n M hn hn0 hM16 hL hq hbs hmps
  have hpos := specPacketCount_pos L M hM
  have hle := le_specPacketCount_mul L M hM
  constructor
  · intro k hk
    exact hrun k (lt_specPacketCount L M k hM hk)
  · obtain ⟨N, hN⟩ : ∃ N, specPacketCount L M = N + 1 := ⟨specPacketCount L M - 1, by omega⟩
    have hNk := lt_specPacketCount L M N hM (by omega)
    have hlast := hrun N hNk
    rw [hN] at hle ⊢
    rw [Function.iterate_succ_apply']
    have hk' : (N + 1) * M = N * M + M := by ring
    have hc : USBD_EP_ReadRxCnt ((outExact n)^[N] (USBD_EP_Receive s a buf L)) n = L - N * M := by
      unfold USBD_EP_ReadRxCnt; rw [hlast.2.2.2.2.2.2.2.1]; omega
    have hst : outExact n ((outExact n)^[N] (USBD_EP_Receive s a buf L)) =
        outEvent n ((outExact n)^[N] (USBD_EP_Receive s a buf L)) (L - N * M) := by
      rw [← hc]; rfl
    rw [hst]
    obtain ⟨e1, e2, e3⟩ := OutRunning_finish s _ n M L N (N * M) (L - N * M) hn0 hL (by omega)
      hlast (Or.inr hle)
    refine ⟨e1, e2, ?_⟩
    unfold USBD_EP_ReadRxDataLen
    have hsum : N * M + (L - N * M) = L := by
      rcases hNk with h0 | h0
      · subst h0; simp
      · omega
    rw [hn, e3, add32_of_lt _ _ (by omega), hsum]

end Usbd

/-- C3: USB_DEVICE build, single-buffered OUT endpoint `n ≠ 0` with max packet size `M ≥ 1`,
`USBD_EP_Receive` of length `L`, every OUT packet delivering exactly the byte count
programmed for it.  `USBD_DataOutStageCallback(n)` fires exactly once, on packet number
`specPacketCount L M = max(1, ceil(L/M))` (not before: while fewer packets are received the
next packet is armed and no callback has fired), no packet is armed after it, and
`USBD_EP_ReadRxDataLen` then returns `L`. -/
theorem C3_single_buffer_out_receive_exact (s : Usbd.State) (epAddr buf L n M : Nat)
    (hn : epAddr &&& 0x0F = n) (hn0 : n ≠ 0) (hM : 1 ≤ M) (hM16 : M < 2 ^ 16)
    (hL : L < 2 ^ 32)
    (hq : s.usbGlobal.ctrPending = [])
    (hbs : (s.usbdh.epOUT n).bufferStatus = Usbd.USBD_EP_BUFFER_SINGLE)
    (hmps : (s.usbdh.epOUT n).mps = M) :
    (∀ k, k < specPacketCount L M →
      Usbd.outCallbacks n ((Usbd.outExact n)^[k] (Usbd.USBD_EP_Receive s epAddr buf L)).trace =
        Usbd.outCallbacks n s.trace ∧
      Usbd.armedOut n ((Usbd.outExact n)^[k] (Usbd.USBD_EP_Receive s epAddr buf L)).trace =
        Usbd.armedOut n s.trace + (k + 1)) ∧
    Usbd.outCallbacks n
        ((Usbd.outExact n)^[specPacketCount L M] (Usbd.USBD_EP_Receive s epAddr buf L)).trace =
      Usbd.outCallbacks n s.trace + 1 ∧
    Usbd.armedOut n
        ((Usbd.outExact n)^[specPacketCount L M] (Usbd.USBD_EP_Receive s epAddr buf L)).trace =
      Usbd.armedOut n s.trace + specPacketCount L M ∧
    Usbd.USBD_EP_ReadRxDataLen
        ((Usbd.outExact n)^[specPacketCount L M] (Usbd.USBD_EP_Receive s epAddr buf L)) epAddr = L ∧
    specPacketCount L M = max 1 ((L + M - 1) / M) := by
  obtain ⟨h1, h2, h3, h4⟩ :=
    Usbd.single_out_receive_exact s epAddr buf L n M hn hn0 hM hM16 hL hq hbs hmps
  refine ⟨fun k hk => ?_, h2, h3, h4, ?_⟩
  · obtain ⟨_, _, _, _, _, _, _, _, i9, i10⟩ := h1 k hk
    exact ⟨i10, i9⟩
  · have hpos := specPacketCount_pos L M hM
    unfold specPacketCount at hpos ⊢
    split_ifs with h0
    · subst h0
      have : (0 + M - 1) / M = 0 := Nat.div_eq_of_lt (by omega)
      rw [this]; rfl
    · rw [if_neg h0] at hpos
      omega

/-- C3 on the example state: endpoint 1 (address 0x01), max packet size 64, 150 bytes. -/
theorem C3_single_buffer_out_receive_exact_witness :
    ((0x01 : Nat) &&& 0x0F = 1 ∧ (Usbd.exState 64).usbGlobal.ctrPending = [] ∧
      ((Usbd.exState 64).usbdh.epOUT 1).bufferStatus = Usbd.USBD_EP_BUFFER_SINGLE ∧
      ((Usbd.exState 64).usbdh.epOUT 1).mps = 64) ∧
    Usbd.outCallbacks 1
      ((Usbd.outExact 1)^[3] (Usbd.USBD_EP_Receive (Usbd.exState 64) 0x01 0x1000 150)).trace = 1 ∧
    Usbd.USBD_EP_ReadRxDataLen
      ((Usbd.outExact 1)^[3] (Usbd.USBD_EP_Receive (Usbd.exState 64) 0x01 0x1000 150)) 0x01 = 150 :=
  ⟨⟨by decide, rfl, rfl, rfl⟩,
   (C3_single_buffer_out_receive_exact (Usbd.exState 64) 0x01 0x1000 150 1 64 (by decide)
      (by decide) (by decide) (by decide) (by decide) rfl rfl rfl).2.1,
   (C3_single_buffer_out_receive_exact (Usbd.exState 64) 0x01 0x1000 150 1 64 (by decide)
      (by decide) (by decide) (by decide) (by decide) rfl rfl rfl).2.2.2.1⟩

theorem add32_mod_left (a b : Nat) : add32 (a % 2 ^ 32) b = (a + b) % 2 ^ 32 := by
  unfold add32; omega

namespace Usbd

theorem OutRunning_outRun (s : State) (a buf L n M K : Nat) (cnt : Nat → Nat)
    (hn : a &&& 0x0F = n) (hn0 : n ≠ 0) (hL : L < 2 ^ 32)
    (hq : s.usbGlobal.ctrPending = [])
    (hbs : (s.usbdh.epOUT n).bufferStatus = USBD_EP_BUFFER_SINGLE)
    (hmps : (s.usbdh.epOUT n).mps = M)
    (hearly : ∀ i, i < K → M ≤ cnt i ∧ (i + 1) * M < L)
    (h16 : ∀ i, i ≤ K → cnt i < 2 ^ 16) :
    ∀ j, j ≤ K →
      OutRunning s n M L j ((∑ i in Finset.range j, cnt i) % 2 ^ 32)
        (outRun n (USBD_EP_Receive s a buf L) cnt j) := by
  intro j
  induction j with
  | zero =>
    intro _
    simpa [outRun] using OutRunning_start s a buf L n M hn hL hq hbs hmps
  | succ j ih =>
    intro hj
    have hprev := ih (by omega)
    have := OutRunning_step s _ n M L j _ (cnt j) hn0 hL (h16 j (by omega)) hprev
      (hearly j (by omega)).1 (hearly j (by omega)).2
    rw [add32_mod_left] at this
    rw [Finset.sum_range_succ]
    exact this

end Usbd

/-- C4: USB_DEVICE build, `USBD_EP_Receive` of length `L` on a single-buffered OUT endpoint
`n ≠ 0` with max packet size `M`, packet number `i + 1` delivering `cnt i` bytes.  Let packet
`K + 1` be the first one that is short (`cnt K < M`) or that leaves the remaining length at 0
(`L ≤ (K + 1) * M`, which is `bufLen = 0` in the endpoint record).  Every earlier packet
re-arms the endpoint and fires no callback; packet `K + 1` fires
`USBD_DataOutStageCallback(n)` once and arms nothing; `USBD_EP_ReadRxDataLen` then returns
the sum of the byte counts received (as a 32-bit value, so the sum itself whenever it is
below `2 ^ 32`, in particular whenever no packet exceeds the count programmed for it). -/
theorem C4_out_completion_short_or_length_reached (s : Usbd.State) (epAddr buf L n M K : Nat)
    (cnt : Nat → Nat)
    (hn : epAddr &&& 0x0F = n) (hn0 : n ≠ 0) (hL : L < 2 ^ 32)
    (hq : s.usbGlobal.ctrPending = [])
    (hbs : (s.usbdh.epOUT n).bufferStatus = Usbd.USBD_EP_BUFFER_SINGLE)
    (hmps : (s.usbdh.epOUT n).mps = M)
    (hearly : ∀ i, i < K → M ≤ cnt i ∧ (i + 1) * M < L)
    (hstop : cnt K < M ∨ L ≤ (K + 1) * M)
    (h16 : ∀ i, i ≤ K → cnt i < 2 ^ 16) :
    (∀ j, j ≤ K →
      Usbd.outCallbacks n (Usbd.outRun n (Usbd.USBD_EP_Receive s epAddr buf L) cnt j).trace =
        Usbd.outCallbacks n s.trace ∧
      Usbd.armedOut n (Usbd.outRun n (Usbd.USBD_EP_Receive s epAddr buf L) cnt j).trace =
        Usbd.armedOut n s.trace + (j + 1) ∧
      ((Usbd.outRun n (Usbd.USBD_EP_Receive s epAddr buf L) cnt j).usbdh.epOUT n).bufLen =
        L - (j + 1) * M) ∧
    Usbd.outCallbacks n
        (Usbd.outRun n (Usbd.USBD_EP_Receive s epAddr buf L) cnt (K + 1)).trace =
      Usbd.outCallbacks n s.trace + 1 ∧
    Usbd.armedOut n (Usbd.outRun n (Usbd.USBD_EP_Receive s epAddr buf L) cnt (K + 1)).trace =
      Usbd.armedOut n s.trace + (K + 1) ∧
    Usbd.USBD_EP_ReadRxDataLen
        (Usbd.outRun n (Usbd.USBD_EP_Receive s epAddr buf L) cnt (K + 1)) epAddr =
      (∑ i in Finset.range (K + 1), cnt i) % 2 ^ 32 ∧
    ((∑ i in Finset.range (K + 1), cnt i) < 2 ^ 32 →
      Usbd.USBD_EP_ReadRxDataLen
          (Usbd.outRun n (Usbd.USBD_EP_Receive s epAddr buf L) cnt (K + 1)) epAddr =
        ∑ i in Finset.range (K + 1), cnt i) ∧
    ((∀ i, i ≤ K → cnt i ≤ min M (L - i * M)) →
      Usbd.USBD_EP_ReadRxDataLen
          (Usbd.outRun n (Usbd.USBD_EP_Receive s epAddr buf L) cnt (K + 1)) epAddr =
        ∑ i in Finset.range (K + 1), cnt i) := by
  have hrun := Usbd.OutRunning_outRun s epAddr buf L n M K cnt hn hn0 hL hq hbs hmps hearly h16
  obtain ⟨e1, e2, e3⟩ := Usbd.OutRunning_finish s _ n M L K _ (cnt K) hn0 hL
    (h16 K (Nat.le_refl K)) (hrun K (Nat.le_refl K)) hstop
  have hlen : Usbd.USBD_EP_ReadRxDataLen
      (Usbd.outRun n (Usbd.USBD_EP_Receive s epAddr buf L) cnt (K + 1)) epAddr =
      (∑ i in Finset.range (K + 1), cnt i) % 2 ^ 32 := by
    unfold Usbd.USBD_EP_ReadRxDataLen
    rw [hn]
    show ((Usbd.outEvent n (Usbd.outRun n (Usbd.USBD_EP_Receive s epAddr buf L) cnt K)
      (cnt K)).usbdh.epOUT n).bufCount = _
    rw [e3, add32_mod_left, Finset.sum_range_succ]
  refine ⟨fun j hj => ?_, e1, e2, hlen, fun hlt => ?_, fun hfit => ?_⟩
  · obtain ⟨_, _, _, _, _, i6, _, _, i9, i10⟩ := hrun j hj
    exact ⟨i10, i9, i6⟩
  · rw [hlen, Nat.mod_eq_of_lt hlt]
  · have hpart : ∀ j, j ≤ K → (∑ i in Finset.range j, cnt i) = j * M := by
      intro j
      induction j with
      | zero => intro _; simp
      | succ j ih =>
        intro hj
        have h1 := (hearly j (by omega)).1
        have h2 := hfit j (by omega)
        have h3 : cnt j = M := by omega
        rw [Finset.sum_range_succ, ih (by omega), h3]; ring
    have hK := hfit K (Nat.le_refl K)
    have hsum : (∑ i in Finset.range (K + 1), cnt i) ≤ L := by
      rw [Finset.sum_range_succ, hpart K (Nat.le_refl K)]
      rcases Nat.eq_zero_or_pos K with h0 | h0
      · subst h0; simp at hK ⊢; omega
      · have := (hearly (K - 1) (by omega)).2
        have hk1 : K - 1 + 1 = K := by omega
        rw [hk1] at this
        omega
    rw [hlen, Nat.mod_eq_of_lt (by omega)]

/-- C4 on the example state: endpoint 1, max packet size 64, 150 bytes requested, packets of
64 and 10 bytes: the second (short) packet completes the transfer with 74 bytes. -/
theorem C4_out_completion_short_or_length_reached_witness :
    Usbd.outCallbacks 1
      (Usbd.outRun 1 (Usbd.USBD_EP_Receive (Usbd.exState 64) 0x01 0x1000 150)
        (fun i => if i = 0 then 64 else 10) 2).trace = 1 ∧
    Usbd.USBD_EP_ReadRxDataLen
      (Usbd.outRun 1 (Usbd.USBD_EP_Receive (Usbd.exState 64) 0x01 0x1000 150)
        (fun i => if i = 0 then 64 else 10) 2) 0x01 = 74 :=
  ⟨(C4_out_completion_short_or_length_reached (Usbd.exState 64) 0x01 0x1000 150 1 64 1
      (fun i => if i = 0 then 64 else 10) (by decide) (by decide) (by decide) rfl rfl rfl
      (by intro i hi; have : i = 0 := by omega
          subst this; decide)
      (Or.inl (by decide))
      (by intro i _; by_cases h : i = 0 <;> simp [h])).2.1,
   (C4_out_completion_short_or_length_reached (Usbd.exState 64) 0x01 0x1000 150 1 64 1
      (fun i => if i = 0 then 64 else 10) (by decide) (by decide) (by decide) rfl rfl rfl
      (by intro i hi; have : i = 0 := by omega
          subst this; decide)
      (Or.inl (by decide))
      (by intro i _; by_cases h : i = 0 <;> simp [h])).2.2.2.1⟩

namespace Usbd

/-- One correct-transfer OUT event of `c` bytes on endpoint 0 (SETUP bit clear). -/
theorem outEvent_ep0_step (u : State) (c : Nat)
    (hq : u.usbGlobal.ctrPending = [])
    (hnum : (u.usbdh.epOUT 0).epNum = 0) :
    outCallbacks 0 (outEvent 0 u c).trace =
      outCallbacks 0 u.trace + (if c ≠ 0 ∧ (u.usbdh.epOUT 0).buffer ≠ 0 then 1 else 0) ∧
    armedOut 0 (outEvent 0 u c).trace = armedOut 0 u.trace + 1 ∧
    ((outEvent 0 u c).usbGlobal.EP 0).rxStatus = USBD_EP_STATUS_VALID ∧
    ((outEvent 0 u c).usbGlobal.EP 0).rxCnt = (u.usbdh.epOUT 0).mps ∧
    ((outEvent 0 u c).usbdh.epOUT 0).bufCount = c ∧
    (outEvent 0 u c).usbGlobal.ctrPending = [] := by
  unfold outEvent USBD_EP_CTRHandler hwOutComplete
  simp only [hq, List.nil_append, ctrHandlerLoop, ctrHandlerBody, USBD_EP_0, if_true]
  unfold ctrEp0Out
  by_cases hc : c ≠ 0 ∧ (u.usbdh.epOUT 0).buffer ≠ 0
  · simp [hc, hnum, USBD_EP_ReadStatus, USBD_EP_ReadRxCnt, USBD_EP_ResetRxFlag, USBD_EP_SetRxCnt,
      USBD_EP_SetRxStatus, USBD_EP_ReadPacketData, USBD_DataOutStageCallback, USBD_EP_0,
      updEP_EP, updEP, setSlot, setEp, getEp, logEv, armedOut, outCallbacks, List.count_append,
      USBD_EP_STATUS_VALID]
  · simp [hc, hnum, USBD_EP_ReadStatus, USBD_EP_ReadRxCnt, USBD_EP_ResetRxFlag, USBD_EP_SetRxCnt,
      USBD_EP_SetRxStatus, USBD_EP_ReadPacketData, USBD_DataOutStageCallback, USBD_EP_0,
      updEP_EP, updEP, setSlot, setEp, getEp, logEv, armedOut, outCallbacks, List.count_append,
      USBD_EP_STATUS_VALID]

end Usbd

namespace Usbd

theorem Receive_buffer (s : State) (a buf L n : Nat) (hn : a &&& 0x0F = n)
    (hbs : (s.usbdh.epOUT n).bufferStatus = USBD_EP_BUFFER_SINGLE) :
    ((USBD_EP_Receive s a buf L).usbdh.epOUT n).buffer = buf := by
  subst hn
  unfold USBD_EP_Receive
  simp only [ite_self]
  rw [XferStart_out_single _ _ (by simp) (by simp [hbs])]
  simp only [rxNextLength_fst, getEp_setEp]
  simp [USBD_EP_SetRxStatus, USBD_EP_SetRxCnt, updEP, setEp, logEv, setSlot]

end Usbd

/-- C5 as stated fails: after `USBD_EP_Receive` on endpoint 0 (buffer 0x1000, length 0), the
correct-transfer OUT event of a zero-length packet is served (the event queue is empty again
and endpoint 0 has been armed a second time) without any `USBD_DataOutStageCallback(0)`. -/
theorem C5_ep0_zero_length_out_fires_no_callback :
    Usbd.outCallbacks 0
      (Usbd.outEvent 0 (Usbd.USBD_EP_Receive (Usbd.exState 64) 0x00 0x1000 0) 0).trace = 0 ∧
    Usbd.armedOut 0
      (Usbd.outEvent 0 (Usbd.USBD_EP_Receive (Usbd.exState 64) 0x00 0x1000 0) 0).trace = 2 ∧
    (Usbd.outEvent 0 (Usbd.USBD_EP_Receive (Usbd.exState 64) 0x00 0x1000 0) 0).usbGlobal.ctrPending
      = [] := by
  decide

/-- C5 amended: USB_DEVICE build, `USBD_EP_Receive(buf, L)` on endpoint 0 (single-buffered,
max packet size `M`) followed by the correct-transfer OUT event of a packet of `cnt` bytes.
`USBD_DataOutStageCallback(0)` fires exactly once when `cnt ≠ 0` and `buf` is not the null
pointer, and does not fire when the packet is zero-length or `buf` is null.  In both cases
the event is consumed, endpoint 0 is armed again for `M` bytes with RX status VALID, and
`USBD_EP_ReadRxDataLen` returns `cnt`. -/
theorem C5_ep0_out_callback_iff_nonempty_packet (s : Usbd.State) (epAddr buf L M cnt : Nat)
    (hn : epAddr &&& 0x0F = 0) (hL : L < 2 ^ 32)
    (hq : s.usbGlobal.ctrPending = [])
    (hbs : (s.usbdh.epOUT 0).bufferStatus = Usbd.USBD_EP_BUFFER_SINGLE)
    (hmps : (s.usbdh.epOUT 0).mps = M) :
    Usbd.outCallbacks 0 (Usbd.outEvent 0 (Usbd.USBD_EP_Receive s epAddr buf L) cnt).trace =
      Usbd.outCallbacks 0 s.trace + (if cnt ≠ 0 ∧ buf ≠ 0 then 1 else 0) ∧
    Usbd.armedOut 0 (Usbd.outEvent 0 (Usbd.USBD_EP_Receive s epAddr buf L) cnt).trace =
      Usbd.armedOut 0 s.trace + 2 ∧
    ((Usbd.outEvent 0 (Usbd.USBD_EP_Receive s epAddr buf L) cnt).usbGlobal.EP 0).rxStatus =
      Usbd.USBD_EP_STATUS_VALID ∧
    ((Usbd.outEvent 0 (Usbd.USBD_EP_Receive s epAddr buf L) cnt).usbGlobal.EP 0).rxCnt = M ∧
    (Usbd.outEvent 0 (Usbd.USBD_EP_Receive s epAddr buf L) cnt).usbGlobal.ctrPending = [] ∧
    Usbd.USBD_EP_ReadRxDataLen
      (Usbd.outEvent 0 (Usbd.USBD_EP_Receive s epAddr buf L) cnt) epAddr = cnt := by
  obtain ⟨i1, i2, _, _, i5, _, _, _, i9, i10⟩ :=
    Usbd.OutRunning_start s epAddr buf L 0 M hn hL hq hbs hmps
  have hbuf := Usbd.Receive_buffer s epAddr buf L 0 hn hbs
  obtain ⟨e1, e2, e3, e4, e5, e6⟩ :=
    Usbd.outEvent_ep0_step (Usbd.USBD_EP_Receive s epAddr buf L) cnt i1 i2
  rw [hbuf, i10] at e1
  rw [i9] at e2
  rw [i5] at e4
  refine ⟨e1, by omega, e3, e4, e6, ?_⟩
  unfold Usbd.USBD_EP_ReadRxDataLen
  rw [hn]; exact e5

/-- C5 amended, on the example state: an 8-byte OUT packet on endpoint 0 fires the callback
once. -/
theorem C5_ep0_out_callback_iff_nonempty_packet_witness :
    Usbd.outCallbacks 0
      (Usbd.outEvent 0 (Usbd.USBD_EP_Receive (Usbd.exState 64) 0x00 0x1000 8) 8).trace = 1 ∧
    Usbd.USBD_EP_ReadRxDataLen
      (Usbd.outEvent 0 (Usbd.USBD_EP_Receive (Usbd.exState 64) 0x00 0x1000 8) 8) 0x00 = 8 :=
  ⟨(C5_ep0_out_callback_iff_nonempty_packet (Usbd.exState 64) 0x00 0x1000 8 64 8 (by decide)
      (by decide) rfl rfl rfl).1,
   (C5_ep0_out_callback_iff_nonempty_packet (Usbd.exState 64) 0x00 0x1000 8 64 8 (by decide)
      (by decide) rfl rfl rfl).2.2.2.2.2⟩

/-- C11 (as stated, refuted): endpoint 1 IN, double-buffered, stalled by `USBD_EP_Stall` and
then cleared by `USBD_EP_ClearStall`.  The descriptor flag is cleared, but the hardware TX
status is still STALL, not NAK; likewise the RX status of the double-buffered OUT endpoint is
still STALL, not VALID. -/
theorem C11_double_buffer_clearstall_leaves_hardware_stalled :
    ((Usbd.USBD_EP_ClearStall (Usbd.USBD_EP_Stall (Usbd.exStateDb 64) 0x81) 0x81).usbdh.epIN
        1).stallStatus = DISABLE ∧
    ((Usbd.USBD_EP_ClearStall (Usbd.USBD_EP_Stall (Usbd.exStateDb 64) 0x81)
        0x81).usbGlobal.EP 1).txStatus = Usbd.USBD_EP_STATUS_STALL ∧
    ((Usbd.USBD_EP_ClearStall (Usbd.USBD_EP_Stall (Usbd.exStateDb 64) 0x01) 0x01).usbdh.epOUT
        1).stallStatus = DISABLE ∧
    ((Usbd.USBD_EP_ClearStall (Usbd.USBD_EP_Stall (Usbd.exStateDb 64) 0x01)
        0x01).usbGlobal.EP 1).rxStatus = Usbd.USBD_EP_STATUS_STALL := by
  decide

/-- C11 (amended): USB_DEVICE build, `USBD_EP_ClearStall` on an address that passes the bound
check.  The descriptor's `stallStatus` becomes DISABLE in every buffer mode.  The hardware
status is written only for a single-buffered endpoint: TX status NAK for a non-isochronous IN
endpoint, RX status VALID for an OUT endpoint.  For an endpoint that is not single-buffered
no hardware register is written at all (the register block and the trace are unchanged). -/
theorem C11_clearstall_hardware_only_single_buffer (s : Usbd.State) (epAddr : Nat)
    (hb : epAddr &&& 0x0F ≤ s.usbdh.devEndpointNum) :
    (epAddr &&& 0x80 = 0x80 →
      ((Usbd.USBD_EP_ClearStall s epAddr).usbdh.epIN (epAddr &&& 0x0F)).stallStatus = DISABLE ∧
      ((s.usbdh.epIN (epAddr &&& 0x0F)).bufferStatus = Usbd.USBD_EP_BUFFER_SINGLE →
        (s.usbdh.epIN (epAddr &&& 0x0F)).epType ≠ EP_TYPE_ISO →
        ((Usbd.USBD_EP_ClearStall s epAddr).usbGlobal.EP (epAddr &&& 0x0F)).txStatus =
          Usbd.USBD_EP_STATUS_NAK) ∧
      ((s.usbdh.epIN (epAddr &&& 0x0F)).bufferStatus ≠ Usbd.USBD_EP_BUFFER_SINGLE →
        (Usbd.USBD_EP_ClearStall s epAddr).usbGlobal = s.usbGlobal ∧
        (Usbd.USBD_EP_ClearStall s epAddr).trace = s.trace)) ∧
    (epAddr &&& 0x80 ≠ 0x80 →
      ((Usbd.USBD_EP_ClearStall s epAddr).usbdh.epOUT (epAddr &&& 0x0F)).stallStatus = DISABLE ∧
      ((s.usbdh.epOUT (epAddr &&& 0x0F)).bufferStatus = Usbd.USBD_EP_BUFFER_SINGLE →
        ((Usbd.USBD_EP_ClearStall s epAddr).usbGlobal.EP (epAddr &&& 0x0F)).rxStatus =
          Usbd.USBD_EP_STATUS_VALID) ∧
      ((s.usbdh.epOUT (epAddr &&& 0x0F)).bufferStatus ≠ Usbd.USBD_EP_BUFFER_SINGLE →
        (Usbd.USBD_EP_ClearStall s epAddr).usbGlobal = s.usbGlobal ∧
        (Usbd.USBD_EP_ClearStall s epAddr).trace = s.trace)) := by
  have hle : ¬ (epAddr &&& 0x0F > s.usbdh.devEndpointNum) := by omega
  constructor
  · intro hd
    refine ⟨?_, ?_, ?_⟩
    · rw [Usbd.ClearStall_epIN_stall s epAddr _ hle]; simp [hd]
    · intro hs ht
      unfold Usbd.USBD_EP_ClearStall
      simp [hle, hd, hs, ht, Usbd.getEp, Usbd.setEp, Usbd.USBD_EP_SetTxStatus,
        Usbd.USBD_EP_ResetTxToggle, Usbd.updEP, setSlot, EP_DIR_IN]
    · intro hs
      unfold Usbd.USBD_EP_ClearStall
      simp [hle, hd, hs, Usbd.getEp, Usbd.setEp]
  · intro hd
    refine ⟨?_, ?_, ?_⟩
    · rw [Usbd.ClearStall_epOUT_stall s epAddr _ hle]; simp [hd]
    · intro hs
      unfold Usbd.USBD_EP_ClearStall
      simp [hle, hd, hs, Usbd.getEp, Usbd.setEp, Usbd.USBD_EP_SetRxStatus,
        Usbd.USBD_EP_ResetRxToggle, Usbd.updEP, setSlot, EP_DIR_IN, EP_DIR_OUT]
    · intro hs
      unfold Usbd.USBD_EP_ClearStall
      simp [hle, hd, hs, Usbd.getEp, Usbd.setEp]

/-- C11 (amended) on the example state: single-buffered bulk endpoint 1, IN address 0x81 and
OUT address 0x01. -/
theorem C11_clearstall_hardware_only_single_buffer_witness :
    ((0x81 : Nat) &&& 0x0F ≤ (Usbd.exState 64).usbdh.devEndpointNum) ∧
    ((Usbd.USBD_EP_ClearStall (Usbd.exState 64) 0x81).usbGlobal.EP 1).txStatus =
      Usbd.USBD_EP_STATUS_NAK :=
  ⟨by decide,
   ((C11_clearstall_hardware_only_single_buffer (Usbd.exState 64) 0x81 (by decide)).1
      (by decide)).2.1 (by decide) (by decide)⟩

/-- C12: in both builds, when `(epAddr & 0x0F) > devEndpointNum`, `USBD_EP_Stall` and
`USBD_EP_ClearStall` return with the whole state (every endpoint descriptor, the rest of the
handle, every hardware register, memory, and the trace of calls) exactly as it was. -/
theorem C12_stall_clearstall_beyond_bound_ignored (s : Usbd.State) (t : Otg.State)
    (epAddr epAddr2 : Nat)
    (h : epAddr &&& 0x0F > s.usbdh.devEndpointNum)
    (h2 : epAddr2 &&& 0x0F > t.usbdh.usbCfg.devEndpointNum) :
    Usbd.USBD_EP_Stall s epAddr = s ∧ Usbd.USBD_EP_ClearStall s epAddr = s ∧
    Otg.USBD_EP_Stall t epAddr2 = t ∧ Otg.USBD_EP_ClearStall t epAddr2 = t := by
  refine ⟨?_, ?_, ?_, ?_⟩
  · unfold Usbd.USBD_EP_Stall; rw [if_pos h]
  · unfold Usbd.USBD_EP_ClearStall; rw [if_pos h]
  · unfold Otg.USBD_EP_Stall; rw [if_pos h2]
  · unfold Otg.USBD_EP_ClearStall; rw [if_pos h2]

/-- C12 on the example states (eight endpoints configured): address 0x09 and address 0x8A. -/
theorem C12_stall_clearstall_beyond_bound_ignored_witness :
    ((0x09 : Nat) &&& 0x0F > (Usbd.exState 64).usbdh.devEndpointNum ∧
      (0x8A : Nat) &&& 0x0F > (Otg.exState 64 0).usbdh.usbCfg.devEndpointNum) ∧
    Usbd.USBD_EP_Stall (Usbd.exState 64) 0x09 = Usbd.exState 64 ∧
    Otg.USBD_EP_ClearStall (Otg.exState 64 0) 0x8A = Otg.exState 64 0 :=
  ⟨⟨by decide, by decide⟩,
   (C12_stall_clearstall_beyond_bound_ignored (Usbd.exState 64) (Otg.exState 64 0) 0x09 0x8A
      (by decide) (by decide)).1,
   (C12_stall_clearstall_beyond_bound_ignored (Usbd.exState 64) (Otg.exState 64 0) 0x09 0x8A
      (by decide) (by decide)).2.2.2⟩

namespace Otg

/-- `USBD_EP_Transfer` of the USB_OTG build, for every address: the descriptor fields it
stores and the one enable of the IN endpoint. -/
theorem Transfer_arms (s : State) (a buf L : Nat) :
    ((USBD_EP_Transfer s a buf L).usbdh.epIN (a &&& 0x0F)).buffer = buf ∧
    ((USBD_EP_Transfer s a buf L).usbdh.epIN (a &&& 0x0F)).bufCount = 0 ∧
    ((USBD_EP_Transfer s a buf L).usbdh.epIN (a &&& 0x0F)).epNum = a &&& 0x0F ∧
    armedIn (a &&& 0x0F) (USBD_EP_Transfer s a buf L).trace =
      armedIn (a &&& 0x0F) s.trace + 1 := by
  unfold USBD_EP_Transfer
  by_cases h0 : a &&& 0x0F = 0
  · simp only [h0, ne_eq, not_true_eq_false, if_false]
    unfold USBD_EP0_XferStart
    simp only [otg_getEp_setEp, EP_DIR_IN, EP_DIR_OUT, Nat.succ_ne_zero, if_false]
    split_ifs <;>
      simp [enableInEp, updIn, setEp, setSlot, armedIn,
        USB_OTG_D_EnableInEpEmptyInterrupt, logEv, List.count_append]
  · simp only [h0, ne_eq, not_false_eq_true, if_true]
    unfold USBD_EP_XferStart
    simp only [otg_getEp_setEp, EP_DIR_IN, EP_DIR_OUT, Nat.succ_ne_zero, if_false]
    split_ifs <;>
      simp [enableInEp, updIn, setEp, setSlot, armedIn, isoParityIn,
        USB_OTG_D_EnableInEpEmptyInterrupt, USB_OTG_FIFO_WriteFifoPacket, logEv,
        List.count_append] <;>
      split_ifs <;> simp [updIn, setSlot]

/-- `USBD_EP_Receive` of the USB_OTG build, for every address: the descriptor fields it
stores and the one enable of the OUT endpoint. -/
theorem Receive_arms (s : State) (a buf L : Nat) :
    ((USBD_EP_Receive s a buf L).usbdh.epOUT (a &&& 0x0F)).buffer = buf ∧
    ((USBD_EP_Receive s a buf L).usbdh.epOUT (a &&& 0x0F)).bufCount = 0 ∧
    ((USBD_EP_Receive s a buf L).usbdh.epOUT (a &&& 0x0F)).epNum = a &&& 0x0F ∧
    armedOut (a &&& 0x0F) (USBD_EP_Receive s a buf L).trace =
      armedOut (a &&& 0x0F) s.trace + 1 := by
  unfold USBD_EP_Receive
  by_cases h0 : a &&& 0x0F = 0
  · simp only [h0, ne_eq, not_true_eq_false, if_false]
    unfold USBD_EP0_XferStart
    simp only [otg_getEp_setEp, EP_DIR_IN, EP_DIR_OUT, if_true]
    split_ifs <;>
      simp [enableOutEp, updOut, setEp, setSlot, armedOut, logEv, List.count_append]
  · simp only [h0, ne_eq, not_false_eq_true, if_true]
    unfold USBD_EP_XferStart
    simp only [otg_getEp_setEp, EP_DIR_IN, EP_DIR_OUT, if_true]
    split_ifs <;>
      simp [enableOutEp, updOut, setEp, setSlot, armedOut, isoParityOut,
        logEv, List.count_append] <;>
      split_ifs <;> simp [updOut, setSlot]

end Otg

namespace Usbd

/-- `USBD_EP_Receive` on a single-buffered slot: the descriptor fields it stores and the one
arming of the OUT endpoint. -/
theorem Receive_single_facts (s : State) (a buf L : Nat)
    (hbs : (s.usbdh.epOUT (a &&& 0x0F)).bufferStatus = USBD_EP_BUFFER_SINGLE) :
    ((USBD_EP_Receive s a buf L).usbdh.epOUT (a &&& 0x0F)).epNum = a &&& 0x0F ∧
    ((USBD_EP_Receive s a buf L).usbdh.epOUT (a &&& 0x0F)).buffer = buf ∧
    ((USBD_EP_Receive s a buf L).usbdh.epOUT (a &&& 0x0F)).bufCount = 0 ∧
    armedOut (a &&& 0x0F) (USBD_EP_Receive s a buf L).trace =
      armedOut (a &&& 0x0F) s.trace + 1 := by
  unfold USBD_EP_Receive
  simp only [ite_self]
  rw [XferStart_out_single _ _ (by simp) (by simp [hbs])]
  simp only [rxNextLength_fst, rxNextLength_snd, getEp_setEp]
  simp [USBD_EP_SetRxStatus, USBD_EP_SetRxCnt, updEP, setEp, logEv, setSlot, armedOut,
    List.count_append]

end Usbd

/-- C13 (as stated, refuted): with one configured endpoint (`devEndpointNum = 1`), endpoint
number 1 is not below the configured count, yet `USBD_EP_Transfer` and `USBD_EP_Receive` on it
store the request in the descriptor and arm the hardware endpoint, in both builds. -/
theorem C13_transfer_receive_not_ignored :
    ((Usbd.exStateCfg 64 1).usbdh.devEndpointNum = 1 ∧
      (Otg.exStateCfg 64 0 1).usbdh.usbCfg.devEndpointNum = 1) ∧
    (((Usbd.exStateCfg 64 1).usbdh.epIN 1).bufLen = 0 ∧
      ((Usbd.USBD_EP_Transfer (Usbd.exStateCfg 64 1) 0x81 0x1000 150).usbdh.epIN 1).bufLen = 150 ∧
      Usbd.armedIn 1 (Usbd.USBD_EP_Transfer (Usbd.exStateCfg 64 1) 0x81 0x1000 150).trace = 1) ∧
    (((Usbd.exStateCfg 64 1).usbdh.epOUT 1).buffer = 0 ∧
      ((Usbd.USBD_EP_Receive (Usbd.exStateCfg 64 1) 0x01 0x1000 150).usbdh.epOUT 1).buffer
        = 0x1000 ∧
      Usbd.armedOut 1 (Usbd.USBD_EP_Receive (Usbd.exStateCfg 64 1) 0x01 0x1000 150).trace = 1) ∧
    (((Otg.exStateCfg 64 0 1).usbdh.epIN 1).bufLen = 0 ∧
      ((Otg.USBD_EP_Transfer (Otg.exStateCfg 64 0 1) 0x81 0x1000 150).usbdh.epIN 1).bufLen
        = 150 ∧
      Otg.armedIn 1 (Otg.USBD_EP_Transfer (Otg.exStateCfg 64 0 1) 0x81 0x1000 150).trace = 1) ∧
    (((Otg.exStateCfg 64 0 1).usbdh.epOUT 1).buffer = 0 ∧
      ((Otg.USBD_EP_Receive (Otg.exStateCfg 64 0 1) 0x01 0x1000 150).usbdh.epOUT 1).buffer
        = 0x1000 ∧
      Otg.armedOut 1 (Otg.USBD_EP_Receive (Otg.exStateCfg 64 0 1) 0x01 0x1000 150).trace = 1) := by
  decide

/-- C13 (amended): `USBD_EP_Transfer` and `USBD_EP_Receive` make no endpoint-count check.  For
every address, whatever `devEndpointNum` is, they store the endpoint number, the buffer and a
zero `bufCount` in the descriptor of slot `epAddr & 0x0F` and arm that hardware endpoint once
(USB_DEVICE build: stated for a single-buffered slot; USB_OTG build: every slot). -/
theorem C13_transfer_receive_have_no_bound_check (s : Usbd.State) (t : Otg.State)
    (epAddr buf L : Nat)
    (hbi : (s.usbdh.epIN (epAddr &&& 0x0F)).bufferStatus = Usbd.USBD_EP_BUFFER_SINGLE)
    (hbo : (s.usbdh.epOUT (epAddr &&& 0x0F)).bufferStatus = Usbd.USBD_EP_BUFFER_SINGLE) :
    (((Usbd.USBD_EP_Transfer s epAddr buf L).usbdh.epIN (epAddr &&& 0x0F)).epNum
        = epAddr &&& 0x0F ∧
      ((Usbd.USBD_EP_Transfer s epAddr buf L).usbdh.epIN (epAddr &&& 0x0F)).buffer = buf ∧
      ((Usbd.USBD_EP_Transfer s epAddr buf L).usbdh.epIN (epAddr &&& 0x0F)).bufLen = L ∧
      ((Usbd.USBD_EP_Transfer s epAddr buf L).usbdh.epIN (epAddr &&& 0x0F)).bufCount = 0 ∧
      Usbd.armedIn (epAddr &&& 0x0F) (Usbd.USBD_EP_Transfer s epAddr buf L).trace =
        Usbd.armedIn (epAddr &&& 0x0F) s.trace + 1) ∧
    (((Usbd.USBD_EP_Receive s epAddr buf L).usbdh.epOUT (epAddr &&& 0x0F)).epNum
        = epAddr &&& 0x0F ∧
      ((Usbd.USBD_EP_Receive s epAddr buf L).usbdh.epOUT (epAddr &&& 0x0F)).buffer = buf ∧
      ((Usbd.USBD_EP_Receive s epAddr buf L).usbdh.epOUT (epAddr &&& 0x0F)).bufCount = 0 ∧
      Usbd.armedOut (epAddr &&& 0x0F) (Usbd.USBD_EP_Receive s epAddr buf L).trace =
        Usbd.armedOut (epAddr &&& 0x0F) s.trace + 1) ∧
    (((Otg.USBD_EP_Transfer t epAddr buf L).usbdh.epIN (epAddr &&& 0x0F)).epNum
        = epAddr &&& 0x0F ∧
      ((Otg.USBD_EP_Transfer t epAddr buf L).usbdh.epIN (epAddr &&& 0x0F)).buffer = buf ∧
      ((Otg.USBD_EP_Transfer t epAddr buf L).usbdh.epIN (epAddr &&& 0x0F)).bufCount = 0 ∧
      Otg.armedIn (epAddr &&& 0x0F) (Otg.USBD_EP_Transfer t epAddr buf L).trace =
        Otg.armedIn (epAddr &&& 0x0F) t.trace + 1) ∧
    (((Otg.USBD_EP_Receive t epAddr buf L).usbdh.epOUT (epAddr &&& 0x0F)).epNum
        = epAddr &&& 0x0F ∧
      ((Otg.USBD_EP_Receive t epAddr buf L).usbdh.epOUT (epAddr &&& 0x0F)).buffer = buf ∧
      ((Otg.USBD_EP_Receive t epAddr buf L).usbdh.epOUT (epAddr &&& 0x0F)).bufCount = 0 ∧
      Otg.armedOut (epAddr &&& 0x0F) (Otg.USBD_EP_Receive t epAddr buf L).trace =
        Otg.armedOut (epAddr &&& 0x0F) t.trace + 1) := by
  obtain ⟨f1, _, _, _, _, f6⟩ := Usbd.Transfer_single_facts s epAddr buf L hbi
  obtain ⟨i2, hbuf, i7, i9⟩ := Usbd.Receive_single_facts s epAddr buf L hbo
  obtain ⟨g1, g2, g3, g4⟩ := Otg.Transfer_arms t epAddr buf L
  obtain ⟨k1, k2, k3, k4⟩ := Otg.Receive_arms t epAddr buf L
  refine ⟨⟨?_, ?_, ?_, ?_, ?_⟩, ⟨i2, hbuf, i7, i9⟩, ⟨g3, g1, g2, g4⟩,
    ⟨k3, k1, k2, k4⟩⟩
  · rw [f6]
  · rw [f6]
  · rw [f6]
  · rw [f6]
  · rw [f1]; simp [Usbd.armedIn, List.count_append]

/-- C13 (amended) on the example states with one configured endpoint: address 0x81. -/
theorem C13_transfer_receive_have_no_bound_check_witness :
    (((Usbd.exStateCfg 64 1).usbdh.epIN 1).bufferStatus = Usbd.USBD_EP_BUFFER_SINGLE ∧
      (Usbd.exStateCfg 64 1).usbdh.devEndpointNum = 1) ∧
    Usbd.armedIn 1 (Usbd.USBD_EP_Transfer (Usbd.exStateCfg 64 1) 0x81 0x1000 150).trace = 1 ∧
    Otg.armedOut 1 (Otg.USBD_EP_Receive (Otg.exStateCfg 64 0 1) 0x81 0x1000 150).trace = 1 :=
  ⟨⟨rfl, rfl⟩,
   (C13_transfer_receive_have_no_bound_check (Usbd.exStateCfg 64 1) (Otg.exStateCfg 64 0 1)
      0x81 0x1000 150 rfl rfl).1.2.2.2.2,
   (C13_transfer_receive_have_no_bound_check (Usbd.exStateCfg 64 1) (Otg.exStateCfg 64 0 1)
      0x81 0x1000 150 rfl rfl).2.2.2.2.2.2⟩

namespace Usbd

/-- A correct-transfer IN event on endpoint 0 with nothing else pending: the address register,
the pending address, the remaining length and the event queue afterwards. -/
theorem inEvent_ep0_addr (u : State) (hq : u.usbGlobal.ctrPending = []) :
    (inEvent 0 u).usbGlobal.ADDR =
      (if (u.usbdh.epIN 0).bufLen = 0 ∧ u.usbdh.address > 0 then u.usbdh.address
       else u.usbGlobal.ADDR) ∧
    (inEvent 0 u).usbdh.address =
      (if (u.usbdh.epIN 0).bufLen = 0 ∧ u.usbdh.address > 0 then 0 else u.usbdh.address) ∧
    ((inEvent 0 u).usbdh.epIN 0).bufLen = (u.usbdh.epIN 0).bufLen ∧
    (inEvent 0 u).usbGlobal.ctrPending = [] := by
  unfold inEvent USBD_EP_CTRHandler hwInComplete
  simp only [hq, List.nil_append, ctrHandlerLoop, ctrHandlerBody, USBD_EP_0, if_true]
  unfold ctrEp0In
  simp only [USBD_EP_0]
  split_ifs with h1 h2 <;>
    simp_all [USBD_EP_ResetTxFlag, USBD_DataInStageCallback, USBD_SetDeviceAddr, USBD_Enable,
      getEp, setEp, setSlot, updEP]

/-- With no pending address, any number of consecutive endpoint-0 IN completions leaves the
address register and the pending address as they are. -/
theorem inEvent_ep0_iterate_no_pending (u : State) (hq : u.usbGlobal.ctrPending = [])
    (ha : u.usbdh.address = 0) (k : Nat) :
    ((inEvent 0)^[k] u).usbGlobal.ADDR = u.usbGlobal.ADDR ∧
    ((inEvent 0)^[k] u).usbdh.address = 0 ∧
    ((inEvent 0)^[k] u).usbGlobal.ctrPending = [] := by
  induction k with
  | zero => exact ⟨rfl, ha, hq⟩
  | succ k ih =>
    obtain ⟨i1, i2, i3⟩ := ih
    rw [Function.iterate_succ_apply']
    obtain ⟨e1, e2, _, e4⟩ := inEvent_ep0_addr _ i3
    rw [i2] at e1 e2
    simp at e1 e2
    exact ⟨e1.trans i1, e2, e4⟩

/-- With a pending address and a non-zero remaining length on endpoint 0 IN, any number of
consecutive endpoint-0 IN completions leaves the address register unprogrammed. -/
theorem inEvent_ep0_iterate_data_stage (u : State) (hq : u.usbGlobal.ctrPending = [])
    (hl : (u.usbdh.epIN 0).bufLen ≠ 0) (k : Nat) :
    ((inEvent 0)^[k] u).usbGlobal.ADDR = u.usbGlobal.ADDR ∧
    ((inEvent 0)^[k] u).usbdh.address = u.usbdh.address ∧
    (((inEvent 0)^[k] u).usbdh.epIN 0).bufLen = (u.usbdh.epIN 0).bufLen ∧
    ((inEvent 0)^[k] u).usbGlobal.ctrPending = [] := by
  induction k with
  | zero => exact ⟨rfl, rfl, rfl, hq⟩
  | succ k ih =>
    obtain ⟨i1, i2, i3, i4⟩ := ih
    rw [Function.iterate_succ_apply']
    obtain ⟨e1, e2, e3, e4⟩ := inEvent_ep0_addr _ i4
    have hl2 : ¬ (((inEvent 0)^[k] u).usbdh.epIN 0).bufLen = 0 := by rw [i3]; exact hl
    simp only [hl2, false_and, if_false] at e1 e2
    exact ⟨e1.trans i1, e2.trans i2, e3.trans i3, e4⟩

end Usbd

/-- C14: USB_DEVICE build.  `USBD_SetDevAddress(a)` with `a ≠ 0` stores `a` in the handle and
touches no hardware register.  In a state `u` with pending address `a`, a correct-transfer IN
event on endpoint 0 with `epIN[0].bufLen ≠ 0` fires `USBD_DataInStageCallback(0)` and leaves
the address register and the pending address as they are (for any number of such events in a
row); with `epIN[0].bufLen = 0` it fires the callback, then writes `a` to the address
register, and resets the pending address to 0. -/
theorem C14_nonzero_address_deferred_to_status_in (s u : Usbd.State) (a : Nat) (ha : a ≠ 0)
    (hq : u.usbGlobal.ctrPending = []) (hu : u.usbdh.address = a) :
    ((Usbd.USBD_SetDevAddress s a).usbdh.address = a ∧
      (Usbd.USBD_SetDevAddress s a).usbGlobal.ADDR = s.usbGlobal.ADDR ∧
      (Usbd.USBD_SetDevAddress s a).trace = s.trace ∧
      (Usbd.USBD_SetDevAddress s a).usbdh.epIN = s.usbdh.epIN) ∧
    ((u.usbdh.epIN 0).bufLen ≠ 0 →
      (∀ k, ((Usbd.inEvent 0)^[k] u).usbGlobal.ADDR = u.usbGlobal.ADDR ∧
            ((Usbd.inEvent 0)^[k] u).usbdh.address = a) ∧
      (Usbd.inEvent 0 u).trace = u.trace ++ [Usbd.Ev.ResetTxFlag 0, Usbd.Ev.DataInStageCallback 0]) ∧
    ((u.usbdh.epIN 0).bufLen = 0 →
      (Usbd.inEvent 0 u).usbGlobal.ADDR = a ∧
      (Usbd.inEvent 0 u).usbdh.address = 0 ∧
      (Usbd.inEvent 0 u).trace =
        u.trace ++ [Usbd.Ev.ResetTxFlag 0, Usbd.Ev.DataInStageCallback 0,
                    Usbd.Ev.SetDeviceAddr a, Usbd.Ev.Enable]) := by
  have hpos : a > 0 := Nat.pos_of_ne_zero ha
  obtain ⟨e1, e2, _, _⟩ := Usbd.inEvent_ep0_addr u hq
  have htr := Usbd.inEvent_ep0_trace u hq
  refine ⟨?_, ?_, ?_⟩
  · unfold Usbd.USBD_SetDevAddress
    simp [ha]
  · intro hl
    refine ⟨fun k => ?_, ?_⟩
    · obtain ⟨i1, i2, _, _⟩ := Usbd.inEvent_ep0_iterate_data_stage u hq hl k
      exact ⟨i1, i2.trans hu⟩
    · rw [htr]; simp [hl]
  · intro hl
    rw [hu] at e1 e2 htr
    simp only [hl, hpos, and_self, if_true] at e1 e2 htr
    refine ⟨e1, e2, ?_⟩
    rw [htr]; simp

/-- C14 on the example state: address 5 set, then the status-stage IN completion. -/
theorem C14_nonzero_address_deferred_to_status_in_witness :
    (Usbd.USBD_SetDevAddress (Usbd.exState 64) 5).usbGlobal.ADDR = 0 ∧
    (Usbd.inEvent 0 (Usbd.USBD_SetDevAddress (Usbd.exState 64) 5)).usbGlobal.ADDR = 5 ∧
    (Usbd.inEvent 0 (Usbd.USBD_SetDevAddress (Usbd.exState 64) 5)).usbdh.address = 0 :=
  ⟨(C14_nonzero_address_deferred_to_status_in (Usbd.exState 64)
      (Usbd.USBD_SetDevAddress (Usbd.exState 64) 5) 5 (by decide) rfl rfl).1.2.1,
   ((C14_nonzero_address_deferred_to_status_in (Usbd.exState 64)
      (Usbd.USBD_SetDevAddress (Usbd.exState 64) 5) 5 (by decide) rfl rfl).2.2 rfl).1,
   ((C14_nonzero_address_deferred_to_status_in (Usbd.exState 64)
      (Usbd.USBD_SetDevAddress (Usbd.exState 64) 5) 5 (by decide) rfl rfl).2.2 rfl).2.1⟩

/-- C15: USB_DEVICE build.  From every state `s`, whatever address is pending in it,
`USBD_SetDevAddress(0)` writes 0 to the address register at once (and sets the enable bit)
and clears the pending address; afterwards no correct-transfer IN event on endpoint 0
programs an address: in every state with pending address 0 such an event leaves the address
register unchanged, and after any number of them following the call it still holds 0. -/
theorem C15_address_zero_immediate_and_clears_pending (s u : Usbd.State)
    (hq : s.usbGlobal.ctrPending = [])
    (hqu : u.usbGlobal.ctrPending = []) (hu : u.usbdh.address = 0) :
    (Usbd.USBD_SetDevAddress s 0).usbGlobal.ADDR = 0 ∧
    (Usbd.USBD_SetDevAddress s 0).usbdh.address = 0 ∧
    (Usbd.USBD_SetDevAddress s 0).trace = s.trace ++ [Usbd.Ev.SetDeviceAddr 0, Usbd.Ev.Enable] ∧
    (∀ k, ((Usbd.inEvent 0)^[k] (Usbd.USBD_SetDevAddress s 0)).usbGlobal.ADDR = 0 ∧
          ((Usbd.inEvent 0)^[k] (Usbd.USBD_SetDevAddress s 0)).usbdh.address = 0) ∧
    ((Usbd.inEvent 0 u).usbGlobal.ADDR = u.usbGlobal.ADDR ∧
      (Usbd.inEvent 0 u).usbdh.address = 0 ∧
      (Usbd.inEvent 0 u).trace =
        u.trace ++ [Usbd.Ev.ResetTxFlag 0, Usbd.Ev.DataInStageCallback 0]) := by
  have h1 : (Usbd.USBD_SetDevAddress s 0).usbGlobal.ADDR = 0 := by
    simp [Usbd.USBD_SetDevAddress, Usbd.USBD_Enable, Usbd.USBD_SetDeviceAddr]
  have h2 : (Usbd.USBD_SetDevAddress s 0).usbdh.address = 0 := by
    simp [Usbd.USBD_SetDevAddress, Usbd.USBD_Enable, Usbd.USBD_SetDeviceAddr]
  have h3 : (Usbd.USBD_SetDevAddress s 0).usbGlobal.ctrPending = [] := by
    simp [Usbd.USBD_SetDevAddress, Usbd.USBD_Enable, Usbd.USBD_SetDeviceAddr, hq]
  refine ⟨h1, h2, ?_, fun k => ?_, ?_⟩
  · simp [Usbd.USBD_SetDevAddress, Usbd.USBD_Enable, Usbd.USBD_SetDeviceAddr]
  · obtain ⟨i1, i2, _⟩ := Usbd.inEvent_ep0_iterate_no_pending _ h3 h2 k
    exact ⟨i1.trans h1, i2⟩
  · obtain ⟨e1, e2, _, _⟩ := Usbd.inEvent_ep0_addr u hqu
    have htr := Usbd.inEvent_ep0_trace u hqu
    rw [hu] at e1 e2 htr
    simp at e1 e2 htr
    exact ⟨e1, e2, htr⟩

/-- C15 on the example state: address 5 pending, then `USBD_SetDevAddress(0)`, then an
endpoint-0 IN completion with `bufLen = 0`: the address register holds 0, not 5. -/
theorem C15_address_zero_immediate_and_clears_pending_witness :
    (Usbd.USBD_SetDevAddress (Usbd.exState 64) 5).usbdh.address = 5 ∧
    (Usbd.inEvent 0
      (Usbd.USBD_SetDevAddress (Usbd.USBD_SetDevAddress (Usbd.exState 64) 5) 0)).usbGlobal.ADDR
      = 0 :=
  ⟨rfl,
   ((C15_address_zero_immediate_and_clears_pending
      (Usbd.USBD_SetDevAddress (Usbd.exState 64) 5) (Usbd.exState 64) rfl rfl rfl).2.2.2.1 1).1⟩

namespace Usbd

/-- Reception of a SETUP packet of `cnt` bytes on endpoint 0 with nothing else pending: the
SETUP buffer, the trace, and what stays as it was. -/
theorem setupEvent_facts (s : State) (pkt : Nat → Nat) (cnt : Nat)
    (hq : s.usbGlobal.ctrPending = []) (hnum : (s.usbdh.epOUT 0).epNum = 0) :
    (setupEvent s pkt cnt).usbdh.setup =
      copyCells s.usbdh.setup (copyCells s.usbGlobal.pma pkt (s.usbdh.epOUT 0).pmaAddr 0 cnt)
        0 (s.usbdh.epOUT 0).pmaAddr cnt ∧
    (setupEvent s pkt cnt).trace =
      s.trace ++ [Ev.ReadPacketData (s.usbdh.epOUT 0).pmaAddr cnt, Ev.ResetRxFlag 0,
                  Ev.SetupStageCallback] ∧
    (setupEvent s pkt cnt).usbGlobal.ctrPending = [] ∧
    ((setupEvent s pkt cnt).usbdh.epOUT 0).epNum = 0 ∧
    ((setupEvent s pkt cnt).usbdh.epOUT 0).pmaAddr = (s.usbdh.epOUT 0).pmaAddr ∧
    ((setupEvent s pkt cnt).usbdh.epOUT 0).bufCount = cnt := by
  unfold setupEvent USBD_EP_CTRHandler hwSetupComplete
  simp only [hq, List.nil_append, ctrHandlerLoop, ctrHandlerBody, USBD_EP_0, if_true]
  unfold ctrEp0Out
  simp [hnum, USBD_EP_ReadStatus, USBD_EP_ReadRxCnt, USBD_EP_ResetRxFlag,
    USBD_EP_ReadPacketData, USBD_SetupStageCallback, USBD_EP_0, updEP, setSlot, setEp, getEp,
    logEv]

end Usbd

/-- C16 (USB_DEVICE build, failing input): endpoint 0 with a 64-byte RX buffer, the controller
reports a SETUP reception with RX count 64.  `USBD_EP_CTRHandler` copies 64 bytes, not 8, into
the SETUP buffer: cell 63, beyond the 48 bytes of `setup[12]`, receives packet byte 63; the
callback fires once. -/
theorem C16_setup_copy_uses_reported_count :
    (Usbd.setupEvent (Usbd.exState 64) (fun i => i + 1) 64).trace =
      [Usbd.Ev.ReadPacketData 0x40 64, Usbd.Ev.ResetRxFlag 0, Usbd.Ev.SetupStageCallback] ∧
    (Usbd.exState 64).usbdh.setup 63 = 0 ∧
    (Usbd.setupEvent (Usbd.exState 64) (fun i => i + 1) 64).usbdh.setup 63 = 64 ∧
    (Usbd.setupEvent (Usbd.exState 64) (fun i => i + 1) 8).trace =
      [Usbd.Ev.ReadPacketData 0x40 8, Usbd.Ev.ResetRxFlag 0, Usbd.Ev.SetupStageCallback] := by
  decide

/-- C17: USB_DEVICE build, two 8-byte SETUP packets `p1` then `p2` received on endpoint 0 with
nothing in between.  After the first `USBD_SetupStageCallback` the first 8 bytes of the SETUP
buffer are `p1`; after the second they are `p2`, for every `p1`; the callback has fired once
per packet. -/
theorem C17_second_setup_overwrites_first (s : Usbd.State) (p1 p2 : Nat → Nat)
    (hq : s.usbGlobal.ctrPending = []) (hnum : (s.usbdh.epOUT 0).epNum = 0) :
    (∀ i, i < 8 → (Usbd.setupEvent s p1 8).usbdh.setup i = p1 i) ∧
    Usbd.setupCallbacks (Usbd.setupEvent s p1 8).trace = Usbd.setupCallbacks s.trace + 1 ∧
    (∀ i, i < 8 → (Usbd.setupEvent (Usbd.setupEvent s p1 8) p2 8).usbdh.setup i = p2 i) ∧
    Usbd.setupCallbacks (Usbd.setupEvent (Usbd.setupEvent s p1 8) p2 8).trace =
      Usbd.setupCallbacks s.trace + 2 := by
  obtain ⟨a1, a2, a3, a4, a5, _⟩ := Usbd.setupEvent_facts s p1 8 hq hnum
  obtain ⟨b1, b2, _, _, _, _⟩ := Usbd.setupEvent_facts (Usbd.setupEvent s p1 8) p2 8 a3 a4
  refine ⟨fun i hi => ?_, ?_, fun i hi => ?_, ?_⟩
  · rw [a1]; simp [copyCells, hi]
  · rw [a2]; simp [Usbd.setupCallbacks, List.count_append]
  · rw [b1]; simp [copyCells, hi]
  · rw [b2, a2]; simp [Usbd.setupCallbacks, List.count_append]

/-- C17 on the example state: packets with bytes `i + 1` and `i + 101`. -/
theorem C17_second_setup_overwrites_first_witness :
    (Usbd.setupEvent (Usbd.setupEvent (Usbd.exState 64) (fun i => i + 1) 8)
        (fun i => i + 101) 8).usbdh.setup 7 = 108 ∧
    Usbd.setupCallbacks (Usbd.setupEvent (Usbd.setupEvent (Usbd.exState 64) (fun i => i + 1) 8)
        (fun i => i + 101) 8).trace = 2 :=
  ⟨(C17_second_setup_overwrites_first (Usbd.exState 64) (fun i => i + 1) (fun i => i + 101)
      rfl rfl).2.2.1 7 (by decide),
   (C17_second_setup_overwrites_first (Usbd.exState 64) (fun i => i + 1) (fun i => i + 101)
      rfl rfl).2.2.2⟩

/-- C18 (as stated, refuted): DMA disabled, zero-length `USBD_EP_Transfer` on endpoint 0, the
core reports the transfer complete.  `USBD_InEndpointIsrHandler` fires
`USBD_DataInStageCallback(0)` with the EP0 OUT transfer-size register still at (0, 0, 0): it
has not called `USBD_EP0_OutHandler`, which would have programmed (1, 3, 24). -/
theorem C18_in_complete_without_dma_does_not_rearm :
    (Otg.exState 64 0).usbdh.usbCfg.dmaStatus = DISABLE ∧
    ((Otg.USBD_EP_Transfer (Otg.exState 64 0) 0x80 0 0).usbdh.epIN 0).bufLen = 0 ∧
    (Otg.USBD_InEndpointIsrHandler 4
        (Otg.hwInComplete (Otg.USBD_EP_Transfer (Otg.exState 64 0) 0x80 0 0) 0)).map
      (fun u => (Otg.ep0OutXferSize u, Otg.inCallbacks 0 u.trace)) = some ((0, 0, 0), 1) := by
  decide

namespace Otg

theorem ep0OutXferSize_logEv (s : State) (e : Ev) :
    ep0OutXferSize (logEv s e) = ep0OutXferSize s := rfl

/-- An OUT completion on endpoint 0 with DMA disabled and `bufLen = 0`. -/
theorem OutXferHandler_ep0_no_dma (s : State) (hd : s.usbdh.usbCfg.dmaStatus = DISABLE)
    (hl : (s.usbdh.epOUT 0).bufLen = 0) :
    USBD_EP_OutXferHandler s 0 =
      USBD_DataOutStageCallback (USBD_EP0_OutHandler s DISABLE s.usbdh.setupAddr) 0 := by
  unfold USBD_EP_OutXferHandler
  simp [hd, hl]

/-- An OUT completion on endpoint 0 with DMA enabled, `bufLen = 0`, and neither the SETUP-done
nor the OUT-token-while-disabled status set. -/
theorem OutXferHandler_ep0_dma (s : State) (hd : s.usbdh.usbCfg.dmaStatus = ENABLE)
    (hl : (s.usbdh.epOUT 0).bufLen = 0)
    (h1 : (s.hw.EP_OUT 0).intSETPCMP = false) (h2 : (s.hw.EP_OUT 0).intRXOTDIS = false) :
    USBD_EP_OutXferHandler s 0 =
      USBD_DataOutStageCallback
        (USBD_EP0_OutHandler
          (setEp s (EpRef.epOUT 0)
            { (s.usbdh.epOUT 0) with
                bufCount := sub32 (s.usbdh.epOUT 0).mps ((s.hw.EP_OUT 0).EPTRS % 2 ^ 8),
                buffer := add32 (s.usbdh.epOUT 0).buffer (s.usbdh.epOUT 0).mps })
          ENABLE s.usbdh.setupAddr) 0 := by
  unfold USBD_EP_OutXferHandler
  simp [hd, hl, h1, h2, ENABLE, DISABLE, setEp, setSlot]

/-- An IN completion on endpoint 0 with DMA enabled and `bufLen = 0`. -/
theorem inEpXferComplete_ep0_dma (s : State) (hd : s.usbdh.usbCfg.dmaStatus = ENABLE)
    (hl : (s.usbdh.epIN 0).bufLen = 0) :
    inEpXferComplete s 0 =
      USBD_DataInStageCallback
        (USBD_EP0_OutHandler
          (setEp (USB_OTG_D_ClearInEpIntStatus (USB_OTG_D_DisableInEpEmptyInterrupt s 0) 0
              InFlag.TSFCMP) (EpRef.epIN 0)
            { (s.usbdh.epIN 0) with
                buffer := add32 (s.usbdh.epIN 0).buffer (s.usbdh.epIN 0).mps })
          ENABLE s.usbdh.setupAddr) 0 := by
  unfold inEpXferComplete
  simp [hd, hl, USB_OTG_D_DisableInEpEmptyInterrupt, USB_OTG_D_ClearInEpIntStatus, setEp,
    setSlot, USBD_EP_0]

/-- An IN completion when DMA is not enabled. -/
theorem inEpXferComplete_no_dma (s : State) (n : Nat) (hd : s.usbdh.usbCfg.dmaStatus ≠ ENABLE) :
    inEpXferComplete s n =
      USBD_DataInStageCallback
        (USB_OTG_D_ClearInEpIntStatus (USB_OTG_D_DisableInEpEmptyInterrupt s (n &&& 0x0F)) n
          InFlag.TSFCMP) n := by
  unfold inEpXferComplete
  simp [hd, USB_OTG_D_DisableInEpEmptyInterrupt, USB_OTG_D_ClearInEpIntStatus]

end Otg

/-- C18 (amended): USB_OTG build, a transfer completes on endpoint 0 while the descriptor's
`bufLen` is 0.  An OUT completion calls `USBD_EP0_OutHandler` (EP0 OUT transfer-size register:
packet count 1, SETUP count 3, size 24) and then fires `USBD_DataOutStageCallback(0)`, with DMA
disabled, and with DMA enabled when neither the SETUP-done nor the OUT-token-while-disabled
status is set.  An IN completion calls `USBD_EP0_OutHandler` before
`USBD_DataInStageCallback(0)` only when DMA is enabled; otherwise it fires the callback and
leaves the EP0 OUT transfer-size register as it was. -/
theorem C18_ep0_rearm_on_completion (s : Otg.State) :
    (s.usbdh.usbCfg.dmaStatus = DISABLE → (s.usbdh.epOUT 0).bufLen = 0 →
      Otg.USBD_EP_OutXferHandler s 0 =
        Otg.USBD_DataOutStageCallback
          (Otg.USBD_EP0_OutHandler s DISABLE s.usbdh.setupAddr) 0 ∧
      Otg.ep0OutXferSize (Otg.USBD_EP_OutXferHandler s 0) = (1, 3, 24) ∧
      (Otg.USBD_EP_OutXferHandler s 0).trace = s.trace ++ [Otg.Ev.DataOutStageCallback 0]) ∧
    (s.usbdh.usbCfg.dmaStatus = ENABLE → (s.usbdh.epOUT 0).bufLen = 0 →
      (s.hw.EP_OUT 0).intSETPCMP = false → (s.hw.EP_OUT 0).intRXOTDIS = false →
      Otg.USBD_EP_OutXferHandler s 0 =
        Otg.USBD_DataOutStageCallback
          (Otg.USBD_EP0_OutHandler
            (Otg.setEp s (Otg.EpRef.epOUT 0)
              { (s.usbdh.epOUT 0) with
                  bufCount := sub32 (s.usbdh.epOUT 0).mps ((s.hw.EP_OUT 0).EPTRS % 2 ^ 8),
                  buffer := add32 (s.usbdh.epOUT 0).buffer (s.usbdh.epOUT 0).mps })
            ENABLE s.usbdh.setupAddr) 0 ∧
      Otg.ep0OutXferSize (Otg.USBD_EP_OutXferHandler s 0) = (1, 3, 24) ∧
      (Otg.USBD_EP_OutXferHandler s 0).trace =
        s.trace ++ [Otg.Ev.OutEpEnable 0, Otg.Ev.DataOutStageCallback 0]) ∧
    (s.usbdh.usbCfg.dmaStatus = ENABLE → (s.usbdh.epIN 0).bufLen = 0 →
      Otg.ep0OutXferSize (Otg.inEpXferComplete s 0) = (1, 3, 24) ∧
      (Otg.inEpXferComplete s 0).trace =
        s.trace ++ [Otg.Ev.DisableInEpEmptyInterrupt 0,
                    Otg.Ev.ClearInEpIntStatus 0 Otg.InFlag.TSFCMP,
                    Otg.Ev.OutEpEnable 0, Otg.Ev.DataInStageCallback 0]) ∧
    (s.usbdh.usbCfg.dmaStatus ≠ ENABLE →
      Otg.ep0OutXferSize (Otg.inEpXferComplete s 0) = Otg.ep0OutXferSize s ∧
      (Otg.inEpXferComplete s 0).trace =
        s.trace ++ [Otg.Ev.DisableInEpEmptyInterrupt 0,
                    Otg.Ev.ClearInEpIntStatus 0 Otg.InFlag.TSFCMP,
                    Otg.Ev.DataInStageCallback 0]) := by
  refine ⟨fun hd hl => ?_, fun hd hl h1 h2 => ?_, fun hd hl => ?_, fun hd => ?_⟩
  · have e := Otg.OutXferHandler_ep0_no_dma s hd hl
    refine ⟨e, ?_, ?_⟩
    · rw [e, Otg.USBD_DataOutStageCallback, Otg.ep0OutXferSize_logEv,
        Otg.ep0OutXferSize_OutHandler]
    · rw [e, Otg.USBD_DataOutStageCallback, Otg.otg_logEv_trace, Otg.EP0_OutHandler_trace]
      simp [DISABLE, ENABLE]
  · have e := Otg.OutXferHandler_ep0_dma s hd hl h1 h2
    refine ⟨e, ?_, ?_⟩
    · rw [e, Otg.USBD_DataOutStageCallback, Otg.ep0OutXferSize_logEv,
        Otg.ep0OutXferSize_OutHandler]
    · rw [e, Otg.USBD_DataOutStageCallback, Otg.otg_logEv_trace, Otg.EP0_OutHandler_trace]
      simp [USBD_EP_0]
  · have e := Otg.inEpXferComplete_ep0_dma s hd hl
    refine ⟨?_, ?_⟩
    · rw [e, Otg.USBD_DataInStageCallback, Otg.ep0OutXferSize_logEv,
        Otg.ep0OutXferSize_OutHandler]
    · rw [e, Otg.USBD_DataInStageCallback, Otg.otg_logEv_trace, Otg.EP0_OutHandler_trace]
      simp [USBD_EP_0, Otg.USB_OTG_D_DisableInEpEmptyInterrupt, Otg.USB_OTG_D_ClearInEpIntStatus]
  · have e := Otg.inEpXferComplete_no_dma s 0 hd
    refine ⟨?_, ?_⟩
    · rw [e]; rfl
    · rw [e]
      simp [Otg.USBD_DataInStageCallback, Otg.USB_OTG_D_DisableInEpEmptyInterrupt,
        Otg.USB_OTG_D_ClearInEpIntStatus]

/-- C18 (amended) on the example states: OUT completion with DMA disabled, IN completion with
DMA enabled. -/
theorem C18_ep0_rearm_on_completion_witness :
    Otg.ep0OutXferSize (Otg.USBD_EP_OutXferHandler (Otg.exState 64 0) 0) = (1, 3, 24) ∧
    Otg.ep0OutXferSize (Otg.inEpXferComplete (Otg.exState 64 1) 0) = (1, 3, 24) :=
  ⟨((C18_ep0_rearm_on_completion (Otg.exState 64 0)).1 rfl rfl).2.1,
   ((C18_ep0_rearm_on_completion (Otg.exState 64 1)).2.2.1 rfl rfl).1⟩

namespace Usbd

/-- The handle after `USBD_EP_Open` of the USB_DEVICE build. -/
theorem Open_usbdh (s : State) (a ty mps : Nat) :
    (USBD_EP_Open s a ty mps).usbdh =
      if a &&& 0x80 = 0x80 then
        { s.usbdh with
          epIN := setSlot s.usbdh.epIN (a &&& 0x0F)
            { (s.usbdh.epIN (a &&& 0x0F)) with
                epDir := EP_DIR_IN, epNum := a &&& 0x0F, epType := ty, mps := mps,
                txFifoNum := a &&& 0x0F,
                dataPID := if ty = EP_TYPE_BULK then 0
                           else (s.usbdh.epIN (a &&& 0x0F)).dataPID } }
      else
        { s.usbdh with
          epOUT := setSlot s.usbdh.epOUT (a &&& 0x0F)
            { (s.usbdh.epOUT (a &&& 0x0F)) with
                epDir := EP_DIR_OUT, epNum := a &&& 0x0F, epType := ty, mps := mps },
          epIN := if ty = EP_TYPE_BULK then
                    setSlot s.usbdh.epIN (a &&& 0x0F)
                      { (s.usbdh.epIN (a &&& 0x0F)) with dataPID := 0 }
                  else s.usbdh.epIN } := by
  unfold USBD_EP_Open USBD_ConfigEP
  by_cases hd : a &&& 0x80 = 0x80 <;> by_cases ht : ty = EP_TYPE_BULK <;>
    simp [hd, ht, setEp, getEp, setSlot]
  funext j; simp only [setSlot]; split_ifs <;> rfl

end Usbd

namespace Otg

/-- The handle after `USBD_EP_Open` of the USB_OTG build. -/
theorem otg_Open_usbdh (s : State) (a ty mps : Nat) :
    (USBD_EP_Open s a ty mps).usbdh =
      if a &&& 0x80 = 0x80 then
        { s.usbdh with
          epIN := setSlot s.usbdh.epIN (a &&& 0x0F)
            { (s.usbdh.epIN (a &&& 0x0F)) with
                epDir := EP_DIR_IN, epNum := a &&& 0x0F, epType := ty, mps := mps,
                txFifoNum := a &&& 0x0F,
                dataPID := if ty = EP_TYPE_BULK then 0
                           else (s.usbdh.epIN (a &&& 0x0F)).dataPID } }
      else
        { s.usbdh with
          epOUT := setSlot s.usbdh.epOUT (a &&& 0x0F)
            { (s.usbdh.epOUT (a &&& 0x0F)) with
                epDir := EP_DIR_OUT, epNum := a &&& 0x0F, epType := ty, mps := mps },
          epIN := if ty = EP_TYPE_BULK then
                    setSlot s.usbdh.epIN (a &&& 0x0F)
                      { (s.usbdh.epIN (a &&& 0x0F)) with dataPID := 0 }
                  else s.usbdh.epIN } := by
  unfold USBD_EP_Open USB_OTG_D_ConfigEP
  by_cases hd : a &&& 0x80 = 0x80 <;> by_cases ht : ty = EP_TYPE_BULK <;>
    simp [hd, ht, setEp, getEp, setSlot]
  funext j; simp only [setSlot]; split_ifs <;> rfl

end Otg

/-- C20 (failing input): `USBD_EP_Open(usbdh, 0x01, EP_TYPE_BULK, 64)`, an OUT address, on a
handle whose endpoint-1 descriptors both have `dataPID = 1`.  In both builds the call clears
`dataPID` of the IN descriptor `epIN[1]` and leaves `dataPID` of the opened OUT descriptor
`epOUT[1]` as it was. -/
theorem C20_open_bulk_out_writes_in_descriptor :
    (((Usbd.exStatePid 64).usbdh.epIN 1).dataPID = 1 ∧
      ((Usbd.USBD_EP_Open (Usbd.exStatePid 64) 0x01 EP_TYPE_BULK 64).usbdh.epIN 1).dataPID = 0 ∧
      ((Usbd.USBD_EP_Open (Usbd.exStatePid 64) 0x01 EP_TYPE_BULK 64).usbdh.epOUT 1).dataPID
        = 1) ∧
    (((Otg.exStatePid 64 0).usbdh.epIN 1).dataPID = 1 ∧
      ((Otg.USBD_EP_Open (Otg.exStatePid 64 0) 0x01 EP_TYPE_BULK 64).usbdh.epIN 1).dataPID = 0 ∧
      ((Otg.USBD_EP_Open (Otg.exStatePid 64 0) 0x01 EP_TYPE_BULK 64).usbdh.epOUT 1).dataPID
        = 1) := by
  decide

namespace Usbd

theorem isrView_logEv (s : State) (e : Ev) (h : isEndpointEv e = true) :
    isrView (logEv s e) = isrView s := by
  simp [isrView, logEv, List.filter_append, h]

@[simp] theorem isrView_updEP (s : State) (n : Nat) (f : EpReg → EpReg) :
    isrView (updEP s n f) = isrView s := rfl

@[simp] theorem isrView_setEp (s : State) (r : EpRef) (e : USBD_ENDPOINT_INFO_T) :
    isrView (setEp s r e) = isrView s := by cases r <;> rfl

@[simp] theorem isrView_SetTxCnt (s : State) (a b : Nat) :
    isrView (USBD_EP_SetTxCnt s a b) = isrView s := isrView_logEv _ _ rfl
@[simp] theorem isrView_SetRxCnt (s : State) (a b : Nat) :
    isrView (USBD_EP_SetRxCnt s a b) = isrView s := isrView_logEv _ _ rfl
@[simp] theorem isrView_SetBuffer0TxCnt (s : State) (a b : Nat) :
    isrView (USBD_EP_SetBuffer0TxCnt s a b) = isrView s := isrView_logEv _ _ rfl
@[simp] theorem isrView_SetBuffer0RxCnt (s : State) (a b : Nat) :
    isrView (USBD_EP_SetBuffer0RxCnt s a b) = isrView s := isrView_logEv _ _ rfl
@[simp] theorem isrView_SetTxStatus (s : State) (a b : Nat) :
    isrView (USBD_EP_SetTxStatus s a b) = isrView s := isrView_logEv _ _ rfl
@[simp] theorem isrView_SetRxStatus (s : State) (a b : Nat) :
    isrView (USBD_EP_SetRxStatus s a b) = isrView s := isrView_logEv _ _ rfl
@[simp] theorem isrView_SetKind (s : State) (a : Nat) :
    isrView (USBD_EP_SetKind s a) = isrView s := isrView_logEv _ _ rfl
@[simp] theorem isrView_ResetKind (s : State) (a : Nat) :
    isrView (USBD_EP_ResetKind s a) = isrView s := isrView_logEv _ _ rfl
@[simp] theorem isrView_ToggleTx (s : State) (a : Nat) :
    isrView (USBD_EP_ToggleTx s a) = isrView s := isrView_logEv _ _ rfl
@[simp] theorem isrView_ToggleRx (s : State) (a : Nat) :
    isrView (USBD_EP_ToggleRx s a) = isrView s := isrView_logEv _ _ rfl
@[simp] theorem isrView_ResetTxFlag (s : State) (a : Nat) :
    isrView (USBD_EP_ResetTxFlag s a) = isrView s := isrView_logEv _ _ rfl
@[simp] theorem isrView_ResetRxFlag (s : State) (a : Nat) :
    isrView (USBD_EP_ResetRxFlag s a) = isrView s := isrView_logEv _ _ rfl
@[simp] theorem isrView_WritePacketData (s : State) (a b c : Nat) :
    isrView (USBD_EP_WritePacketData s a b c) = isrView s := isrView_logEv _ _ rfl
@[simp] theorem isrView_ReadPacketData (s : State) (a : Nat) (d : Dst) (c : Nat) :
    isrView (USBD_EP_ReadPacketData s a d c) = isrView s := by
  cases d <;> exact isrView_logEv _ _ rfl
@[simp] theorem isrView_SetDeviceAddr (s : State) (a : Nat) :
    isrView (USBD_SetDeviceAddr s a) = isrView s := isrView_logEv _ _ rfl
@[simp] theorem isrView_Enable (s : State) :
    isrView (USBD_Enable s) = isrView s := isrView_logEv _ _ rfl
@[simp] theorem isrView_SetupStageCallback (s : State) :
    isrView (USBD_SetupStageCallback s) = isrView s := isrView_logEv _ _ rfl
@[simp] theorem isrView_DataInStageCallback (s : State) (a : Nat) :
    isrView (USBD_DataInStageCallback s a) = isrView s := isrView_logEv _ _ rfl
@[simp] theorem isrView_DataOutStageCallback (s : State) (a : Nat) :
    isrView (USBD_DataOutStageCallback s a) = isrView s := isrView_logEv _ _ rfl

@[simp] theorem isrView_setBuffer0Cnt (s : State) (ep : USBD_ENDPOINT_INFO_T) (c : Nat) :
    isrView (setBuffer0Cnt s ep c) = isrView s := by
  unfold setBuffer0Cnt; split <;> simp
@[simp] theorem isrView_setBuffer1Cnt (s : State) (ep : USBD_ENDPOINT_INFO_T) (c : Nat) :
    isrView (setBuffer1Cnt s ep c) = isrView s := by
  unfold setBuffer1Cnt; split <;> simp

@[simp] theorem isrView_xferStartInDbBulk (s : State) (r : EpRef) (l : Nat) :
    isrView (xferStartInDbBulk s r l) = isrView s := by
  unfold xferStartInDbBulk dbNextLength
  simp [apply_ite isrView]

end Usbd

namespace Usbd

@[simp] theorem isrView_xferStartInDbIso (s : State) (r : EpRef) (l : Nat) :
    isrView (xferStartInDbIso s r l) = isrView s := by
  unfold xferStartInDbIso dbNextLength
  simp [apply_ite isrView]

@[simp] theorem isrView_XferStart (s : State) (r : EpRef) :
    isrView (USBD_EP_XferStart s r) = isrView s := by
  unfold USBD_EP_XferStart rxNextLength
  simp [apply_ite isrView]

@[simp] theorem isrView_DB_Transmit (s : State) (r : EpRef) (st : EpReg) :
    isrView (USBD_EP_DB_Transmit s r st) = isrView s := by
  unfold USBD_EP_DB_Transmit dbRefillLength
  simp [apply_ite isrView]

@[simp] theorem isrView_DB_Receive (s : State) (r : EpRef) (st : EpReg) :
    isrView (USBD_EP_DB_Receive s r st).1 = isrView s := by
  unfold USBD_EP_DB_Receive
  simp [apply_ite isrView, apply_ite Prod.fst]

end Usbd

namespace Usbd

@[simp] theorem isrView_ctrEp0In (s : State) (n : Nat) : isrView (ctrEp0In s n) = isrView s := by
  unfold ctrEp0In
  simp only [apply_ite isrView]
  have h : ∀ (u : State) (a : Nat),
      isrView { u with usbdh := { u.usbdh with address := a } } = isrView u := fun _ _ => rfl
  simp [h]

@[simp] theorem isrView_ctrEp0Out (s : State) : isrView (ctrEp0Out s) = isrView s := by
  unfold ctrEp0Out
  simp [apply_ite isrView]

@[simp] theorem isrView_ctrEpOut (s : State) (n : Nat) (st : EpReg) :
    isrView (ctrEpOut s n st) = isrView s := by
  unfold ctrEpOut
  simp [apply_ite isrView, apply_ite Prod.fst]

@[simp] theorem isrView_ctrEpIn (s : State) (n : Nat) (st : EpReg) :
    isrView (ctrEpIn s n st) = isrView s := by
  unfold ctrEpIn
  simp [apply_ite isrView]

@[simp] theorem isrView_ctrHandlerBody (s : State) (n d : Nat) :
    isrView (ctrHandlerBody s n d) = isrView s := by
  unfold ctrHandlerBody
  simp [apply_ite isrView]

theorem isrView_ctrHandlerLoop (l : List (Nat × Nat)) (s : State) :
    isrView (ctrHandlerLoop l s) = isrView s := by
  induction l generalizing s with
  | nil => rfl
  | cons x rest ih =>
    obtain ⟨n, d⟩ := x
    unfold ctrHandlerLoop
    rw [ih, isrView_ctrHandlerBody]
    rfl

/-- `USBD_EP_CTRHandler` leaves the interrupt flags other than correct-transfer, the
force-reset, force-suspend and low-power bits, and the reset-poll oracle as they are, and
makes no trace entry other than those of endpoint handling. -/
theorem isrView_CTRHandler (s : State) : isrView (USBD_EP_CTRHandler s) = isrView s :=
  isrView_ctrHandlerLoop _ s

end Usbd

namespace Usbd

theorem enumDone_of_isrView (s u : State) (h : isrView u = isrView s) :
    enumDoneCallbacks u.trace = enumDoneCallbacks s.trace := by
  have he : u.trace.filter (fun e => !isEndpointEv e) = s.trace.filter (fun e => !isEndpointEv e) :=
    congrArg IsrView.events h
  have hc : ∀ l : List Ev, (l.filter (fun e => !isEndpointEv e)).count Ev.EnumDoneCallback =
      l.count Ev.EnumDoneCallback := fun l => List.count_filter (by rfl)
  unfold enumDoneCallbacks
  rw [← hc u.trace, ← hc s.trace, he]

/-- The wait loop of `USBD_SuspendHandler` ends as soon as the controller raises the reset
flag, and changes nothing but that flag and the poll counter. -/
theorem waitRST_terminates (k : Nat) : ∀ (fuel : Nat) (s : State),
    (s.usbGlobal.intRST = true ∨ s.usbGlobal.rstRaise (s.usbGlobal.rstPolls + k) = true) →
    k + 2 ≤ fuel →
    ∃ u, waitRST fuel s = some u ∧ u.usbGlobal.intRST = true ∧ u.usbdh = s.usbdh ∧
      u.trace = s.trace ∧ u.mem = s.mem ∧ u.usbGlobal.ADDR = s.usbGlobal.ADDR ∧
      u.usbGlobal.EP = s.usbGlobal.EP ∧ u.usbGlobal.intSOF = s.usbGlobal.intSOF ∧
      u.usbGlobal.intESOF = s.usbGlobal.intESOF ∧ u.usbGlobal.intSUS = s.usbGlobal.intSUS := by
  induction k with
  | zero =>
    intro fuel s h hf
    obtain ⟨f, rfl⟩ : ∃ f, fuel = f + 2 := ⟨fuel - 2, by omega⟩
    by_cases hr : s.usbGlobal.intRST = true
    · exact ⟨s, by simp [waitRST, USBD_ReadIntFlag, USBD_INT_RST, USBD_INT_CTR, USBD_INT_PMAOU,
        USBD_INT_ERR, USBD_INT_WKUP, USBD_INT_SUS, hr], hr, rfl, rfl, rfl, rfl, rfl, rfl, rfl, rfl⟩
    · have hr' : s.usbGlobal.intRST = false := by simpa using hr
      have ho : s.usbGlobal.rstRaise s.usbGlobal.rstPolls = true := by
        rcases h with h | h
        · exact absurd h hr
        · simpa using h
      refine ⟨pollRST s, ?_, ?_, rfl, rfl, rfl, rfl, rfl, rfl, rfl, rfl⟩
      · simp [waitRST, USBD_ReadIntFlag, USBD_INT_RST, USBD_INT_CTR, USBD_INT_PMAOU,
          USBD_INT_ERR, USBD_INT_WKUP, USBD_INT_SUS, hr', pollRST, ho]
      · simp [pollRST, ho]
  | succ k ih =>
    intro fuel s h hf
    obtain ⟨f, rfl⟩ : ∃ f, fuel = f + 1 := ⟨fuel - 1, by omega⟩
    by_cases hr : s.usbGlobal.intRST = true
    · exact ⟨s, by simp [waitRST, USBD_ReadIntFlag, USBD_INT_RST, USBD_INT_CTR, USBD_INT_PMAOU,
        USBD_INT_ERR, USBD_INT_WKUP, USBD_INT_SUS, hr], hr, rfl, rfl, rfl, rfl, rfl, rfl, rfl, rfl⟩
    · have hr' : s.usbGlobal.intRST = false := by simpa using hr
      have ho : s.usbGlobal.rstRaise (s.usbGlobal.rstPolls + (k + 1)) = true := by
        rcases h with h | h
        · exact absurd h hr
        · exact h
      obtain ⟨u, hu, h1, h2, h3, h4, h5, h6, h7, h8, h9⟩ := ih f (pollRST s)
        (Or.inr (by
          show s.usbGlobal.rstRaise (s.usbGlobal.rstPolls + 1 + k) = true
          rw [Nat.add_assoc, Nat.add_comm 1 k]; exact ho)) (by omega)
      refine ⟨u, ?_, h1, h2, h3, h4, h5, h6, h7, h8, h9⟩
      simp [waitRST, USBD_ReadIntFlag, USBD_INT_RST, USBD_INT_CTR, USBD_INT_PMAOU,
        USBD_INT_ERR, USBD_INT_WKUP, USBD_INT_SUS, hr']
      exact hu

end Usbd

namespace Usbd

theorem ReadIntFlag_RST (s : State) : USBD_ReadIntFlag s USBD_INT_RST = s.usbGlobal.intRST := by
  simp [USBD_ReadIntFlag, USBD_INT_RST, USBD_INT_CTR, USBD_INT_PMAOU, USBD_INT_ERR,
    USBD_INT_WKUP, USBD_INT_SUS]

theorem ReadIntFlag_SUS (s : State) : USBD_ReadIntFlag s USBD_INT_SUS = s.usbGlobal.intSUS := by
  simp [USBD_ReadIntFlag, USBD_INT_CTR, USBD_INT_PMAOU, USBD_INT_ERR, USBD_INT_WKUP,
    USBD_INT_SUS]

theorem rstView_ClearIntFlag (s : State) (f : Nat) (h1 : f ≠ USBD_INT_RST)
    (h2 : f ≠ USBD_INT_SUS) : rstView (USBD_ClearIntFlag s f) = rstView s := by
  unfold USBD_ClearIntFlag rstView
  simp only [logEv, h1, h2, if_false]
  split_ifs <;> simp [enumDoneCallbacks, List.count_append]

@[simp] theorem rstView_ClearIntFlag_PMAOU (s : State) :
    rstView (USBD_ClearIntFlag s USBD_INT_PMAOU) = rstView s :=
  rstView_ClearIntFlag s _ (by decide) (by decide)
@[simp] theorem rstView_ClearIntFlag_ERR (s : State) :
    rstView (USBD_ClearIntFlag s USBD_INT_ERR) = rstView s :=
  rstView_ClearIntFlag s _ (by decide) (by decide)
@[simp] theorem rstView_ClearIntFlag_WKUP (s : State) :
    rstView (USBD_ClearIntFlag s USBD_INT_WKUP) = rstView s :=
  rstView_ClearIntFlag s _ (by decide) (by decide)
@[simp] theorem rstView_ClearIntFlag_SOF (s : State) :
    rstView (USBD_ClearIntFlag s USBD_INT_SOF) = rstView s :=
  rstView_ClearIntFlag s _ (by decide) (by decide)
@[simp] theorem rstView_ClearIntFlag_ESOF (s : State) :
    rstView (USBD_ClearIntFlag s USBD_INT_ESOF) = rstView s :=
  rstView_ClearIntFlag s _ (by decide) (by decide)
@[simp] theorem rstView_ResumeCallback (s : State) :
    rstView (USBD_ResumeCallback s) = rstView s := by
  simp [rstView, USBD_ResumeCallback, enumDoneCallbacks, List.count_append]
@[simp] theorem rstView_SuspendCallback (s : State) :
    rstView (USBD_SuspendCallback s) = rstView s := by
  simp [rstView, USBD_SuspendCallback, enumDoneCallbacks, List.count_append]
@[simp] theorem rstView_SOFCallback (s : State) :
    rstView (USBD_SOFCallback s) = rstView s := by
  simp [rstView, USBD_SOFCallback, enumDoneCallbacks, List.count_append]
@[simp] theorem rstView_ResetLowerPowerMode (s : State) :
    rstView (USBD_ResetLowerPowerMode s) = rstView s := rfl
@[simp] theorem rstView_ResetForceSuspend (s : State) :
    rstView (USBD_ResetForceSuspend s) = rstView s := rfl

/-- The bus-reset branch of the dispatcher. -/
theorem rstView_reset_branch (s : State) :
    rstView (USBD_SetDevAddress (USBD_EnumDoneCallback (USBD_ClearIntFlag s USBD_INT_RST)) 0) =
      ((false, 0, 0, enumDoneCallbacks s.trace + 1),
       (s.usbGlobal.intSUS, s.usbGlobal.rstRaise, s.usbGlobal.rstPolls)) := by
  simp [rstView, USBD_SetDevAddress, USBD_EnumDoneCallback, USBD_ClearIntFlag,
    USBD_SetDeviceAddr, USBD_Enable, USBD_INT_RST, USBD_INT_PMAOU, USBD_INT_ERR, USBD_INT_WKUP,
    USBD_INT_SUS, enumDoneCallbacks, logEv, List.count_append]

/-- The first part of a dispatch pass with the bus-reset cause pending. -/
theorem isrBeforeSuspend_reset (s : State) (hrst : s.usbGlobal.intRST = true) :
    rstView (isrBeforeSuspend s) =
      ((false, 0, 0, enumDoneCallbacks s.trace + 1),
       (s.usbGlobal.intSUS, s.usbGlobal.rstRaise, s.usbGlobal.rstPolls)) := by
  have hv : isrView (if USBD_ReadIntFlag s USBD_INT_CTR = true then USBD_EP_CTRHandler s else s)
      = isrView s := by
    split_ifs
    · exact isrView_CTRHandler s
    · rfl
  have hcnt := enumDone_of_isrView _ _ hv
  have h1 : _ = s.usbGlobal.intRST := congrArg IsrView.intRST hv
  have h2 : _ = s.usbGlobal.intSUS := congrArg IsrView.intSUS hv
  have h3 : _ = s.usbGlobal.rstRaise := congrArg IsrView.rstRaise hv
  have h4 : _ = s.usbGlobal.rstPolls := congrArg IsrView.rstPolls hv
  unfold isrBeforeSuspend
  generalize (if USBD_ReadIntFlag s USBD_INT_CTR = true then USBD_EP_CTRHandler s else s) = s1
    at hcnt h1 h2 h3 h4 ⊢
  rw [hrst] at h1
  simp only [isrView] at h1 h2 h3 h4
  rw [← hcnt, ← h2, ← h3, ← h4]
  simp only [ReadIntFlag_RST, h1, if_true]
  simp only [apply_ite rstView, rstView_ClearIntFlag_PMAOU, rstView_ClearIntFlag_ERR,
    rstView_ClearIntFlag_WKUP, rstView_ResumeCallback, rstView_ResetForceSuspend,
    rstView_ResetLowerPowerMode, ite_self, rstView_reset_branch]

/-- The last part of a dispatch pass keeps what the bus reset settled. -/
theorem rstView_isrAfterSuspend (s : State) :
    (rstView (isrAfterSuspend s)).1 = (rstView s).1 := by
  unfold isrAfterSuspend
  simp only [apply_ite rstView, rstView_ClearIntFlag_SOF, rstView_ClearIntFlag_ESOF,
    rstView_SOFCallback, ite_self]

end Usbd

namespace Usbd

/-- `USBD_SuspendHandler` returns once the controller raises the reset flag; it leaves the
reset flag clear and touches neither the handle, nor the address register, nor the trace
entries of callbacks. -/
theorem SuspendHandler_returns (fuel k : Nat) (s : State)
    (h : s.usbGlobal.intRST = true ∨ s.usbGlobal.rstRaise (s.usbGlobal.rstPolls + k) = true)
    (hf : k + 2 ≤ fuel) :
    ∃ u, USBD_SuspendHandler fuel s = some u ∧ u.usbGlobal.intRST = false ∧
      u.usbdh = s.usbdh ∧ u.usbGlobal.ADDR = s.usbGlobal.ADDR ∧
      enumDoneCallbacks u.trace = enumDoneCallbacks s.trace := by
  obtain ⟨w, hw, _, w2, w3, _, w5, _⟩ :=
    waitRST_terminates k fuel (USBD_ResetForceReset (USBD_SetForceReset s)) h hf
  unfold USBD_SuspendHandler
  simp only [hw]
  refine ⟨_, rfl, ?_, ?_, ?_, ?_⟩
  · simp [USBD_SetLowerPowerMode, USBD_ClearIntFlag, USBD_SetForceSuspend, USBD_INT_RST,
      USBD_INT_PMAOU, USBD_INT_ERR, USBD_INT_WKUP, USBD_INT_SUS, logEv]
  · simp [USBD_SetLowerPowerMode, USBD_ClearIntFlag, USBD_SetForceSuspend, logEv, w2,
      USBD_ResetForceReset, USBD_SetForceReset]
  · simp [USBD_SetLowerPowerMode, USBD_ClearIntFlag, USBD_SetForceSuspend, USBD_INT_RST,
      USBD_INT_PMAOU, USBD_INT_ERR, USBD_INT_WKUP, USBD_INT_SUS, logEv, w5,
      USBD_ResetForceReset, USBD_SetForceReset]
  · simp [USBD_SetLowerPowerMode, USBD_ClearIntFlag, USBD_SetForceSuspend, logEv, w3,
      USBD_ResetForceReset, USBD_SetForceReset, enumDoneCallbacks, List.count_append]

end Usbd

/-- C19: USB_DEVICE build, one `USBD_IsrHandler` pass entered with the bus-reset cause
pending, whatever else is pending and whatever address was set before.  The pass returns
(if the suspend cause is pending too, provided the controller raises the reset flag within
the polls the wait loop of `USBD_SuspendHandler` is given); afterwards the reset flag is
clear, `USBD_EnumDoneCallback` has fired exactly once, and the pending address in the handle
and the hardware address register are both 0. -/
theorem C19_bus_reset_pass (s : Usbd.State) (fuel : Nat)
    (hrst : s.usbGlobal.intRST = true)
    (hwait : s.usbGlobal.intSUS = true →
      ∃ k, k + 2 ≤ fuel ∧ s.usbGlobal.rstRaise (s.usbGlobal.rstPolls + k) = true) :
    ∃ u, Usbd.USBD_IsrHandler fuel s = some u ∧
      u.usbGlobal.intRST = false ∧
      Usbd.enumDoneCallbacks u.trace = Usbd.enumDoneCallbacks s.trace + 1 ∧
      u.usbdh.address = 0 ∧ u.usbGlobal.ADDR = 0 := by
  have hb := Usbd.isrBeforeSuspend_reset s hrst
  have b1 : (Usbd.isrBeforeSuspend s).usbGlobal.intRST = false := congrArg (fun v => v.1.1) hb
  have b2 : (Usbd.isrBeforeSuspend s).usbdh.address = 0 := congrArg (fun v => v.1.2.1) hb
  have b3 : (Usbd.isrBeforeSuspend s).usbGlobal.ADDR = 0 := congrArg (fun v => v.1.2.2.1) hb
  have b4 : Usbd.enumDoneCallbacks (Usbd.isrBeforeSuspend s).trace =
      Usbd.enumDoneCallbacks s.trace + 1 := congrArg (fun v => v.1.2.2.2) hb
  have b5 : (Usbd.isrBeforeSuspend s).usbGlobal.intSUS = s.usbGlobal.intSUS :=
    congrArg (fun v => v.2.1) hb
  have b6 : (Usbd.isrBeforeSuspend s).usbGlobal.rstRaise = s.usbGlobal.rstRaise :=
    congrArg (fun v => v.2.2.1) hb
  have b7 : (Usbd.isrBeforeSuspend s).usbGlobal.rstPolls = s.usbGlobal.rstPolls :=
    congrArg (fun v => v.2.2.2) hb
  have hfin : ∀ w : Usbd.State, w.usbGlobal.intRST = false → w.usbdh.address = 0 →
      w.usbGlobal.ADDR = 0 →
      Usbd.enumDoneCallbacks w.trace = Usbd.enumDoneCallbacks s.trace + 1 →
      (Usbd.isrAfterSuspend w).usbGlobal.intRST = false ∧
      Usbd.enumDoneCallbacks (Usbd.isrAfterSuspend w).trace =
        Usbd.enumDoneCallbacks s.trace + 1 ∧
      (Usbd.isrAfterSuspend w).usbdh.address = 0 ∧
      (Usbd.isrAfterSuspend w).usbGlobal.ADDR = 0 := by
    intro w w1 w2 w3 w4
    have ha := Usbd.rstView_isrAfterSuspend w
    have a1 : (Usbd.isrAfterSuspend w).usbGlobal.intRST = w.usbGlobal.intRST :=
      congrArg (fun v => v.1) ha
    have a2 : (Usbd.isrAfterSuspend w).usbdh.address = w.usbdh.address :=
      congrArg (fun v => v.2.1) ha
    have a3 : (Usbd.isrAfterSuspend w).usbGlobal.ADDR = w.usbGlobal.ADDR :=
      congrArg (fun v => v.2.2.1) ha
    have a4 : Usbd.enumDoneCallbacks (Usbd.isrAfterSuspend w).trace =
        Usbd.enumDoneCallbacks w.trace := congrArg (fun v => v.2.2.2) ha
    exact ⟨a1.trans w1, a4.trans w4, a2.trans w2, a3.trans w3⟩
  unfold Usbd.USBD_IsrHandler
  simp only [Usbd.ReadIntFlag_SUS, b5]
  by_cases hs : s.usbGlobal.intSUS = true
  · obtain ⟨k, hk, ho⟩ := hwait hs
    obtain ⟨w, hw, w1, w2, w3, w4⟩ := Usbd.SuspendHandler_returns fuel k
      (Usbd.isrBeforeSuspend s) (Or.inr (by rw [b6, b7]; exact ho)) hk
    simp only [hs, if_true, hw]
    refine ⟨_, rfl, ?_⟩
    have c := Usbd.rstView_SuspendCallback w
    have c1 : (Usbd.USBD_SuspendCallback w).usbGlobal.intRST = false := w1
    have c2 : (Usbd.USBD_SuspendCallback w).usbdh.address = 0 := by
      show w.usbdh.address = 0
      rw [w2]; exact b2
    have c3 : (Usbd.USBD_SuspendCallback w).usbGlobal.ADDR = 0 := w3.trans b3
    have c4 : Usbd.enumDoneCallbacks (Usbd.USBD_SuspendCallback w).trace =
        Usbd.enumDoneCallbacks s.trace + 1 := by
      have : Usbd.enumDoneCallbacks (Usbd.USBD_SuspendCallback w).trace =
          Usbd.enumDoneCallbacks w.trace := congrArg (fun v => v.1.2.2.2) c
      rw [this, w4, b4]
    exact hfin _ c1 c2 c3 c4
  · simp only [hs, if_false]
    exact ⟨_, rfl, hfin _ b1 b2 b3 b4⟩

/-- C19 on the example state: address 5 pending and programmed, bus reset and suspend both
pending, two polls allowed. -/
theorem C19_bus_reset_pass_witness :
    ((Usbd.exStateReset 64).usbGlobal.intRST = true ∧ (Usbd.exStateReset 64).usbdh.address = 5 ∧
      (Usbd.exStateReset 64).usbGlobal.ADDR = 5) ∧
    ∃ u, Usbd.USBD_IsrHandler 2 (Usbd.exStateReset 64) = some u ∧
      u.usbGlobal.intRST = false ∧
      Usbd.enumDoneCallbacks u.trace = Usbd.enumDoneCallbacks (Usbd.exStateReset 64).trace + 1 ∧
      u.usbdh.address = 0 ∧ u.usbGlobal.ADDR = 0 :=
  ⟨⟨rfl, rfl, rfl⟩,
   C19_bus_reset_pass (Usbd.exStateReset 64) 2 rfl (fun _ => ⟨0, by decide, rfl⟩)⟩

namespace Usbd

theorem dbAfterAck_frame (ep : USBD_ENDPOINT_INFO_T) (cnt : Nat) :
    (dbAfterAck ep cnt).1.epNum = ep.epNum ∧ (dbAfterAck ep cnt).1.epDir = ep.epDir ∧
    (dbAfterAck ep cnt).1.pmaAddr0 = ep.pmaAddr0 ∧ (dbAfterAck ep cnt).1.pmaAddr1 = ep.pmaAddr1 ∧
    (dbAfterAck ep cnt).1.bufLen = ep.bufLen - cnt ∧
    (dbAfterAck ep cnt).1.buffer = add32 ep.buffer cnt ∧
    (dbAfterAck ep cnt).1.bufCount = add32 ep.bufCount cnt := by
  unfold dbAfterAck dbRefillLength
  split_ifs <;> simp

/-- `USBD_EP_DB_Transmit` when the TXDTOG bit of the passed status is set, data remains and
refilling is enabled: the "Buffer0" count is written and buffer 0 is filled. -/
theorem DB_Transmit_refill0 (s : State) (r : EpRef) (st : EpReg)
    (ht : st.txdtog = true)
    (hrem : (getEp s r).bufLen > USBD_EP_ReadTxCnt s (getEp s r).epNum % 2 ^ 16)
    (h32 : (getEp s r).bufLen < 2 ^ 32)
    (hfill : (getEp s r).dbBufferFill = ENABLE) :
    USBD_EP_DB_Transmit s r st =
      USBD_EP_SetTxStatus
        (USBD_EP_WritePacketData
          (setBuffer0Cnt
            (setEp (if st.rxdtog then USBD_EP_ToggleRx s (getEp s r).epNum else s) r
              (dbAfterAck (getEp s r) (USBD_EP_ReadTxCnt s (getEp s r).epNum % 2 ^ 16)).1)
            (dbAfterAck (getEp s r) (USBD_EP_ReadTxCnt s (getEp s r).epNum % 2 ^ 16)).1
            (dbAfterAck (getEp s r) (USBD_EP_ReadTxCnt s (getEp s r).epNum % 2 ^ 16)).2)
          (getEp s r).pmaAddr0
          (dbAfterAck (getEp s r) (USBD_EP_ReadTxCnt s (getEp s r).epNum % 2 ^ 16)).1.buffer
          (dbAfterAck (getEp s r) (USBD_EP_ReadTxCnt s (getEp s r).epNum % 2 ^ 16)).2)
        (getEp s r).epNum USBD_EP_STATUS_VALID := by
  have hsub := sub32_of_le _ _ h32 (Nat.le_of_lt hrem)
  have hne : (getEp s r).bufLen - USBD_EP_ReadTxCnt s (getEp s r).epNum % 2 ^ 16 ≠ 0 := by omega
  unfold USBD_EP_DB_Transmit dbAfterAck
  simp only [ht, if_true, hrem, hsub, hne, if_false, hfill]
  unfold dbRefillLength
  split_ifs <;> simp_all

/-- `USBD_EP_DB_Transmit` when the TXDTOG bit of the passed status is clear, data remains and
refilling is enabled: the "Buffer1" count is written and buffer 1 is filled. -/
theorem DB_Transmit_refill1 (s : State) (r : EpRef) (st : EpReg)
    (ht : st.txdtog = false)
    (hrem : (getEp s r).bufLen > USBD_EP_ReadRxCnt s (getEp s r).epNum % 2 ^ 16)
    (h32 : (getEp s r).bufLen < 2 ^ 32)
    (hfill : (getEp s r).dbBufferFill = ENABLE) :
    USBD_EP_DB_Transmit s r st =
      USBD_EP_SetTxStatus
        (USBD_EP_WritePacketData
          (setBuffer1Cnt
            (setEp (if !st.rxdtog then USBD_EP_ToggleRx s (getEp s r).epNum else s) r
              (dbAfterAck (getEp s r) (USBD_EP_ReadRxCnt s (getEp s r).epNum % 2 ^ 16)).1)
            (dbAfterAck (getEp s r) (USBD_EP_ReadRxCnt s (getEp s r).epNum % 2 ^ 16)).1
            (dbAfterAck (getEp s r) (USBD_EP_ReadRxCnt s (getEp s r).epNum % 2 ^ 16)).2)
          (getEp s r).pmaAddr1
          (dbAfterAck (getEp s r) (USBD_EP_ReadRxCnt s (getEp s r).epNum % 2 ^ 16)).1.buffer
          (dbAfterAck (getEp s r) (USBD_EP_ReadRxCnt s (getEp s r).epNum % 2 ^ 16)).2)
        (getEp s r).epNum USBD_EP_STATUS_VALID := by
  have hsub := sub32_of_le _ _ h32 (Nat.le_of_lt hrem)
  have hne : (getEp s r).bufLen - USBD_EP_ReadRxCnt s (getEp s r).epNum % 2 ^ 16 ≠ 0 := by omega
  have hge : (getEp s r).bufLen ≥ USBD_EP_ReadRxCnt s (getEp s r).epNum % 2 ^ 16 :=
    Nat.le_of_lt hrem
  unfold USBD_EP_DB_Transmit dbAfterAck
  simp only [ht, if_true, hge, hsub, hne, if_false, hfill, Bool.false_eq_true]
  unfold dbRefillLength
  split_ifs <;> simp_all

end Usbd

namespace Usbd

theorem getEp_logEv (s : State) (e : Ev) (r : EpRef) : getEp (logEv s e) r = getEp s r := by
  cases r <;> rfl

theorem getEp_updEP (s : State) (n : Nat) (f : EpReg → EpReg) (r : EpRef) :
    getEp (updEP s n f) r = getEp s r := by
  cases r <;> rfl

/-- Trace and descriptor after a "Buffer0" refill of an IN endpoint. -/
theorem DB_Transmit_refill0_facts (s : State) (r : EpRef) (st : EpReg)
    (hdir : (getEp s r).epDir = EP_DIR_IN)
    (ht : st.txdtog = true)
    (hrem : (getEp s r).bufLen > USBD_EP_ReadTxCnt s (getEp s r).epNum % 2 ^ 16)
    (h32 : (getEp s r).bufLen < 2 ^ 32)
    (hfill : (getEp s r).dbBufferFill = ENABLE) :
    (USBD_EP_DB_Transmit s r st).trace =
      s.trace ++ (if st.rxdtog then [Ev.ToggleRx (getEp s r).epNum] else []) ++
        [Ev.SetTxCnt (getEp s r).epNum
           (dbAfterAck (getEp s r) (USBD_EP_ReadTxCnt s (getEp s r).epNum % 2 ^ 16)).2,
         Ev.WritePacketData (getEp s r).pmaAddr0
           (add32 (getEp s r).buffer (USBD_EP_ReadTxCnt s (getEp s r).epNum % 2 ^ 16))
           (dbAfterAck (getEp s r) (USBD_EP_ReadTxCnt s (getEp s r).epNum % 2 ^ 16)).2,
         Ev.SetTxStatus (getEp s r).epNum USBD_EP_STATUS_VALID] ∧
    getEp (USBD_EP_DB_Transmit s r st) r =
      (dbAfterAck (getEp s r) (USBD_EP_ReadTxCnt s (getEp s r).epNum % 2 ^ 16)).1 := by
  obtain ⟨f1, f2, f3, f4, f5, f6, f7⟩ :=
    dbAfterAck_frame (getEp s r) (USBD_EP_ReadTxCnt s (getEp s r).epNum % 2 ^ 16)
  have hd : ¬ (dbAfterAck (getEp s r)
      (USBD_EP_ReadTxCnt s (getEp s r).epNum % 2 ^ 16)).1.epDir = 0 := by
    rw [f2, hdir]; decide
  rw [DB_Transmit_refill0 s r st ht hrem h32 hfill]
  unfold setBuffer0Cnt
  rw [if_neg hd, f1, f6]
  constructor
  · simp only [USBD_EP_SetTxStatus, USBD_EP_WritePacketData, USBD_EP_SetTxCnt, logEv_trace,
      updEP_trace, setEp_trace]
    split_ifs <;> simp [USBD_EP_ToggleRx]
  · simp only [USBD_EP_SetTxStatus, USBD_EP_WritePacketData, USBD_EP_SetTxCnt, getEp_logEv,
      getEp_updEP]
    cases r <;> simp [getEp, setEp, setSlot]

/-- Trace and descriptor after a "Buffer1" refill of an IN endpoint. -/
theorem DB_Transmit_refill1_facts (s : State) (r : EpRef) (st : EpReg)
    (hdir : (getEp s r).epDir = EP_DIR_IN)
    (ht : st.txdtog = false)
    (hrem : (getEp s r).bufLen > USBD_EP_ReadRxCnt s (getEp s r).epNum % 2 ^ 16)
    (h32 : (getEp s r).bufLen < 2 ^ 32)
    (hfill : (getEp s r).dbBufferFill = ENABLE) :
    (USBD_EP_DB_Transmit s r st).trace =
      s.trace ++ (if !st.rxdtog then [Ev.ToggleRx (getEp s r).epNum] else []) ++
        [Ev.SetBuffer0TxCnt (getEp s r).epNum
           (dbAfterAck (getEp s r) (USBD_EP_ReadRxCnt s (getEp s r).epNum % 2 ^ 16)).2,
         Ev.WritePacketData (getEp s r).pmaAddr1
           (add32 (getEp s r).buffer (USBD_EP_ReadRxCnt s (getEp s r).epNum % 2 ^ 16))
           (dbAfterAck (getEp s r) (USBD_EP_ReadRxCnt s (getEp s r).epNum % 2 ^ 16)).2,
         Ev.SetTxStatus (getEp s r).epNum USBD_EP_STATUS_VALID] ∧
    getEp (USBD_EP_DB_Transmit s r st) r =
      (dbAfterAck (getEp s r) (USBD_EP_ReadRxCnt s (getEp s r).epNum % 2 ^ 16)).1 := by
  obtain ⟨f1, f2, f3, f4, f5, f6, f7⟩ :=
    dbAfterAck_frame (getEp s r) (USBD_EP_ReadRxCnt s (getEp s r).epNum % 2 ^ 16)
  have hd : ¬ (dbAfterAck (getEp s r)
      (USBD_EP_ReadRxCnt s (getEp s r).epNum % 2 ^ 16)).1.epDir = 0 := by
    rw [f2, hdir]; decide
  rw [DB_Transmit_refill1 s r st ht hrem h32 hfill]
  unfold setBuffer1Cnt
  rw [if_neg hd, f1, f6]
  constructor
  · simp only [USBD_EP_SetTxStatus, USBD_EP_WritePacketData, USBD_EP_SetBuffer0TxCnt,
      logEv_trace, updEP_trace, setEp_trace]
    split_ifs <;> simp [USBD_EP_ToggleRx]
  · simp only [USBD_EP_SetTxStatus, USBD_EP_WritePacketData, USBD_EP_SetBuffer0TxCnt,
      getEp_logEv, getEp_updEP]
    cases r <;> simp [getEp, setEp, setSlot]

theorem refillSeq_append (n : Nat) (a b : List Ev) :
    refillSeq n (a ++ b) = refillSeq n a ++ refillSeq n b := by
  simp [refillSeq, List.filterMap_append]

/-- One refill under the conditions of `DB_Transmit_refill0` / `DB_Transmit_refill1`: the
refill sequence grows by the buffer the TXDTOG bit names, and the direction, number and fill
flag bookkeeping of the descriptor is that of `dbAfterAck`. -/
theorem DB_Transmit_refillSeq (s : State) (r : EpRef) (st : EpReg)
    (hdir : (getEp s r).epDir = EP_DIR_IN)
    (h32 : (getEp s r).bufLen < 2 ^ 32)
    (hfill : (getEp s r).dbBufferFill = ENABLE)
    (hrem : (getEp s r).bufLen >
      (if st.txdtog then USBD_EP_ReadTxCnt s (getEp s r).epNum
       else USBD_EP_ReadRxCnt s (getEp s r).epNum) % 2 ^ 16) :
    refillSeq (getEp s r).epNum (USBD_EP_DB_Transmit s r st).trace =
      refillSeq (getEp s r).epNum s.trace ++ [if st.txdtog then 0 else 1] ∧
    (getEp (USBD_EP_DB_Transmit s r st) r).epNum = (getEp s r).epNum ∧
    (getEp (USBD_EP_DB_Transmit s r st) r).epDir = (getEp s r).epDir ∧
    (getEp (USBD_EP_DB_Transmit s r st) r).bufLen ≤ (getEp s r).bufLen := by
  by_cases ht : st.txdtog = true
  · simp only [ht, if_true] at hrem ⊢
    obtain ⟨t1, t2⟩ := DB_Transmit_refill0_facts s r st hdir ht hrem h32 hfill
    obtain ⟨f1, f2, _, _, f5, _⟩ :=
      dbAfterAck_frame (getEp s r) (USBD_EP_ReadTxCnt s (getEp s r).epNum % 2 ^ 16)
    refine ⟨?_, by rw [t2, f1], by rw [t2, f2], by rw [t2, f5]; omega⟩
    rw [t1, refillSeq_append, refillSeq_append]
    split_ifs <;> simp [refillSeq]
  · have ht' : st.txdtog = false := by simpa using ht
    simp only [ht', Bool.false_eq_true, if_false] at hrem ⊢
    obtain ⟨t1, t2⟩ := DB_Transmit_refill1_facts s r st hdir ht' hrem h32 hfill
    obtain ⟨f1, f2, _, _, f5, _⟩ :=
      dbAfterAck_frame (getEp s r) (USBD_EP_ReadRxCnt s (getEp s r).epNum % 2 ^ 16)
    refine ⟨?_, by rw [t2, f1], by rw [t2, f2], by rw [t2, f5]; omega⟩
    rw [t1, refillSeq_append, refillSeq_append]
    split_ifs <;> simp [refillSeq]

end Usbd

/-- C26: USB_DEVICE build, `USBD_EP_DB_Transmit` on an IN descriptor with data remaining after
the acknowledged packet and refilling enabled.  If the TXDTOG bit of the passed status is set,
the only count written is the "Buffer0" count and the packet data goes to `pmaAddr0`; if it is
clear, the only count written is the "Buffer1" count and the data goes to `pmaAddr1`.  Hence a
second such event whose TXDTOG bit is the opposite refills the other buffer: the refill
sequence grows by `[0, 1]` or `[1, 0]`, never by the same buffer twice. -/
theorem C26_db_transmit_refill_follows_txdtog (s : Usbd.State) (r : Usbd.EpRef)
    (st st2 : Usbd.EpReg)
    (hdir : (Usbd.getEp s r).epDir = EP_DIR_IN)
    (h32 : (Usbd.getEp s r).bufLen < 2 ^ 32)
    (hfill : (Usbd.getEp s r).dbBufferFill = ENABLE)
    (hrem : (Usbd.getEp s r).bufLen >
      (if st.txdtog then Usbd.USBD_EP_ReadTxCnt s (Usbd.getEp s r).epNum
       else Usbd.USBD_EP_ReadRxCnt s (Usbd.getEp s r).epNum) % 2 ^ 16) :
    (st.txdtog = true →
      (Usbd.USBD_EP_DB_Transmit s r st).trace =
        s.trace ++ (if st.rxdtog then [Usbd.Ev.ToggleRx (Usbd.getEp s r).epNum] else []) ++
          [Usbd.Ev.SetTxCnt (Usbd.getEp s r).epNum
             (Usbd.dbAfterAck (Usbd.getEp s r)
               (Usbd.USBD_EP_ReadTxCnt s (Usbd.getEp s r).epNum % 2 ^ 16)).2,
           Usbd.Ev.WritePacketData (Usbd.getEp s r).pmaAddr0
             (add32 (Usbd.getEp s r).buffer
               (Usbd.USBD_EP_ReadTxCnt s (Usbd.getEp s r).epNum % 2 ^ 16))
             (Usbd.dbAfterAck (Usbd.getEp s r)
               (Usbd.USBD_EP_ReadTxCnt s (Usbd.getEp s r).epNum % 2 ^ 16)).2,
           Usbd.Ev.SetTxStatus (Usbd.getEp s r).epNum Usbd.USBD_EP_STATUS_VALID]) ∧
    (st.txdtog = false →
      (Usbd.USBD_EP_DB_Transmit s r st).trace =
        s.trace ++ (if !st.rxdtog then [Usbd.Ev.ToggleRx (Usbd.getEp s r).epNum] else []) ++
          [Usbd.Ev.SetBuffer0TxCnt (Usbd.getEp s r).epNum
             (Usbd.dbAfterAck (Usbd.getEp s r)
               (Usbd.USBD_EP_ReadRxCnt s (Usbd.getEp s r).epNum % 2 ^ 16)).2,
           Usbd.Ev.WritePacketData (Usbd.getEp s r).pmaAddr1
             (add32 (Usbd.getEp s r).buffer
               (Usbd.USBD_EP_ReadRxCnt s (Usbd.getEp s r).epNum % 2 ^ 16))
             (Usbd.dbAfterAck (Usbd.getEp s r)
               (Usbd.USBD_EP_ReadRxCnt s (Usbd.getEp s r).epNum % 2 ^ 16)).2,
           Usbd.Ev.SetTxStatus (Usbd.getEp s r).epNum Usbd.USBD_EP_STATUS_VALID]) ∧
    Usbd.refillSeq (Usbd.getEp s r).epNum (Usbd.USBD_EP_DB_Transmit s r st).trace =
      Usbd.refillSeq (Usbd.getEp s r).epNum s.trace ++ [if st.txdtog then 0 else 1] ∧
    (st2.txdtog = !st.txdtog →
      (Usbd.getEp (Usbd.USBD_EP_DB_Transmit s r st) r).dbBufferFill = ENABLE →
      (Usbd.getEp (Usbd.USBD_EP_DB_Transmit s r st) r).bufLen >
        (if st2.txdtog then
           Usbd.USBD_EP_ReadTxCnt (Usbd.USBD_EP_DB_Transmit s r st) (Usbd.getEp s r).epNum
         else
           Usbd.USBD_EP_ReadRxCnt (Usbd.USBD_EP_DB_Transmit s r st) (Usbd.getEp s r).epNum)
          % 2 ^ 16 →
      Usbd.refillSeq (Usbd.getEp s r).epNum
          (Usbd.USBD_EP_DB_Transmit (Usbd.USBD_EP_DB_Transmit s r st) r st2).trace =
        Usbd.refillSeq (Usbd.getEp s r).epNum s.trace ++
          [if st.txdtog then 0 else 1, if st.txdtog then 1 else 0]) := by
  obtain ⟨q1, q2, q3, q4⟩ := Usbd.DB_Transmit_refillSeq s r st hdir h32 hfill hrem
  refine ⟨fun ht => ?_, fun ht => ?_, q1, fun h2 hfill2 hrem2 => ?_⟩
  · simp only [ht, if_true] at hrem
    exact (Usbd.DB_Transmit_refill0_facts s r st hdir ht hrem h32 hfill).1
  · simp only [ht, Bool.false_eq_true, if_false] at hrem
    exact (Usbd.DB_Transmit_refill1_facts s r st hdir ht hrem h32 hfill).1
  · have hrem2' : (Usbd.getEp (Usbd.USBD_EP_DB_Transmit s r st) r).bufLen >
        (if st2.txdtog then
           Usbd.USBD_EP_ReadTxCnt (Usbd.USBD_EP_DB_Transmit s r st)
             (Usbd.getEp (Usbd.USBD_EP_DB_Transmit s r st) r).epNum
         else
           Usbd.USBD_EP_ReadRxCnt (Usbd.USBD_EP_DB_Transmit s r st)
             (Usbd.getEp (Usbd.USBD_EP_DB_Transmit s r st) r).epNum) % 2 ^ 16 := by
      rw [q2]; exact hrem2
    obtain ⟨w1, _, _, _⟩ := Usbd.DB_Transmit_refillSeq (Usbd.USBD_EP_DB_Transmit s r st) r st2
      (by rw [q3]; exact hdir) (by omega) hfill2 hrem2'
    rw [q2] at w1
    rw [w1, q1, h2]
    cases st.txdtog <;> simp

/-- C26 on the example state: endpoint 1 IN double-buffered, 300 bytes under way, completion
event with TXDTOG set: buffer 0 is refilled. -/
theorem C26_db_transmit_refill_follows_txdtog_witness :
    ((Usbd.getEp (Usbd.USBD_EP_Transfer (Usbd.exStateDb 64) 0x81 0x1000 300)
        (Usbd.EpRef.epIN 1)).dbBufferFill = ENABLE ∧
      (Usbd.getEp (Usbd.USBD_EP_Transfer (Usbd.exStateDb 64) 0x81 0x1000 300)
        (Usbd.EpRef.epIN 1)).bufLen = 300 ∧
      Usbd.USBD_EP_ReadTxCnt (Usbd.USBD_EP_Transfer (Usbd.exStateDb 64) 0x81 0x1000 300) 1 = 64) ∧
    Usbd.refillSeq 1
        (Usbd.USBD_EP_DB_Transmit (Usbd.USBD_EP_Transfer (Usbd.exStateDb 64) 0x81 0x1000 300)
          (Usbd.EpRef.epIN 1) { Usbd.regZero with txdtog := true }).trace =
      Usbd.refillSeq 1 (Usbd.USBD_EP_Transfer (Usbd.exStateDb 64) 0x81 0x1000 300).trace ++ [0] :=
  ⟨by decide,
   (C26_db_transmit_refill_follows_txdtog
      (Usbd.USBD_EP_Transfer (Usbd.exStateDb 64) 0x81 0x1000 300) (Usbd.EpRef.epIN 1)
      { Usbd.regZero with txdtog := true } Usbd.regZero
      (by decide) (by decide) (by decide) (by decide)).2.2.1⟩

namespace Usbd

/-- The IN branch of `USBD_EP_CTRHandler` on a bulk endpoint: the test
`ep->epType == EP_TYPE_BULK` alone selects the count-and-restart path, whatever the KIND bit
of the status word and whatever `bufferStatus` of the descriptor. -/
theorem ctrEpIn_bulk (s : State) (n : Nat) (st : EpReg)
    (hty : (getEp (USBD_EP_ResetTxFlag s n) (EpRef.epIN n)).epType = EP_TYPE_BULK) :
    ctrEpIn s n st =
      (let s := USBD_EP_ResetTxFlag s n
       let r := EpRef.epIN n
       let ep := getEp s r
       let txBufCnt := USBD_EP_ReadTxCnt s ep.epNum % 2 ^ 16
       let ep := if ep.bufLen > txBufCnt then { ep with bufLen := sub32 ep.bufLen txBufCnt }
                 else { ep with bufLen := 0 }
       if ep.bufLen = 0 then
         USBD_DataInStageCallback (setEp s r ep) ep.epNum
       else
         USBD_EP_XferStart
           (setEp s r { ep with buffer := add32 ep.buffer txBufCnt,
                                bufCount := add32 ep.bufCount txBufCnt }) r) := by
  unfold ctrEpIn
  simp only [hty, true_or, if_true]

end Usbd

/-- C25 (failing input): a correct-transfer IN event on bulk IN endpoint 1 opened
double-buffered (`bufferStatus = Usbd.USBD_EP_BUFFER_DOUBLE`, KIND bit set), after
`USBD_EP_Transfer(usbdh, 0x81, buf, 300)` with `mps = 64`.  `USBD_EP_CTRHandler` serves the
event on the count-and-restart path: it calls `USBD_EP_XferStart`, which rewrites both count
registers and both packet buffers.  `USBD_EP_DB_Transmit`, had it been called on the same
event, would have refilled one buffer only. -/
theorem C25_double_buffer_bulk_in_takes_single_path :
    ((Usbd.USBD_EP_Transfer (Usbd.exStateDb 64) 0x81 0x1000 300).usbdh.epIN 1).epType
      = EP_TYPE_BULK ∧
    ((Usbd.USBD_EP_Transfer (Usbd.exStateDb 64) 0x81 0x1000 300).usbdh.epIN 1).bufferStatus
      = Usbd.USBD_EP_BUFFER_DOUBLE ∧
    ((Usbd.USBD_EP_Transfer (Usbd.exStateDb 64) 0x81 0x1000 300).usbGlobal.EP 1).kind = true ∧
    (Usbd.inEvent 1 (Usbd.USBD_EP_Transfer (Usbd.exStateDb 64) 0x81 0x1000 300)).trace
      = (Usbd.USBD_EP_Transfer (Usbd.exStateDb 64) 0x81 0x1000 300).trace ++
        [Usbd.Ev.ResetTxFlag 1, Usbd.Ev.SetKind 1,
         Usbd.Ev.SetTxCnt 1 64, Usbd.Ev.WritePacketData 256 4224 64,
         Usbd.Ev.SetBuffer0TxCnt 1 64, Usbd.Ev.WritePacketData 320 4288 64,
         Usbd.Ev.SetTxStatus 1 Usbd.USBD_EP_STATUS_VALID] ∧
    (Usbd.USBD_EP_DB_Transmit
        (Usbd.USBD_EP_ResetTxFlag
          (Usbd.hwInComplete (Usbd.USBD_EP_Transfer (Usbd.exStateDb 64) 0x81 0x1000 300) 1) 1)
        (Usbd.EpRef.epIN 1)
        ((Usbd.hwInComplete
          (Usbd.USBD_EP_Transfer (Usbd.exStateDb 64) 0x81 0x1000 300) 1).usbGlobal.EP 1)).trace
      = (Usbd.USBD_EP_Transfer (Usbd.exStateDb 64) 0x81 0x1000 300).trace ++
        [Usbd.Ev.ResetTxFlag 1, Usbd.Ev.ToggleRx 1,
         Usbd.Ev.SetBuffer0TxCnt 1 64, Usbd.Ev.WritePacketData 320 4224 64,
         Usbd.Ev.SetTxStatus 1 Usbd.USBD_EP_STATUS_VALID] := by
  refine ⟨by decide, by decide, by decide, by decide, by decide⟩

namespace Otg

/-- Within the ranges of the 32-bit sum and of the 16-bit cast, the packet count is the
rounded-up quotient. -/
theorem epPacketCnt_of_bounds (L M : Nat) (hL : 1 ≤ L) (hwrap : L + M - 1 < 2 ^ 32)
    (hcnt : (L + M - 1) / M < 2 ^ 16) : epPacketCnt L M = (L + M - 1) / M := by
  unfold epPacketCnt
  have h2 : sub32 (add32 L M) 1 = L + M - 1 := by
    unfold sub32 add32
    omega
  rw [h2]; exact Nat.mod_eq_of_lt hcnt

/-- The packet count and transfer size fields `USBD_EP_XferStart` leaves in the registers of
an OUT endpoint. -/
theorem XferStart_out_regs (s : State) (r : EpRef) (dma : Nat)
    (hdir : (getEp s r).epDir = EP_DIR_OUT) :
    ((USBD_EP_XferStart s r dma).hw.EP_OUT (getEp s r).epNum).EPPCNT =
      (if (getEp s r).bufLen ≠ 0 then epPacketCnt (getEp s r).bufLen (getEp s r).mps else 1) ∧
    ((USBD_EP_XferStart s r dma).hw.EP_OUT (getEp s r).epNum).EPTRS =
      (if (getEp s r).bufLen ≠ 0 then
         ((getEp s r).mps * epPacketCnt (getEp s r).bufLen (getEp s r).mps) % 2 ^ 32
       else (getEp s r).mps) := by
  unfold USBD_EP_XferStart
  simp only [hdir, if_true]
  constructor <;>
    split_ifs <;> simp [enableOutEp, isoParityOut, logEv, updOut, setSlot] <;>
    split_ifs <;> simp [updOut, setSlot]

/-- The packet count and transfer size fields `USBD_EP_XferStart` leaves in the registers of
an IN endpoint. -/
theorem XferStart_in_regs (s : State) (r : EpRef) (dma : Nat)
    (hdir : (getEp s r).epDir ≠ EP_DIR_OUT) :
    ((USBD_EP_XferStart s r dma).hw.EP_IN (getEp s r).epNum).EPPCNT =
      (if (getEp s r).bufLen = 0 then 1 else epPacketCnt (getEp s r).bufLen (getEp s r).mps) ∧
    ((USBD_EP_XferStart s r dma).hw.EP_IN (getEp s r).epNum).EPTRS = (getEp s r).bufLen := by
  unfold USBD_EP_XferStart
  simp only [hdir, if_false]
  constructor <;>
    split_ifs <;>
    simp [enableInEp, isoParityIn, logEv, updIn, setSlot, USB_OTG_D_EnableInEpEmptyInterrupt,
      USB_OTG_FIFO_WriteFifoPacket, BIT_RESET, *] <;>
    split_ifs <;> simp [updIn, setSlot, *]

end Otg

/-- C27 (counterexample): `USBD_EP_Transfer(usbdh, 0x81, buf, 524288)` and
`USBD_EP_Receive(usbdh, 0x01, buf, 524288)` on endpoints with `mps = 8`.  The rounded-up
quotient (524288 + 7) / 8 = 65536 does not fit the `uint16_t` variable `epPacketCnt`: the
packet count programmed is 0, and the OUT transfer size is 0. -/
theorem C27_packet_count_truncated_to_16_bits :
    ((Otg.USBD_EP_Transfer (Otg.exState 8 0) 0x81 0x1000 524288).usbdh.epIN 1).bufLen = 524288 ∧
    ((Otg.USBD_EP_Transfer (Otg.exState 8 0) 0x81 0x1000 524288).usbdh.epIN 1).mps = 8 ∧
    specPacketCount 524288 8 = 65536 ∧
    ((Otg.USBD_EP_Transfer (Otg.exState 8 0) 0x81 0x1000 524288).hw.EP_IN 1).EPPCNT = 0 ∧
    ((Otg.USBD_EP_Receive (Otg.exState 8 0) 0x01 0x1000 524288).usbdh.epOUT 1).bufLen = 524288 ∧
    ((Otg.USBD_EP_Receive (Otg.exState 8 0) 0x01 0x1000 524288).usbdh.epOUT 1).mps = 8 ∧
    ((Otg.USBD_EP_Receive (Otg.exState 8 0) 0x01 0x1000 524288).hw.EP_OUT 1).EPPCNT = 0 ∧
    ((Otg.USBD_EP_Receive (Otg.exState 8 0) 0x01 0x1000 524288).hw.EP_OUT 1).EPTRS = 0 := by
  refine ⟨by decide, by decide, by decide, by decide, by decide, by decide, by decide,
    by decide⟩

namespace Otg

/-- One pass of the TxFIFO write loop with `bufCount < bufLen`: the packet pushed is the
smaller of the remaining bytes and `mps`, and `bufCount` advances by its length. -/
theorem pushBody_facts (s : State) (n : Nat)
    (hm16 : (s.usbdh.epIN n).mps < 2 ^ 16) (hb : (s.usbdh.epIN n).bufLen < 2 ^ 32)
    (hlt : (s.usbdh.epIN n).bufCount < (s.usbdh.epIN n).bufLen) :
    (pushBody s n).1.trace = s.trace ++
      [Ev.WriteFifoPacket n (s.usbdh.epIN n).buffer
        (min ((s.usbdh.epIN n).bufLen - (s.usbdh.epIN n).bufCount) (s.usbdh.epIN n).mps)] ∧
    ((pushBody s n).1.usbdh.epIN n).bufCount = (s.usbdh.epIN n).bufCount +
      min ((s.usbdh.epIN n).bufLen - (s.usbdh.epIN n).bufCount) (s.usbdh.epIN n).mps ∧
    ((pushBody s n).1.usbdh.epIN n).bufLen = (s.usbdh.epIN n).bufLen ∧
    ((pushBody s n).1.usbdh.epIN n).mps = (s.usbdh.epIN n).mps ∧
    (pushBody s n).1.hw = s.hw := by
  have hsub := sub32_of_le _ _ hb (Nat.le_of_lt hlt)
  have hmin : (if (s.usbdh.epIN n).bufLen - (s.usbdh.epIN n).bufCount > (s.usbdh.epIN n).mps
      then (s.usbdh.epIN n).mps else (s.usbdh.epIN n).bufLen - (s.usbdh.epIN n).bufCount)
      = min ((s.usbdh.epIN n).bufLen - (s.usbdh.epIN n).bufCount) (s.usbdh.epIN n).mps := by
    split_ifs with h
    · exact (Nat.min_eq_right (Nat.le_of_lt h)).symm
    · exact (Nat.min_eq_left (Nat.le_of_not_lt h)).symm
  have hle1 : min ((s.usbdh.epIN n).bufLen - (s.usbdh.epIN n).bufCount) (s.usbdh.epIN n).mps
      ≤ (s.usbdh.epIN n).mps := Nat.min_le_right _ _
  have hle2 : min ((s.usbdh.epIN n).bufLen - (s.usbdh.epIN n).bufCount) (s.usbdh.epIN n).mps
      ≤ (s.usbdh.epIN n).bufLen - (s.usbdh.epIN n).bufCount := Nat.min_le_left _ _
  simp only [pushBody, hsub, hmin, setEp, setSlot, if_true, USB_OTG_FIFO_WriteFifoPacket, logEv]
  refine ⟨?_, ?_, trivial, trivial, trivial⟩
  · rw [Nat.mod_eq_of_lt (by omega)]
  · exact add32_of_lt _ _ (by omega)

/-- The TxFIFO write loop, packet by packet. -/
theorem pushLoop_packets (fuel : Nat) : ∀ (s u : State) (n lt : Nat),
    (s.usbdh.epIN n).mps < 2 ^ 16 → (s.usbdh.epIN n).bufLen < 2 ^ 32 →
    (s.usbdh.epIN n).bufCount ≤ (s.usbdh.epIN n).bufLen →
    pushLoop fuel s n lt = some u →
    ∃ pk : List Nat,
      fifoPackets n u.trace = fifoPackets n s.trace ++ pk ∧
      cutPackets (s.usbdh.epIN n).bufLen (s.usbdh.epIN n).mps (s.usbdh.epIN n).bufCount pk ∧
      (u.usbdh.epIN n).bufCount = (s.usbdh.epIN n).bufCount + pk.sum ∧
      (u.usbdh.epIN n).bufCount ≤ (u.usbdh.epIN n).bufLen ∧
      (u.usbdh.epIN n).bufLen = (s.usbdh.epIN n).bufLen ∧
      emptyIntDisables n u.trace = emptyIntDisables n s.trace ∧
      u.hw.DIEIMASK = s.hw.DIEIMASK := by
  induction fuel with
  | zero =>
    intro s u n lt _ _ hc h
    simp only [pushLoop] at h
    split_ifs at h
    injection h with h; subst h
    exact ⟨[], by simp [readINEPTXFSA], trivial, by simp [readINEPTXFSA],
      by simpa [readINEPTXFSA] using hc, rfl, rfl, rfl⟩
  | succ f ih =>
    intro s u n lt hm16 hb hc h
    simp only [pushLoop] at h
    split_ifs at h with ht
    · obtain ⟨_, hlt, _⟩ := ht
      have hm16' : (((readINEPTXFSA s n).2).usbdh.epIN n).mps < 2 ^ 16 := hm16
      have hb' : (((readINEPTXFSA s n).2).usbdh.epIN n).bufLen < 2 ^ 32 := hb
      obtain ⟨b1, b2, b3, b4, b5⟩ := pushBody_facts (readINEPTXFSA s n).2 n hm16' hb' hlt
      have e1 : ((readINEPTXFSA s n).2).usbdh = s.usbdh := rfl
      have e2 : ((readINEPTXFSA s n).2).trace = s.trace := rfl
      have e3 : ((readINEPTXFSA s n).2).hw.DIEIMASK = s.hw.DIEIMASK := rfl
      rw [e1] at b2 b3 b4
      rw [e1, e2] at b1
      have hle2 : min ((s.usbdh.epIN n).bufLen - (s.usbdh.epIN n).bufCount)
          (s.usbdh.epIN n).mps ≤ (s.usbdh.epIN n).bufLen - (s.usbdh.epIN n).bufCount :=
        Nat.min_le_left _ _
      obtain ⟨pk, p1, p2, p3, p4, p5, p6, p7⟩ := ih _ u n _ (by rw [b4]; exact hm16)
        (by rw [b3]; exact hb) (by rw [b2, b3]; simp only [e1] at hlt; omega) h
      rw [b2, b3, b4] at p2
      refine ⟨min ((s.usbdh.epIN n).bufLen - (s.usbdh.epIN n).bufCount) (s.usbdh.epIN n).mps
        :: pk, ?_, ⟨rfl, p2⟩, ?_, p4, ?_, ?_, ?_⟩
      · rw [p1, b1]; simp [fifoPackets, List.filterMap_append]
      · rw [p3, b2, List.sum_cons]; omega
      · rw [p5, b3]
      · rw [p6, b1]; simp [emptyIntDisables, List.count_append]
      · rw [p7, b5]; exact e3
    · injection h with h; subst h
      exact ⟨[], by simp [readINEPTXFSA], trivial, by simp [readINEPTXFSA],
        by simpa [readINEPTXFSA] using hc, rfl, rfl, rfl⟩

end Otg

/-- C28: `USBD_EP_PushDataEmptyTxFifo` on IN endpoint `n` whose descriptor has
`1 ≤ mps < 2 ^ 16` (the range of the `uint16_t epMps` argument of `USBD_EP_Open`) and
`bufCount ≤ bufLen < 2 ^ 32` on entry returns; each packet it pushes into the TxFIFO is the
smaller of `bufLen - bufCount` at that moment and `mps`; `bufCount` grows by the sum of the
packet lengths; `bufCount ≤ bufLen` on exit; and `USB_OTG_D_DisableInEpEmptyInterrupt` is
called (once, clearing the enable bit) exactly when `bufCount = bufLen` on exit. -/
theorem C28_push_packet_lengths (fuel : Nat) (s : Otg.State) (n : Nat)
    (hm : 1 ≤ (s.usbdh.epIN n).mps) (hm16 : (s.usbdh.epIN n).mps < 2 ^ 16)
    (hc : (s.usbdh.epIN n).bufCount ≤ (s.usbdh.epIN n).bufLen)
    (hb : (s.usbdh.epIN n).bufLen < 2 ^ 32)
    (hf : (s.usbdh.epIN n).bufLen - (s.usbdh.epIN n).bufCount ≤ fuel) :
    ∃ (u : Otg.State) (pk : List Nat),
      Otg.USBD_EP_PushDataEmptyTxFifo fuel s n = some u ∧
      Otg.fifoPackets n u.trace = Otg.fifoPackets n s.trace ++ pk ∧
      Otg.cutPackets (s.usbdh.epIN n).bufLen (s.usbdh.epIN n).mps (s.usbdh.epIN n).bufCount pk ∧
      (u.usbdh.epIN n).bufCount = (s.usbdh.epIN n).bufCount + pk.sum ∧
      (u.usbdh.epIN n).bufCount ≤ (u.usbdh.epIN n).bufLen ∧
      Otg.emptyIntDisables n u.trace = Otg.emptyIntDisables n s.trace +
        (if (u.usbdh.epIN n).bufCount = (u.usbdh.epIN n).bufLen then 1 else 0) ∧
      u.hw.DIEIMASK n =
        (if (u.usbdh.epIN n).bufCount = (u.usbdh.epIN n).bufLen then false
         else s.hw.DIEIMASK n) := by
  obtain ⟨u, hu⟩ := Otg.Push_terminates fuel s n (Or.inr hm) hb hf
  have hu0 := hu
  unfold Otg.USBD_EP_PushDataEmptyTxFifo at hu
  dsimp only at hu
  rw [if_neg (Nat.not_lt.2 hc)] at hu
  split at hu
  · simp at hu
  · rename_i v hv
    obtain ⟨pk, p1, p2, p3, p4, p5, p6, p7⟩ := Otg.pushLoop_packets _ _ _ _ _ hm16 hb hc hv
    by_cases hd : (v.usbdh.epIN n).bufLen ≤ (v.usbdh.epIN n).bufCount
    · rw [if_pos hd] at hu
      injection hu with hu; subst hu
      have heq : (v.usbdh.epIN n).bufCount = (v.usbdh.epIN n).bufLen := Nat.le_antisymm p4 hd
      refine ⟨_, pk, hu0, ?_, p2, ?_, ?_, ?_, ?_⟩
      · rw [← p1]; simp [Otg.USB_OTG_D_DisableInEpEmptyInterrupt, Otg.logEv, Otg.fifoPackets,
          List.filterMap_append]
      · exact p3
      · exact p4
      · rw [← p6]
        simp [Otg.USB_OTG_D_DisableInEpEmptyInterrupt, Otg.logEv, Otg.emptyIntDisables,
          List.count_append, heq]
      · simp [Otg.USB_OTG_D_DisableInEpEmptyInterrupt, Otg.logEv, setSlot, heq]
    · rw [if_neg hd] at hu
      injection hu with hu; subst hu
      have hne : (v.usbdh.epIN n).bufCount ≠ (v.usbdh.epIN n).bufLen := by omega
      refine ⟨_, pk, hu0, p1, p2, p3, p4, ?_, ?_⟩
      · rw [p6]; simp [hne]
      · rw [p7]; simp [hne]

/-- C28 on the example state: 150 bytes requested on IN endpoint 1 with `mps = 64`, nothing
pushed yet. -/
theorem C28_push_packet_lengths_witness :
    (1 ≤ ((Otg.USBD_EP_Transfer (Otg.exState 64 0) 0x81 0x1000 150).usbdh.epIN 1).mps ∧
      ((Otg.USBD_EP_Transfer (Otg.exState 64 0) 0x81 0x1000 150).usbdh.epIN 1).bufCount ≤
        ((Otg.USBD_EP_Transfer (Otg.exState 64 0) 0x81 0x1000 150).usbdh.epIN 1).bufLen) ∧
    ∃ (u : Otg.State) (pk : List Nat),
      Otg.USBD_EP_PushDataEmptyTxFifo 150
        (Otg.USBD_EP_Transfer (Otg.exState 64 0) 0x81 0x1000 150) 1 = some u ∧
      Otg.fifoPackets 1 u.trace =
        Otg.fifoPackets 1 (Otg.USBD_EP_Transfer (Otg.exState 64 0) 0x81 0x1000 150).trace
          ++ pk ∧
      Otg.cutPackets 150 64 0 pk ∧
      (u.usbdh.epIN 1).bufCount = 0 + pk.sum ∧
      (u.usbdh.epIN 1).bufCount ≤ (u.usbdh.epIN 1).bufLen ∧
      Otg.emptyIntDisables 1 u.trace =
        Otg.emptyIntDisables 1
          (Otg.USBD_EP_Transfer (Otg.exState 64 0) 0x81 0x1000 150).trace +
        (if (u.usbdh.epIN 1).bufCount = (u.usbdh.epIN 1).bufLen then 1 else 0) ∧
      u.hw.DIEIMASK 1 =
        (if (u.usbdh.epIN 1).bufCount = (u.usbdh.epIN 1).bufLen then false
         else (Otg.USBD_EP_Transfer (Otg.exState 64 0) 0x81 0x1000 150).hw.DIEIMASK 1) :=
  ⟨⟨by decide, by decide⟩,
   C28_push_packet_lengths 150 (Otg.USBD_EP_Transfer (Otg.exState 64 0) 0x81 0x1000 150) 1
     (by decide) (by decide) (by decide) (by decide) (by decide)⟩

/-- C21 (counterexample): IN endpoint 1 closed with a transfer in flight and the stall flag
set.  USB_DEVICE build: 150 bytes requested, one packet acknowledged, then stalled; after
`USBD_EP_Close(usbdh, 0x81)` the descriptor still holds buffer 4160, `bufLen` 86, `bufCount`
64 and stall flag 1.  USB_OTG build: buffer 4096, `bufLen` 150, stall flag 1 remain after a
stall, and `bufCount` 150 remains after the TxFIFO was filled. -/
theorem C21_close_keeps_transfer_state :
    (((Usbd.USBD_EP_Close (Usbd.USBD_EP_Stall
        (Usbd.inEvent 1 (Usbd.USBD_EP_Transfer (Usbd.exState 64) 0x81 0x1000 150)) 0x81)
        0x81).usbdh.epIN 1).buffer = 4160 ∧
     ((Usbd.USBD_EP_Close (Usbd.USBD_EP_Stall
        (Usbd.inEvent 1 (Usbd.USBD_EP_Transfer (Usbd.exState 64) 0x81 0x1000 150)) 0x81)
        0x81).usbdh.epIN 1).bufLen = 86 ∧
     ((Usbd.USBD_EP_Close (Usbd.USBD_EP_Stall
        (Usbd.inEvent 1 (Usbd.USBD_EP_Transfer (Usbd.exState 64) 0x81 0x1000 150)) 0x81)
        0x81).usbdh.epIN 1).bufCount = 64 ∧
     ((Usbd.USBD_EP_Close (Usbd.USBD_EP_Stall
        (Usbd.inEvent 1 (Usbd.USBD_EP_Transfer (Usbd.exState 64) 0x81 0x1000 150)) 0x81)
        0x81).usbdh.epIN 1).stallStatus = 1) ∧
    (((Otg.USBD_EP_Close (Otg.USBD_EP_Stall
        (Otg.USBD_EP_Transfer (Otg.exState 64 0) 0x81 0x1000 150) 0x81)
        0x81).usbdh.epIN 1).buffer = 4096 ∧
     ((Otg.USBD_EP_Close (Otg.USBD_EP_Stall
        (Otg.USBD_EP_Transfer (Otg.exState 64 0) 0x81 0x1000 150) 0x81)
        0x81).usbdh.epIN 1).bufLen = 150 ∧
     ((Otg.USBD_EP_Close (Otg.USBD_EP_Stall
        (Otg.USBD_EP_Transfer (Otg.exState 64 0) 0x81 0x1000 150) 0x81)
        0x81).usbdh.epIN 1).stallStatus = 1 ∧
     (Otg.USBD_EP_PushDataEmptyTxFifo 150
        (Otg.USBD_EP_Transfer (Otg.exState 64 0) 0x81 0x1000 150) 1).map
        (fun u => ((Otg.USBD_EP_Close u 0x81).usbdh.epIN 1).bufCount) = some 150) := by
  refine ⟨⟨by decide, by decide, by decide, by decide⟩,
    ⟨by decide, by decide, by decide, by decide⟩⟩

/-- C21 (amended): in both builds `USBD_EP_Close(epAddr)` sets the direction field of the
addressed descriptor, hands the descriptor to the hardware reset routine (`USBD_ResetEP`,
`USB_OTG_D_ResetEP`), and keeps the buffer pointer, `bufLen`, `bufCount` and the stall flag
of every descriptor, the addressed one included. -/
theorem C21_close_sets_direction_and_resets_hardware_only :
    (∀ (s : Usbd.State) (a : Nat),
      (Usbd.USBD_EP_Close s a).trace = s.trace ++
        [if a &&& 0x80 = 0x80 then Usbd.Ev.ResetEP (s.usbdh.epIN (a &&& 0x0F)).epNum EP_DIR_IN
         else Usbd.Ev.ResetEP (s.usbdh.epOUT (a &&& 0x0F)).epNum EP_DIR_OUT] ∧
      (Usbd.getEp (Usbd.USBD_EP_Close s a)
          (if a &&& 0x80 = 0x80 then Usbd.EpRef.epIN (a &&& 0x0F)
           else Usbd.EpRef.epOUT (a &&& 0x0F))).epDir
        = (if a &&& 0x80 = 0x80 then EP_DIR_IN else EP_DIR_OUT) ∧
      ∀ r : Usbd.EpRef,
        (Usbd.getEp (Usbd.USBD_EP_Close s a) r).buffer = (Usbd.getEp s r).buffer ∧
        (Usbd.getEp (Usbd.USBD_EP_Close s a) r).bufLen = (Usbd.getEp s r).bufLen ∧
        (Usbd.getEp (Usbd.USBD_EP_Close s a) r).bufCount = (Usbd.getEp s r).bufCount ∧
        (Usbd.getEp (Usbd.USBD_EP_Close s a) r).stallStatus = (Usbd.getEp s r).stallStatus) ∧
    (∀ (s : Otg.State) (a : Nat),
      (Otg.USBD_EP_Close s a).trace = s.trace ++
        [if a &&& 0x80 = 0x80 then Otg.Ev.ResetEP (s.usbdh.epIN (a &&& 0x0F)).epNum EP_DIR_IN
         else Otg.Ev.ResetEP (s.usbdh.epOUT (a &&& 0x0F)).epNum EP_DIR_OUT] ∧
      (Otg.getEp (Otg.USBD_EP_Close s a)
          (if a &&& 0x80 = 0x80 then Otg.EpRef.epIN (a &&& 0x0F)
           else Otg.EpRef.epOUT (a &&& 0x0F))).epDir
        = (if a &&& 0x80 = 0x80 then EP_DIR_IN else EP_DIR_OUT) ∧
      ∀ r : Otg.EpRef,
        (Otg.getEp (Otg.USBD_EP_Close s a) r).buffer = (Otg.getEp s r).buffer ∧
        (Otg.getEp (Otg.USBD_EP_Close s a) r).bufLen = (Otg.getEp s r).bufLen ∧
        (Otg.getEp (Otg.USBD_EP_Close s a) r).bufCount = (Otg.getEp s r).bufCount ∧
        (Otg.getEp (Otg.USBD_EP_Close s a) r).stallStatus = (Otg.getEp s r).stallStatus) := by
  constructor
  · intro s a
    by_cases hd : a &&& 0x80 = 0x80
    · refine ⟨?_, ?_, fun r => ?_⟩
      · simp [Usbd.USBD_EP_Close, Usbd.USBD_ResetEP, Usbd.logEv, Usbd.setEp, Usbd.getEp,
          setSlot, hd]
      · simp [Usbd.USBD_EP_Close, Usbd.USBD_ResetEP, Usbd.logEv, Usbd.setEp, Usbd.getEp,
          setSlot, hd]
      · cases r <;>
          (simp [Usbd.USBD_EP_Close, Usbd.USBD_ResetEP, Usbd.logEv, Usbd.setEp, Usbd.getEp,
            setSlot, hd];
           try (split_ifs <;> simp [*]))
    · refine ⟨?_, ?_, fun r => ?_⟩
      · simp [Usbd.USBD_EP_Close, Usbd.USBD_ResetEP, Usbd.logEv, Usbd.setEp, Usbd.getEp,
          setSlot, hd]
      · simp [Usbd.USBD_EP_Close, Usbd.USBD_ResetEP, Usbd.logEv, Usbd.setEp, Usbd.getEp,
          setSlot, hd]
      · cases r <;>
          (simp [Usbd.USBD_EP_Close, Usbd.USBD_ResetEP, Usbd.logEv, Usbd.setEp, Usbd.getEp,
            setSlot, hd];
           try (split_ifs <;> simp [*]))
  · intro s a
    by_cases hd : a &&& 0x80 = 0x80
    · refine ⟨?_, ?_, fun r => ?_⟩
      · simp [Otg.USBD_EP_Close, Otg.USB_OTG_D_ResetEP, Otg.logEv, Otg.setEp, Otg.getEp,
          setSlot, hd]
      · simp [Otg.USBD_EP_Close, Otg.USB_OTG_D_ResetEP, Otg.logEv, Otg.setEp, Otg.getEp,
          setSlot, hd]
      · cases r <;>
          (simp [Otg.USBD_EP_Close, Otg.USB_OTG_D_ResetEP, Otg.logEv, Otg.setEp, Otg.getEp,
            setSlot, hd];
           try (split_ifs <;> simp [*]))
    · refine ⟨?_, ?_, fun r => ?_⟩
      · simp [Otg.USBD_EP_Close, Otg.USB_OTG_D_ResetEP, Otg.logEv, Otg.setEp, Otg.getEp,
          setSlot, hd]
      · simp [Otg.USBD_EP_Close, Otg.USB_OTG_D_ResetEP, Otg.logEv, Otg.setEp, Otg.getEp,
          setSlot, hd]
      · cases r <;>
          (simp [Otg.USBD_EP_Close, Otg.USB_OTG_D_ResetEP, Otg.logEv, Otg.setEp, Otg.getEp,
            setSlot, hd];
           try (split_ifs <;> simp [*]))

namespace Usbd

/-- The descriptor loop of `USBD_Config`, run for `i = 0, .., n - 1`. -/
theorem foldl_configEndpoint (n : Nat) (s : State) :
    (List.range n).foldl (fun s i => configEndpoint i s) s =
      { s with usbdh := { s.usbdh with
          epIN := fun j =>
            if j < n then
              { (s.usbdh.epIN j) with
                  epNum := j,
                  epDir := EP_DIR_IN,
                  txFifoNum := j,
                  epType := EP_TYPE_CONTROL,
                  mps := 0,
                  buffer := 0,
                  bufLen := 0 }
            else s.usbdh.epIN j,
          epOUT := fun j =>
            if j < n then
              { (s.usbdh.epOUT j) with
                  epNum := j,
                  epDir := EP_DIR_OUT,
                  epType := EP_TYPE_CONTROL,
                  mps := 0,
                  buffer := 0,
                  bufLen := 0 }
            else s.usbdh.epOUT j } } := by
  induction n with
  | zero => simp
  | succ n ih =>
    rw [List.range_succ, List.foldl_append, ih]
    simp only [List.foldl_cons, List.foldl_nil, configEndpoint, setEp, setSlot]
    congr 2
    · funext j
      by_cases h1 : j = n
      · subst h1; simp [setSlot]
      · by_cases h2 : j < n
        · have : j < n + 1 := by omega
          simp [setSlot, h1, h2, this]
        · have : ¬ j < n + 1 := by omega
          simp [setSlot, h1, h2, this]
    · funext j
      by_cases h1 : j = n
      · subst h1; simp [setSlot]
      · by_cases h2 : j < n
        · have : j < n + 1 := by omega
          simp [setSlot, h1, h2, this]
        · have : ¬ j < n + 1 := by omega
          simp [setSlot, h1, h2, this]

end Usbd

/-- A loop whose body keeps a projection of the state keeps it. -/
theorem foldl_preserves {σ α : Type} (f : σ → α) (body : Nat → σ → σ)
    (h : ∀ i s, f (body i s) = f s) (l : List Nat) (s : σ) :
    f (l.foldl (fun s i => body i s) s) = f s := by
  induction l generalizing s with
  | nil => rfl
  | cons a l ih => rw [List.foldl_cons, ih, h]

namespace Usbd

/-- `USBD_Config` returns when `devEndpointNum ≤ 255`, and what it leaves in the handle. -/
theorem Config_usbdh (bufftb : Nat) (s : State) (hN : s.usbdh.devEndpointNum ≤ 255) :
    ∃ u, USBD_Config bufftb s = some u ∧
      u.usbdh =
        { s.usbdh with
          address := 0,
          epIN := fun j =>
            if j < s.usbdh.devEndpointNum then
              { (s.usbdh.epIN j) with
                  epNum := j,
                  epDir := EP_DIR_IN,
                  txFifoNum := j,
                  epType := EP_TYPE_CONTROL,
                  mps := 0,
                  buffer := 0,
                  bufLen := 0 }
            else s.usbdh.epIN j,
          epOUT := fun j =>
            if j < s.usbdh.devEndpointNum then
              { (s.usbdh.epOUT j) with
                  epNum := j,
                  epDir := EP_DIR_OUT,
                  epType := EP_TYPE_CONTROL,
                  mps := 0,
                  buffer := 0,
                  bufLen := 0 }
            else s.usbdh.epOUT j } ∧
      u.trace = s.trace := by
  unfold USBD_Config forUint8
  rw [if_pos hN, foldl_configEndpoint]
  exact ⟨_, rfl, rfl, rfl⟩

end Usbd

namespace Otg

/-- The descriptor loop of `USBD_Config`, run for `i = 0, .., n - 1`. -/
theorem otg_foldl_configEndpoint (n : Nat) (s : State) :
    (List.range n).foldl (fun s i => configEndpoint i s) s =
      { s with usbdh := { s.usbdh with
          epIN := fun j =>
            if j < n then
              { (s.usbdh.epIN j) with
                  epNum := j,
                  epDir := EP_DIR_IN,
                  txFifoNum := j,
                  epType := EP_TYPE_CONTROL,
                  mps := 0,
                  buffer := 0,
                  bufLen := 0 }
            else s.usbdh.epIN j,
          epOUT := fun j =>
            if j < n then
              { (s.usbdh.epOUT j) with
                  epNum := j,
                  epDir := EP_DIR_OUT,
                  epType := EP_TYPE_CONTROL,
                  mps := 0,
                  buffer := 0,
                  bufLen := 0 }
            else s.usbdh.epOUT j } } := by
  induction n with
  | zero => simp
  | succ n ih =>
    rw [List.range_succ, List.foldl_append, ih]
    simp only [List.foldl_cons, List.foldl_nil, configEndpoint, setEp, setSlot]
    congr 2
    · funext j
      by_cases h1 : j = n
      · subst h1; simp [setSlot]
      · by_cases h2 : j < n
        · have : j < n + 1 := by omega
          simp [setSlot, h1, h2, this]
        · have : ¬ j < n + 1 := by omega
          simp [setSlot, h1, h2, this]
    · funext j
      by_cases h1 : j = n
      · subst h1; simp [setSlot]
      · by_cases h2 : j < n
        · have : j < n + 1 := by omega
          simp [setSlot, h1, h2, this]
        · have : ¬ j < n + 1 := by omega
          simp [setSlot, h1, h2, this]

/-- The delay loop ends once the SysTick interrupt has run often enough: with at least one
interrupt between two reads, after at most `delayTick` reads. -/
theorem waitDelay_returns (fuel : Nat) : ∀ s : State,
    (∀ k, 1 ≤ s.hw.tickAt k) → s.hw.delayTick ≤ fuel + 1 →
    ∃ r, waitDelay fuel s = some { s with hw := { s.hw with delayTick := 0, tickReads := r } } := by
  induction fuel with
  | zero =>
    intro s ht hf
    have h0 : (pollDelay s).hw.delayTick = 0 := by
      have := ht s.hw.tickReads
      simp only [pollDelay]; omega
    simp only [waitDelay, h0, ne_eq, not_true_eq_false, if_false]
    refine ⟨s.hw.tickReads + 1, ?_⟩
    simp only [pollDelay] at h0
    simp [pollDelay, h0]
  | succ f ih =>
    intro s ht hf
    simp only [waitDelay]
    split_ifs with h0
    · have h1 : (pollDelay s).hw.delayTick ≤ f + 1 := by
        have := ht s.hw.tickReads
        simp only [pollDelay]; omega
      obtain ⟨r, hr⟩ := ih (pollDelay s) ht h1
      exact ⟨r, by rw [hr]; rfl⟩
    · refine ⟨s.hw.tickReads + 1, ?_⟩
      have h0' : s.hw.delayTick - s.hw.tickAt s.hw.tickReads = 0 := by
        simpa [pollDelay] using h0
      simp [pollDelay, h0']

theorem forUint8_some {σ : Type} (n : Nat) (body : Nat → σ → σ) (s : σ) (h : n ≤ 255) :
    forUint8 n body s = some ((List.range n).foldl (fun s i => body i s) s) := if_pos h

/-- `APM_DelayMs` returns once the SysTick interrupt has run often enough, and touches
neither the handle nor the trace. -/
theorem APM_DelayMs_returns (fuel : Nat) (s : State) (nms : Nat)
    (ht : ∀ k, 1 ≤ s.hw.tickAt k) (hf : (nms * 1000) % 2 ^ 32 ≤ fuel + 1) :
    ∃ u, APM_DelayMs fuel s nms = some u ∧ u.usbdh = s.usbdh ∧ u.trace = s.trace := by
  obtain ⟨r, hr⟩ := waitDelay_returns fuel
    { s with hw := { s.hw with delayTick := (nms * 1000) % 2 ^ 32 } } ht hf
  exact ⟨_, hr, rfl, rfl⟩

theorem configEpRegs_usbdh (i : Nat) (s : State) : (configEpRegs i s).usbdh = s.usbdh := by
  simp only [configEpRegs, clearInEpFlags, clearOutEpFlags, updIn, updOut]
  split_ifs <;> rfl

theorem configInterrupts_usbdh (s : State) : (configInterrupts s).usbdh = s.usbdh := by
  simp only [configInterrupts, orGINTMASK, logEv, List.foldl]
  split_ifs <;> rfl

theorem configDevice_usbdh (s : State) :
    (configDevice s).usbdh = { s.usbdh with address := 0 } := by
  simp only [configDevice, logEv, USB_OTG_FlushTxFIFO, USB_OTG_FlushRxFIFO]
  exact foldl_preserves (fun t : State => t.usbdh) clearTxFifoWord (fun _ _ => rfl) _ _

/-- `USBD_Config` returns when `devEndpointNum ≤ 255` and the SysTick interrupt runs, and what
it leaves in the handle. -/
theorem otg_Config_usbdh (fuel : Nat) (s : State) (hN : s.usbdh.usbCfg.devEndpointNum ≤ 255)
    (ht : ∀ k, 1 ≤ s.hw.tickAt k) (hf : 50000 ≤ fuel + 1) :
    ∃ u, USBD_Config fuel s = some u ∧
      u.usbdh =
        { s.usbdh with
          address := 0,
          epIN := fun j =>
            if j < s.usbdh.usbCfg.devEndpointNum then
              { (s.usbdh.epIN j) with
                  epNum := j,
                  epDir := EP_DIR_IN,
                  txFifoNum := j,
                  epType := EP_TYPE_CONTROL,
                  mps := 0,
                  buffer := 0,
                  bufLen := 0 }
            else s.usbdh.epIN j,
          epOUT := fun j =>
            if j < s.usbdh.usbCfg.devEndpointNum then
              { (s.usbdh.epOUT j) with
                  epNum := j,
                  epDir := EP_DIR_OUT,
                  epType := EP_TYPE_CONTROL,
                  mps := 0,
                  buffer := 0,
                  bufLen := 0 }
            else s.usbdh.epOUT j } := by
  obtain ⟨a, ha, hau, _⟩ := APM_DelayMs_returns fuel (configCore s) 50 ht (by simpa using hf)
  have e1 : (configMode a).usbdh = s.usbdh := by
    simp only [configMode, logEv, hau, configCore]
  have e2 : ((List.range s.usbdh.usbCfg.devEndpointNum).foldl
      (fun s i => configEndpoint i s) (configMode a)).usbdh.usbCfg = s.usbdh.usbCfg := by
    rw [otg_foldl_configEndpoint]; simp only [e1]
  refine ⟨configInterrupts ((List.range s.usbdh.usbCfg.devEndpointNum).foldl
    (fun s i => configEpRegs i s) (configDevice ((List.range s.usbdh.usbCfg.devEndpointNum).foldl
      (fun s i => configEndpoint i s) (configMode a)))), ?_, ?_⟩
  · have e0 : a.usbdh = s.usbdh := by rw [hau]; rfl
    unfold USBD_Config
    rw [ha]
    simp only [Option.some_bind]
    rw [e0, forUint8_some _ _ _ hN]
    simp only [Option.some_bind]
    rw [e2, forUint8_some _ _ _ hN]
    rfl
  · rw [configInterrupts_usbdh,
      foldl_preserves (fun t : State => t.usbdh) configEpRegs configEpRegs_usbdh,
      configDevice_usbdh, otg_foldl_configEndpoint]
    simp only [e1]

end Otg

namespace Otg

/-- The endpoint loop of `USBD_ResetIsrHandler`, run for `i = 0, .., n - 1`. -/
theorem foldl_resetEndpoint (n : Nat) (s : State) :
    (List.range n).foldl (fun s i => resetEndpoint i s) s =
      { s with hw := { s.hw with
          EP_IN := fun j =>
            if j < n then
              { (s.hw.EP_IN j) with
                  STALLH := BIT_RESET,
                  NAKSET := BIT_SET,
                  intTSFCMP := false,
                  intTO := false,
                  intITXEMP := false,
                  intIEPNAKE := false,
                  intEPDIS := false,
                  intTXFE := false }
            else s.hw.EP_IN j,
          EP_OUT := fun j =>
            if j < n then
              { (s.hw.EP_OUT j) with
                  STALLH := BIT_RESET,
                  NAKSET := BIT_SET,
                  intTSFCMP := false,
                  intSETPCMP := false,
                  intRXOTDIS := false,
                  intEPDIS := false,
                  intRXBSP := false }
            else s.hw.EP_OUT j } } := by
  induction n with
  | zero => simp
  | succ n ih =>
    rw [List.range_succ, List.foldl_append, ih]
    simp only [List.foldl_cons, List.foldl_nil, resetEndpoint, clearInEpFlags, clearOutEpFlags,
      updIn, updOut, setSlot]
    congr 2
    · funext j
      by_cases h1 : j = n
      · subst h1; simp [setSlot]
      · by_cases h2 : j < n
        · have : j < n + 1 := by omega
          simp [setSlot, h1, h2, this]
        · have : ¬ j < n + 1 := by omega
          simp [setSlot, h1, h2, this]
    · funext j
      by_cases h1 : j = n
      · subst h1; simp [setSlot]
      · by_cases h2 : j < n
        · have : j < n + 1 := by omega
          simp [setSlot, h1, h2, this]
        · have : ¬ j < n + 1 := by omega
          simp [setSlot, h1, h2, this]

end Otg

namespace Otg

/-- `USBD_ResetIsrHandler` returns when `devEndpointNum ≤ 255`, and its result. -/
theorem ResetIsrHandler_eq (s : State) (hN : s.usbdh.usbCfg.devEndpointNum ≤ 255) :
    USBD_ResetIsrHandler s =
      some (resetGlobal ((List.range s.usbdh.usbCfg.devEndpointNum).foldl
        (fun s i => resetEndpoint i s)
        (USB_OTG_FlushTxFIFO (USB_OTG_D_DisableRemoteWakeupSignal s) 0x10))) := by
  unfold USBD_ResetIsrHandler
  simp only []
  rw [forUint8_some _ _ _ (show (USB_OTG_FlushTxFIFO (USB_OTG_D_DisableRemoteWakeupSignal s)
    0x10).usbdh.usbCfg.devEndpointNum ≤ 255 from hN)]
  rfl

theorem EP0_OutHandler_hw_facts (s : State) (d p : Nat) :
    (USBD_EP0_OutHandler s d p).hw.DADDR = s.hw.DADDR ∧
    (USBD_EP0_OutHandler s d p).hw.gint = s.hw.gint ∧
    (∀ i, i ≠ 0 → (USBD_EP0_OutHandler s d p).hw.EP_OUT i = s.hw.EP_OUT i) ∧
    ((USBD_EP0_OutHandler s d p).hw.EP_OUT 0).STALLH = (s.hw.EP_OUT 0).STALLH ∧
    ((USBD_EP0_OutHandler s d p).hw.EP_OUT 0).NAKSET = (s.hw.EP_OUT 0).NAKSET := by
  unfold USBD_EP0_OutHandler
  refine ⟨?_, ?_, ?_, ?_, ?_⟩
  · split_ifs <;> rfl
  · split_ifs <;> rfl
  · intro i hi
    split_ifs <;> simp [logEv, updOut, setSlot, USBD_EP_0, hi]
  · split_ifs <;> simp [logEv, updOut, setSlot, USBD_EP_0]
  · split_ifs <;> simp [logEv, updOut, setSlot, USBD_EP_0]

theorem resetEnables_facts (s : State) :
    (resetEnables s).usbdh = s.usbdh ∧ (resetEnables s).hw.DADDR = 0 ∧
    (resetEnables s).hw.EP_IN = s.hw.EP_IN ∧ (resetEnables s).hw.EP_OUT = s.hw.EP_OUT ∧
    (resetEnables s).hw.gint = s.hw.gint := by
  unfold resetEnables
  by_cases h : s.usbdh.usbCfg.ep1Status = ENABLE <;>
    simp [h, logEv, USB_OTG_D_ConfigDeviceAddress]

/-- What `resetGlobal` leaves in the handle, the endpoint registers and the address. -/
theorem resetGlobal_facts (s : State) :
    (resetGlobal s).usbdh = s.usbdh ∧ (resetGlobal s).hw.DADDR = 0 ∧
    ep0OutXferSize (resetGlobal s) = (1, 3, 24) ∧
    (resetGlobal s).hw.EP_IN = s.hw.EP_IN ∧
    (∀ i, i ≠ 0 → (resetGlobal s).hw.EP_OUT i = s.hw.EP_OUT i) ∧
    ((resetGlobal s).hw.EP_OUT 0).STALLH = (s.hw.EP_OUT 0).STALLH ∧
    ((resetGlobal s).hw.EP_OUT 0).NAKSET = (s.hw.EP_OUT 0).NAKSET := by
  obtain ⟨p1, p2, p3, p4, _⟩ := resetEnables_facts s
  obtain ⟨q1, _, q3, q4, q5⟩ := EP0_OutHandler_hw_facts (resetEnables s)
    (resetEnables s).usbdh.usbCfg.dmaStatus (resetEnables s).usbdh.setupAddr
  unfold resetGlobal
  refine ⟨?_, ?_, ?_, ?_, ?_, ?_, ?_⟩
  · simp only [USB_OTG_ClearGlobalIntFlag, logEv, EP0_OutHandler_usbdh, p1]
  · simp only [USB_OTG_ClearGlobalIntFlag, logEv, q1, p2]
  · exact ep0OutXferSize_OutHandler _ _ _
  · simp only [USB_OTG_ClearGlobalIntFlag, logEv, EP0_OutHandler_EP_IN, p3]
  · intro i hi
    simp only [USB_OTG_ClearGlobalIntFlag, logEv, q3 i hi, p4]
  · simp only [USB_OTG_ClearGlobalIntFlag, logEv, q4, p4]
  · simp only [USB_OTG_ClearGlobalIntFlag, logEv, q5, p4]

end Otg

/-- C29: `USBD_ResetIsrHandler`, with endpoint 0 among the configured endpoints
(`1 ≤ devEndpointNum ≤ 255`, the range of the `uint8_t` loop counter), returns; for every
`i < devEndpointNum` it leaves the STALL field of `EP_OUT[i]` and `EP_IN[i]` reset and their
NAK-set field set; it programs device address 0; it leaves the EP0 OUT transfer-size register
at packet count 1, SETUP count 3, size 24; the registers of endpoints `≥ devEndpointNum` and
every field of the handle, the endpoint descriptors included, are as before. -/
theorem C29_reset_handler_resets_configured_endpoints (s : Otg.State)
    (h1 : 1 ≤ s.usbdh.usbCfg.devEndpointNum) (hN : s.usbdh.usbCfg.devEndpointNum ≤ 255) :
    ∃ u, Otg.USBD_ResetIsrHandler s = some u ∧
      (∀ i, i < s.usbdh.usbCfg.devEndpointNum →
        (u.hw.EP_OUT i).STALLH = BIT_RESET ∧ (u.hw.EP_OUT i).NAKSET = BIT_SET ∧
        (u.hw.EP_IN i).STALLH = BIT_RESET ∧ (u.hw.EP_IN i).NAKSET = BIT_SET) ∧
      u.hw.DADDR = 0 ∧
      Otg.ep0OutXferSize u = (1, 3, 24) ∧
      (∀ i, s.usbdh.usbCfg.devEndpointNum ≤ i →
        u.hw.EP_OUT i = s.hw.EP_OUT i ∧ u.hw.EP_IN i = s.hw.EP_IN i) ∧
      u.usbdh = s.usbdh := by
  obtain ⟨g1, g2, g3, g4, g5, g6, g7⟩ := Otg.resetGlobal_facts
    ((List.range s.usbdh.usbCfg.devEndpointNum).foldl (fun s i => Otg.resetEndpoint i s)
      (Otg.USB_OTG_FlushTxFIFO (Otg.USB_OTG_D_DisableRemoteWakeupSignal s) 0x10))
  refine ⟨_, Otg.ResetIsrHandler_eq s hN, fun i hi => ?_, g2, g3, fun i hi => ?_, ?_⟩
  · have hin : (Otg.USB_OTG_FlushTxFIFO (Otg.USB_OTG_D_DisableRemoteWakeupSignal s)
        0x10).usbdh.usbCfg.devEndpointNum = s.usbdh.usbCfg.devEndpointNum := rfl
    refine ⟨?_, ?_, ?_, ?_⟩
    · by_cases h0 : i = 0
      · subst h0; rw [g6, Otg.foldl_resetEndpoint]; simp [hi]
      · rw [g5 i h0, Otg.foldl_resetEndpoint]; simp [hi]
    · by_cases h0 : i = 0
      · subst h0; rw [g7, Otg.foldl_resetEndpoint]; simp [hi]
      · rw [g5 i h0, Otg.foldl_resetEndpoint]; simp [hi]
    · rw [g4, Otg.foldl_resetEndpoint]; simp [hi]
    · rw [g4, Otg.foldl_resetEndpoint]; simp [hi]
  · have h0 : i ≠ 0 := by omega
    constructor
    · rw [g5 i h0, Otg.foldl_resetEndpoint]; simp [Nat.not_lt.2 hi]; rfl
    · rw [g4, Otg.foldl_resetEndpoint]; simp [Nat.not_lt.2 hi]; rfl
  · rw [g1, Otg.foldl_resetEndpoint]; rfl

/-- C29 on the example state with endpoint 1 stalled in both directions. -/
theorem C29_reset_handler_resets_configured_endpoints_witness :
    (1 ≤ (Otg.USBD_EP_Stall (Otg.USBD_EP_Stall (Otg.exStateCfg 64 0 3) 0x81)
        0x01).usbdh.usbCfg.devEndpointNum ∧
      ((Otg.USBD_EP_Stall (Otg.USBD_EP_Stall (Otg.exStateCfg 64 0 3) 0x81) 0x01).hw.EP_IN
        1).STALLH = BIT_SET) ∧
    ∃ u, Otg.USBD_ResetIsrHandler
        (Otg.USBD_EP_Stall (Otg.USBD_EP_Stall (Otg.exStateCfg 64 0 3) 0x81) 0x01) = some u ∧
      (∀ i, i < (Otg.USBD_EP_Stall (Otg.USBD_EP_Stall (Otg.exStateCfg 64 0 3) 0x81)
          0x01).usbdh.usbCfg.devEndpointNum →
        (u.hw.EP_OUT i).STALLH = BIT_RESET ∧ (u.hw.EP_OUT i).NAKSET = BIT_SET ∧
        (u.hw.EP_IN i).STALLH = BIT_RESET ∧ (u.hw.EP_IN i).NAKSET = BIT_SET) ∧
      u.hw.DADDR = 0 ∧
      Otg.ep0OutXferSize u = (1, 3, 24) ∧
      (∀ i, (Otg.USBD_EP_Stall (Otg.USBD_EP_Stall (Otg.exStateCfg 64 0 3) 0x81)
          0x01).usbdh.usbCfg.devEndpointNum ≤ i →
        u.hw.EP_OUT i = (Otg.USBD_EP_Stall (Otg.USBD_EP_Stall (Otg.exStateCfg 64 0 3) 0x81)
          0x01).hw.EP_OUT i ∧
        u.hw.EP_IN i = (Otg.USBD_EP_Stall (Otg.USBD_EP_Stall (Otg.exStateCfg 64 0 3) 0x81)
          0x01).hw.EP_IN i) ∧
      u.usbdh = (Otg.USBD_EP_Stall (Otg.USBD_EP_Stall (Otg.exStateCfg 64 0 3) 0x81)
          0x01).usbdh :=
  ⟨⟨by decide, by decide⟩,
   C29_reset_handler_resets_configured_endpoints
     (Otg.USBD_EP_Stall (Otg.USBD_EP_Stall (Otg.exStateCfg 64 0 3) 0x81) 0x01)
     (by decide) (by decide)⟩

namespace Otg

/-- The hardware STALL fields after `USBD_EP_Stall`, when the bound check passes. -/
theorem otg_Stall_STALLH (s : State) (a i : Nat)
    (h : ¬ (a &&& 0x0F > s.usbdh.usbCfg.devEndpointNum)) :
    ((USBD_EP_Stall s a).hw.EP_IN i).STALLH =
      (if a &&& 0x80 = 0x80 ∧ i = a &&& 0x0F then BIT_SET else (s.hw.EP_IN i).STALLH) ∧
    ((USBD_EP_Stall s a).hw.EP_OUT i).STALLH =
      (if a &&& 0x80 ≠ 0x80 ∧ i = a &&& 0x0F then BIT_SET else (s.hw.EP_OUT i).STALLH) := by
  have key : ∀ t : State, ∀ c : Prop, ∀ _ : Decidable c,
      ((if c then USBD_EP0_OutHandler t t.usbdh.usbCfg.dmaStatus t.usbdh.setupAddr
        else t).hw.EP_IN i).STALLH = (t.hw.EP_IN i).STALLH ∧
      ((if c then USBD_EP0_OutHandler t t.usbdh.usbCfg.dmaStatus t.usbdh.setupAddr
        else t).hw.EP_OUT i).STALLH = (t.hw.EP_OUT i).STALLH := by
    intro t c _
    by_cases hc : c
    · simp only [hc, if_true, EP0_OutHandler_EP_IN, true_and]
      obtain ⟨_, _, q3, q4, _⟩ := EP0_OutHandler_hw_facts t t.usbdh.usbCfg.dmaStatus
        t.usbdh.setupAddr
      by_cases hi : i = 0
      · subst hi; exact q4
      · rw [q3 i hi]
    · simp only [hc, if_false, and_self]
  unfold USBD_EP_Stall
  simp only [h, if_false]
  constructor
  · rw [(key _ _ _).1]
    by_cases hd : a &&& 0x80 = 0x80 <;> by_cases hi : i = a &&& 0x0F <;>
      simp [hd, hi, EP_DIR_IN, EP_DIR_OUT, updIn_EP_IN, updOut, getEp] <;>
      split_ifs <;> simp [updIn_EP_IN, updIn, setSlot, hi]
  · rw [(key _ _ _).2]
    by_cases hd : a &&& 0x80 = 0x80 <;> by_cases hi : i = a &&& 0x0F <;>
      simp [hd, hi, EP_DIR_IN, EP_DIR_OUT, updOut_EP_OUT, updIn, getEp] <;>
      split_ifs <;> simp [updOut_EP_OUT, updOut, setSlot, hi]

end Otg

namespace Otg

/-- The hardware STALL fields after `USBD_EP_ClearStall`, when the bound check passes. -/
theorem otg_ClearStall_STALLH (s : State) (a i : Nat)
    (h : ¬ (a &&& 0x0F > s.usbdh.usbCfg.devEndpointNum)) :
    ((USBD_EP_ClearStall s a).hw.EP_IN i).STALLH =
      (if a &&& 0x80 = 0x80 ∧ i = a &&& 0x0F then BIT_RESET else (s.hw.EP_IN i).STALLH) ∧
    ((USBD_EP_ClearStall s a).hw.EP_OUT i).STALLH =
      (if a &&& 0x80 ≠ 0x80 ∧ i = a &&& 0x0F then BIT_RESET else (s.hw.EP_OUT i).STALLH) := by
  unfold USBD_EP_ClearStall
  simp only [h, if_false]
  constructor
  · by_cases hd : a &&& 0x80 = 0x80 <;> by_cases hi : i = a &&& 0x0F <;>
      simp [hd, hi, EP_DIR_IN, EP_DIR_OUT, updIn_EP_IN, updOut, getEp] <;>
      split_ifs <;> simp [updIn_EP_IN, updIn, setSlot, hi]
  · by_cases hd : a &&& 0x80 = 0x80 <;> by_cases hi : i = a &&& 0x0F <;>
      simp [hd, hi, EP_DIR_IN, EP_DIR_OUT, updOut_EP_OUT, updIn, getEp] <;>
      split_ifs <;> simp [updOut_EP_OUT, updOut, setSlot, hi]

theorem otg_ClearStall_devEndpointNum (s : State) (a : Nat) :
    (USBD_EP_ClearStall s a).usbdh.usbCfg.devEndpointNum = s.usbdh.usbCfg.devEndpointNum := by
  by_cases h : a &&& 0x0F > s.usbdh.usbCfg.devEndpointNum
  · simp [USBD_EP_ClearStall, h]
  · rw [otg_ClearStall_usbdh s a h]; split <;> rfl

/-- `USBD_EP_Stall` keeps the agreement of stall flags and hardware STALL fields. -/
theorem StallAgree_Stall (s : State) (a : Nat) (hs : StallAgree s) :
    StallAgree (USBD_EP_Stall s a) := by
  by_cases h : a &&& 0x0F > s.usbdh.usbCfg.devEndpointNum
  · have : USBD_EP_Stall s a = s := by simp [USBD_EP_Stall, h]
    rw [this]; exact hs
  · intro i hi
    rw [otg_Stall_devEndpointNum] at hi
    obtain ⟨a1, a2⟩ := hs i hi
    rw [otg_Stall_epIN_stall s a i h, otg_Stall_epOUT_stall s a i h,
      (otg_Stall_STALLH s a i h).1, (otg_Stall_STALLH s a i h).2]
    constructor
    · split_ifs
      · simp
      · exact a1
    · split_ifs
      · simp
      · exact a2

/-- `USBD_EP_ClearStall` keeps the agreement of stall flags and hardware STALL fields. -/
theorem StallAgree_ClearStall (s : State) (a : Nat) (hs : StallAgree s) :
    StallAgree (USBD_EP_ClearStall s a) := by
  by_cases h : a &&& 0x0F > s.usbdh.usbCfg.devEndpointNum
  · have : USBD_EP_ClearStall s a = s := by simp [USBD_EP_ClearStall, h]
    rw [this]; exact hs
  · intro i hi
    rw [otg_ClearStall_devEndpointNum] at hi
    obtain ⟨a1, a2⟩ := hs i hi
    rw [otg_ClearStall_epIN_stall s a i h, otg_ClearStall_epOUT_stall s a i h,
      (otg_ClearStall_STALLH s a i h).1, (otg_ClearStall_STALLH s a i h).2]
    constructor
    · split_ifs
      · simp [DISABLE, ENABLE, BIT_RESET, BIT_SET]
      · exact a1
    · split_ifs
      · simp [DISABLE, ENABLE, BIT_RESET, BIT_SET]
      · exact a2

end Otg

/-- C30 (counterexample): (1) `USBD_Config` on the example handle, then
`USBD_EP_Stall(usbdh, 0x81)`, then the bus-reset handler: the stall flag of `epIN[1]` is
still `ENABLE` while the reset handler has cleared the STALL field of `EP_IN[1]`.
(2) `USBD_Config` on a handle whose `epIN[1]` carries the stall flag of an earlier session:
the flag stays `ENABLE`, the STALL field of `EP_IN[1]` is cleared. -/
theorem C30_reset_and_config_leave_stale_stall_flag :
    ((Otg.USBD_Config 49999 (Otg.exStateCfg 64 0 3)).bind
        (fun c => Otg.USBD_ResetIsrHandler (Otg.USBD_EP_Stall c 0x81))).map
      (fun u => ((u.usbdh.epIN 1).stallStatus, (u.hw.EP_IN 1).STALLH,
        decide (1 < u.usbdh.usbCfg.devEndpointNum)))
      = some (ENABLE, BIT_RESET, true) ∧
    (Otg.USBD_Config 49999 (Otg.USBD_EP_Stall (Otg.exStateCfg 64 0 3) 0x81)).map
      (fun u => ((u.usbdh.epIN 1).stallStatus, (u.hw.EP_IN 1).STALLH,
        decide (1 < u.usbdh.usbCfg.devEndpointNum)))
      = some (ENABLE, BIT_RESET, true) := by
  refine ⟨by decide, by decide⟩

/-- C30 (amended): in every state reached from a state in which, for every endpoint below
`devEndpointNum` and each direction, the stall flag is `ENABLE` exactly when the hardware
STALL field is set, through calls of `USBD_EP_Stall` and `USBD_EP_ClearStall` with any
addresses, the same agreement holds. -/
theorem C30_stall_flag_matches_hardware_through_stall_clearstall (s0 s : Otg.State)
    (h0 : Otg.StallAgree s0) (hr : Otg.StallReach s0 s) : Otg.StallAgree s := by
  induction hr with
  | start => exact h0
  | stall s a _ ih => exact Otg.StallAgree_Stall s a ih
  | clear s a _ ih => exact Otg.StallAgree_ClearStall s a ih

/-- C30 (amended) on the example state: stall of IN endpoint 1, stall of OUT endpoint 2,
clear-stall of IN endpoint 1. -/
theorem C30_stall_flag_matches_hardware_through_stall_clearstall_witness :
    Otg.StallAgree (Otg.exStateCfg 64 0 3) ∧
    Otg.StallAgree (Otg.USBD_EP_ClearStall
      (Otg.USBD_EP_Stall (Otg.USBD_EP_Stall (Otg.exStateCfg 64 0 3) 0x81) 0x02) 0x81) :=
  ⟨fun i _ => by simp [Otg.exStateCfg, Otg.exState, Otg.epZero, Otg.inZero, Otg.outZero,
      ENABLE, BIT_SET]; split_ifs <;> simp,
   C30_stall_flag_matches_hardware_through_stall_clearstall (Otg.exStateCfg 64 0 3) _
     (fun i _ => by simp [Otg.exStateCfg, Otg.exState, Otg.epZero, Otg.inZero, Otg.outZero,
        ENABLE, BIT_SET]; split_ifs <;> simp)
     (Otg.StallReach.clear _ 0x81 (Otg.StallReach.stall _ 0x02
       (Otg.StallReach.stall _ 0x81 Otg.StallReach.start)))⟩

namespace Otg

theorem gView_logEv (s : State) (e : Ev) (h : e ≠ Ev.ClearGlobalIntFlag GInt.USBRST) :
    gView (logEv s e) = gView s := by
  simp [gView, resetsHandled, logEv, List.count_append, List.count_cons, h]

@[simp] theorem gView_updIn (s : State) (n : Nat) (f : InEpRegs → InEpRegs) :
    gView (updIn s n f) = gView s := rfl

@[simp] theorem gView_updOut (s : State) (n : Nat) (f : OutEpRegs → OutEpRegs) :
    gView (updOut s n f) = gView s := rfl

@[simp] theorem gView_setEp (s : State) (r : EpRef) (e : USB_OTG_ENDPOINT_INFO_T) :
    gView (setEp s r e) = gView s := by cases r <;> rfl

@[simp] theorem gView_EP0_OutHandler (s : State) (d p : Nat) :
    gView (USBD_EP0_OutHandler s d p) = gView s := by
  unfold USBD_EP0_OutHandler
  split_ifs
  · simp only [gView_updOut]
    rw [gView_logEv _ _ (by simp)]; simp only [gView_updOut]
  · simp only [gView_updOut]

@[simp] theorem gView_DataInStageCallback (s : State) (n : Nat) :
    gView (USBD_DataInStageCallback s n) = gView s := gView_logEv _ _ (by simp)

@[simp] theorem gView_DataOutStageCallback (s : State) (n : Nat) :
    gView (USBD_DataOutStageCallback s n) = gView s := gView_logEv _ _ (by simp)

@[simp] theorem gView_SetupStageCallback (s : State) :
    gView (USBD_SetupStageCallback s) = gView s := gView_logEv _ _ (by simp)

@[simp] theorem gView_DisableInEpEmptyInterrupt (s : State) (n : Nat) :
    gView (USB_OTG_D_DisableInEpEmptyInterrupt s n) = gView s := by
  unfold USB_OTG_D_DisableInEpEmptyInterrupt
  rw [gView_logEv _ _ (by simp)]; rfl

@[simp] theorem gView_ClearInEpIntStatus (s : State) (n : Nat) (f : InFlag) :
    gView (USB_OTG_D_ClearInEpIntStatus s n f) = gView s := by
  unfold USB_OTG_D_ClearInEpIntStatus
  rw [gView_logEv _ _ (by simp)]; rfl

@[simp] theorem gView_ClearOutEpIntStatus (s : State) (n : Nat) (f : OutFlag) :
    gView (USB_OTG_D_ClearOutEpIntStatus s n f) = gView s := by
  unfold USB_OTG_D_ClearOutEpIntStatus
  rw [gView_logEv _ _ (by simp)]; rfl

@[simp] theorem gView_clearInIfSet (s : State) (n : Nat) (f : InFlag) :
    gView (clearInIfSet s n f) = gView s := by
  unfold clearInIfSet; split_ifs <;> simp

@[simp] theorem gView_clearOutIfSet (s : State) (n : Nat) (f : OutFlag) :
    gView (clearOutIfSet s n f) = gView s := by
  unfold clearOutIfSet; split_ifs <;> simp

@[simp] theorem gView_inEpXferComplete (s : State) (n : Nat) :
    gView (inEpXferComplete s n) = gView s := by
  unfold inEpXferComplete
  simp [apply_ite gView]

@[simp] theorem gView_inEpStatus (s : State) (n : Nat) :
    gView (inEpStatus s n) = gView s := by
  unfold inEpStatus
  simp [apply_ite gView]

@[simp] theorem gView_readINEPTXFSA (s : State) (n : Nat) :
    gView (readINEPTXFSA s n).2 = gView s := rfl

@[simp] theorem gView_pushBody (s : State) (n : Nat) : gView (pushBody s n).1 = gView s := by
  unfold pushBody
  simp only [gView_setEp, USB_OTG_FIFO_WriteFifoPacket]
  exact gView_logEv _ _ (by simp)

theorem gView_pushLoop (fuel : Nat) : ∀ (s u : State) (n lt : Nat),
    pushLoop fuel s n lt = some u → gView u = gView s := by
  induction fuel with
  | zero =>
    intro s u n lt h
    simp only [pushLoop] at h
    split_ifs at h
    injection h with h; subst h; rfl
  | succ f ih =>
    intro s u n lt h
    simp only [pushLoop] at h
    split_ifs at h
    · rw [ih _ _ _ _ h]; simp
    · injection h with h; subst h; rfl

theorem gView_Push (fuel : Nat) (s u : State) (n : Nat)
    (h : USBD_EP_PushDataEmptyTxFifo fuel s n = some u) : gView u = gView s := by
  unfold USBD_EP_PushDataEmptyTxFifo at h
  dsimp only at h
  by_cases hc : (s.usbdh.epIN n).bufCount > (s.usbdh.epIN n).bufLen
  · rw [if_pos hc] at h
    injection h with h; subst h; rfl
  · rw [if_neg hc] at h
    split at h
    · simp at h
    · rename_i v hv
      have hq := gView_pushLoop _ _ _ _ _ hv
      split_ifs at h <;> injection h with h <;> subst h
      · rw [gView_DisableInEpEmptyInterrupt, hq]
      · exact hq

theorem gView_inEpBody (fuel : Nat) (s u : State) (n : Nat)
    (h : inEpBody fuel s n = some u) : gView u = gView s := by
  unfold inEpBody at h
  split_ifs at h
  · rw [gView_Push _ _ _ _ h]; simp
  · injection h with h; subst h; simp

theorem gView_inEpLoop (fuel bits : Nat) : ∀ (k e : Nat) (s u : State),
    inEpLoop fuel bits k e s = some u → gView u = gView s := by
  intro k
  induction k with
  | zero =>
    intro e s u h
    simp only [inEpLoop] at h
    injection h with h; subst h; rfl
  | succ k ih =>
    intro e s u h
    simp only [inEpLoop] at h
    split_ifs at h
    · injection h with h; subst h; rfl
    · split at h
      · simp at h
      · rename_i v hv
        rw [ih _ _ _ h, gView_inEpBody _ _ _ _ hv]
    · exact ih _ _ _ h

theorem gView_InEndpointIsrHandler (fuel : Nat) (s u : State)
    (h : USBD_InEndpointIsrHandler fuel s = some u) : gView u = gView s :=
  gView_inEpLoop _ _ _ _ _ _ h

@[simp] theorem gView_OutXferHandler (s : State) (n : Nat) :
    gView (USBD_EP_OutXferHandler s n) = gView s := by
  unfold USBD_EP_OutXferHandler
  simp [apply_ite gView]

@[simp] theorem gView_outEpBody (s : State) (n : Nat) : gView (outEpBody s n) = gView s := by
  unfold outEpBody USBD_EP_OutSetupHandler
  simp [apply_ite gView]

theorem gView_outEpLoop (bits : Nat) : ∀ (k e : Nat) (s : State),
    gView (outEpLoop bits k e s) = gView s := by
  intro k
  induction k with
  | zero => intro e s; rfl
  | succ k ih =>
    intro e s
    simp only [outEpLoop]
    split_ifs
    · rfl
    · rw [ih, gView_outEpBody]
    · rw [ih]

@[simp] theorem gView_OutEndpointIsrHandler (s : State) :
    gView (USBD_OutEndpointIsrHandler s) = gView s := gView_outEpLoop _ _ _ _

@[simp] theorem gView_RxFifoNoEmptyIsrHandler (s : State) :
    gView (USBD_RxFifoNoEmptyIsrHandler s) = gView s := by
  have hpop : ∀ t : State, gView (USB_OTG_PopRxFifoStatus t).2 = gView t := by
    intro t
    unfold USB_OTG_PopRxFifoStatus
    split
    · exact gView_logEv _ _ (by simp)
    · rw [gView_logEv _ _ (by simp)]; rfl
  have hen : ∀ t : State, gView (USB_OTG_EnableGlobalInterrupt t GInt.RXFNONE) = gView t := by
    intro t; unfold USB_OTG_EnableGlobalInterrupt
    rw [gView_logEv _ _ (by simp)]; rfl
  have hdis : ∀ t : State, gView (USB_OTG_DisableGlobalInterrupt t GInt.RXFNONE) = gView t := by
    intro t; unfold USB_OTG_DisableGlobalInterrupt
    rw [gView_logEv _ _ (by simp)]; rfl
  have hrd : ∀ (t : State) (b l : Nat), gView (USB_OTG_FIFO_ReadRxFifoPacket t b l) = gView t :=
    fun t b l => gView_logEv _ _ (by simp)
  unfold USBD_RxFifoNoEmptyIsrHandler
  simp only [hen, apply_ite gView, gView_setEp, hrd, hpop, hdis, ite_self]

/-- The endpoint branches of the dispatcher leave the bus-reset cause pending and handle no
bus reset. -/
theorem gView_otgIsrEndpoints (fuel : Nat) (s u : State) (h : otgIsrEndpoints fuel s = some u) :
    gView u = gView s := by
  have hm : ∀ t : State, gView (USB_OTG_ClearGlobalIntFlag t GInt.MMIS) = gView t := by
    intro t; unfold USB_OTG_ClearGlobalIntFlag
    rw [gView_logEv _ _ (by simp)]; simp [gView]
  unfold otgIsrEndpoints at h
  simp only [] at h
  split_ifs at h
  all_goals first
    | (rw [gView_InEndpointIsrHandler _ _ _ h]
       try simp [apply_ite gView, hm])
    | (injection h with h; subst h
       try simp [apply_ite gView, hm])

end Otg

namespace Otg

theorem NoTransfer.otgSame (s : State) : NoTransfer s s := ⟨[], by simp, rfl, rfl, rfl⟩

theorem NoTransfer.otgChain {s u v : State} (h1 : NoTransfer s u) (h2 : NoTransfer u v) :
    NoTransfer s v := by
  obtain ⟨r1, a1, a2, a3, a4⟩ := h1
  obtain ⟨r2, b1, b2, b3, b4⟩ := h2
  exact ⟨r1 ++ r2, by rw [b1, a1, List.append_assoc], by rw [List.filter_append, a2, b2]; rfl,
    b3.trans a3, b4.trans a4⟩

theorem NoTransfer.log (s : State) (e : Ev) (h : isTransferEv e = false) :
    NoTransfer s (logEv s e) := ⟨[e], rfl, by simp [h], rfl, rfl⟩

theorem NoTransfer.quiet (s u : State) (h1 : u.trace = s.trace) (h2 : u.usbdh.epIN = s.usbdh.epIN)
    (h3 : u.usbdh.epOUT = s.usbdh.epOUT) : NoTransfer s u := ⟨[], by simp [h1], rfl, h2, h3⟩

theorem NoTransfer.ite (s : State) (c : Prop) [Decidable c] (f : State → State)
    (h : NoTransfer s (f s)) : NoTransfer s (if c then f s else s) := by
  split_ifs
  · exact h
  · exact NoTransfer.otgSame s

theorem NoTransfer_ClearGlobalIntFlag (s : State) (f : GInt) :
    NoTransfer s (USB_OTG_ClearGlobalIntFlag s f) :=
  ⟨[Ev.ClearGlobalIntFlag f], rfl, by simp [isTransferEv], rfl, rfl⟩

theorem NoTransfer_EP0_OutHandler (s : State) (d p : Nat) :
    NoTransfer s (USBD_EP0_OutHandler s d p) := by
  refine ⟨if d = ENABLE then [Ev.OutEpEnable USBD_EP_0] else [], EP0_OutHandler_trace s d p, ?_,
    by simp, by simp⟩
  split_ifs <;> simp [isTransferEv]

theorem NoTransfer_resetEnables (s : State) : NoTransfer s (resetEnables s) := by
  unfold resetEnables USB_OTG_D_ConfigDeviceAddress
  by_cases h : s.usbdh.usbCfg.ep1Status = ENABLE
  · exact ⟨[Ev.EnableOutEpInterruptMask USBD_EP_0, Ev.EnableInEpInterruptMask USBD_EP_0,
      Ev.EnableInEp1Interrupt, Ev.EnableOutEp1Interrupt, Ev.ConfigDeviceAddress (0x00 &&& 0x7F)],
      by simp [logEv, h], by simp [isTransferEv], by simp [logEv, h], by simp [logEv, h]⟩
  · exact ⟨[Ev.EnableOutEpInterruptMask USBD_EP_0, Ev.EnableInEpInterruptMask USBD_EP_0,
      Ev.EnableInEpInterrupt, Ev.EnableOutEpInterrupt, Ev.ConfigDeviceAddress (0x00 &&& 0x7F)],
      by simp [logEv, h], by simp [isTransferEv], by simp [logEv, h], by simp [logEv, h]⟩

theorem NoTransfer_resetGlobal (s : State) : NoTransfer s (resetGlobal s) := by
  unfold resetGlobal
  exact ((NoTransfer_resetEnables s).otgChain (NoTransfer_EP0_OutHandler _ _ _)).otgChain
    (NoTransfer_ClearGlobalIntFlag _ _)

/-- The bus-reset handler does no endpoint data handling. -/
theorem NoTransfer_ResetIsrHandler (s u : State) (h : USBD_ResetIsrHandler s = some u) :
    NoTransfer s u := by
  unfold USBD_ResetIsrHandler forUint8 at h
  simp only [] at h
  split_ifs at h
  · simp only [Option.map_some'] at h
    injection h with h; subst h
    refine NoTransfer.otgChain (NoTransfer.otgChain
      (u := USB_OTG_FlushTxFIFO (USB_OTG_D_DisableRemoteWakeupSignal s) 0x10) ?_ ?_)
      (NoTransfer_resetGlobal _)
    · exact (NoTransfer.log s Ev.DisableRemoteWakeupSignal rfl).otgChain
        (NoTransfer.log _ (Ev.FlushTxFIFO 0x10) rfl)
    · rw [foldl_resetEndpoint]
      exact NoTransfer.quiet _ _ rfl rfl rfl
  · simp at h

theorem NoTransfer_otgIsrAfterReset (s : State) : NoTransfer s (otgIsrAfterReset s) := by
  have h1 : ∀ t : State, NoTransfer t (USBD_ResumeIsrHandler t) := fun t =>
    ((NoTransfer.log t Ev.DisableRemoteWakeupSignal rfl).otgChain
      (NoTransfer.log _ Ev.ResumeCallback rfl)).otgChain (NoTransfer_ClearGlobalIntFlag _ _)
  have h2 : ∀ t : State, NoTransfer t (USBD_SuspendIsrHandler t) := fun t => by
    unfold USBD_SuspendIsrHandler
    exact (NoTransfer.ite t _ USBD_SuspendCallback
      (NoTransfer.log t Ev.SuspendCallback rfl)).otgChain
      (NoTransfer_ClearGlobalIntFlag _ _)
  have h3 : ∀ t : State, NoTransfer t (USBD_EnumDoneIsrHandler t) := fun t => by
    unfold USBD_EnumDoneIsrHandler
    refine NoTransfer.otgChain (NoTransfer.otgChain (NoTransfer.otgChain ?_
      (NoTransfer.log _ (Ev.SetTurnaroundTime _) rfl))
      (NoTransfer.log _ Ev.EnumDoneCallback rfl)) (NoTransfer_ClearGlobalIntFlag _ _)
    exact NoTransfer.quiet _ _ rfl rfl rfl
  have h4 : ∀ t : State, NoTransfer t (USBD_SofIsrHanlder t) := fun t =>
    (NoTransfer.log t Ev.SOFCallback rfl).otgChain (NoTransfer_ClearGlobalIntFlag _ _)
  have h5 : ∀ t : State, NoTransfer t (USBD_IsoInInCompleteIsrHanlder t) := fun t =>
    (NoTransfer.log t (Ev.IsoInInCompleteCallback 0) rfl).otgChain
      (NoTransfer_ClearGlobalIntFlag _ _)
  have h6 : ∀ t : State, NoTransfer t (USBD_IsoOutInCompleteIsrHanlder t) := fun t =>
    (NoTransfer.log t (Ev.IsoOutInCompleteCallback 0) rfl).otgChain
      (NoTransfer_ClearGlobalIntFlag _ _)
  have h7 : ∀ t : State, NoTransfer t (USBD_NewSessionIsrHandler t) := fun t =>
    (NoTransfer.log t Ev.ConnectCallback rfl).otgChain (NoTransfer_ClearGlobalIntFlag _ _)
  have h8 : ∀ t : State, NoTransfer t (USBD_OTGIsrHandler t) := fun t => by
    unfold USBD_OTGIsrHandler
    split_ifs
    · exact (NoTransfer.log t Ev.DisconnectCallback rfl).otgChain
        (NoTransfer.quiet _ _ rfl rfl rfl)
    · exact NoTransfer.otgSame t
  unfold otgIsrAfterReset
  exact (((((((NoTransfer.ite _ _ _ (h1 _)).otgChain (NoTransfer.ite _ _ _ (h2 _))).otgChain
    (NoTransfer.ite _ _ _ (h3 _))).otgChain (NoTransfer.ite _ _ _ (h4 _))).otgChain
    (NoTransfer.ite _ _ _ (h5 _))).otgChain (NoTransfer.ite _ _ _ (h6 _))).otgChain
    (NoTransfer.ite _ _ _ (h7 _))).otgChain (NoTransfer.ite _ _ _ (h8 _))

/-- The branches after the reset branch handle no bus reset. -/
theorem resetsHandled_otgIsrAfterReset (s : State) :
    resetsHandled (otgIsrAfterReset s).trace = resetsHandled s.trace := by
  have key : ∀ (t : State) (c : Bool) (f : State → State),
      resetsHandled (f t).trace = resetsHandled t.trace →
      resetsHandled (if c = true then f t else t).trace = resetsHandled t.trace := by
    intro t c f h; split_ifs
    · exact h
    · rfl
  have h1 : ∀ t : State, resetsHandled (USBD_ResumeIsrHandler t).trace = resetsHandled t.trace := by
    intro t
    simp [USBD_ResumeIsrHandler, USB_OTG_ClearGlobalIntFlag, USBD_ResumeCallback,
      USB_OTG_D_DisableRemoteWakeupSignal, logEv, resetsHandled, List.count_append]
  have h2 : ∀ t : State, resetsHandled (USBD_SuspendIsrHandler t).trace = resetsHandled t.trace := by
    intro t
    simp only [USBD_SuspendIsrHandler, USB_OTG_ClearGlobalIntFlag, USBD_SuspendCallback, logEv,
      resetsHandled]
    split_ifs <;> simp [List.count_append]
  have h3 : ∀ t : State, resetsHandled (USBD_EnumDoneIsrHandler t).trace = resetsHandled t.trace := by
    intro t
    simp [USBD_EnumDoneIsrHandler, USB_OTG_ClearGlobalIntFlag, USBD_EnumDoneCallback, logEv,
      resetsHandled, List.count_append, updIn]
  have h4 : ∀ t : State, resetsHandled (USBD_SofIsrHanlder t).trace = resetsHandled t.trace := by
    intro t
    simp [USBD_SofIsrHanlder, USB_OTG_ClearGlobalIntFlag, USBD_SOFCallback, logEv,
      resetsHandled, List.count_append]
  have h5 : ∀ t : State,
      resetsHandled (USBD_IsoInInCompleteIsrHanlder t).trace = resetsHandled t.trace := by
    intro t
    simp [USBD_IsoInInCompleteIsrHanlder, USB_OTG_ClearGlobalIntFlag,
      USBD_IsoInInCompleteCallback, logEv, resetsHandled, List.count_append]
  have h6 : ∀ t : State,
      resetsHandled (USBD_IsoOutInCompleteIsrHanlder t).trace = resetsHandled t.trace := by
    intro t
    simp [USBD_IsoOutInCompleteIsrHanlder, USB_OTG_ClearGlobalIntFlag,
      USBD_IsoOutInCompleteCallback, logEv, resetsHandled, List.count_append]
  have h7 : ∀ t : State,
      resetsHandled (USBD_NewSessionIsrHandler t).trace = resetsHandled t.trace := by
    intro t
    simp [USBD_NewSessionIsrHandler, USB_OTG_ClearGlobalIntFlag, USBD_ConnectCallback, logEv,
      resetsHandled, List.count_append]
  have h8 : ∀ t : State, resetsHandled (USBD_OTGIsrHandler t).trace = resetsHandled t.trace := by
    intro t
    simp only [USBD_OTGIsrHandler, USBD_DisconnectCallback, logEv]
    split_ifs
    · simp [resetsHandled, List.count_append]
    · rfl
  unfold otgIsrAfterReset
  simp only []
  rw [key _ _ _ (h8 _), key _ _ _ (h7 _), key _ _ _ (h6 _), key _ _ _ (h5 _), key _ _ _ (h4 _),
    key _ _ _ (h3 _), key _ _ _ (h2 _), key _ _ _ (h1 _)]

/-- The bus-reset handler handles one bus reset. -/
theorem resetsHandled_ResetIsrHandler (s u : State) (h : USBD_ResetIsrHandler s = some u) :
    resetsHandled u.trace = resetsHandled s.trace + 1 ∧ u.hw.gint GInt.USBRST = false := by
  unfold USBD_ResetIsrHandler forUint8 at h
  simp only [] at h
  split_ifs at h
  · simp only [Option.map_some'] at h
    injection h with h; subst h
    rw [foldl_resetEndpoint]
    unfold resetGlobal
    constructor
    · simp only [USB_OTG_ClearGlobalIntFlag, logEv, EP0_OutHandler_trace, resetsHandled,
        List.count_append]
      have he : ∀ t : State, List.count (Ev.ClearGlobalIntFlag GInt.USBRST) (resetEnables t).trace
          = List.count (Ev.ClearGlobalIntFlag GInt.USBRST) t.trace := by
        intro t
        unfold resetEnables USB_OTG_D_ConfigDeviceAddress
        by_cases hq : t.usbdh.usbCfg.ep1Status = ENABLE <;>
          simp [logEv, hq, List.count_append]
      rw [he]
      simp only [USB_OTG_FlushTxFIFO, USB_OTG_D_DisableRemoteWakeupSignal, logEv,
        List.count_append]
      split_ifs <;> simp
    · simp [USB_OTG_ClearGlobalIntFlag, logEv]
  · simp at h

end Otg

namespace Usbd

theorem NoTransfer.pmaSame (s : State) : NoTransfer s s := ⟨[], by simp, rfl, rfl, rfl⟩

theorem NoTransfer.pmaChain {s u v : State} (h1 : NoTransfer s u) (h2 : NoTransfer u v) :
    NoTransfer s v := by
  obtain ⟨r1, a1, a2, a3, a4⟩ := h1
  obtain ⟨r2, b1, b2, b3, b4⟩ := h2
  exact ⟨r1 ++ r2, by rw [b1, a1, List.append_assoc], by rw [List.filter_append, a2, b2]; rfl,
    b3.trans a3, b4.trans a4⟩

theorem NoTransfer.pmaLog (s : State) (e : Ev) (h : isTransferEv e = false) :
    NoTransfer s (logEv s e) := ⟨[e], rfl, by simp [h], rfl, rfl⟩

theorem NoTransfer.pmaQuiet (s u : State) (h1 : u.trace = s.trace)
    (h2 : u.usbdh.epIN = s.usbdh.epIN) (h3 : u.usbdh.epOUT = s.usbdh.epOUT) :
    NoTransfer s u := ⟨[], by simp [h1], rfl, h2, h3⟩

theorem NoTransfer.pmaIte (s : State) (c : Prop) [Decidable c] (f : State → State)
    (h : NoTransfer s (f s)) : NoTransfer s (if c then f s else s) := by
  split_ifs
  · exact h
  · exact NoTransfer.pmaSame s

theorem NoTransfer_ClearIntFlag (s : State) (f : Nat) : NoTransfer s (USBD_ClearIntFlag s f) :=
  ⟨[Ev.ClearIntFlag f], rfl, by simp [isTransferEv], rfl, rfl⟩

theorem NoTransfer_reset_branch (s : State) :
    NoTransfer s
      (USBD_SetDevAddress (USBD_EnumDoneCallback (USBD_ClearIntFlag s USBD_INT_RST)) 0x00) := by
  refine ⟨[Ev.ClearIntFlag USBD_INT_RST, Ev.EnumDoneCallback, Ev.SetDeviceAddr 0, Ev.Enable],
    ?_, by simp [isTransferEv], ?_, ?_⟩ <;>
    simp [USBD_SetDevAddress, USBD_EnumDoneCallback, USBD_ClearIntFlag, USBD_SetDeviceAddr,
      USBD_Enable, logEv]

/-- After `USBD_EP_CTRHandler` the first part of the dispatch pass does no endpoint data
handling. -/
theorem NoTransfer_isrBeforeSuspend (s : State) (hctr : USBD_ReadIntFlag s USBD_INT_CTR = true) :
    NoTransfer (USBD_EP_CTRHandler s) (isrBeforeSuspend s) := by
  have hw : ∀ t : State, NoTransfer t (USBD_ClearIntFlag (USBD_ResumeCallback
      (USBD_ResetForceSuspend (USBD_ResetLowerPowerMode t))) USBD_INT_WKUP) := fun t =>
    ((NoTransfer.pmaQuiet t (USBD_ResetForceSuspend (USBD_ResetLowerPowerMode t)) rfl rfl
      rfl).pmaChain (NoTransfer.pmaLog _ Ev.ResumeCallback rfl)).pmaChain
      (NoTransfer_ClearIntFlag _ _)
  unfold isrBeforeSuspend
  simp only [hctr, if_true]
  exact (((NoTransfer.pmaIte _ _ (fun t => USBD_SetDevAddress (USBD_EnumDoneCallback
      (USBD_ClearIntFlag t USBD_INT_RST)) 0x00) (NoTransfer_reset_branch _)).pmaChain
    (NoTransfer.pmaIte _ _ (fun t => USBD_ClearIntFlag t USBD_INT_PMAOU)
      (NoTransfer_ClearIntFlag _ _))).pmaChain
    (NoTransfer.pmaIte _ _ (fun t => USBD_ClearIntFlag t USBD_INT_ERR)
      (NoTransfer_ClearIntFlag _ _))).pmaChain
    (NoTransfer.pmaIte _ _ (fun t => USBD_ClearIntFlag (USBD_ResumeCallback
      (USBD_ResetForceSuspend (USBD_ResetLowerPowerMode t))) USBD_INT_WKUP) (hw _))

theorem NoTransfer_isrAfterSuspend (s : State) : NoTransfer s (isrAfterSuspend s) := by
  unfold isrAfterSuspend
  exact (NoTransfer.pmaIte _ _ (fun t => USBD_SOFCallback (USBD_ClearIntFlag t USBD_INT_SOF))
      ((NoTransfer_ClearIntFlag _ _).pmaChain (NoTransfer.pmaLog _ Ev.SOFCallback rfl))).pmaChain
    (NoTransfer.pmaIte _ _ (fun t => USBD_ClearIntFlag t USBD_INT_ESOF)
      (NoTransfer_ClearIntFlag _ _))

theorem waitRST_frame (fuel : Nat) : ∀ s u : State, waitRST fuel s = some u →
    u.trace = s.trace ∧ u.usbdh = s.usbdh := by
  induction fuel with
  | zero => intro s u h; simp [waitRST] at h
  | succ f ih =>
    intro s u h
    simp only [waitRST] at h
    split_ifs at h
    · exact ih (pollRST s) u h
    · injection h with h; subst h; exact ⟨rfl, rfl⟩

theorem NoTransfer_SuspendHandler (fuel : Nat) (s u : State)
    (h : USBD_SuspendHandler fuel s = some u) : NoTransfer s u := by
  unfold USBD_SuspendHandler at h
  simp only [] at h
  split at h
  · simp at h
  · rename_i w hw
    obtain ⟨w1, w2⟩ := waitRST_frame _ _ _ hw
    injection h with h; subst h
    refine ⟨[Ev.ClearIntFlag USBD_INT_RST, Ev.ClearIntFlag USBD_INT_SUS], ?_,
      by simp [isTransferEv], ?_, ?_⟩
    · simp [USBD_SetLowerPowerMode, USBD_ClearIntFlag, USBD_SetForceSuspend, logEv, w1,
        USBD_ResetForceReset, USBD_SetForceReset]
    · simp [USBD_SetLowerPowerMode, USBD_ClearIntFlag, USBD_SetForceSuspend, logEv, w2,
        USBD_ResetForceReset, USBD_SetForceReset]
    · simp [USBD_SetLowerPowerMode, USBD_ClearIntFlag, USBD_SetForceSuspend, logEv, w2,
        USBD_ResetForceReset, USBD_SetForceReset]

end Usbd

namespace Usbd

/-- A dispatch pass with the correct-transfer and the bus-reset cause pending: it returns, it
fires `USBD_EnumDoneCallback` once, and after `USBD_EP_CTRHandler` it does no endpoint data
handling. -/
theorem pma_reset_pass (s : State) (fuel : Nat)
    (hctr : USBD_ReadIntFlag s USBD_INT_CTR = true) (hrst : s.usbGlobal.intRST = true)
    (hwait : s.usbGlobal.intSUS = true →
      ∃ k, k + 2 ≤ fuel ∧ s.usbGlobal.rstRaise (s.usbGlobal.rstPolls + k) = true) :
    ∃ u, USBD_IsrHandler fuel s = some u ∧
      enumDoneCallbacks u.trace = enumDoneCallbacks s.trace + 1 ∧
      NoTransfer (USBD_EP_CTRHandler s) u := by
  have hb := isrBeforeSuspend_reset s hrst
  have b4 : enumDoneCallbacks (isrBeforeSuspend s).trace = enumDoneCallbacks s.trace + 1 :=
    congrArg (fun v => v.1.2.2.2) hb
  have b5 : (isrBeforeSuspend s).usbGlobal.intSUS = s.usbGlobal.intSUS :=
    congrArg (fun v => v.2.1) hb
  have b6 : (isrBeforeSuspend s).usbGlobal.rstRaise = s.usbGlobal.rstRaise :=
    congrArg (fun v => v.2.2.1) hb
  have b7 : (isrBeforeSuspend s).usbGlobal.rstPolls = s.usbGlobal.rstPolls :=
    congrArg (fun v => v.2.2.2) hb
  have hnt := NoTransfer_isrBeforeSuspend s hctr
  have hcnt : ∀ w : State, enumDoneCallbacks (isrAfterSuspend w).trace =
      enumDoneCallbacks w.trace := fun w =>
    congrArg (fun v => v.2.2.2) (rstView_isrAfterSuspend w)
  unfold USBD_IsrHandler
  simp only [ReadIntFlag_SUS, b5]
  by_cases hs : s.usbGlobal.intSUS = true
  · obtain ⟨k, hk, ho⟩ := hwait hs
    obtain ⟨w, hw, _, _, _, w4⟩ := SuspendHandler_returns fuel k
      (isrBeforeSuspend s) (Or.inr (by rw [b6, b7]; exact ho)) hk
    simp only [hs, if_true, hw]
    refine ⟨_, rfl, ?_, ?_⟩
    · have : enumDoneCallbacks (USBD_SuspendCallback w).trace = enumDoneCallbacks w.trace :=
        congrArg (fun v => v.1.2.2.2) (rstView_SuspendCallback w)
      rw [hcnt, this, w4, b4]
    · exact ((hnt.pmaChain (NoTransfer_SuspendHandler _ _ _ hw)).pmaChain
        (NoTransfer.pmaLog w Ev.SuspendCallback rfl)).pmaChain (NoTransfer_isrAfterSuspend _)
  · simp only [hs, if_false]
    refine ⟨_, rfl, ?_, ?_⟩
    · rw [hcnt, b4]
    · exact hnt.pmaChain (NoTransfer_isrAfterSuspend _)

end Usbd

namespace Otg

/-- A dispatch pass in device mode with the bus-reset cause pending, whose endpoint branches
return the state `v`: the pass returns, it handles one bus reset, and after `v` it does no
endpoint data handling. -/
theorem otg_reset_pass (s v : State) (fuel : Nat) (hmode : s.hw.deviceMode = true)
    (hint : USB_OTG_ReadInterrupts s = true) (hrst : s.hw.gint GInt.USBRST = true)
    (hN : s.usbdh.usbCfg.devEndpointNum ≤ 255) (hv : otgIsrEndpoints fuel s = some v) :
    ∃ u, USBD_OTG_IsrHandler fuel s = some u ∧
      v.hw.gint GInt.USBRST = true ∧ resetsHandled v.trace = resetsHandled s.trace ∧
      NoTransfer v u ∧ resetsHandled u.trace = resetsHandled s.trace + 1 := by
  have hg := gView_otgIsrEndpoints fuel s v hv
  have g1 : v.hw.gint GInt.USBRST = s.hw.gint GInt.USBRST := congrArg (fun x => x.1) hg
  have g2 : v.usbdh.usbCfg = s.usbdh.usbCfg := congrArg (fun x => x.2.1) hg
  have g3 : resetsHandled v.trace = resetsHandled s.trace := congrArg (fun x => x.2.2) hg
  have hr := ResetIsrHandler_eq v (by rw [g2]; exact hN)
  obtain ⟨r1, _⟩ := resetsHandled_ResetIsrHandler v _ hr
  refine ⟨otgIsrAfterReset (resetGlobal ((List.range v.usbdh.usbCfg.devEndpointNum).foldl
    (fun s i => resetEndpoint i s)
    (USB_OTG_FlushTxFIFO (USB_OTG_D_DisableRemoteWakeupSignal v) 0x10))), ?_, g1.trans hrst, g3,
    ?_, ?_⟩
  · unfold USBD_OTG_IsrHandler
    simp only [hmode, hint, if_true, hv, Option.some_bind, otgIsrReset,
      USB_OTG_ReadGlobalIntFlag, g1.trans hrst, hr, Option.map_some', Bool.true_eq_false,
      if_false]
  · exact (NoTransfer_ResetIsrHandler v _ hr).otgChain (NoTransfer_otgIsrAfterReset _)
  · rw [resetsHandled_otgIsrAfterReset, r1, g3]

end Otg

/-- C24 (counterexample): one dispatch pass with a completed IN transfer on endpoint 1 and the
bus-reset cause both pending.  In both builds the data-stage callback of the endpoint is
fired before the reset handling starts: `USBD_DataInStageCallback(1)` precedes the clearing
of the reset flag, `USBD_EnumDoneCallback` and the address write (USB_DEVICE build), and the
whole of `USBD_ResetIsrHandler` (USB_OTG build). -/
theorem C24_data_stage_callback_precedes_reset_handling :
    (Usbd.USBD_ReadIntFlag Usbd.exStateBoth Usbd.USBD_INT_CTR = true ∧
      Usbd.USBD_ReadIntFlag Usbd.exStateBoth Usbd.USBD_INT_RST = true ∧
      (Usbd.USBD_IsrHandler 2 Usbd.exStateBoth).map (fun u => u.trace) =
        some [Usbd.Ev.WritePacketData 256 4096 64, Usbd.Ev.SetTxCnt 1 64,
              Usbd.Ev.SetTxStatus 1 Usbd.USBD_EP_STATUS_VALID, Usbd.Ev.ResetTxFlag 1,
              Usbd.Ev.DataInStageCallback 1,
              Usbd.Ev.ClearIntFlag Usbd.USBD_INT_RST, Usbd.Ev.EnumDoneCallback,
              Usbd.Ev.SetDeviceAddr 0, Usbd.Ev.Enable]) ∧
    (Otg.USB_OTG_ReadGlobalIntFlag Otg.exStateBoth Otg.GInt.INEP = true ∧
      Otg.USB_OTG_ReadGlobalIntFlag Otg.exStateBoth Otg.GInt.USBRST = true ∧
      (Otg.USBD_OTG_IsrHandler 2 Otg.exStateBoth).map (fun u => u.trace) =
        some [Otg.Ev.InEpEnable 1, Otg.Ev.EnableInEpEmptyInterrupt 1,
              Otg.Ev.DisableInEpEmptyInterrupt 1,
              Otg.Ev.ClearInEpIntStatus 1 Otg.InFlag.TSFCMP,
              Otg.Ev.DataInStageCallback 1,
              Otg.Ev.DisableRemoteWakeupSignal, Otg.Ev.FlushTxFIFO 16,
              Otg.Ev.EnableOutEpInterruptMask 0, Otg.Ev.EnableInEpInterruptMask 0,
              Otg.Ev.EnableInEpInterrupt, Otg.Ev.EnableOutEpInterrupt,
              Otg.Ev.ConfigDeviceAddress 0, Otg.Ev.ClearGlobalIntFlag Otg.GInt.USBRST]) := by
  refine ⟨⟨by decide, by decide, by decide⟩, ⟨by decide, by decide, by decide⟩⟩

/-- C24 (amended): within one dispatch pass in which both the bus-reset cause and an endpoint
cause are pending, the endpoint data handling runs first and the reset handling after it.
USB_DEVICE build: when `USBD_EP_CTRHandler` returns the reset flag is still pending and
`USBD_EnumDoneCallback` has not been fired; the rest of the pass fires it once and makes no
endpoint access, no data-stage callback and no change to an endpoint descriptor.  USB_OTG
build: when the RxFIFO, OUT-endpoint and IN-endpoint handlers have returned (state `v`), the
reset cause is still pending and no reset has been handled; the rest of the pass handles the
reset once and does no endpoint data handling.  The pass returns, provided the wait loop of
`USBD_SuspendHandler` sees the reset flag raised and `devEndpointNum ≤ 255`. -/
theorem C24_endpoint_handling_precedes_reset_handling (s : Usbd.State) (t v : Otg.State)
    (fuel fuel2 : Nat)
    (hctr : Usbd.USBD_ReadIntFlag s Usbd.USBD_INT_CTR = true)
    (hrst : s.usbGlobal.intRST = true)
    (hwait : s.usbGlobal.intSUS = true →
      ∃ k, k + 2 ≤ fuel ∧ s.usbGlobal.rstRaise (s.usbGlobal.rstPolls + k) = true)
    (hmode : t.hw.deviceMode = true) (hint : Otg.USB_OTG_ReadInterrupts t = true)
    (htr : t.hw.gint Otg.GInt.USBRST = true) (hN : t.usbdh.usbCfg.devEndpointNum ≤ 255)
    (hv : Otg.otgIsrEndpoints fuel2 t = some v) :
    (∃ u, Usbd.USBD_IsrHandler fuel s = some u ∧
      (Usbd.USBD_EP_CTRHandler s).usbGlobal.intRST = true ∧
      Usbd.enumDoneCallbacks (Usbd.USBD_EP_CTRHandler s).trace =
        Usbd.enumDoneCallbacks s.trace ∧
      Usbd.NoTransfer (Usbd.USBD_EP_CTRHandler s) u ∧
      Usbd.enumDoneCallbacks u.trace = Usbd.enumDoneCallbacks s.trace + 1) ∧
    (∃ u, Otg.USBD_OTG_IsrHandler fuel2 t = some u ∧
      v.hw.gint Otg.GInt.USBRST = true ∧
      Otg.resetsHandled v.trace = Otg.resetsHandled t.trace ∧
      Otg.NoTransfer v u ∧
      Otg.resetsHandled u.trace = Otg.resetsHandled t.trace + 1) := by
  constructor
  · obtain ⟨u, hu, h1, h2⟩ := Usbd.pma_reset_pass s fuel hctr hrst hwait
    have hvw := Usbd.isrView_CTRHandler s
    exact ⟨u, hu, (congrArg Usbd.IsrView.intRST hvw).trans hrst,
      Usbd.enumDone_of_isrView _ _ hvw, h2, h1⟩
  · exact Otg.otg_reset_pass t v fuel2 hmode hint htr hN hv

/-- C24 (amended) on the example states: a completed IN transfer on endpoint 1 and the
bus-reset cause pending. -/
theorem C24_endpoint_handling_precedes_reset_handling_witness :
    (Usbd.USBD_ReadIntFlag Usbd.exStateBoth Usbd.USBD_INT_CTR = true ∧
      Usbd.exStateBoth.usbGlobal.intRST = true ∧
      Otg.exStateBoth.hw.gint Otg.GInt.USBRST = true) ∧
    ∃ u, Otg.USBD_OTG_IsrHandler 2 Otg.exStateBoth = some u ∧
      (Otg.USBD_DataInStageCallback (Otg.USB_OTG_D_ClearInEpIntStatus
        (Otg.USB_OTG_D_DisableInEpEmptyInterrupt Otg.exStateBoth 1) 1 Otg.InFlag.TSFCMP)
        1).hw.gint Otg.GInt.USBRST = true ∧
      Otg.resetsHandled (Otg.USBD_DataInStageCallback (Otg.USB_OTG_D_ClearInEpIntStatus
        (Otg.USB_OTG_D_DisableInEpEmptyInterrupt Otg.exStateBoth 1) 1 Otg.InFlag.TSFCMP)
        1).trace = Otg.resetsHandled Otg.exStateBoth.trace ∧
      Otg.NoTransfer (Otg.USBD_DataInStageCallback (Otg.USB_OTG_D_ClearInEpIntStatus
        (Otg.USB_OTG_D_DisableInEpEmptyInterrupt Otg.exStateBoth 1) 1 Otg.InFlag.TSFCMP) 1) u ∧
      Otg.resetsHandled u.trace = Otg.resetsHandled Otg.exStateBoth.trace + 1 :=
  ⟨⟨by decide, by decide, by decide⟩,
   (C24_endpoint_handling_precedes_reset_handling Usbd.exStateBoth Otg.exStateBoth
      (Otg.USBD_DataInStageCallback (Otg.USB_OTG_D_ClearInEpIntStatus
        (Otg.USB_OTG_D_DisableInEpEmptyInterrupt Otg.exStateBoth 1) 1 Otg.InFlag.TSFCMP) 1)
      2 2 (by decide) (by decide) (fun h => absurd h (by decide))
      (by decide) (by decide) (by decide) (by decide) rfl).2⟩

namespace Otg

theorem InOk_of_inLens (s u : State) (h : inLens u = inLens s) (hs : InOk s) : InOk u := by
  intro i
  have h1 : (u.usbdh.epIN i).bufLen = (s.usbdh.epIN i).bufLen :=
    congrArg (fun f => (f i).1) h
  have h2 : (u.usbdh.epIN i).bufCount = (s.usbdh.epIN i).bufCount :=
    congrArg (fun f => (f i).2) h
  rw [h1, h2]; exact hs i

@[simp] theorem inLens_logEv (s : State) (e : Ev) : inLens (logEv s e) = inLens s := rfl

@[simp] theorem inLens_updIn (s : State) (n : Nat) (f : InEpRegs → InEpRegs) :
    inLens (updIn s n f) = inLens s := rfl

@[simp] theorem inLens_updOut (s : State) (n : Nat) (f : OutEpRegs → OutEpRegs) :
    inLens (updOut s n f) = inLens s := rfl

@[simp] theorem inLens_setEp_out (s : State) (i : Nat) (e : USB_OTG_ENDPOINT_INFO_T) :
    inLens (setEp s (EpRef.epOUT i) e) = inLens s := rfl

theorem inLens_setEp_in (s : State) (i : Nat) (e : USB_OTG_ENDPOINT_INFO_T)
    (h1 : e.bufLen = (s.usbdh.epIN i).bufLen) (h2 : e.bufCount = (s.usbdh.epIN i).bufCount) :
    inLens (setEp s (EpRef.epIN i) e) = inLens s := by
  funext j
  simp only [inLens, setEp, setSlot]
  split_ifs with h
  · subst h; rw [h1, h2]
  · rfl

@[simp] theorem inLens_EP0_OutHandler (s : State) (d p : Nat) :
    inLens (USBD_EP0_OutHandler s d p) = inLens s := by
  unfold inLens; simp

@[simp] theorem inLens_enableInEp (s : State) (n : Nat) :
    inLens (enableInEp s n) = inLens s := rfl

@[simp] theorem inLens_enableOutEp (s : State) (n : Nat) :
    inLens (enableOutEp s n) = inLens s := rfl

@[simp] theorem inLens_isoParityIn (s : State) (n : Nat) :
    inLens (isoParityIn s n) = inLens s := by
  unfold isoParityIn; split_ifs <;> rfl

@[simp] theorem inLens_isoParityOut (s : State) (n : Nat) :
    inLens (isoParityOut s n) = inLens s := by
  unfold isoParityOut; split_ifs <;> rfl

@[simp] theorem inLens_WriteFifoPacket (s : State) (a b c : Nat) :
    inLens (USB_OTG_FIFO_WriteFifoPacket s a b c) = inLens s := rfl

@[simp] theorem inLens_EnableInEpEmptyInterrupt (s : State) (n : Nat) :
    inLens (USB_OTG_D_EnableInEpEmptyInterrupt s n) = inLens s := rfl

@[simp] theorem inLens_DisableInEpEmptyInterrupt (s : State) (n : Nat) :
    inLens (USB_OTG_D_DisableInEpEmptyInterrupt s n) = inLens s := rfl

@[simp] theorem inLens_XferStart (s : State) (r : EpRef) (dma : Nat) :
    inLens (USBD_EP_XferStart s r dma) = inLens s := by
  unfold USBD_EP_XferStart
  simp [apply_ite inLens]

end Otg

namespace Otg

/-- `USBD_EP0_XferStart` on an OUT descriptor writes no IN descriptor. -/
theorem inLens_EP0_XferStart_out (s : State) (i dma : Nat)
    (hd : (s.usbdh.epOUT i).epDir = EP_DIR_OUT) :
    inLens (USBD_EP0_XferStart s (EpRef.epOUT i) dma) = inLens s := by
  unfold USBD_EP0_XferStart
  simp only [getEp, hd, if_true]
  simp [apply_ite inLens]

theorem inLens_Receive (s : State) (a buf L : Nat) :
    inLens (USBD_EP_Receive s a buf L) = inLens s := by
  unfold USBD_EP_Receive
  simp only []
  split_ifs
  · rw [inLens_XferStart]; rfl
  · rw [inLens_EP0_XferStart_out _ _ _ (by simp [setEp, setSlot])]; rfl

@[simp] theorem inLens_RxFifoNoEmptyIsrHandler (s : State) :
    inLens (USBD_RxFifoNoEmptyIsrHandler s) = inLens s := by
  have hpop : ∀ t : State, inLens (USB_OTG_PopRxFifoStatus t).2 = inLens t := by
    intro t; unfold USB_OTG_PopRxFifoStatus; split <;> rfl
  unfold USBD_RxFifoNoEmptyIsrHandler
  simp only [USB_OTG_EnableGlobalInterrupt, inLens_logEv]
  show inLens (if _ then _ else _) = _
  simp only [apply_ite inLens, inLens_setEp_out, USB_OTG_FIFO_ReadRxFifoPacket, inLens_logEv,
    hpop, ite_self]
  rfl

@[simp] theorem inLens_ClearOutEpIntStatus (s : State) (n : Nat) (f : OutFlag) :
    inLens (USB_OTG_D_ClearOutEpIntStatus s n f) = inLens s := rfl

@[simp] theorem inLens_ClearInEpIntStatus (s : State) (n : Nat) (f : InFlag) :
    inLens (USB_OTG_D_ClearInEpIntStatus s n f) = inLens s := rfl

@[simp] theorem inLens_clearOutIfSet (s : State) (n : Nat) (f : OutFlag) :
    inLens (clearOutIfSet s n f) = inLens s := by
  unfold clearOutIfSet; split_ifs <;> rfl

@[simp] theorem inLens_clearInIfSet (s : State) (n : Nat) (f : InFlag) :
    inLens (clearInIfSet s n f) = inLens s := by
  unfold clearInIfSet; split_ifs <;> rfl

@[simp] theorem inLens_DataOutStageCallback (s : State) (n : Nat) :
    inLens (USBD_DataOutStageCallback s n) = inLens s := rfl

@[simp] theorem inLens_DataInStageCallback (s : State) (n : Nat) :
    inLens (USBD_DataInStageCallback s n) = inLens s := rfl

@[simp] theorem inLens_SetupStageCallback (s : State) :
    inLens (USBD_SetupStageCallback s) = inLens s := rfl

@[simp] theorem inLens_OutXferHandler (s : State) (n : Nat) :
    inLens (USBD_EP_OutXferHandler s n) = inLens s := by
  unfold USBD_EP_OutXferHandler
  simp [apply_ite inLens]

@[simp] theorem inLens_outEpBody (s : State) (n : Nat) : inLens (outEpBody s n) = inLens s := by
  unfold outEpBody USBD_EP_OutSetupHandler
  simp [apply_ite inLens]

theorem inLens_outEpLoop (bits : Nat) : ∀ (k e : Nat) (s : State),
    inLens (outEpLoop bits k e s) = inLens s := by
  intro k
  induction k with
  | zero => intro e s; rfl
  | succ k ih =>
    intro e s
    simp only [outEpLoop]
    split_ifs
    · rfl
    · rw [ih, inLens_outEpBody]
    · rw [ih]

@[simp] theorem inLens_OutEndpointIsrHandler (s : State) :
    inLens (USBD_OutEndpointIsrHandler s) = inLens s := inLens_outEpLoop _ _ _ _

@[simp] theorem inLens_setEp_in_buffer (s : State) (i b : Nat) :
    inLens (setEp s (EpRef.epIN i) { (s.usbdh.epIN i) with buffer := b }) = inLens s :=
  inLens_setEp_in _ _ _ rfl rfl

@[simp] theorem inLens_inEpXferComplete (s : State) (n : Nat) :
    inLens (inEpXferComplete s n) = inLens s := by
  unfold inEpXferComplete
  simp [apply_ite inLens]

@[simp] theorem inLens_inEpStatus (s : State) (n : Nat) :
    inLens (inEpStatus s n) = inLens s := by
  unfold inEpStatus
  simp [apply_ite inLens]

end Otg

namespace Otg

/-- One pass of the TxFIFO write loop keeps `bufCount ≤ bufLen` in every IN descriptor. -/
theorem InOk_pushBody (s : State) (n : Nat) (hs : InOk s)
    (hlt : (s.usbdh.epIN n).bufCount < (s.usbdh.epIN n).bufLen) : InOk (pushBody s n).1 := by
  obtain ⟨_, hb⟩ := hs n
  have hsub := sub32_of_le _ _ hb (Nat.le_of_lt hlt)
  intro i
  simp only [pushBody, setEp, setSlot, USB_OTG_FIFO_WriteFifoPacket, logEv, hsub]
  by_cases hi : i = n
  · subst hi
    simp only [if_true]
    refine ⟨?_, hb⟩
    split_ifs with hm
    · rw [add32_of_lt _ _ (by omega)]; omega
    · rw [add32_of_lt _ _ (by omega)]; omega
  · simp only [hi, if_false]
    exact hs i

theorem InOk_pushLoop (fuel : Nat) : ∀ (s u : State) (n lt : Nat),
    InOk s → pushLoop fuel s n lt = some u → InOk u := by
  induction fuel with
  | zero =>
    intro s u n lt hs h
    simp only [pushLoop] at h
    split_ifs at h
    injection h with h; subst h; exact hs
  | succ f ih =>
    intro s u n lt hs h
    simp only [pushLoop] at h
    split_ifs at h with ht
    · exact ih _ _ _ _ (InOk_pushBody (readINEPTXFSA s n).2 n hs ht.2.1) h
    · injection h with h; subst h; exact hs

theorem InOk_Push (fuel : Nat) (s u : State) (n : Nat) (hs : InOk s)
    (h : USBD_EP_PushDataEmptyTxFifo fuel s n = some u) : InOk u := by
  unfold USBD_EP_PushDataEmptyTxFifo at h
  dsimp only at h
  by_cases hc : (s.usbdh.epIN n).bufCount > (s.usbdh.epIN n).bufLen
  · rw [if_pos hc] at h
    injection h with h; subst h; exact hs
  · rw [if_neg hc] at h
    split at h
    · simp at h
    · rename_i v hv
      have hq := InOk_pushLoop _ _ _ _ _ hs hv
      split_ifs at h <;> injection h with h <;> subst h
      · exact InOk_of_inLens _ _ (inLens_DisableInEpEmptyInterrupt _ _) hq
      · exact hq

theorem InOk_inEpBody (fuel : Nat) (s u : State) (n : Nat) (hs : InOk s)
    (h : inEpBody fuel s n = some u) : InOk u := by
  have h0 : InOk (inEpStatus s n) := InOk_of_inLens _ _ (inLens_inEpStatus s n) hs
  unfold inEpBody at h
  split_ifs at h
  · exact InOk_Push _ _ _ _ h0 h
  · injection h with h; subst h; exact h0

theorem InOk_inEpLoop (fuel bits : Nat) : ∀ (k e : Nat) (s u : State),
    InOk s → inEpLoop fuel bits k e s = some u → InOk u := by
  intro k
  induction k with
  | zero =>
    intro e s u hs h
    simp only [inEpLoop] at h
    injection h with h; subst h; exact hs
  | succ k ih =>
    intro e s u hs h
    simp only [inEpLoop] at h
    split_ifs at h
    · injection h with h; subst h; exact hs
    · split at h
      · simp at h
      · rename_i v hv
        exact ih _ _ _ (InOk_inEpBody _ _ _ _ hs hv) h
    · exact ih _ _ _ hs h

/-- `USBD_EP_Transfer` of a length in the range of a `uint32_t` keeps (and, for the addressed
descriptor, establishes) `bufCount ≤ bufLen`. -/
theorem InOk_Transfer (s : State) (a buf L : Nat) (hL : L < 2 ^ 32) (hs : InOk s) :
    InOk (USBD_EP_Transfer s a buf L) := by
  have h1 : InOk (setEp s (EpRef.epIN (a &&& 0x0F))
      { (s.usbdh.epIN (a &&& 0x0F)) with
          epNum := a &&& 0x0F,
          epDir := EP_DIR_IN,
          buffer := buf,
          bufCount := 0,
          bufLen := L }) := by
    intro i
    simp only [setEp, setSlot]
    split_ifs
    · exact ⟨Nat.zero_le _, hL⟩
    · exact hs i
  unfold USBD_EP_Transfer
  simp only []
  split_ifs
  · exact InOk_of_inLens _ _ (inLens_XferStart _ _ _) h1
  · intro i
    unfold USBD_EP0_XferStart
    simp only [getEp, setEp, setSlot, if_true, EP_DIR_IN, EP_DIR_OUT, one_ne_zero, if_false]
    by_cases hi : i = a &&& 0x0F
    · subst hi
      split_ifs <;>
        simp [enableInEp, USB_OTG_D_EnableInEpEmptyInterrupt, logEv, updIn, setSlot] <;>
        omega
    · have := hs i
      split_ifs <;>
        simp [enableInEp, USB_OTG_D_EnableInEpEmptyInterrupt, logEv, updIn, setSlot, hi] <;>
        exact this

end Otg

namespace Otg

/-- Every state reached keeps `bufCount ≤ bufLen` in every IN descriptor. -/
theorem InOk_InReach (c s : State) (hc : InOk c) (hr : InReach c s) : InOk s := by
  induction hr with
  | start => exact hc
  | transfer s a buf L hL _ ih => exact InOk_Transfer s a buf L hL ih
  | receive s a buf L _ ih => exact InOk_of_inLens _ _ (inLens_Receive s a buf L) ih
  | xferStart s r dma _ ih => exact InOk_of_inLens _ _ (inLens_XferStart s r dma) ih
  | rxFifo s _ ih => exact InOk_of_inLens _ _ (inLens_RxFifoNoEmptyIsrHandler s) ih
  | outEp s _ ih => exact InOk_of_inLens _ _ (inLens_OutEndpointIsrHandler s) ih
  | inEp s u fuel _ h ih => exact InOk_inEpLoop _ _ _ _ _ _ ih h
  | hardware s h _ ih => exact ih

end Otg

/-- C31: USB_DEVICE build, one `USBD_IsrHandler` pass entered with no correct-transfer event
queued and the bus-reset, wakeup, suspend and start-of-frame causes not pending, so that only
the packet-memory-overflow, transfer-error and expected-start-of-frame causes can be pending.
The pass returns; the registers afterwards are those on entry with these three flags clear;
the trace grows by one `USBD_ClearIntFlag` entry for each of the three that was pending, in
the order overflow, error, expected start of frame, and by no callback entry; the handle (both
endpoint tables, the pending address, the SETUP buffer) and the memory are unchanged. -/
theorem C31_error_causes_only_clear_their_flags (s : Usbd.State) (fuel : Nat)
    (hctr : s.usbGlobal.ctrPending = [])
    (hrst : s.usbGlobal.intRST = false) (hwkup : s.usbGlobal.intWKUP = false)
    (hsus : s.usbGlobal.intSUS = false) (hsof : s.usbGlobal.intSOF = false) :
    ∃ u, Usbd.USBD_IsrHandler fuel s = some u ∧
      u.usbGlobal = { s.usbGlobal with intPMAOU := false, intERR := false, intESOF := false } ∧
      u.trace = s.trace ++
        ((if s.usbGlobal.intPMAOU then [Usbd.Ev.ClearIntFlag Usbd.USBD_INT_PMAOU] else []) ++
         (if s.usbGlobal.intERR then [Usbd.Ev.ClearIntFlag Usbd.USBD_INT_ERR] else []) ++
         (if s.usbGlobal.intESOF then [Usbd.Ev.ClearIntFlag Usbd.USBD_INT_ESOF] else [])) ∧
      u.usbdh = s.usbdh ∧ u.usbdh.epIN = s.usbdh.epIN ∧ u.usbdh.epOUT = s.usbdh.epOUT ∧
      u.usbdh.address = s.usbdh.address ∧ u.usbdh.setup = s.usbdh.setup ∧ u.mem = s.mem := by
  obtain ⟨dh, g, mem, tr⟩ := s
  obtain ⟨EP, pma, ADDR, USBDEN, ctrPending, intRST, intPMAOU, intERR, intWKUP, intSUS, intSOF,
    intESOF, FORRST, FORSUS, LPWREN, PWRDOWN, CTRL, BUFFTB, rstRaise, rstPolls⟩ := g
  simp only at hctr hrst hwkup hsus hsof
  subst hctr hrst hwkup hsus hsof
  cases intPMAOU <;> cases intERR <;> cases intESOF <;>
    simp [Usbd.USBD_IsrHandler, Usbd.isrBeforeSuspend, Usbd.isrAfterSuspend,
      Usbd.USBD_ReadIntFlag, Usbd.USBD_ClearIntFlag, Usbd.logEv, Usbd.USBD_INT_CTR,
      Usbd.USBD_INT_PMAOU, Usbd.USBD_INT_ERR, Usbd.USBD_INT_WKUP, Usbd.USBD_INT_SUS,
      Usbd.USBD_INT_RST, Usbd.USBD_INT_SOF, Usbd.USBD_INT_ESOF]

/-- Witness for C31: the pass on the example state with the overflow and expected
start-of-frame causes pending. -/
theorem C31_error_causes_only_clear_their_flags_witness :
    ∃ u, Usbd.USBD_IsrHandler 0
        { Usbd.exState 64 with
          usbGlobal := { Usbd.hwZero with intPMAOU := true, intESOF := true } } = some u ∧
      u.usbGlobal.intPMAOU = false ∧ u.usbGlobal.intESOF = false ∧
      u.trace = [Usbd.Ev.ClearIntFlag Usbd.USBD_INT_PMAOU,
                 Usbd.Ev.ClearIntFlag Usbd.USBD_INT_ESOF] := by
  obtain ⟨u, h1, h2, h3, _⟩ := C31_error_causes_only_clear_their_flags
    { Usbd.exState 64 with
      usbGlobal := { Usbd.hwZero with intPMAOU := true, intESOF := true } } 0
    rfl rfl rfl rfl rfl
  exact ⟨u, h1, by rw [h2], by rw [h2], by rw [h3]; rfl⟩

namespace Usbd

theorem epRegRestore_epRegReset (r : EpReg) : epRegRestore (epRegReset r) r = r := by
  cases r; rfl

/-- What `USBD_SuspendHandler` does once the controller raises the reset flag. -/
theorem SuspendHandler_facts (fuel k : Nat) (s : State)
    (h : s.usbGlobal.intRST = true ∨ s.usbGlobal.rstRaise (s.usbGlobal.rstPolls + k) = true)
    (hf : k + 2 ≤ fuel) :
    ∃ u, USBD_SuspendHandler fuel s = some u ∧
      (∀ i, i < 8 → u.usbGlobal.EP i = s.usbGlobal.EP i) ∧
      u.usbGlobal.FORSUS = true ∧ u.usbGlobal.LPWREN = true ∧
      u.usbGlobal.intRST = false ∧ u.usbGlobal.intSUS = false ∧
      u.usbdh = s.usbdh ∧
      u.trace = s.trace ++ [Ev.ClearIntFlag USBD_INT_RST, Ev.ClearIntFlag USBD_INT_SUS] := by
  obtain ⟨w, hw, _, w2, w3, _, _, w6, _⟩ :=
    waitRST_terminates k fuel (USBD_ResetForceReset (USBD_SetForceReset s)) h hf
  unfold USBD_SuspendHandler
  simp only [hw]
  refine ⟨_, rfl, ?_, ?_, ?_, ?_, ?_, ?_, ?_⟩
  · intro i hi
    simp [USBD_SetLowerPowerMode, USBD_ClearIntFlag, USBD_SetForceSuspend, USBD_INT_RST,
      USBD_INT_PMAOU, USBD_INT_ERR, USBD_INT_WKUP, USBD_INT_SUS, logEv, w6, hi,
      USBD_ResetForceReset, USBD_SetForceReset, epRegRestore_epRegReset]
  · simp [USBD_SetLowerPowerMode, USBD_ClearIntFlag, USBD_SetForceSuspend, USBD_INT_RST,
      USBD_INT_PMAOU, USBD_INT_ERR, USBD_INT_WKUP, USBD_INT_SUS, logEv]
  · simp [USBD_SetLowerPowerMode]
  · simp [USBD_SetLowerPowerMode, USBD_ClearIntFlag, USBD_SetForceSuspend, USBD_INT_RST,
      USBD_INT_PMAOU, USBD_INT_ERR, USBD_INT_WKUP, USBD_INT_SUS, logEv]
  · simp [USBD_SetLowerPowerMode, USBD_ClearIntFlag, USBD_SetForceSuspend, USBD_INT_RST,
      USBD_INT_PMAOU, USBD_INT_ERR, USBD_INT_WKUP, USBD_INT_SUS, logEv]
  · simp [USBD_SetLowerPowerMode, USBD_ClearIntFlag, USBD_SetForceSuspend, logEv, w2,
      USBD_ResetForceReset, USBD_SetForceReset]
  · simp [USBD_SetLowerPowerMode, USBD_ClearIntFlag, USBD_SetForceSuspend, logEv, w3,
      USBD_ResetForceReset, USBD_SetForceReset]

theorem susView_ClearIntFlag (s : State) (f : Nat) (h : f ≠ USBD_INT_SUS) :
    susView (USBD_ClearIntFlag s f) = susView s := by
  unfold USBD_ClearIntFlag susView
  simp only [logEv, h, if_false]
  split_ifs <;> simp [List.count_append]

theorem lowPowerView_ClearIntFlag (s : State) (f : Nat) (h : f ≠ USBD_INT_RST) :
    lowPowerView (USBD_ClearIntFlag s f) = lowPowerView s := by
  unfold USBD_ClearIntFlag lowPowerView
  simp only [logEv, h, if_false]
  split_ifs <;> rfl

/-- The first part of a dispatch pass touches neither the suspend flag, nor the reset-poll
oracle, nor the number of `USBD_SuspendCallback` invocations. -/
theorem susView_isrBeforeSuspend (s : State) : susView (isrBeforeSuspend s) = susView s := by
  have hv : isrView (if USBD_ReadIntFlag s USBD_INT_CTR = true then USBD_EP_CTRHandler s else s)
      = isrView s := by
    split_ifs
    · exact isrView_CTRHandler s
    · rfl
  have hc : ∀ l : List Ev, (l.filter (fun e => !isEndpointEv e)).count Ev.SuspendCallback =
      l.count Ev.SuspendCallback := fun l => List.count_filter (by rfl)
  have h2 : _ = s.usbGlobal.intSUS := congrArg IsrView.intSUS hv
  have h3 : _ = s.usbGlobal.rstRaise := congrArg IsrView.rstRaise hv
  have h4 : _ = s.usbGlobal.rstPolls := congrArg IsrView.rstPolls hv
  have h5 : _ = s.trace.filter (fun e => !isEndpointEv e) := congrArg IsrView.events hv
  have e1 : susView (if USBD_ReadIntFlag s USBD_INT_CTR = true then USBD_EP_CTRHandler s else s)
      = susView s := by
    simp only [isrView] at h2 h3 h4 h5
    unfold susView
    rw [h2, h3, h4, ← hc, h5, hc]
  unfold isrBeforeSuspend
  generalize (if USBD_ReadIntFlag s USBD_INT_CTR = true then USBD_EP_CTRHandler s else s) = s1
    at e1 ⊢
  rw [← e1]
  have r1 : ∀ t : State, susView (USBD_SetDevAddress (USBD_EnumDoneCallback
      (USBD_ClearIntFlag t USBD_INT_RST)) 0) = susView t := by
    intro t
    rw [← susView_ClearIntFlag t USBD_INT_RST (by decide)]
    simp [susView, USBD_SetDevAddress, USBD_EnumDoneCallback, USBD_SetDeviceAddr, USBD_Enable,
      logEv, List.count_append]
  have r2 : ∀ t : State, susView (USBD_ClearIntFlag (USBD_ResumeCallback
      (USBD_ResetForceSuspend (USBD_ResetLowerPowerMode t))) USBD_INT_WKUP) = susView t := by
    intro t
    rw [susView_ClearIntFlag _ USBD_INT_WKUP (by decide)]
    simp [susView, USBD_ResumeCallback, USBD_ResetForceSuspend, USBD_ResetLowerPowerMode,
      logEv, List.count_append]
  simp only [apply_ite susView, r1, r2, susView_ClearIntFlag _ USBD_INT_PMAOU (by decide),
    susView_ClearIntFlag _ USBD_INT_ERR (by decide), ite_self]

/-- The last part of a dispatch pass touches neither the suspend flag, nor the reset-poll
oracle, nor the number of `USBD_SuspendCallback` invocations. -/
theorem susView_isrAfterSuspend (s : State) : susView (isrAfterSuspend s) = susView s := by
  unfold isrAfterSuspend
  have r1 : ∀ t : State, susView (USBD_SOFCallback (USBD_ClearIntFlag t USBD_INT_SOF)) =
      susView t := by
    intro t
    rw [← susView_ClearIntFlag t USBD_INT_SOF (by decide)]
    simp [susView, USBD_SOFCallback, logEv, List.count_append]
  simp only [apply_ite susView, r1, susView_ClearIntFlag _ USBD_INT_ESOF (by decide), ite_self]

/-- The last part of a dispatch pass touches neither the endpoint registers, nor the
force-suspend and low-power bits, nor the reset flag, nor the handle. -/
theorem lowPowerView_isrAfterSuspend (s : State) :
    lowPowerView (isrAfterSuspend s) = lowPowerView s := by
  unfold isrAfterSuspend
  have r1 : ∀ t : State, lowPowerView (USBD_SOFCallback (USBD_ClearIntFlag t USBD_INT_SOF)) =
      lowPowerView t := by
    intro t
    rw [← lowPowerView_ClearIntFlag t USBD_INT_SOF (by decide)]
    rfl
  simp only [apply_ite lowPowerView, r1, lowPowerView_ClearIntFlag _ USBD_INT_ESOF (by decide),
    ite_self]

end Usbd

/-- C32: USB_DEVICE build.  If the controller raises the reset flag at one of the polls the
wait loop is given after the forced reset pulse, `USBD_SuspendHandler` returns; each of the
endpoint registers `EP[0..7]` then holds the value it held on entry, the force-suspend and
low-power bits are set, the reset and suspend flags are clear, the handle (every endpoint
descriptor included) is unchanged, and the handler itself logs the two flag clears and no
callback.  A `USBD_IsrHandler` pass entered with the suspend cause pending returns under the
same condition with `USBD_SuspendCallback` fired exactly once, the two bits set and the two
flags clear. -/
theorem C32_suspend_handler_keeps_endpoint_registers (s : Usbd.State) (fuel k : Nat)
    (hraise : s.usbGlobal.rstRaise (s.usbGlobal.rstPolls + k) = true) (hf : k + 2 ≤ fuel) :
    (∃ u, Usbd.USBD_SuspendHandler fuel s = some u ∧
      (∀ i, i < 8 → u.usbGlobal.EP i = s.usbGlobal.EP i) ∧
      u.usbGlobal.FORSUS = true ∧ u.usbGlobal.LPWREN = true ∧
      u.usbGlobal.intRST = false ∧ u.usbGlobal.intSUS = false ∧
      u.usbdh = s.usbdh ∧
      u.trace = s.trace ++ [Usbd.Ev.ClearIntFlag Usbd.USBD_INT_RST,
                            Usbd.Ev.ClearIntFlag Usbd.USBD_INT_SUS]) ∧
    (s.usbGlobal.intSUS = true →
      ∃ v, Usbd.USBD_IsrHandler fuel s = some v ∧
        v.trace.count Usbd.Ev.SuspendCallback = s.trace.count Usbd.Ev.SuspendCallback + 1 ∧
        v.usbGlobal.FORSUS = true ∧ v.usbGlobal.LPWREN = true ∧
        v.usbGlobal.intRST = false ∧ v.usbGlobal.intSUS = false) := by
  refine ⟨Usbd.SuspendHandler_facts fuel k s (Or.inr hraise) hf, fun hsus => ?_⟩
  have hb := Usbd.susView_isrBeforeSuspend s
  have b1 : (Usbd.isrBeforeSuspend s).usbGlobal.intSUS = s.usbGlobal.intSUS :=
    congrArg (fun v => v.1) hb
  have b2 : (Usbd.isrBeforeSuspend s).usbGlobal.rstRaise = s.usbGlobal.rstRaise :=
    congrArg (fun v => v.2.1) hb
  have b3 : (Usbd.isrBeforeSuspend s).usbGlobal.rstPolls = s.usbGlobal.rstPolls :=
    congrArg (fun v => v.2.2.1) hb
  have b4 : (Usbd.isrBeforeSuspend s).trace.count Usbd.Ev.SuspendCallback =
      s.trace.count Usbd.Ev.SuspendCallback := congrArg (fun v => v.2.2.2) hb
  obtain ⟨u, hu, _, u2, u3, u4, u5, _, u7⟩ :=
    Usbd.SuspendHandler_facts fuel k (Usbd.isrBeforeSuspend s)
      (Or.inr (by rw [b2, b3]; exact hraise)) hf
  have ha := Usbd.susView_isrAfterSuspend (Usbd.USBD_SuspendCallback u)
  have hl := Usbd.lowPowerView_isrAfterSuspend (Usbd.USBD_SuspendCallback u)
  have a1 : (Usbd.isrAfterSuspend (Usbd.USBD_SuspendCallback u)).usbGlobal.intSUS =
      u.usbGlobal.intSUS := congrArg (fun v => v.1) ha
  have a4 : (Usbd.isrAfterSuspend (Usbd.USBD_SuspendCallback u)).trace.count
      Usbd.Ev.SuspendCallback = (Usbd.USBD_SuspendCallback u).trace.count
      Usbd.Ev.SuspendCallback := congrArg (fun v => v.2.2.2) ha
  have l2 : (Usbd.isrAfterSuspend (Usbd.USBD_SuspendCallback u)).usbGlobal.FORSUS =
      u.usbGlobal.FORSUS := congrArg (fun v => v.2.1) hl
  have l3 : (Usbd.isrAfterSuspend (Usbd.USBD_SuspendCallback u)).usbGlobal.LPWREN =
      u.usbGlobal.LPWREN := congrArg (fun v => v.2.2.1) hl
  have l4 : (Usbd.isrAfterSuspend (Usbd.USBD_SuspendCallback u)).usbGlobal.intRST =
      u.usbGlobal.intRST := congrArg (fun v => v.2.2.2.1) hl
  refine ⟨Usbd.isrAfterSuspend (Usbd.USBD_SuspendCallback u), ?_, ?_, ?_, ?_, ?_, ?_⟩
  · unfold Usbd.USBD_IsrHandler
    simp only [Usbd.ReadIntFlag_SUS, b1, hsus, if_true, hu]
  · rw [a4]
    simp only [Usbd.USBD_SuspendCallback, Usbd.logEv, u7, List.count_append, b4]
    simp
  · rw [l2]; exact u2
  · rw [l3]; exact u3
  · rw [l4]; exact u4
  · rw [a1]; exact u5

/-- C33, counterexample: with a low-speed enumeration reported, `USBD_EnumDoneIsrHandler`
stores the value 0xFF, which is neither `USB_SPEED_HSFSLS` nor `USB_SPEED_FSLS`. -/
theorem C33_low_speed_enumeration_stores_error_marker :
    (Otg.USBD_EnumDoneIsrHandler Otg.exStateLowSpeed).usbdh.usbCfg.speed = 0xFF ∧
    (Otg.USBD_EnumDoneIsrHandler Otg.exStateLowSpeed).usbdh.usbCfg.speed ≠
      Otg.USB_SPEED_HSFSLS ∧
    (Otg.USBD_EnumDoneIsrHandler Otg.exStateLowSpeed).usbdh.usbCfg.speed ≠
      Otg.USB_SPEED_FSLS := by
  decide

/-- C33, amended: `USBD_EnumDoneIsrHandler` stores `USB_SPEED_HSFSLS` for a high-speed
enumeration, `USB_SPEED_FSLS` for a full-speed one and for a high-speed PHY in full-speed, and
the value 0xFF for every other reading of the enumerated speed, a low-speed enumeration
included; `USBD_EnumDoneCallback` fires exactly once in every case. -/
theorem C33_enum_done_latches_speed_or_error_marker (s : Otg.State) :
    (Otg.USBD_EnumDoneIsrHandler s).usbdh.usbCfg.speed =
      (match s.hw.enumSpeed with
       | Otg.EnumSpeed.HS => Otg.USB_SPEED_HSFSLS
       | Otg.EnumSpeed.HS_IN_FS => Otg.USB_SPEED_FSLS
       | Otg.EnumSpeed.FS => Otg.USB_SPEED_FSLS
       | Otg.EnumSpeed.other => 0xFF) ∧
    (Otg.USBD_EnumDoneIsrHandler s).trace.count Otg.Ev.EnumDoneCallback =
      s.trace.count Otg.Ev.EnumDoneCallback + 1 := by
  constructor
  · cases h : s.hw.enumSpeed <;>
      simp [Otg.USBD_EnumDoneIsrHandler, Otg.USB_OTG_ClearGlobalIntFlag,
        Otg.USBD_EnumDoneCallback, Otg.logEv, Otg.updIn, h]
  · simp [Otg.USBD_EnumDoneIsrHandler, Otg.USB_OTG_ClearGlobalIntFlag,
      Otg.USBD_EnumDoneCallback, Otg.logEv, Otg.updIn, List.count_append]

namespace Otg

/-- The TxFIFO write loop, reading by reading: if the word count the loop test compares
against covers the next packet, then every packet written fits the free space read by the
test just before it, and no packet is longer than the one before. -/
theorem pushLoop_space (fuel : Nat) : ∀ (s u : State) (n lt : Nat),
    (s.usbdh.epIN n).mps < 2 ^ 16 → (s.usbdh.epIN n).bufLen < 2 ^ 32 →
    (s.usbdh.epIN n).bufCount ≤ (s.usbdh.epIN n).bufLen →
    (min ((s.usbdh.epIN n).bufLen - (s.usbdh.epIN n).bufCount) (s.usbdh.epIN n).mps + 3) / 4
      ≤ lt →
    pushLoop fuel s n lt = some u →
    ∃ pk : List Nat,
      fifoPackets n u.trace = fifoPackets n s.trace ++ pk ∧
      (∀ p ∈ pk, p ≤ min ((s.usbdh.epIN n).bufLen - (s.usbdh.epIN n).bufCount)
        (s.usbdh.epIN n).mps) ∧
      pk.Pairwise (fun a b => b ≤ a) ∧
      ∀ (i : Nat) (hi : i < pk.length),
        (pk.get ⟨i, hi⟩ + 3) / 4 ≤ s.hw.INEPTXFSA n (s.hw.fsaReads n + i) := by
  induction fuel with
  | zero =>
    intro s u n lt _ _ _ _ h
    simp only [pushLoop] at h
    split_ifs at h
    injection h with h; subst h
    exact ⟨[], by simp [readINEPTXFSA], by simp, List.Pairwise.nil, by simp⟩
  | succ f ih =>
    intro s u n lt hm16 hb hc hlen h
    simp only [pushLoop] at h
    split_ifs at h with ht
    · obtain ⟨hav, hlt, _⟩ := ht
      have hm16' : (((readINEPTXFSA s n).2).usbdh.epIN n).mps < 2 ^ 16 := hm16
      have hb' : (((readINEPTXFSA s n).2).usbdh.epIN n).bufLen < 2 ^ 32 := hb
      obtain ⟨b1, b2, b3, b4, b5⟩ := pushBody_facts (readINEPTXFSA s n).2 n hm16' hb' hlt
      have e1 : ((readINEPTXFSA s n).2).usbdh = s.usbdh := rfl
      have e2 : ((readINEPTXFSA s n).2).trace = s.trace := rfl
      have e3 : ((readINEPTXFSA s n).2).hw.fsaReads n = s.hw.fsaReads n + 1 := by
        simp [readINEPTXFSA, setSlot]
      have e4 : ((readINEPTXFSA s n).2).hw.INEPTXFSA = s.hw.INEPTXFSA := rfl
      have e5 : (readINEPTXFSA s n).1 = s.hw.INEPTXFSA n (s.hw.fsaReads n) := rfl
      have e6 : (pushBody (readINEPTXFSA s n).2 n).2 =
          (min ((s.usbdh.epIN n).bufLen - (s.usbdh.epIN n).bufCount) (s.usbdh.epIN n).mps + 3)
            / 4 := by
        have hsub := sub32_of_le _ _ hb (Nat.le_of_lt hlt)
        simp only [e1] at hsub
        have hle1 : min ((s.usbdh.epIN n).bufLen - (s.usbdh.epIN n).bufCount)
            (s.usbdh.epIN n).mps ≤ (s.usbdh.epIN n).mps := Nat.min_le_right _ _
        simp only [pushBody, e1, hsub]
        rw [show (if (s.usbdh.epIN n).bufLen - (s.usbdh.epIN n).bufCount > (s.usbdh.epIN n).mps
            then (s.usbdh.epIN n).mps else (s.usbdh.epIN n).bufLen - (s.usbdh.epIN n).bufCount)
            = min ((s.usbdh.epIN n).bufLen - (s.usbdh.epIN n).bufCount) (s.usbdh.epIN n).mps
          from by
            split_ifs with h
            · exact (Nat.min_eq_right (Nat.le_of_lt h)).symm
            · exact (Nat.min_eq_left (Nat.le_of_not_lt h)).symm]
        rw [add32_of_lt _ _ (by omega)]
      rw [e1] at b2 b3 b4 hlt
      rw [e1, e2] at b1
      rw [e5] at hav
      have hle2 : min ((s.usbdh.epIN n).bufLen - (s.usbdh.epIN n).bufCount)
          (s.usbdh.epIN n).mps ≤ (s.usbdh.epIN n).bufLen - (s.usbdh.epIN n).bufCount :=
        Nat.min_le_left _ _
      have hmono : min ((s.usbdh.epIN n).bufLen - ((s.usbdh.epIN n).bufCount +
            min ((s.usbdh.epIN n).bufLen - (s.usbdh.epIN n).bufCount) (s.usbdh.epIN n).mps))
            (s.usbdh.epIN n).mps ≤
          min ((s.usbdh.epIN n).bufLen - (s.usbdh.epIN n).bufCount) (s.usbdh.epIN n).mps := by
        apply Nat.le_min.2
        exact ⟨Nat.le_trans (Nat.min_le_left _ _) (by omega), Nat.min_le_right _ _⟩
      obtain ⟨pk, p1, p2, p3, p4⟩ := ih (pushBody (readINEPTXFSA s n).2 n).1 u n
        (pushBody (readINEPTXFSA s n).2 n).2 (by rw [b4]; exact hm16)
        (by rw [b3]; exact hb) (by rw [b2, b3]; omega)
        (by rw [b2, b3, b4, e6]; omega) h
      rw [b2, b3, b4] at p2
      rw [b5, e3, e4] at p4
      refine ⟨min ((s.usbdh.epIN n).bufLen - (s.usbdh.epIN n).bufCount) (s.usbdh.epIN n).mps
        :: pk, ?_, ?_, ?_, ?_⟩
      · rw [p1, b1]; simp [fifoPackets, List.filterMap_append]
      · intro p hp
        rcases List.mem_cons.1 hp with rfl | hp
        · exact Nat.le_refl _
        · exact Nat.le_trans (p2 p hp) hmono
      · exact List.Pairwise.cons (fun p hp => Nat.le_trans (p2 p hp) hmono) p3
      · intro i hi
        cases i with
        | zero =>
          show (min ((s.usbdh.epIN n).bufLen - (s.usbdh.epIN n).bufCount)
            (s.usbdh.epIN n).mps + 3) / 4 ≤ s.hw.INEPTXFSA n (s.hw.fsaReads n + 0)
          exact Nat.le_trans hlen hav
        | succ j =>
          simp only [List.get_cons_succ]
          have := p4 j (by simpa using hi)
          rw [Nat.add_assoc, Nat.add_comm 1 j] at this
          exact this
    · injection h with h; subst h
      exact ⟨[], by simp [readINEPTXFSA], by simp, List.Pairwise.nil, by simp⟩

end Otg

/-- C35: USB_OTG build, `USBD_EP_PushDataEmptyTxFifo` on IN endpoint `n` whose descriptor has
`1 ≤ mps < 2 ^ 16` (the range of the `uint16_t epMps` argument of `USBD_EP_Open`) and
`bufLen < 2 ^ 32`.  The function returns; the packet written in pass `i` of the loop needs
no more 32-bit words, `(length + 3) / 4`, than the free space `INEPTXFSA` read by the loop
test of that pass, the reading number `fsaReads + i`; and no packet is longer than the one
written before it. -/
theorem C35_push_packet_fits_free_space_read (fuel : Nat) (s : Otg.State) (n : Nat)
    (hm : 1 ≤ (s.usbdh.epIN n).mps) (hm16 : (s.usbdh.epIN n).mps < 2 ^ 16)
    (hb : (s.usbdh.epIN n).bufLen < 2 ^ 32)
    (hf : (s.usbdh.epIN n).bufLen - (s.usbdh.epIN n).bufCount ≤ fuel) :
    ∃ (u : Otg.State) (pk : List Nat),
      Otg.USBD_EP_PushDataEmptyTxFifo fuel s n = some u ∧
      Otg.fifoPackets n u.trace = Otg.fifoPackets n s.trace ++ pk ∧
      pk.Pairwise (fun a b => b ≤ a) ∧
      ∀ (i : Nat) (hi : i < pk.length),
        (pk.get ⟨i, hi⟩ + 3) / 4 ≤ s.hw.INEPTXFSA n (s.hw.fsaReads n + i) := by
  unfold Otg.USBD_EP_PushDataEmptyTxFifo
  dsimp only
  by_cases hc : (s.usbdh.epIN n).bufCount > (s.usbdh.epIN n).bufLen
  · rw [if_pos hc]
    exact ⟨s, [], rfl, by simp, List.Pairwise.nil, by simp⟩
  · rw [if_neg hc]
    have hsub := sub32_of_le _ _ hb (Nat.le_of_not_lt hc)
    have hmin : (if (s.usbdh.epIN n).bufLen - (s.usbdh.epIN n).bufCount > (s.usbdh.epIN n).mps
        then (s.usbdh.epIN n).mps else (s.usbdh.epIN n).bufLen - (s.usbdh.epIN n).bufCount)
        = min ((s.usbdh.epIN n).bufLen - (s.usbdh.epIN n).bufCount) (s.usbdh.epIN n).mps := by
      split_ifs with h
      · exact (Nat.min_eq_right (Nat.le_of_lt h)).symm
      · exact (Nat.min_eq_left (Nat.le_of_not_lt h)).symm
    have hle1 : min ((s.usbdh.epIN n).bufLen - (s.usbdh.epIN n).bufCount)
        (s.usbdh.epIN n).mps ≤ (s.usbdh.epIN n).mps := Nat.min_le_right _ _
    rw [hsub, hmin, add32_of_lt _ _ (by omega)]
    obtain ⟨v, hv⟩ := Otg.pushLoop_terminates fuel s n
      ((min ((s.usbdh.epIN n).bufLen - (s.usbdh.epIN n).bufCount) (s.usbdh.epIN n).mps + 3) / 4)
      (Or.inr hm) hb hf
    obtain ⟨pk, p1, _, p3, p4⟩ := Otg.pushLoop_space fuel s v n _ hm16 hb
      (Nat.le_of_not_lt hc) (Nat.le_refl _) hv
    rw [hv]
    dsimp only
    split_ifs
    · refine ⟨_, pk, rfl, ?_, p3, p4⟩
      rw [← p1]
      simp [Otg.fifoPackets, Otg.USB_OTG_D_DisableInEpEmptyInterrupt, Otg.logEv,
        List.filterMap_append]
    · exact ⟨v, pk, rfl, p1, p3, p4⟩

/-- Witness for C35: 150 bytes on endpoint 1 of max packet size 64, every free-space reading
16 words. -/
theorem C35_push_packet_fits_free_space_read_witness :
    ∃ (u : Otg.State) (pk : List Nat),
      Otg.USBD_EP_PushDataEmptyTxFifo 150
        (Otg.USBD_EP_Transfer (Otg.exState 64 0) 0x81 0x1000 150) 1 = some u ∧
      Otg.fifoPackets 1 u.trace = pk ∧
      ∀ (i : Nat) (hi : i < pk.length), (pk.get ⟨i, hi⟩ + 3) / 4 ≤ 16 := by
  obtain ⟨u, pk, h1, h2, _, h4⟩ := C35_push_packet_fits_free_space_read 150
    (Otg.USBD_EP_Transfer (Otg.exState 64 0) 0x81 0x1000 150) 1
    (by decide) (by decide) (by decide) (by decide)
  exact ⟨u, pk, h1, by rw [h2]; rfl, h4⟩

theorem ceil_step (r m : Nat) (hr : 1 ≤ r) (hm : 1 ≤ m) :
    (r - min r m + m - 1) / m + 1 ≤ (r + m - 1) / m := by
  by_cases h : r ≤ m
  · rw [Nat.min_eq_left h]
    have h1 : (r - r + m - 1) / m = 0 := Nat.div_eq_of_lt (by omega)
    have h2 : 1 ≤ (r + m - 1) / m := (Nat.le_div_iff_mul_le (by omega)).2 (by omega)
    omega
  · rw [Nat.min_eq_right (by omega)]
    have h1 : r + m - 1 = (r - m + m - 1) + m := by omega
    rw [h1, Nat.add_div_right _ (by omega)]

namespace Otg

/-- One pass of the TxFIFO write loop with `bufCount < bufLen` and `mps ≥ 1`: `bufCount`
grows, by the smaller of the remaining bytes and `mps`. -/
theorem pushBody_increases (s : State) (n : Nat)
    (hm : 1 ≤ (s.usbdh.epIN n).mps) (hb : (s.usbdh.epIN n).bufLen < 2 ^ 32)
    (hlt : (s.usbdh.epIN n).bufCount < (s.usbdh.epIN n).bufLen) :
    ((pushBody s n).1.usbdh.epIN n).bufCount = (s.usbdh.epIN n).bufCount +
      min ((s.usbdh.epIN n).bufLen - (s.usbdh.epIN n).bufCount) (s.usbdh.epIN n).mps ∧
    (s.usbdh.epIN n).bufCount < ((pushBody s n).1.usbdh.epIN n).bufCount ∧
    ((pushBody s n).1.usbdh.epIN n).bufLen = (s.usbdh.epIN n).bufLen ∧
    ((pushBody s n).1.usbdh.epIN n).mps = (s.usbdh.epIN n).mps ∧
    (pushBody s n).1.hw = s.hw ∧
    fifoPackets n (pushBody s n).1.trace = fifoPackets n s.trace ++
      [min ((s.usbdh.epIN n).bufLen - (s.usbdh.epIN n).bufCount) (s.usbdh.epIN n).mps
        % 2 ^ 16] := by
  have hsub := sub32_of_le _ _ hb (Nat.le_of_lt hlt)
  have hmin : (if (s.usbdh.epIN n).bufLen - (s.usbdh.epIN n).bufCount > (s.usbdh.epIN n).mps
      then (s.usbdh.epIN n).mps else (s.usbdh.epIN n).bufLen - (s.usbdh.epIN n).bufCount)
      = min ((s.usbdh.epIN n).bufLen - (s.usbdh.epIN n).bufCount) (s.usbdh.epIN n).mps := by
    split_ifs with h
    · exact (Nat.min_eq_right (Nat.le_of_lt h)).symm
    · exact (Nat.min_eq_left (Nat.le_of_not_lt h)).symm
  have hle2 : min ((s.usbdh.epIN n).bufLen - (s.usbdh.epIN n).bufCount) (s.usbdh.epIN n).mps
      ≤ (s.usbdh.epIN n).bufLen - (s.usbdh.epIN n).bufCount := Nat.min_le_left _ _
  have hpos : 1 ≤ min ((s.usbdh.epIN n).bufLen - (s.usbdh.epIN n).bufCount)
      (s.usbdh.epIN n).mps := Nat.le_min.2 ⟨by omega, hm⟩
  have hadd := add32_of_lt (s.usbdh.epIN n).bufCount
    (min ((s.usbdh.epIN n).bufLen - (s.usbdh.epIN n).bufCount) (s.usbdh.epIN n).mps)
    (by omega)
  simp only [pushBody, hsub, hmin, setEp, setSlot, if_true, USB_OTG_FIFO_WriteFifoPacket, logEv,
    hadd]
  refine ⟨trivial, by omega, trivial, trivial, trivial, ?_⟩
  simp [fifoPackets, List.filterMap_append]

/-- The TxFIFO write loop ends within `ceil((bufLen - bufCount) / mps)` passes, whatever the
free-space readings are. -/
theorem pushLoop_iterations (fuel : Nat) : ∀ (s : State) (n lt : Nat),
    1 ≤ (s.usbdh.epIN n).mps → (s.usbdh.epIN n).bufLen < 2 ^ 32 →
    (s.usbdh.epIN n).bufCount ≤ (s.usbdh.epIN n).bufLen →
    ((s.usbdh.epIN n).bufLen - (s.usbdh.epIN n).bufCount + (s.usbdh.epIN n).mps - 1) /
      (s.usbdh.epIN n).mps ≤ fuel →
    ∃ u, pushLoop fuel s n lt = some u ∧
      (fifoPackets n u.trace).length ≤ (fifoPackets n s.trace).length +
        ((s.usbdh.epIN n).bufLen - (s.usbdh.epIN n).bufCount + (s.usbdh.epIN n).mps - 1) /
          (s.usbdh.epIN n).mps ∧
      u.hw.fsaReads n ≤ s.hw.fsaReads n +
        ((s.usbdh.epIN n).bufLen - (s.usbdh.epIN n).bufCount + (s.usbdh.epIN n).mps - 1) /
          (s.usbdh.epIN n).mps + 1 := by
  induction fuel with
  | zero =>
    intro s n lt hm hb hc hf
    simp only [pushLoop]
    split_ifs with ht
    · exfalso
      have h2 := ht.2.1
      simp only [readINEPTXFSA] at h2
      have : 1 ≤ ((s.usbdh.epIN n).bufLen - (s.usbdh.epIN n).bufCount +
          (s.usbdh.epIN n).mps - 1) / (s.usbdh.epIN n).mps :=
        (Nat.le_div_iff_mul_le (by omega)).2 (by omega)
      omega
    · exact ⟨_, rfl, by simp [readINEPTXFSA], by simp [readINEPTXFSA, setSlot]⟩
  | succ f ih =>
    intro s n lt hm hb hc hf
    simp only [pushLoop]
    split_ifs with ht
    · obtain ⟨_, hlt, _⟩ := ht
      have hm' : 1 ≤ (((readINEPTXFSA s n).2).usbdh.epIN n).mps := hm
      have hb' : (((readINEPTXFSA s n).2).usbdh.epIN n).bufLen < 2 ^ 32 := hb
      obtain ⟨b1, _, b3, b4, b5, b6⟩ := pushBody_increases (readINEPTXFSA s n).2 n hm' hb' hlt
      have e1 : ((readINEPTXFSA s n).2).usbdh = s.usbdh := rfl
      have e2 : ((readINEPTXFSA s n).2).trace = s.trace := rfl
      have e3 : ((readINEPTXFSA s n).2).hw.fsaReads n = s.hw.fsaReads n + 1 := by
        simp [readINEPTXFSA, setSlot]
      rw [e1] at b1 b3 b4 hlt
      rw [e1, e2] at b6
      have hle2 : min ((s.usbdh.epIN n).bufLen - (s.usbdh.epIN n).bufCount)
          (s.usbdh.epIN n).mps ≤ (s.usbdh.epIN n).bufLen - (s.usbdh.epIN n).bufCount :=
        Nat.min_le_left _ _
      have hstep := ceil_step ((s.usbdh.epIN n).bufLen - (s.usbdh.epIN n).bufCount)
        (s.usbdh.epIN n).mps (by omega) hm
      have hrem : (s.usbdh.epIN n).bufLen - ((s.usbdh.epIN n).bufCount +
          min ((s.usbdh.epIN n).bufLen - (s.usbdh.epIN n).bufCount) (s.usbdh.epIN n).mps) =
          (s.usbdh.epIN n).bufLen - (s.usbdh.epIN n).bufCount -
          min ((s.usbdh.epIN n).bufLen - (s.usbdh.epIN n).bufCount) (s.usbdh.epIN n).mps := by
        omega
      obtain ⟨u, hu, p1, p2⟩ := ih (pushBody (readINEPTXFSA s n).2 n).1 n
        (pushBody (readINEPTXFSA s n).2 n).2 (by rw [b4]; exact hm) (by rw [b3]; exact hb)
        (by rw [b1, b3]; omega) (by rw [b1, b3, b4, hrem]; omega)
      rw [b1, b3, b4, hrem, b6] at p1
      rw [b1, b3, b4, hrem, b5, e3] at p2
      refine ⟨u, hu, ?_, ?_⟩
      · simp only [List.length_append, List.length_singleton] at p1
        omega
      · omega
    · exact ⟨_, rfl, by simp [readINEPTXFSA], by simp [readINEPTXFSA, setSlot]⟩

end Otg

/-- C36: USB_OTG build, `USBD_EP_PushDataEmptyTxFifo` on IN endpoint `n` with `mps ≥ 1` and
`bufCount ≤ bufLen < 2 ^ 32` on entry.  For every sequence of TxFIFO free-space readings (the
state, oracle included, is arbitrary) the write loop ends within
`ceil((bufLen - bufCount) / mps)` passes: with that many passes allowed the loop and the
function return, at most that many packets are written and at most one more reading is
taken.  Each pass of the loop strictly increases `bufCount`. -/
theorem C36_push_loop_ends_within_ceil_passes (s : Otg.State) (n fuel lengthTemp : Nat)
    (hm : 1 ≤ (s.usbdh.epIN n).mps)
    (hc : (s.usbdh.epIN n).bufCount ≤ (s.usbdh.epIN n).bufLen)
    (hb : (s.usbdh.epIN n).bufLen < 2 ^ 32)
    (hf : ((s.usbdh.epIN n).bufLen - (s.usbdh.epIN n).bufCount + (s.usbdh.epIN n).mps - 1) /
      (s.usbdh.epIN n).mps ≤ fuel) :
    (∃ u, Otg.pushLoop fuel s n lengthTemp = some u ∧
      (Otg.fifoPackets n u.trace).length ≤ (Otg.fifoPackets n s.trace).length +
        ((s.usbdh.epIN n).bufLen - (s.usbdh.epIN n).bufCount + (s.usbdh.epIN n).mps - 1) /
          (s.usbdh.epIN n).mps ∧
      u.hw.fsaReads n ≤ s.hw.fsaReads n +
        ((s.usbdh.epIN n).bufLen - (s.usbdh.epIN n).bufCount + (s.usbdh.epIN n).mps - 1) /
          (s.usbdh.epIN n).mps + 1) ∧
    (∃ u, Otg.USBD_EP_PushDataEmptyTxFifo fuel s n = some u) ∧
    (∀ (t : Otg.State) (lt avail : Nat), 1 ≤ (t.usbdh.epIN n).mps →
      (t.usbdh.epIN n).bufLen < 2 ^ 32 → Otg.pushTest t n lt avail →
      (t.usbdh.epIN n).bufCount < ((Otg.pushBody t n).1.usbdh.epIN n).bufCount) := by
  refine ⟨Otg.pushLoop_iterations fuel s n lengthTemp hm hb hc hf, ?_, ?_⟩
  · unfold Otg.USBD_EP_PushDataEmptyTxFifo
    dsimp only
    rw [if_neg (by omega)]
    obtain ⟨v, hv, _⟩ := Otg.pushLoop_iterations fuel s n
      (add32 (if sub32 (s.usbdh.epIN n).bufLen (s.usbdh.epIN n).bufCount > (s.usbdh.epIN n).mps
              then (s.usbdh.epIN n).mps
              else sub32 (s.usbdh.epIN n).bufLen (s.usbdh.epIN n).bufCount) 3 / 4) hm hb hc hf
    rw [hv]
    dsimp only
    split_ifs <;> exact ⟨_, rfl⟩
  · intro t lt avail h1 h2 ht
    exact (Otg.pushBody_increases t n h1 h2 ht.2.1).2.1

/-- Witness for C36: 150 bytes on endpoint 1 of max packet size 64, three passes allowed. -/
theorem C36_push_loop_ends_within_ceil_passes_witness :
    ∃ u, Otg.USBD_EP_PushDataEmptyTxFifo 3
      (Otg.USBD_EP_Transfer (Otg.exState 64 0) 0x81 0x1000 150) 1 = some u :=
  (C36_push_loop_ends_within_ceil_passes
    (Otg.USBD_EP_Transfer (Otg.exState 64 0) 0x81 0x1000 150) 1 3 0
    (by decide) (by decide) (by decide) (by decide)).2.1

/-- C37: USB_OTG build, endpoint 0 (`epAddr & 0x0F = 0`).  `USBD_EP_Transfer` with length `L`
leaves the IN descriptor with `bufLen = min L mps` and programs one packet (`EPPCNT = 1`) of
that size (`EPTRS = min L mps`).  `USBD_EP_Receive` with length `L` always programs one packet
(`EPPCNT = 1`) of size `mps` (`EPTRS = mps`); it leaves the OUT descriptor with `bufLen = mps`
when `L > 0`, also when `L < mps`, and with `bufLen = 0` when `L = 0`. -/
theorem C37_ep0_transfer_receive_program_one_packet (s : Otg.State) (epAddr buffer L : Nat)
    (h0 : epAddr &&& 0x0F = 0) :
    ((Otg.USBD_EP_Transfer s epAddr buffer L).usbdh.epIN 0).bufLen =
        min L (s.usbdh.epIN 0).mps ∧
    ((Otg.USBD_EP_Transfer s epAddr buffer L).hw.EP_IN 0).EPPCNT = 1 ∧
    ((Otg.USBD_EP_Transfer s epAddr buffer L).hw.EP_IN 0).EPTRS =
        min L (s.usbdh.epIN 0).mps ∧
    ((Otg.USBD_EP_Receive s epAddr buffer L).usbdh.epOUT 0).bufLen =
        (if L = 0 then 0 else (s.usbdh.epOUT 0).mps) ∧
    ((Otg.USBD_EP_Receive s epAddr buffer L).hw.EP_OUT 0).EPPCNT = 1 ∧
    ((Otg.USBD_EP_Receive s epAddr buffer L).hw.EP_OUT 0).EPTRS = (s.usbdh.epOUT 0).mps := by
  have hT : ((Otg.USBD_EP_Transfer s epAddr buffer L).usbdh.epIN 0).bufLen =
        min L (s.usbdh.epIN 0).mps ∧
      ((Otg.USBD_EP_Transfer s epAddr buffer L).hw.EP_IN 0).EPPCNT = 1 ∧
      ((Otg.USBD_EP_Transfer s epAddr buffer L).hw.EP_IN 0).EPTRS =
        min L (s.usbdh.epIN 0).mps := by
    unfold Otg.USBD_EP_Transfer
    simp only [h0, ne_eq, not_true_eq_false, if_false]
    unfold Otg.USBD_EP0_XferStart
    by_cases hL : L = 0
    · subst hL
      by_cases hd : s.usbdh.usbCfg.dmaStatus = ENABLE <;>
        by_cases ha : (s.usbdh.epIN 0).dmaAddr = 0 <;>
        simp [Otg.setEp, Otg.getEp, setSlot, Otg.updIn, Otg.enableInEp, Otg.logEv,
          Otg.USB_OTG_D_EnableInEpEmptyInterrupt, EP_DIR_IN, EP_DIR_OUT, BIT_RESET, hd, ha]
    · have hpos : 0 < L := Nat.pos_of_ne_zero hL
      by_cases hm : L > (s.usbdh.epIN 0).mps
      · have hmin : min L (s.usbdh.epIN 0).mps = (s.usbdh.epIN 0).mps :=
          Nat.min_eq_right (Nat.le_of_lt hm)
        rw [hmin]
        by_cases hd : s.usbdh.usbCfg.dmaStatus = ENABLE <;>
          by_cases ha : (s.usbdh.epIN 0).dmaAddr = 0 <;>
          by_cases hz : (s.usbdh.epIN 0).mps = 0 <;>
          simp [Otg.setEp, Otg.getEp, setSlot, Otg.updIn, Otg.enableInEp, Otg.logEv,
            Otg.USB_OTG_D_EnableInEpEmptyInterrupt, EP_DIR_IN, EP_DIR_OUT, BIT_RESET, hd, ha,
            hL, hm, hz, hpos]
      · have hmin : min L (s.usbdh.epIN 0).mps = L := Nat.min_eq_left (Nat.le_of_not_lt hm)
        rw [hmin]
        by_cases hd : s.usbdh.usbCfg.dmaStatus = ENABLE <;>
          by_cases ha : (s.usbdh.epIN 0).dmaAddr = 0 <;>
          simp [Otg.setEp, Otg.getEp, setSlot, Otg.updIn, Otg.enableInEp, Otg.logEv,
            Otg.USB_OTG_D_EnableInEpEmptyInterrupt, EP_DIR_IN, EP_DIR_OUT, BIT_RESET, hd, ha,
            hL, hm]
  have hR : ((Otg.USBD_EP_Receive s epAddr buffer L).usbdh.epOUT 0).bufLen =
        (if L = 0 then 0 else (s.usbdh.epOUT 0).mps) ∧
      ((Otg.USBD_EP_Receive s epAddr buffer L).hw.EP_OUT 0).EPPCNT = 1 ∧
      ((Otg.USBD_EP_Receive s epAddr buffer L).hw.EP_OUT 0).EPTRS = (s.usbdh.epOUT 0).mps := by
    unfold Otg.USBD_EP_Receive
    simp only [h0, ne_eq, not_true_eq_false, if_false]
    unfold Otg.USBD_EP0_XferStart
    by_cases hL : L = 0 <;>
      by_cases hd : s.usbdh.usbCfg.dmaStatus = ENABLE <;>
      by_cases ha : buffer = 0 <;>
      simp [Otg.setEp, Otg.getEp, setSlot, Otg.updOut, Otg.enableOutEp, Otg.logEv,
        EP_DIR_IN, EP_DIR_OUT, BIT_RESET, BIT_SET, hd, ha, hL]
  exact ⟨hT.1, hT.2.1, hT.2.2, hR.1, hR.2.1, hR.2.2⟩

/-- Witness for C37: endpoint 0 of max packet size 64; a transfer of 150 bytes through address
0x80 and a receive of 10 bytes through address 0x00. -/
theorem C37_ep0_transfer_receive_program_one_packet_witness :
    ((Otg.USBD_EP_Transfer (Otg.exState 64 0) 0x80 0x1000 150).usbdh.epIN 0).bufLen = 64 ∧
    ((Otg.USBD_EP_Transfer (Otg.exState 64 0) 0x80 0x1000 150).hw.EP_IN 0).EPTRS = 64 ∧
    ((Otg.USBD_EP_Receive (Otg.exState 64 0) 0x00 0x1000 10).usbdh.epOUT 0).bufLen = 64 ∧
    ((Otg.USBD_EP_Receive (Otg.exState 64 0) 0x00 0x1000 10).hw.EP_OUT 0).EPPCNT = 1 :=
  ⟨(C37_ep0_transfer_receive_program_one_packet (Otg.exState 64 0) 0x80 0x1000 150
      (by decide)).1,
   (C37_ep0_transfer_receive_program_one_packet (Otg.exState 64 0) 0x80 0x1000 150
      (by decide)).2.2.1,
   (C37_ep0_transfer_receive_program_one_packet (Otg.exState 64 0) 0x00 0x1000 10
      (by decide)).2.2.2.1,
   (C37_ep0_transfer_receive_program_one_packet (Otg.exState 64 0) 0x00 0x1000 10
      (by decide)).2.2.2.2.1⟩

theorem fifo_word_or (d off : Nat) (hd : d < 2 ^ 16) (hoff : off < 2 ^ 16) :
    (d <<< 16) % 2 ^ 32 ||| off = 2 ^ 16 * d + off := by
  rw [Nat.shiftLeft_eq, Nat.mod_eq_of_lt (by omega), Nat.mul_comm]
  exact (Nat.mul_add_lt_is_or hoff d).symm

theorem fifo_word_high (d off : Nat) (hoff : off < 2 ^ 16) :
    (2 ^ 16 * d + off) >>> 16 = d := by
  rw [Nat.shiftRight_eq_div_pow]
  omega

theorem fifo_word_low (d off : Nat) (hoff : off < 2 ^ 16) :
    (2 ^ 16 * d + off) % 2 ^ 16 = off := by
  omega

theorem range_sum_succ (d : Nat → Nat) (n : Nat) :
    (Finset.range (n + 1)).sum d = (Finset.range n).sum d + d n :=
  Finset.sum_range_succ d n

theorem range_sum_one (d : Nat → Nat) : (Finset.range 1).sum d = d 0 :=
  Finset.sum_range_one d

namespace Otg

/-- The offset loop of `USBD_OTG_ConfigDeviceTxFifo`: with the depth of TxFIFO `i + 1` in the
high half of `DTXFIFO[i]`, it adds up the depths. -/
theorem txOffset_fold (d : Nat → Nat) (w : Nat → Nat) (r : Nat) : ∀ m : Nat,
    (∀ i, i < m → w i >>> 16 = d (i + 1)) →
    r + (Finset.range (m + 1)).sum d < 2 ^ 32 →
    (List.range m).foldl (fun off i => add32 off (w i >>> 16)) (add32 r (d 0)) =
      r + (Finset.range (m + 1)).sum d := by
  intro m
  induction m with
  | zero =>
    intro _ hs
    simp only [List.range_zero, List.foldl_nil]
    rw [range_sum_one] at hs ⊢
    exact add32_of_lt _ _ hs
  | succ m ih =>
    intro hw hs
    rw [range_sum_succ] at hs
    rw [List.range_succ, List.foldl_append, ih (fun i hi => hw i (by omega)) (by omega)]
    simp only [List.foldl_cons, List.foldl_nil]
    rw [hw m (by omega), add32_of_lt _ _ (by omega), range_sum_succ _ (m + 1)]
    omega

/-- The size registers after the calls for TxFIFO 0 to `k`. -/
theorem configTxFifos_words (d : Nat → Nat) (s : State) : ∀ k : Nat,
    s.hw.GRXFIFO + (Finset.range (k + 1)).sum d < 2 ^ 16 →
    (configTxFifos d k s).hw.GRXFIFO = s.hw.GRXFIFO ∧
    ∀ j, j ≤ k → txFifoWord (configTxFifos d k s) j =
      2 ^ 16 * d j + (s.hw.GRXFIFO + (Finset.range j).sum d) := by
  intro k
  induction k with
  | zero =>
    intro hs
    rw [range_sum_one] at hs
    refine ⟨rfl, fun j hj => ?_⟩
    obtain rfl : j = 0 := by omega
    simp only [configTxFifos, USBD_OTG_ConfigDeviceTxFifo, txFifoWord, ne_eq, not_true_eq_false,
      if_false, if_true, Finset.range_zero, Finset.sum_empty, Nat.add_zero]
    exact fifo_word_or _ _ (by omega) (by omega)
  | succ k ih =>
    intro hs
    rw [range_sum_succ] at hs
    obtain ⟨g, hw⟩ := ih (by omega)
    have h0 : (configTxFifos d k s).hw.GTXFCFG >>> 16 = d 0 := by
      have := hw 0 (by omega)
      simp only [txFifoWord, if_true, Finset.range_zero, Finset.sum_empty, Nat.add_zero] at this
      rw [this]
      exact fifo_word_high _ _ (by omega)
    have hsub : ∀ j, j ≤ k + 1 → (Finset.range j).sum d ≤ (Finset.range (k + 1)).sum d :=
      fun j hj => Finset.sum_le_sum_of_subset (Finset.range_mono hj)
    have hi : ∀ i, i < k → (configTxFifos d k s).hw.DTXFIFO i >>> 16 = d (i + 1) := by
      intro i hik
      have := hw (i + 1) (by omega)
      simp only [txFifoWord, Nat.add_one_ne_zero, if_false, Nat.add_sub_cancel] at this
      rw [this]
      have := hsub (i + 1) (by omega)
      exact fifo_word_high _ _ (by omega)
    have hoff := txOffset_fold d (configTxFifos d k s).hw.DTXFIFO s.hw.GRXFIFO k hi (by omega)
    refine ⟨?_, fun j hj => ?_⟩
    · simp only [configTxFifos, USBD_OTG_ConfigDeviceTxFifo, ne_eq, Nat.add_one_ne_zero,
        not_false_eq_true, if_true]
      exact g
    · by_cases hjk : j = k + 1
      · subst hjk
        simp only [configTxFifos, USBD_OTG_ConfigDeviceTxFifo, txFifoWord, ne_eq,
          Nat.add_one_ne_zero, not_false_eq_true, if_true, if_false, Nat.add_sub_cancel, setSlot,
          g, h0, hoff]
        exact fifo_word_or _ _ (by omega) (by omega)
      · have hj' : j ≤ k := by omega
        rw [← hw j hj']
        by_cases hj0 : j = 0
        · subst hj0
          simp only [configTxFifos, USBD_OTG_ConfigDeviceTxFifo, txFifoWord, ne_eq,
            Nat.add_one_ne_zero, not_false_eq_true, if_true]
        · have hne : ¬ (j - 1 = k) := by omega
          simp only [configTxFifos, USBD_OTG_ConfigDeviceTxFifo, txFifoWord, ne_eq,
            Nat.add_one_ne_zero, not_false_eq_true, if_true, hj0, if_false, Nat.add_sub_cancel,
            setSlot, hne]

end Otg

/-- C38: USB_OTG build.  Let `USBD_OTG_ConfigDeviceTxFifo` be called for the IN endpoints
`0, 1, ..., k` in this order with depths `d 0, ..., d k` (`k` in the range of the `uint8_t`
argument), the receive FIFO depth `r` in `GRXFIFO` and `r + d 0 + ... + d k < 2 ^ 16`.  Then,
whatever the TxFIFO size registers held before (cleared or not), for every `j ≤ k` the start
offset programmed for TxFIFO `j` is `r + d 0 + ... + d (j - 1)` and its depth field is `d j`;
so TxFIFO 0 starts where the receive FIFO ends, each further TxFIFO starts where the one
before it ends, and the ranges of two different TxFIFOs do not overlap. -/
theorem C38_tx_fifo_offsets_are_running_sums (s : Otg.State) (d : Nat → Nat) (k : Nat)
    (_hk : k ≤ 255)
    (hs : s.hw.GRXFIFO + (Finset.range (k + 1)).sum d < 2 ^ 16) :
    (∀ j, j ≤ k →
      Otg.txFifoStart (Otg.configTxFifos d k s) j = s.hw.GRXFIFO + (Finset.range j).sum d ∧
      Otg.txFifoDepth (Otg.configTxFifos d k s) j = d j) ∧
    Otg.txFifoStart (Otg.configTxFifos d k s) 0 = s.hw.GRXFIFO ∧
    (∀ j, j < k → Otg.txFifoStart (Otg.configTxFifos d k s) (j + 1) =
      Otg.txFifoStart (Otg.configTxFifos d k s) j +
        Otg.txFifoDepth (Otg.configTxFifos d k s) j) ∧
    (∀ i j, i < j → j ≤ k →
      Otg.txFifoStart (Otg.configTxFifos d k s) i +
        Otg.txFifoDepth (Otg.configTxFifos d k s) i ≤
        Otg.txFifoStart (Otg.configTxFifos d k s) j) := by
  obtain ⟨_, hw⟩ := Otg.configTxFifos_words d s k hs
  have hsub : ∀ j, j ≤ k + 1 → (Finset.range j).sum d ≤ (Finset.range (k + 1)).sum d :=
    fun j hj => Finset.sum_le_sum_of_subset (Finset.range_mono hj)
  have key : ∀ j, j ≤ k →
      Otg.txFifoStart (Otg.configTxFifos d k s) j = s.hw.GRXFIFO + (Finset.range j).sum d ∧
      Otg.txFifoDepth (Otg.configTxFifos d k s) j = d j := by
    intro j hj
    have h1 := hsub j (by omega)
    unfold Otg.txFifoStart Otg.txFifoDepth
    rw [hw j hj]
    exact ⟨fifo_word_low _ _ (by omega), fifo_word_high _ _ (by omega)⟩
  refine ⟨key, ?_, ?_, ?_⟩
  · rw [(key 0 (by omega)).1]; simp
  · intro j hj
    rw [(key (j + 1) (by omega)).1, (key j (by omega)).1, (key j (by omega)).2,
      range_sum_succ]
    omega
  · intro i j hij hj
    rw [(key i (by omega)).1, (key i (by omega)).2, (key j hj).1]
    have h1 : (Finset.range (i + 1)).sum d ≤ (Finset.range j).sum d :=
      Finset.sum_le_sum_of_subset (Finset.range_mono (by omega))
    rw [range_sum_succ] at h1
    omega

/-- Witness for C38: a receive FIFO of 0x80 words and three TxFIFOs of 0x40 words each. -/
theorem C38_tx_fifo_offsets_are_running_sums_witness :
    Otg.txFifoStart (Otg.configTxFifos (fun _ => 0x40) 2 Otg.exStateFifo) 2 = 0x100 ∧
    Otg.txFifoDepth (Otg.configTxFifos (fun _ => 0x40) 2 Otg.exStateFifo) 2 = 0x40 := by
  have h := (C38_tx_fifo_offsets_are_running_sums Otg.exStateFifo (fun _ => 0x40) 2
    (by decide) (by decide)).1 2 (by decide)
  exact ⟨by rw [h.1]; decide, h.2⟩

/-- C39: USB_OTG build with DMA enabled.  On an OUT transfer-complete of endpoint `n` with
neither the SETUP-done nor the OUT-token-while-disabled status set, `USBD_EP_OutXferHandler`
sets `bufCount` to `mps` minus the low 8 bits of the remaining transfer size `EPTRS`, modulo
`2 ^ 32`; for `mps` in the 32-bit range this is the number of bytes received, `mps - EPTRS`,
exactly when the remaining size is at most 255 and at most `mps`. -/
theorem C39_out_complete_bufcount_uses_8_bit_remainder (s : Otg.State) (n : Nat)
    (hd : s.usbdh.usbCfg.dmaStatus = ENABLE)
    (h1 : (s.hw.EP_OUT n).intSETPCMP = false) (h2 : (s.hw.EP_OUT n).intRXOTDIS = false)
    (hm : (s.usbdh.epOUT n).mps < 2 ^ 32) :
    ((Otg.USBD_EP_OutXferHandler s n).usbdh.epOUT n).bufCount =
        sub32 (s.usbdh.epOUT n).mps ((s.hw.EP_OUT n).EPTRS % 2 ^ 8) ∧
    ((((Otg.USBD_EP_OutXferHandler s n).usbdh.epOUT n).bufCount : Int) =
        ((s.usbdh.epOUT n).mps : Int) - ((s.hw.EP_OUT n).EPTRS : Int) ↔
      (s.hw.EP_OUT n).EPTRS ≤ 255 ∧ (s.hw.EP_OUT n).EPTRS ≤ (s.usbdh.epOUT n).mps) := by
  have hc : ((Otg.USBD_EP_OutXferHandler s n).usbdh.epOUT n).bufCount =
      sub32 (s.usbdh.epOUT n).mps ((s.hw.EP_OUT n).EPTRS % 2 ^ 8) := by
    unfold Otg.USBD_EP_OutXferHandler
    by_cases hn : n = 0
    · subst hn
      by_cases hl : (s.usbdh.epOUT 0).bufLen = 0 <;>
        simp [hd, h1, h2, hl, ENABLE, DISABLE, Otg.setEp, setSlot,
          Otg.USBD_DataOutStageCallback, Otg.logEv]
    · simp [hd, h1, h2, hn, ENABLE, DISABLE, Otg.setEp, setSlot,
        Otg.USBD_DataOutStageCallback, Otg.logEv]
  refine ⟨hc, ?_⟩
  rw [hc]
  unfold sub32
  constructor
  · intro h
    omega
  · rintro ⟨ha, hb⟩
    omega

/-- Witness for C39: endpoint 1 of max packet size 64 with 4 bytes of the programmed size
remaining. -/
theorem C39_out_complete_bufcount_uses_8_bit_remainder_witness :
    ((Otg.USBD_EP_OutXferHandler
        (Otg.updOut (Otg.exState 64 1) 1 (fun q => { q with EPTRS := 4 })) 1).usbdh.epOUT
          1).bufCount = 60 := by
  have h := (C39_out_complete_bufcount_uses_8_bit_remainder
    (Otg.updOut (Otg.exState 64 1) 1 (fun q => { q with EPTRS := 4 })) 1
    (by decide) (by decide) (by decide) (by decide)).1
  rw [h]
  decide

/-- C8: in both builds, for an endpoint address with bits 4-6 clear whose endpoint number is
below `devEndpointNum`, where `devEndpointNum` is at most the size of the endpoint tables (8
in the USB_DEVICE build, 16 in the USB_OTG build): the descriptor addressed lies in the
table, `USBD_EP_Stall` makes `USBD_EP_ReadStallStatus` return `ENABLE`, a following
`USBD_EP_ClearStall` makes it return `DISABLE`, and the stall flags of the opposite direction
and of every other endpoint number of the tables are the same after either call as before. -/
theorem C8_stall_clearstall_roundtrip (s : Usbd.State) (t : Otg.State) (epAddr : Nat)
    (h46 : epAddr &&& 0x70 = 0)
    (hs : epAddr &&& 0x0F < s.usbdh.devEndpointNum)
    (hs8 : s.usbdh.devEndpointNum ≤ 8)
    (ht : epAddr &&& 0x0F < t.usbdh.usbCfg.devEndpointNum)
    (ht16 : t.usbdh.usbCfg.devEndpointNum ≤ 16) :
    (epAddr &&& 0x0F < 8 ∧
     Usbd.USBD_EP_ReadStallStatus (Usbd.USBD_EP_Stall s epAddr) epAddr = ENABLE ∧
     Usbd.USBD_EP_ReadStallStatus
        (Usbd.USBD_EP_ClearStall (Usbd.USBD_EP_Stall s epAddr) epAddr) epAddr = DISABLE ∧
     Usbd.stallFrame 8 epAddr s.usbdh (Usbd.USBD_EP_Stall s epAddr).usbdh ∧
     Usbd.stallFrame 8 epAddr s.usbdh
        (Usbd.USBD_EP_ClearStall (Usbd.USBD_EP_Stall s epAddr) epAddr).usbdh) ∧
    (epAddr &&& 0x0F < 16 ∧
     Otg.USBD_EP_ReadStallStatus (Otg.USBD_EP_Stall t epAddr) epAddr = ENABLE ∧
     Otg.USBD_EP_ReadStallStatus
        (Otg.USBD_EP_ClearStall (Otg.USBD_EP_Stall t epAddr) epAddr) epAddr = DISABLE ∧
     Otg.stallFrame 16 epAddr t.usbdh (Otg.USBD_EP_Stall t epAddr).usbdh ∧
     Otg.stallFrame 16 epAddr t.usbdh
        (Otg.USBD_EP_ClearStall (Otg.USBD_EP_Stall t epAddr) epAddr).usbdh) :=
  ⟨⟨Nat.lt_of_lt_of_le hs hs8, Usbd.stall_clear_roundtrip s epAddr h46 hs⟩,
   ⟨Nat.lt_of_lt_of_le ht ht16, Otg.otg_stall_clear_roundtrip t epAddr h46 ht⟩⟩

/-- C8 at the IN address 0x81 of the example states, which have 8 configured endpoints. -/
theorem C8_stall_clearstall_roundtrip_witness :
    ((0x81 : Nat) &&& 0x70 = 0 ∧
      (0x81 : Nat) &&& 0x0F < (Usbd.exState 64).usbdh.devEndpointNum ∧
      (Usbd.exState 64).usbdh.devEndpointNum ≤ 8 ∧
      (0x81 : Nat) &&& 0x0F < (Otg.exState 64 0).usbdh.usbCfg.devEndpointNum ∧
      (Otg.exState 64 0).usbdh.usbCfg.devEndpointNum ≤ 16) ∧
    Usbd.USBD_EP_ReadStallStatus
      (Usbd.USBD_EP_ClearStall (Usbd.USBD_EP_Stall (Usbd.exState 64) 0x81) 0x81) 0x81 = DISABLE ∧
    Otg.USBD_EP_ReadStallStatus
      (Otg.USBD_EP_ClearStall (Otg.USBD_EP_Stall (Otg.exState 64 0) 0x81) 0x81) 0x81 = DISABLE :=
  ⟨⟨by decide, by decide, by decide, by decide, by decide⟩,
   (C8_stall_clearstall_roundtrip (Usbd.exState 64) (Otg.exState 64 0) 0x81
      (by decide) (by decide) (by decide) (by decide) (by decide)).1.2.2.1,
   (C8_stall_clearstall_roundtrip (Usbd.exState 64) (Otg.exState 64 0) 0x81
      (by decide) (by decide) (by decide) (by decide) (by decide)).2.2.2.1⟩

/-- C27 (amended): let `wc` and `ws` be the widths of the packet-count and transfer-size
bit-fields of `DIEPTRS` / `DOEPTRS`.  For a requested length `L` and a max packet size `M ≥ 1`
with `L + M - 1 < 2 ^ 32`, whose packet count `ceil(L / M)` (1 for `L = 0`) is below `2 ^ 16`
and fits the packet-count field, and whose transfer size fits the transfer-size field,
`USBD_EP_XferStart` leaves that packet count, which is at least 1, in the packet-count field;
the transfer-size field holds `L` for IN and `M` times the packet count for OUT (`M` for a
zero-length OUT). -/
theorem C27_packet_count_within_field_widths (s : Otg.State) (r : Otg.EpRef)
    (dma L M wc ws : Nat)
    (hL : (Otg.getEp s r).bufLen = L) (hM : (Otg.getEp s r).mps = M) (h1 : 1 ≤ M)
    (hwrap : L + M - 1 < 2 ^ 32) (hcnt : specPacketCount L M < 2 ^ 16)
    (hwc : specPacketCount L M < 2 ^ wc) :
    1 ≤ specPacketCount L M ∧
    ((Otg.getEp s r).epDir = EP_DIR_OUT → M * specPacketCount L M < 2 ^ ws →
      Otg.fieldValue wc
          ((Otg.USBD_EP_XferStart s r dma).hw.EP_OUT (Otg.getEp s r).epNum).EPPCNT
        = specPacketCount L M ∧
      Otg.fieldValue ws
          ((Otg.USBD_EP_XferStart s r dma).hw.EP_OUT (Otg.getEp s r).epNum).EPTRS
        = M * specPacketCount L M) ∧
    ((Otg.getEp s r).epDir ≠ EP_DIR_OUT → L < 2 ^ ws →
      Otg.fieldValue wc
          ((Otg.USBD_EP_XferStart s r dma).hw.EP_IN (Otg.getEp s r).epNum).EPPCNT
        = specPacketCount L M ∧
      Otg.fieldValue ws
          ((Otg.USBD_EP_XferStart s r dma).hw.EP_IN (Otg.getEp s r).epNum).EPTRS = L) := by
  have hM0 : 0 < M := h1
  have hpos : 1 ≤ specPacketCount L M := by
    unfold specPacketCount
    split_ifs with h0
    · exact Nat.le_refl 1
    · exact (Nat.one_le_div_iff hM0).2 (by omega)
  have hc : L ≠ 0 → Otg.epPacketCnt L M = specPacketCount L M := by
    intro h0
    unfold specPacketCount at hcnt ⊢
    simp only [h0, if_false] at hcnt ⊢
    exact Otg.epPacketCnt_of_bounds L M (by omega) hwrap hcnt
  have hz : L = 0 → specPacketCount L M = 1 := by
    intro h0
    simp [specPacketCount, h0]
  have hmul : L ≠ 0 → M * specPacketCount L M < 2 ^ 32 := by
    intro h0
    unfold specPacketCount
    simp only [h0, if_false]
    have hle : M * ((L + M - 1) / M) ≤ L + M - 1 := Nat.mul_div_le _ _
    omega
  refine ⟨hpos, ?_, ?_⟩
  · intro hdir hws
    obtain ⟨e1, e2⟩ := Otg.XferStart_out_regs s r dma hdir
    rw [hL, hM] at e1 e2
    unfold Otg.fieldValue
    rw [e1, e2]
    by_cases h0 : L = 0
    · rw [hz h0] at hwc hws ⊢
      simp only [h0, ne_eq, not_true_eq_false, if_false]
      exact ⟨Nat.mod_eq_of_lt hwc, by rw [Nat.mul_one] at hws ⊢; exact Nat.mod_eq_of_lt hws⟩
    · simp only [h0, ne_eq, not_false_eq_true, if_true, hc h0]
      rw [Nat.mod_eq_of_lt (hmul h0)]
      exact ⟨Nat.mod_eq_of_lt hwc, Nat.mod_eq_of_lt hws⟩
  · intro hdir hws
    obtain ⟨e1, e2⟩ := Otg.XferStart_in_regs s r dma hdir
    rw [hL, hM] at e1
    rw [hL] at e2
    unfold Otg.fieldValue
    rw [e1, e2]
    by_cases h0 : L = 0
    · rw [hz h0] at hwc ⊢
      simp only [h0, if_true]
      exact ⟨Nat.mod_eq_of_lt hwc, Nat.mod_eq_of_lt (by omega)⟩
    · simp only [h0, if_false, hc h0]
      exact ⟨Nat.mod_eq_of_lt hwc, Nat.mod_eq_of_lt hws⟩

/-- C27 (amended) on the example state, with a packet-count field of 10 bits and a
transfer-size field of 19 bits: 150 bytes requested on IN endpoint 1 with `mps = 64`; three
packets, transfer size 150. -/
theorem C27_packet_count_within_field_widths_witness :
    ((Otg.getEp (Otg.USBD_EP_Transfer (Otg.exState 64 0) 0x81 0x1000 150)
        (Otg.EpRef.epIN 1)).bufLen = 150 ∧
      (Otg.getEp (Otg.USBD_EP_Transfer (Otg.exState 64 0) 0x81 0x1000 150)
        (Otg.EpRef.epIN 1)).mps = 64) ∧
    Otg.fieldValue 10
      ((Otg.USBD_EP_XferStart (Otg.USBD_EP_Transfer (Otg.exState 64 0) 0x81 0x1000 150)
        (Otg.EpRef.epIN 1) 0).hw.EP_IN 1).EPPCNT = 3 ∧
    Otg.fieldValue 19
      ((Otg.USBD_EP_XferStart (Otg.USBD_EP_Transfer (Otg.exState 64 0) 0x81 0x1000 150)
        (Otg.EpRef.epIN 1) 0).hw.EP_IN 1).EPTRS = 150 :=
  ⟨⟨by decide, by decide⟩,
   (C27_packet_count_within_field_widths
      (Otg.USBD_EP_Transfer (Otg.exState 64 0) 0x81 0x1000 150)
      (Otg.EpRef.epIN 1) 0 150 64 10 19 (by decide) (by decide) (by decide) (by decide)
      (by decide) (by decide)).2.2 (by decide) (by decide)⟩
/-- Witness for C32: the handler and the dispatch pass on an example state with the suspend
cause pending and endpoint register 1 holding a non-reset value; the controller raises the
reset flag at the first poll.  The forced reset pulse clears the register, and on return it
holds the value of entry again. -/
theorem C32_suspend_handler_keeps_endpoint_registers_witness :
    (Usbd.USBD_SetForceReset Usbd.exStateSuspend).usbGlobal.EP 1 ≠
      Usbd.exStateSuspend.usbGlobal.EP 1 ∧
    (∃ u, Usbd.USBD_SuspendHandler 2 Usbd.exStateSuspend = some u ∧
      u.usbGlobal.EP 1 =
        { Usbd.regZero with
          rxStatus := Usbd.USBD_EP_STATUS_VALID, kind := true, txdtog := true,
          txStatus := Usbd.USBD_EP_STATUS_VALID, txCnt := 10, rxCnt := 20 } ∧
      u.usbGlobal.EP 1 ≠ Usbd.regZero ∧
      (∀ i, i < 8 → u.usbGlobal.EP i = Usbd.exStateSuspend.usbGlobal.EP i) ∧
      u.usbGlobal.FORSUS = true ∧ u.usbGlobal.LPWREN = true) ∧
    (∃ v, Usbd.USBD_IsrHandler 2 Usbd.exStateSuspend = some v ∧
      v.trace.count Usbd.Ev.SuspendCallback = 1) := by
  have h := C32_suspend_handler_keeps_endpoint_registers Usbd.exStateSuspend 2 0 rfl
    (by decide)
  obtain ⟨⟨u, h1, h2, h3, h4, _⟩, hd⟩ := h
  obtain ⟨v, g1, g2, _⟩ := hd rfl
  have e1 : u.usbGlobal.EP 1 = Usbd.exStateSuspend.usbGlobal.EP 1 := h2 1 (by decide)
  refine ⟨by decide, ⟨u, h1, ?_, ?_, h2, h3, h4⟩, ⟨v, g1, g2⟩⟩
  · rw [e1]; rfl
  · rw [e1]; decide


/-- C34: USB_DEVICE build, endpoint tables of 8 entries.  The endpoint-count check of
`USBD_EP_Stall` and `USBD_EP_ClearStall` is `(epAddr & 0x0F) > devEndpointNum`, so an address
whose endpoint number equals `devEndpointNum` passes it.  On a handle with
`devEndpointNum = 8` such an address has endpoint number 8, which is not below 8: the check
passes, `USBD_EP_Stall` stores the stall flag and the endpoint number through index 8 of the
table of the direction and writes the status field of hardware endpoint 8, and
`USBD_EP_ClearStall` stores through index 8 as well. -/
theorem C34_stall_bound_check_admits_index_8 (s : Usbd.State) (epAddr : Nat)
    (hN : s.usbdh.devEndpointNum = 8) (h : epAddr &&& 0x0F = s.usbdh.devEndpointNum) :
    ¬ (epAddr &&& 0x0F > s.usbdh.devEndpointNum) ∧ ¬ (epAddr &&& 0x0F < 8) ∧
    (Usbd.USBD_EP_Stall s epAddr).trace = s.trace ++
      [if epAddr &&& 0x80 = 0x80 then Usbd.Ev.SetTxStatus 8 Usbd.USBD_EP_STATUS_STALL
       else Usbd.Ev.SetRxStatus 8 Usbd.USBD_EP_STATUS_STALL] ∧
    (if epAddr &&& 0x80 = 0x80 then
       ((Usbd.USBD_EP_Stall s epAddr).usbdh.epIN 8).stallStatus = ENABLE ∧
       ((Usbd.USBD_EP_Stall s epAddr).usbdh.epIN 8).epNum = 8 ∧
       ((Usbd.USBD_EP_ClearStall s epAddr).usbdh.epIN 8).stallStatus = DISABLE ∧
       ((Usbd.USBD_EP_ClearStall s epAddr).usbdh.epIN 8).epNum = 8
     else
       ((Usbd.USBD_EP_Stall s epAddr).usbdh.epOUT 8).stallStatus = ENABLE ∧
       ((Usbd.USBD_EP_Stall s epAddr).usbdh.epOUT 8).epNum = 8 ∧
       ((Usbd.USBD_EP_ClearStall s epAddr).usbdh.epOUT 8).stallStatus = DISABLE ∧
       ((Usbd.USBD_EP_ClearStall s epAddr).usbdh.epOUT 8).epNum = 8) := by
  have h8 : epAddr &&& 0x0F = 8 := by rw [h, hN]
  have hg : ¬ (epAddr &&& 0x0F > s.usbdh.devEndpointNum) := by omega
  refine ⟨hg, by omega, ?_, ?_⟩
  · unfold Usbd.USBD_EP_Stall
    by_cases hd : epAddr &&& 0x80 = 0x80 <;>
      simp [hd, h8, hN, Usbd.setEp, Usbd.getEp, Usbd.USBD_EP_SetTxStatus,
        Usbd.USBD_EP_SetRxStatus, Usbd.logEv, Usbd.updEP, EP_DIR_IN, EP_DIR_OUT]
  · rw [Usbd.Stall_usbdh s epAddr hg, Usbd.ClearStall_usbdh s epAddr hg]
    by_cases hd : epAddr &&& 0x80 = 0x80 <;> simp [hd, h8, setSlot]

/-- C34 on the example state, which has `devEndpointNum = 8`: `USBD_EP_Stall(usbdh, 0x08)`
passes the check and stores through index 8 of the OUT table, whose flag was clear. -/
theorem C34_stall_bound_check_admits_index_8_witness :
    (Usbd.exState 64).usbdh.devEndpointNum = 8 ∧
    ((Usbd.exState 64).usbdh.epOUT 8).stallStatus = DISABLE ∧
    ((Usbd.USBD_EP_Stall (Usbd.exState 64) 0x08).usbdh.epOUT 8).stallStatus = ENABLE ∧
    (Usbd.USBD_EP_Stall (Usbd.exState 64) 0x08).trace =
      [Usbd.Ev.SetRxStatus 8 Usbd.USBD_EP_STATUS_STALL] := by
  have h := C34_stall_bound_check_admits_index_8 (Usbd.exState 64) 0x08 rfl (by decide)
  refine ⟨rfl, by decide, ?_, ?_⟩
  · have h4 := h.2.2.2
    rw [if_neg (by decide)] at h4
    exact h4.1
  · have h3 := h.2.2.1
    rw [if_neg (by decide)] at h3
    rw [h3]
    rfl
